import Mathlib

/-!
# rn1host: navigation, routing and mapping core

A shallow embedding of `rn1host.c`.  The process-wide C globals and the function-local
`static` variables are collected in the record `Host`; every C function that the
properties below are about becomes a Lean function `Env → Host → Host`.

Conventions of the embedding:

* C `int` / `int32_t` values are `Int`.  The squares of the macro `sq` and their sums,
  which leave the `int` range for distances from 46341 mm on, wrap to 32 bits
  (`wrap32`), as the arithmetic of the targets does; coordinates, counters and their
  sums and differences stay far inside the range and are not wrapped.  C truth values
  stay integers: `if(x)` is `x ≠ 0`.
* `subsec_timestamp()` returns seconds as a `double`; clock readings are modelled as an
  integer number of nanoseconds (the resolution of `clock_gettime`), so `1.0` s is
  `1000000000`.
* Calls into the other translation units (MCU commands, TCP messages, map updates) are
  recorded, in program order, in the log `Host.out`.
* Results of calls into the other translation units (planner, scan matcher, map
  queries) and clock readings are provided by the record `Env`.
* The `signal cond_need_routing` / `wait cond_routing_done` handshake with
  `routing_thread` is modelled as the synchronous call of `run_search` that it performs.
-/

namespace Rn1host

/-! ## Data types -/

/-- One waypoint of the route buffer (`route_point_t`). -/
structure route_point_t where
  x : Int
  y : Int
  backmode : Int
  take_next_early : Int
  timeout : Int
  deriving DecidableEq, Repr

/-- One unit of the planner output list (`route_unit_t` of routing.h): location in map
units and back mode. -/
structure route_unit_t where
  loc_x : Int
  loc_y : Int
  backmode : Int
  deriving DecidableEq, Repr

/-- Robot pose as stored in sensor frames. -/
structure pos_t where
  ang : Int
  x : Int
  y : Int
  deriving DecidableEq, Repr

/-- The fields of `lidar_scan_t` that `rn1host.c` reads. -/
structure lidar_scan_t where
  id : Int
  significant_for_mapping : Int
  is_invalid : Int
  robot_pos : pos_t
  deriving DecidableEq, Repr

/-- The fields of `tof3d_scan_t` that `rn1host.c` reads. -/
structure tof3d_scan_t where
  robot_pos : pos_t
  deriving DecidableEq, Repr

/-- The fields of `cur_xymove` (MCU feedback on the current move) that are read. -/
structure xymove_t where
  id : Int
  remaining : Int
  micronavi_stop_flags : Int
  feedback_stop_flags : Int
  deriving DecidableEq, Repr

/-- Values of `info_state_t`. -/
inductive info_state_t
  | IDLE | THINK | FWD | REV | LEFT | RIGHT | DAIJUING | CHARGING
  deriving DecidableEq, Repr

/-- Client message identifiers (`TCP_CR_*_MID` of tcp_parser.h), as distinct tags;
`none0` is the value `0` that `cmd_state` is reset to. -/
inductive mid_t
  | none0 | CR_DEST | CR_ROUTE | CR_CHARGE | CR_ADDCONSTRAINT | CR_REMCONSTRAINT
  | CR_MODE | CR_MANU | CR_MAINTENANCE | CR_SPEEDLIM | CR_STATEVECT | CR_SETPOS
  | other
  deriving DecidableEq, Repr

/-- Angles passed to the MCU.  The float trigonometry of the source is kept symbolic:
`raw a` is an `int32_t` angle value,
`cur_plus_deg a d` is `a + d*ANG_1_DEG`,
`toward dx dy off jit` is `RADTOANG32(atan2(dy, dx) + DEGTORAD(off)) + jit*ANG_1_DEG`. -/
inductive ang_t
  | raw (a : Int)
  | cur_plus_deg (a : Int) (d : Int)
  | toward (dx dy : Int) (off : Int) (jit : Int)
  deriving DecidableEq, Repr

/-- Targets of a line-of-sight hit count.  `pt x y` is an integer map point,
`polar x y dx dy len` is `(x + len*cos(a), y + len*sin(a))` with `a = atan2(dy, dx)`. -/
inductive target_t
  | pt (x y : Int)
  | polar (x y dx dy len : Int)
  deriving DecidableEq, Repr

/-- Calls that leave `rn1host.c`, recorded in program order.  `need_routing` marks the
signalling of `cond_need_routing`; `live_obstacle_check stamp pose_stamp` marks a call of
`do_live_obstacle_checking`, made at clock reading `stamp` while `robot_pos_timestamp` was
`pose_stamp`. -/
inductive cmd_t
  | move_to (x y backmode id speedlim flags : Int)
  | turn_and_go_abs_rel (ang : ang_t) (dist speed accurate : Int)
  | stop_movement
  | limit_speed (v : Int)
  | daiju_mode (onoff : Int)
  | hw_find_charger
  | release_motors
  | send_keepalive
  | set_robot_pos (ang x y : Int)
  | correct_robot_pos (da dx dy id : Int)
  | send_info (st : info_state_t)
  | tcp_send_route_status (reason : Int)
  | tcp_send_route (n : Nat)
  | tcp_send_hwdbg
  | tcp_send_lidar_lowres (p : lidar_scan_t)
  | tcp_send_rc_pos
  | tcp_send_statevect
  | map_lidars (n : Int) (scans : List (Option lidar_scan_t))
  | map_3dtof (n : Int) (scans : List (Option tof3d_scan_t))
  | gen_routing_pages (mid_x mid_y : Int)
  | load_25pages (x y : Int)
  | clear_within_robot (p : pos_t)
  | add_map_constraint (x y : Int)
  | remove_map_constraint (x y : Int)
  | stop_automapping
  | start_automapping_skip_compass
  | start_automapping_from_compass
  | routing_set_world
  | read_charger_pos
  | write_charger_pos
  | need_routing (dest_x dest_y dont_map_lidars no_tight : Int)
  | live_obstacle_check (stamp pose_stamp : Int)
  | tcp_send_hmap (p : pos_t)
  | tcp_send_picture (id : Int)
  | save_pointcloud
  deriving DecidableEq, Repr

/-- Results of the calls into other translation units and clock readings, as seen by
one loop iteration (or one command). -/
structure Env where
  /-- clock reading of the timer test of a Recovery stage -/
  t_gate : Int
  /-- clock reading stored into `timestamp` by a Recovery stage -/
  t_mark : Int
  /-- clock reading of the live obstacle check cadence test -/
  t_live : Int
  /-- clock reading(s) of `find_charger_procedure` -/
  t_cha : Int
  /-- clock reading of the first speed ramp block of the mapping loop -/
  t_map : Int
  /-- clock reading of the second speed ramp block of the mapping loop -/
  t_map2 : Int
  /-- constant `TCP_RC_ROUTE_STATUS_SUCCESS` of tcp_parser.h -/
  TCP_RC_ROUTE_STATUS_SUCCESS : Int
  /-- the float expressions of `conf_charger_pos`: from `cha_ang, cha_x, cha_y` to
  `charger_first_x, charger_first_y, charger_second_x, charger_second_y` -/
  charger_points : Int → Int → Int → Int × Int × Int × Int
  /-- the never assigned local `reret` of `route_fsm` -/
  reret : Int
  tcp_client_sock : Int
  doing_autonomous_things : Int
  /-- arguments `x, y, to_x, to_y` -/
  check_direct_route_non_turning_mm : Int → Int → Int → Int → Int
  /-- arguments `ang, x, y, to_x, to_y` -/
  check_direct_route_mm : Int → Int → Int → Int → Int → Int
  /-- arguments `x, y, cur_ang, target angle` -/
  test_robot_turn_mm : Int → Int → Int → ang_t → Int
  /-- arguments `x, y, target` -/
  check_direct_route_non_turning_hitcnt_mm : Int → Int → target_t → Int
  /-- planner: arguments `cur_ang, cur_x, cur_y, dest_x, dest_y, no_tight`; result is the
  return code and the route list (`[]` for a `NULL` list) -/
  search_route : Int → Int → Int → Int → Int → Int → Int × List route_unit_t
  mm_from_unit_coords : Int → Int → Int × Int
  /-- scan matcher: arguments `n, scans`; result `(da, dx, dy)` -/
  map_lidars : Int → List (Option lidar_scan_t) → Int × Int × Int
  /-- result `(mid_x, mid_y)` of `map_3dtof` -/
  map_3dtof : Int → List (Option tof3d_scan_t) → Int × Int
  /-- constant `MAP_SEMISIGNIFICANT_IMGS | MAP_SIGNIFICANT_IMGS` of mapping.h, the value of
  the never written global `map_significance_mode` -/
  map_significance_mode : Int
  /-- contents of charger_pos.txt:
  `first_x, first_y, second_x, second_y, ang, fwd`, if the file can be opened -/
  charger_file : Option (Int × Int × Int × Int × Int × Int)

/-- The globals of `rn1host.c`, the fields of `thread_struct` and the function-local
statics, with their C initial values. -/
structure Host where
  max_speedlim : Int := 45
  cur_speedlim : Int := 45
  live_obstacle_checking_on : Int := 1
  pos_corr_id : Int := 42
  cmd_state : mid_t := mid_t.none0
  cur_ang : Int := 0
  cur_x : Int := 0
  cur_y : Int := 0
  robot_pos_timestamp : Int := 0
  cur_xymove : xymove_t := ⟨0, 0, 0, 0⟩
  pwr_charging : Int := 0
  pwr_charged : Int := 0
  the_route : Int → route_point_t := fun _ => ⟨0, 0, 0, 0, 0⟩
  the_route_len : Int := 0
  do_follow_route : Int := 0
  route_finished_or_notfound : Int := 0
  lookaround_creep_reroute : Int := 0
  route_pos : Int := 0
  start_route : Int := 0
  id_cnt : Int := 1
  good_time_for_lidar_mapping : Int := 0
  maneuver_cnt : Int := 0
  lidars_to_map_at_routing_start : List (Option lidar_scan_t) := [none, none, none, none]
  charger_ang : Int := 0
  charger_fwd : Int := 0
  charger_first_x : Int := 0
  charger_first_y : Int := 0
  charger_second_x : Int := 0
  charger_second_y : Int := 0
  retval : Int := 0
  flush_3dtof : Int := 0
  send_raw_tof : Int := -1
  send_pointcloud : Int := 0
  lidar_ignore_over : Int := 0
  find_charger_state : Int := 0
  prev_search_dest_x : Int := 0
  prev_search_dest_y : Int := 0
  num_reroutes : Int := 0
  -- thread_struct
  dest_x : Int := 0
  dest_y : Int := 0
  dont_map_lidars : Int := 0
  no_tight : Int := 1
  no_route_found : Int := 1
  -- state_vect
  loca_2d : Int := 1
  loca_3d : Int := 1
  mapping_2d : Int := 1
  mapping_3d : Int := 1
  mapping_collisions : Int := 1
  keep_position : Int := 1
  command_source : Int := 0
  localize_with_big_search_area : Int := 0
  -- statics of route_fsm
  micronavi_stops : Int := 0
  timestamp : Int := 0
  creep_cnt : Int := 0
  time_interval : Int := 2500000000
  live_prev_incr : Int := 0
  -- statics of mapping_handling
  ramp1_prev_incr : Int := 0
  ramp2_prev_incr : Int := 0
  -- statics of tof_handling
  hmap_cnt : Int := 0
  tof_prev_x : Int := 0
  tof_prev_y : Int := 0
  tof_prev_ang : Int := 0
  n_tofs_to_map : Int := 0
  tofs_to_map : Int → Option tof3d_scan_t := fun _ => none
  -- statics of lidar_handling
  hwdbg_cnt : Int := 0
  lidar_send_cnt : Int := 0
  lidar_ignore_cnt : Int := 0
  curpos_send_cnt : Int := 0
  n_lidars_to_map : Int := 0
  lidars_to_map : Int → Option lidar_scan_t := fun _ => none
  /-- log of the calls made so far -/
  out : List cmd_t := []

/-- The state at program start. -/
def host_init : Host := {}

/-- Record one outgoing call. -/
def emit (c : cmd_t) (s : Host) : Host := { s with out := s.out ++ [c] }

/-- Value of an `int` expression whose exact result is `v`: the low 32 bits, read as a
two's complement number. -/
def wrap32 (v : Int) : Int := (v + 2147483648) % 4294967296 - 2147483648

/-- Macro `sq(x)`, `((x)*(x))`, on an `int` operand: the product is an `int` and wraps
from `|x| = 46341` on. -/
def sq (x : Int) : Int := wrap32 (x * x)

/-- Expression `sq(dx)+sq(dy)`: an `int` sum of two `int` squares. -/
def sq_sum (dx dy : Int) : Int := wrap32 (sq dx + sq dy)

/-- Macro `INCR_POS_CORR_ID()`, as a function of `pos_corr_id`. -/
def INCR_POS_CORR_ID (pos_corr_id : Int) : Int :=
  if pos_corr_id + 1 > 99 then 0 else pos_corr_id + 1

/-- Statement `id_cnt++; if(id_cnt > 7) id_cnt = 1;`, as a function of `id_cnt`. -/
def bump_id_cnt (id_cnt : Int) : Int :=
  if id_cnt + 1 > 7 then 1 else id_cnt + 1

/-- Macro `THE_ROUTE_MAX`. -/
def THE_ROUTE_MAX : Int := 200

/-- Array store `a[i] = v`. -/
def store {α : Type} (a : Int → α) (i : Int) (v : α) : Int → α :=
  fun j => if j = i then v else a j

/-! ## Integer square root

`sqrt` of the source is applied to an `int` below `2^31`; the truncation of the root, and
of the quotient `dist/10`, only depends on the integer part of the root.  When the `int`
argument has wrapped to a negative number `sqrt` yields a NaN, which no comparison
`> 300` or `> 250` accepts and which the targets of the program convert to an `int`
below 50: the model takes the root of a negative argument to be 0 (`Int.toNat`). -/

/-- Bitwise search for the integer square root: `r` is the part found so far, the
first argument the number of bits still to decide. -/
def sqrtBits (n : Nat) : Nat → Nat → Nat
  | 0, r => r
  | b + 1, r => if (r + 2 ^ b) * (r + 2 ^ b) ≤ n then sqrtBits n b (r + 2 ^ b) else sqrtBits n b r

/-- Integer part of the square root, exact for arguments below `2^64`. -/
def isqrt (n : Nat) : Nat := sqrtBits n 32 0

/-! ## Routing: `run_search` -/

/-- The `DL_FOREACH` loop of `run_search`: copy planner units into `the_route`, starting
at index `len`, stopping after `THE_ROUTE_MAX` entries.  Returns buffer and `len`. -/
def fill_route (mm : Int → Int → Int × Int) :
    List route_unit_t → Int → (Int → route_point_t) → (Int → route_point_t) × Int
  | [], len, r => (r, len)
  | rt :: rest, len, r =>
    let r1 := store r len
      { r len with x := (mm rt.loc_x rt.loc_y).1, y := (mm rt.loc_x rt.loc_y).2,
                   backmode := rt.backmode, take_next_early := 100 }
    if len + 1 ≥ THE_ROUTE_MAX then (r1, len + 1) else fill_route mm rest (len + 1) r1

/-- `int new_early = dist/10` with `float dist = sqrt(sq(dx) + sq(dy))`: the squares and
their sum are `int` and wrap, the root and the quotient are truncated. -/
def new_early_raw (p q : route_point_t) : Int :=
  ((isqrt (sq_sum (p.x - q.x) (p.y - q.y)).toNat / 10 : Nat) : Int)

/-- The two clamping statements `if(new_early < 50) ... else if(new_early > 250) ...`. -/
def clamp_early (new_early : Int) : Int :=
  if new_early < 50 then 50 else if new_early > 250 then 250 else new_early

/-- Body of the `for(int i = 0; i < len; i++)` loop of `run_search`. -/
def early_body (len : Int) (i : Int) (r : Int → route_point_t) : Int → route_point_t :=
  if i < len - 1 then
    store r i { r i with take_next_early := clamp_early (new_early_raw (r i) (r (i + 1))) }
  else r

/-- Iterations `i = 0 .. n-1` of that loop, in order. -/
def early_loop (len : Int) : Nat → (Int → route_point_t) → (Int → route_point_t)
  | 0, r => r
  | n + 1, r => early_body len n (early_loop len n r)

/-- Function `run_search`; the second component is the return value. -/
def run_search (e : Env) (s : Host) (dest_x dest_y dont_map_lidars no_tight : Int) :
    Host × Int :=
  let s := emit (cmd_t.send_info info_state_t.THINK) s
  let s : Host := { s with prev_search_dest_x := dest_x, prev_search_dest_y := dest_y }
  let s :=
    if dont_map_lidars = 0 then
      let m := e.map_lidars 4 s.lidars_to_map_at_routing_start
      let s := emit (cmd_t.map_lidars 4 s.lidars_to_map_at_routing_start) s
      let s : Host := { s with pos_corr_id := INCR_POS_CORR_ID s.pos_corr_id }
      emit (cmd_t.correct_robot_pos (Int.tdiv m.1 2) (Int.tdiv m.2.1 2) (Int.tdiv m.2.2 2)
        s.pos_corr_id) s
    else s
  let res := e.search_route s.cur_ang s.cur_x s.cur_y dest_x dest_y no_tight
  let ret := res.1
  let some_route := res.2
  let filled := fill_route e.mm_from_unit_coords some_route 0 s.the_route
  let len := filled.2
  let r := early_loop len len.toNat filled.1
  let r := store r (len - 1) { r (len - 1) with take_next_early := 20 }
  let s : Host := { s with the_route := r, num_reroutes := s.num_reroutes + 1 }
  let s := emit (cmd_t.tcp_send_route some_route.length) s
  let s :=
    if some_route ≠ [] then
      { s with the_route_len := len, do_follow_route := 1, start_route := 1, route_pos := 0,
               route_finished_or_notfound := 0, id_cnt := bump_id_cnt s.id_cnt }
    else
      emit (cmd_t.send_info info_state_t.IDLE)
        { s with do_follow_route := 0, route_finished_or_notfound := 1 }
  let s : Host := { s with lookaround_creep_reroute := 0 }
  (s, ret)

/-- The route list the planner returns to `run_search`. -/
def planned (e : Env) (s : Host) (dest_x dest_y no_tight : Int) : List route_unit_t :=
  (e.search_route s.cur_ang s.cur_x s.cur_y dest_x dest_y no_tight).2

/-- Squared distance between two points, in exact integer arithmetic.  Not an expression
of the source, which computes it with `sq`: the distance that properties are stated
with. -/
def dist2 (x0 y0 x1 y1 : Int) : Int := (x1 - x0) * (x1 - x0) + (y1 - y0) * (y1 - y0)

/-- Squared length of the segment from waypoint `i` to waypoint `i + 1` of a route
buffer, in exact integer arithmetic. -/
def segment_len2 (r : Int → route_point_t) (i : Int) : Int :=
  dist2 (r (i + 1)).x (r (i + 1)).y (r i).x (r i).y

/-! ## Navigation: `route_fsm`, `do_live_obstacle_checking`, `find_charger_procedure` -/

/-- C expression `a<<4` on a non-negative `int`. -/
def shl4 (a : Int) : Int := a * 16

/-- Move id `(id_cnt<<4) | ((route_pos)&0b1111)`. -/
def move_id (id_cnt route_pos : Int) : Int := Int.lor (shl4 id_cnt) (Int.land route_pos 15)

/-- Argument `the_route[route_pos].backmode?INFO_STATE_REV:INFO_STATE_FWD`. -/
def dir_info (backmode : Int) : info_state_t :=
  if backmode ≠ 0 then info_state_t.REV else info_state_t.FWD

/-- The routing handshake
`pthread_cond_signal(cond_need_routing); pthread_cond_wait(cond_routing_done, ...)`:
`routing_thread` wakes up, runs `run_search` on the request fields of `thread_struct`
and stores the return value in `no_route_found`. -/
def request_routing (e : Env) (s : Host) : Host :=
  let s := emit (cmd_t.need_routing s.dest_x s.dest_y s.dont_map_lidars s.no_tight) s
  let r := run_search e s s.dest_x s.dest_y s.dont_map_lidars s.no_tight
  { r.1 with no_route_found := r.2 }

/-- Function `send_route_end_status`; the argument is a `uint8_t`. -/
def send_route_end_status (e : Env) (reason : Int) (s : Host) : Host :=
  if s.cmd_state = mid_t.CR_ROUTE then
    let s := if e.tcp_client_sock ≥ 0 then emit (cmd_t.tcp_send_route_status (reason % 256)) s
             else s
    { s with cmd_state := mid_t.none0 }
  else s

/-- Function `do_live_obstacle_checking` (the `#if 0` steering part is not compiled). -/
def do_live_obstacle_checking (e : Env) (s : Host) : Host :=
  if (s.the_route s.route_pos).backmode = 0 then
    let dx := (s.the_route s.route_pos).x - s.cur_x
    let dy := (s.the_route s.route_pos).y - s.cur_y
    let dist_to_next : Int := (isqrt (sq_sum dx dy).toNat : Nat)
    let target :=
      if dist_to_next < 1200 then
        target_t.pt (s.the_route s.route_pos).x (s.the_route s.route_pos).y
      else target_t.polar s.cur_x s.cur_y dx dy 1200
    let hitcnt := e.check_direct_route_non_turning_hitcnt_mm s.cur_x s.cur_y target
    if hitcnt < 3 then
      let s : Host := { s with cur_speedlim := if 18 > s.max_speedlim then s.max_speedlim else 18 }
      emit (cmd_t.limit_speed s.cur_speedlim) s
    else
      let s : Host := { s with cur_speedlim := if 18 > s.max_speedlim then s.max_speedlim else 18 }
      let s := emit (cmd_t.limit_speed s.cur_speedlim) s
      let s := emit cmd_t.stop_movement s
      { s with lookaround_creep_reroute := 1 }
  else s

/-- First block of the loop body of `route_fsm`: with Recovery active, resume the route
when a direct line of sight to the current waypoint has appeared. -/
def los_resume (e : Env) (s : Host) : Host :=
  if s.lookaround_creep_reroute ≠ 0 then
    if e.check_direct_route_non_turning_mm s.cur_x s.cur_y (s.the_route s.route_pos).x
        (s.the_route s.route_pos).y ≠ 0 then
      let s : Host := { s with lookaround_creep_reroute := 0, do_follow_route := 1,
                               id_cnt := bump_id_cnt s.id_cnt }
      let s := emit (cmd_t.send_info (dir_info (s.the_route s.route_pos).backmode)) s
      emit (cmd_t.move_to (s.the_route s.route_pos).x (s.the_route s.route_pos).y
        (s.the_route s.route_pos).backmode (move_id s.id_cnt s.route_pos) s.cur_speedlim 0) s
    else s
  else s

/-- Common shape of Recovery stages 2 to 5 once their timer has passed: turn to the
waypoint direction plus `off` degrees (creeping `dist` mm) if the turn is possible,
else wiggle by `wig` degrees from the current angle; then restart the timer and go to
the next stage. -/
def lookaround_probe (e : Env) (s : Host) (off dist wig : Int) : Host :=
  let dx := (s.the_route s.route_pos).x - s.cur_x
  let dy := (s.the_route s.route_pos).y - s.cur_y
  let ang := ang_t.toward dx dy off 0
  let s :=
    if e.test_robot_turn_mm s.cur_x s.cur_y s.cur_ang ang ≠ 0 then
      emit (cmd_t.turn_and_go_abs_rel ang dist 13 1) s
    else
      emit (cmd_t.turn_and_go_abs_rel (ang_t.cur_plus_deg s.cur_ang wig) 0 13 1) s
  { s with timestamp := e.t_mark, lookaround_creep_reroute := s.lookaround_creep_reroute + 1 }

/-- Recovery stage 6 once its timer has passed. -/
def stage6_act (e : Env) (s : Host) : Host :=
  let dx := (s.the_route s.route_pos).x - s.cur_x
  let dy := (s.the_route s.route_pos).y - s.cur_y
  let ang := ang_t.toward dx dy 0 0
  let s :=
    if e.test_robot_turn_mm s.cur_x s.cur_y s.cur_ang ang ≠ 0 then
      emit (cmd_t.turn_and_go_abs_rel ang 50 13 1) s
    else
      let s := request_routing e s
      if s.no_route_found = 1 then
        let s := emit (cmd_t.send_info info_state_t.DAIJUING) s
        let s := emit (cmd_t.daiju_mode 1) s
        { s with lookaround_creep_reroute := 8 }
      else
        { s with lookaround_creep_reroute := 0 }
  { s with timestamp := e.t_mark, lookaround_creep_reroute := s.lookaround_creep_reroute + 1 }

/-- Recovery stage 7 once its timer has passed. -/
def stage7_act (e : Env) (s : Host) : Host :=
  let dx := (s.the_route s.route_pos).x - s.cur_x
  let dy := (s.the_route s.route_pos).y - s.cur_y
  let dist : Int := (isqrt (sq_sum dx dy).toNat : Nat)
  let s :=
    if dist > 300 ∧ s.creep_cnt < 3 then
      let creep_amount : Int := 100
      let hitcnt := e.check_direct_route_non_turning_hitcnt_mm s.cur_x s.cur_y
        (target_t.polar s.cur_x s.cur_y dx dy creep_amount)
      let s :=
        if hitcnt < 1 then
          let s : Host := { s with time_interval := 2500000000 }
          emit (cmd_t.turn_and_go_abs_rel
            (ang_t.toward dx dy 0 (if Int.land s.creep_cnt 1 ≠ 0 then 5 else -5))
            creep_amount 15 1) s
        else
          { s with creep_cnt := 99 }
      { s with creep_cnt := s.creep_cnt + 1 }
    else
      let s := request_routing e s
      if s.no_route_found = 1 then
        let s := emit (cmd_t.daiju_mode 1) s
        let s := emit (cmd_t.send_info info_state_t.DAIJUING) s
        { s with lookaround_creep_reroute := s.lookaround_creep_reroute + 1 }
      else
        let s := if e.reret ≠ 0 then send_route_end_status e e.reret s else s
        { s with lookaround_creep_reroute := 0 }
  { s with timestamp := e.t_mark }

/-- Recovery stages 8 to 11 once their timer has passed. -/
def daiju_retry_act (e : Env) (s : Host) : Host :=
  let s := emit (cmd_t.daiju_mode 0) s
  let s := request_routing e s
  if s.no_route_found = 1 then
    let s := emit (cmd_t.daiju_mode 1) s
    let s := emit (cmd_t.send_info info_state_t.DAIJUING) s
    { s with lookaround_creep_reroute := s.lookaround_creep_reroute + 1, timestamp := e.t_mark }
  else
    let s := if e.reret ≠ 0 then send_route_end_status e e.reret s else s
    { s with lookaround_creep_reroute := 0 }

/-- The `if(lookaround_creep_reroute == 1) ... else if ...` chain of `route_fsm`: the
Recovery (lookaround, creep and reroute) stages. -/
def recovery_step (e : Env) (s : Host) : Host :=
  if s.lookaround_creep_reroute = 1 then
    let s : Host := { s with do_follow_route := 0, start_route := 0 }
    let s := emit (cmd_t.turn_and_go_abs_rel (ang_t.raw s.cur_ang) (-50) 13 1) s
    { s with timestamp := e.t_mark, lookaround_creep_reroute := s.lookaround_creep_reroute + 1 }
  else if s.lookaround_creep_reroute = 2 then
    if e.t_gate > s.timestamp + 1000000000 then
      if e.doing_autonomous_things ≠ 0 then
        let s := request_routing e s
        { s with lookaround_creep_reroute := 0 }
      else lookaround_probe e s (-10) 0 (-4)
    else s
  else if s.lookaround_creep_reroute = 3 then
    if e.t_gate > s.timestamp + 1000000000 then lookaround_probe e s (-18) (-20) (-4) else s
  else if s.lookaround_creep_reroute = 4 then
    if e.t_gate > s.timestamp + 1000000000 then lookaround_probe e s 10 0 12 else s
  else if s.lookaround_creep_reroute = 5 then
    if e.t_gate > s.timestamp + 1000000000 then lookaround_probe e s 18 0 4 else s
  else if s.lookaround_creep_reroute = 6 then
    let s : Host := { s with creep_cnt := 0 }
    if e.t_gate > s.timestamp + 1000000000 then stage6_act e s else s
  else if s.lookaround_creep_reroute = 7 then
    if e.t_gate > s.timestamp + s.time_interval then stage7_act e s else s
  else if s.lookaround_creep_reroute ≥ 8 ∧ s.lookaround_creep_reroute < 12 then
    if e.t_gate > s.timestamp + 5000000000 then daiju_retry_act e s else s
  else if s.lookaround_creep_reroute = 12 then
    { s with lookaround_creep_reroute := 0 }
  else s

/-- Block `if(start_route)` of `route_fsm`. -/
def start_route_step (s : Host) : Host :=
  if s.start_route ≠ 0 then
    let s := emit (cmd_t.move_to (s.the_route s.route_pos).x (s.the_route s.route_pos).y
      (s.the_route s.route_pos).backmode (shl4 s.id_cnt) s.cur_speedlim 0) s
    let s := emit (cmd_t.send_info (dir_info (s.the_route s.route_pos).backmode)) s
    { s with start_route := 0 }
  else s

/-- The waypoint skipping `while` loop of `route_fsm`; the first argument bounds the
number of iterations (`the_route_len - 1 - route_pos` of them always suffice, because
every iteration that does not leave the loop increments `route_pos`). -/
def skip_loop (e : Env) : Nat → Host → Host
  | 0, s => s
  | n + 1, s =>
    if (s.the_route s.route_pos).backmode = 0 ∧ s.route_pos < s.the_route_len - 1 then
      if sq_sum (s.cur_x - (s.the_route (s.route_pos + 1)).x)
            (s.cur_y - (s.the_route (s.route_pos + 1)).y) < sq 800
          ∧ e.check_direct_route_mm s.cur_ang s.cur_x s.cur_y
              (s.the_route (s.route_pos + 1)).x (s.the_route (s.route_pos + 1)).y ≠ 0 then
        skip_loop e n { s with route_pos := s.route_pos + 1 }
      else s
    else s

/-- The skipping loop with enough iterations. -/
def skip_points (e : Env) (s : Host) : Host :=
  skip_loop e (s.the_route_len - 1 - s.route_pos).toNat s

/-- Condition `((id&0b1110000) == (id_cnt<<4)) && ((id&0b1111) == ((route_pos)&0b1111))`
on `id = cur_xymove.id`. -/
def id_matches (s : Host) : Bool :=
  decide (Int.land s.cur_xymove.id 112 = shl4 s.id_cnt) &&
  decide (Int.land s.cur_xymove.id 15 = Int.land s.route_pos 15)

/-- Branch `else if(live_obstacle_checking_on)` of the follow-route block: the cadence
and pose freshness tests around the call of `do_live_obstacle_checking`. -/
def live_check_step (e : Env) (s : Host) : Host :=
  if e.t_live > s.live_prev_incr + 100000000 then
    let s : Host := { s with live_prev_incr := e.t_live }
    if s.robot_pos_timestamp < e.t_live - 200000000 then s
    else do_live_obstacle_checking e
      (emit (cmd_t.live_obstacle_check e.t_live s.robot_pos_timestamp) s)
  else s

/-- Block `if(do_follow_route)` of `route_fsm`. -/
def follow_route_step (e : Env) (s : Host) : Host :=
  if s.do_follow_route ≠ 0 then
    if id_matches s then
      if s.cur_xymove.micronavi_stop_flags ≠ 0 ∨ s.cur_xymove.feedback_stop_flags ≠ 0 then
        if s.micronavi_stops < 7 then
          { s with micronavi_stops := s.micronavi_stops + 1, lookaround_creep_reroute := 1 }
        else
          request_routing e s
      else if s.id_cnt = 0 then
        if s.cur_xymove.remaining < 30 then
          let s := skip_points e s
          let s : Host := { s with id_cnt := 1 }
          let s := emit (cmd_t.move_to (s.the_route s.route_pos).x (s.the_route s.route_pos).y
            (s.the_route s.route_pos).backmode (move_id s.id_cnt s.route_pos) s.cur_speedlim 0) s
          emit (cmd_t.send_info (dir_info (s.the_route s.route_pos).backmode)) s
        else s
      else
        let s := if s.cur_xymove.remaining < 250 then { s with good_time_for_lidar_mapping := 1 }
                 else s
        if s.cur_xymove.remaining < (s.the_route s.route_pos).take_next_early then
          let s : Host := { s with maneuver_cnt := 0 }
          if s.route_pos < s.the_route_len - 1 then
            let s : Host := { s with route_pos := s.route_pos + 1 }
            let s := skip_points e s
            let s := emit (cmd_t.move_to (s.the_route s.route_pos).x
              (s.the_route s.route_pos).y (s.the_route s.route_pos).backmode
              (move_id s.id_cnt s.route_pos) s.cur_speedlim 0) s
            let s := emit (cmd_t.send_info (dir_info (s.the_route s.route_pos).backmode)) s
            { s with micronavi_stops := 0 }
          else
            let s := emit (cmd_t.send_info info_state_t.IDLE) s
            let s : Host := { s with micronavi_stops := 0, do_follow_route := 0,
                                     route_finished_or_notfound := 1 }
            send_route_end_status e e.TCP_RC_ROUTE_STATUS_SUCCESS s
        else if s.live_obstacle_checking_on ≠ 0 then
          live_check_step e s
        else s
    else s
  else s

/-- Function `find_charger_procedure`; the second component is the return value.  The
local `chafind_timestamp` is initialised to `0.0` at every call; the stores into it
that no later statement of the call reads are omitted. -/
def find_charger_procedure (e : Env) (s : Host) : Host × Int :=
  let chafind_timestamp : Int := 0
  let s : Host := { s with live_obstacle_checking_on := if s.find_charger_state < 4 then 1 else 0 }
  if s.find_charger_state = 1 then
    let s : Host := { s with keep_position := 1 }
    let s := emit (cmd_t.daiju_mode 0) s
    let s : Host := { s with dest_x := s.charger_first_x, dest_y := s.charger_first_y,
                             dont_map_lidars := 0, no_tight := 1 }
    let s := request_routing e s
    if s.no_route_found = 1 then
      ({ s with find_charger_state := 0 }, 0)
    else
      ({ s with find_charger_state := s.find_charger_state + 1 }, 1)
  else if s.find_charger_state = 2 then
    if s.do_follow_route = 0 ∧ s.lookaround_creep_reroute = 0 then
      if sq_sum (s.cur_x - s.charger_first_x) (s.cur_y - s.charger_first_y) > sq 300 then
        ({ s with find_charger_state := 1 }, 1)
      else
        let s := emit (cmd_t.send_info info_state_t.THINK) s
        let s := emit (cmd_t.turn_and_go_abs_rel (ang_t.raw s.charger_ang) 0 23 1) s
        ({ s with find_charger_state := s.find_charger_state + 1 }, 1)
    else (s, 1)
  else if s.find_charger_state = 3 then
    if e.t_cha > chafind_timestamp + 2500000000 then
      let s := emit (cmd_t.send_info info_state_t.THINK) s
      let m := e.map_lidars 4 s.lidars_to_map_at_routing_start
      let s := emit (cmd_t.map_lidars 4 s.lidars_to_map_at_routing_start) s
      let s : Host := { s with pos_corr_id := INCR_POS_CORR_ID s.pos_corr_id }
      let s := emit (cmd_t.correct_robot_pos m.1 m.2.1 m.2.2 s.pos_corr_id) s
      ({ s with lidar_ignore_over := 0, find_charger_state := s.find_charger_state + 1 }, 1)
    else (s, 1)
  else if s.find_charger_state = 4 then
    if s.lidar_ignore_over ≠ 0 ∧ e.t_cha > chafind_timestamp + 3000000000 then
      let s := emit (cmd_t.send_info info_state_t.FWD) s
      let s := emit (cmd_t.move_to s.charger_second_x s.charger_second_y 0 127 20 1) s
      ({ s with find_charger_state := s.find_charger_state + 1 }, 1)
    else (s, 1)
  else if s.find_charger_state = 5 then
    if s.cur_xymove.id = 127 ∧ s.cur_xymove.remaining < 10 then
      if sq_sum (s.cur_x - s.charger_second_x) (s.cur_y - s.charger_second_y) > sq 180 then
        ({ s with find_charger_state := 1 }, 1)
      else
        let s := emit (cmd_t.send_info info_state_t.THINK) s
        let s := emit (cmd_t.turn_and_go_abs_rel (ang_t.raw s.charger_ang) s.charger_fwd 20 1) s
        ({ s with find_charger_state := s.find_charger_state + 1 }, 1)
    else (s, 1)
  else if s.find_charger_state = 6 then
    if e.t_cha > chafind_timestamp + 3000000000 then
      let s := emit (cmd_t.send_info info_state_t.THINK) s
      let s := emit (cmd_t.turn_and_go_abs_rel (ang_t.raw s.charger_ang) 0 23 1) s
      ({ s with find_charger_state := s.find_charger_state + 1 }, 1)
    else (s, 1)
  else if s.find_charger_state = 7 then
    if e.t_cha > chafind_timestamp + 1500000000 then
      let s := emit (cmd_t.send_info info_state_t.THINK) s
      let s := emit cmd_t.hw_find_charger s
      ({ s with find_charger_state := s.find_charger_state + 1 }, 1)
    else (s, 1)
  else if s.find_charger_state = 8 then
    if s.pwr_charging = 0 ∧ s.pwr_charged = 0 then
      if e.t_cha > chafind_timestamp + 90000000000 then
        ({ s with find_charger_state := 1 }, 1)
      else (s, 1)
    else
      let s := emit (cmd_t.send_info info_state_t.CHARGING) s
      ({ s with find_charger_state := 0 }, 2)
  else (s, 1)

/-- Block `if(find_charger_state != 0)` of `route_fsm`. -/
def charger_step (e : Env) (s : Host) : Host :=
  if s.find_charger_state ≠ 0 then (find_charger_procedure e s).1 else s

/-- One iteration of the `while(1)` loop of `route_fsm` (between taking and releasing
`mutex_token_routing`). -/
def route_fsm (e : Env) (s : Host) : Host :=
  charger_step e (follow_route_step e (start_route_step (recovery_step e (los_resume e s))))

/-! ## Mapping: speed ramps and `lidar_handling` -/

/-- First speed block of the loop body of `mapping_handling` (the `#else` branch of
`#if 0`); its `static prev_incr` is never written. -/
def speed_ramp_1 (e : Env) (s : Host) : Host :=
  if e.t_map > s.ramp1_prev_incr + 150000000 then
    if s.cur_speedlim < s.max_speedlim then
      let s : Host := { s with cur_speedlim := s.cur_speedlim + 1 }
      emit (cmd_t.limit_speed s.cur_speedlim) s
    else s
  else s

/-- Second speed block of the loop body of `mapping_handling` (after `tof_handling`). -/
def speed_ramp_2 (e : Env) (s : Host) : Host :=
  if e.t_map2 > s.ramp2_prev_incr + 150000000 then
    let s : Host := { s with ramp2_prev_incr := e.t_map2 }
    let s :=
      if s.cur_speedlim < s.max_speedlim then
        let s : Host := { s with cur_speedlim := s.cur_speedlim + 1 }
        emit (cmd_t.limit_speed s.cur_speedlim) s
      else s
    if s.cur_speedlim > s.max_speedlim then
      let s : Host := { s with cur_speedlim := s.cur_speedlim - 1 }
      emit (cmd_t.limit_speed s.cur_speedlim) s
    else s
  else s

/-- The first `n` entries of a pointer array, as passed to the scan matcher. -/
def first_n {α : Type} (a : Int → Option α) (n : Int) : List (Option α) :=
  (List.range n.toNat).map (fun i => a i)

/-- The shift loop over `lidars_to_map_at_routing_start` followed by the store of the
new scan at index 0. -/
def ring_push (p : lidar_scan_t) (ring : List (Option lidar_scan_t)) :
    List (Option lidar_scan_t) :=
  some p :: ring.take 3

/-- The part of `lidar_handling` for a scan that passed the significance test: the
scan-match queue. -/
def lidar_queue_step (e : Env) (s : Host) (p : lidar_scan_t) : Host :=
  if p.is_invalid ≠ 0 then
    if s.n_lidars_to_map < 3 then
      { s with n_lidars_to_map := 0 }
    else
      let m := e.map_lidars s.n_lidars_to_map (first_n s.lidars_to_map s.n_lidars_to_map)
      let s := emit (cmd_t.map_lidars s.n_lidars_to_map
        (first_n s.lidars_to_map s.n_lidars_to_map)) s
      let s : Host := { s with pos_corr_id := INCR_POS_CORR_ID s.pos_corr_id }
      let s := emit (cmd_t.correct_robot_pos (Int.tdiv m.1 3) (Int.tdiv m.2.1 3)
        (Int.tdiv m.2.2 3) s.pos_corr_id) s
      { s with n_lidars_to_map := 0 }
  else
    let s : Host := { s with lidars_to_map := store s.lidars_to_map s.n_lidars_to_map (some p) }
    let s : Host := { s with n_lidars_to_map := s.n_lidars_to_map + 1 }
    if (s.localize_with_big_search_area ≠ 0 ∧ s.n_lidars_to_map > 11) ∨
       (s.localize_with_big_search_area = 0 ∧
         ((s.good_time_for_lidar_mapping ≠ 0 ∧ s.n_lidars_to_map > 3)
           ∨ s.n_lidars_to_map > 4)) then
      let s := if s.good_time_for_lidar_mapping ≠ 0 then { s with good_time_for_lidar_mapping := 0 }
               else s
      let m := e.map_lidars s.n_lidars_to_map (first_n s.lidars_to_map s.n_lidars_to_map)
      let s := emit (cmd_t.map_lidars s.n_lidars_to_map
        (first_n s.lidars_to_map s.n_lidars_to_map)) s
      let s : Host := { s with pos_corr_id := INCR_POS_CORR_ID s.pos_corr_id }
      let s :=
        if s.localize_with_big_search_area ≠ 0 then
          emit (cmd_t.correct_robot_pos m.1 m.2.1 m.2.2 s.pos_corr_id) s
        else
          emit (cmd_t.correct_robot_pos (Int.tdiv m.1 2) (Int.tdiv m.2.1 2) (Int.tdiv m.2.2 2)
            s.pos_corr_id) s
      { s with n_lidars_to_map := 0 }
    else s

/-- The two display blocks at the start of `lidar_handling`: every scan is reported with
`tcp_send_hwdbg`, every fourth one with `tcp_send_lidar_lowres`. -/
def lidar_display (e : Env) (s : Host) (p : lidar_scan_t) : Host :=
  let s : Host := { s with hwdbg_cnt := s.hwdbg_cnt + 1 }
  let s :=
    if s.hwdbg_cnt > 0 then
      let s := if e.tcp_client_sock ≥ 0 then emit cmd_t.tcp_send_hwdbg s else s
      { s with hwdbg_cnt := 0 }
    else s
  let s : Host := { s with lidar_send_cnt := s.lidar_send_cnt + 1 }
  if s.lidar_send_cnt > 3 then
    let s := if e.tcp_client_sock ≥ 0 then emit (cmd_t.tcp_send_lidar_lowres p) s else s
    { s with lidar_send_cnt := 0 }
  else s

/-- The branch of `lidar_handling` for a scan whose id differs from `pos_corr_id`. -/
def lidar_ignore (s : Host) : Host :=
  let s : Host := { s with lidar_ignore_cnt := s.lidar_ignore_cnt + 1 }
  if s.lidar_ignore_cnt > 20 then
    let s : Host := { s with lidar_ignore_cnt := 0 }
    let s : Host := { s with pos_corr_id := INCR_POS_CORR_ID s.pos_corr_id }
    emit (cmd_t.correct_robot_pos 0 0 0 s.pos_corr_id) s
  else s

/-- The branch of `lidar_handling` for a scan whose id equals `pos_corr_id`, up to the
significance test. -/
def lidar_accept (e : Env) (s : Host) (p : lidar_scan_t) : Host :=
  let s : Host := { s with lidar_ignore_cnt := 0, lidar_ignore_over := 1 }
  let s : Host := { s with curpos_send_cnt := s.curpos_send_cnt + 1 }
  let s :=
    if s.curpos_send_cnt > 2 then
      let s := if e.tcp_client_sock ≥ 0 then emit cmd_t.tcp_send_rc_pos s else s
      { s with curpos_send_cnt := 0 }
    else s
  let s := emit (cmd_t.load_25pages p.robot_pos.x p.robot_pos.y) s
  let s := if s.mapping_collisions ≠ 0 then emit (cmd_t.clear_within_robot p.robot_pos) s
           else s
  { s with lidars_to_map_at_routing_start := ring_push p s.lidars_to_map_at_routing_start }

/-- Function `lidar_handling`.  The argument is the scan returned by
`get_significant_lidar()` or, failing that, `get_basic_lidar()`; `none` when both
return `NULL`. -/
def lidar_handling (e : Env) (s : Host) (p_lid : Option lidar_scan_t) : Host :=
  match p_lid with
  | none => s
  | some p =>
    if p.id ≠ (lidar_display e s p).pos_corr_id then
      lidar_ignore (lidar_display e s p)
    else if Int.land p.significant_for_mapping e.map_significance_mode ≠ 0 then
      lidar_queue_step e (lidar_accept e (lidar_display e s p) p) p
    else
      lidar_accept e (lidar_display e s p) p

/-! ## Commands: `conf_charger_pos`, `cmd_from_client_to_host` -/

/-- Macros `CHARGER_SECOND_DIST` and `CHARGER_THIRD_DIST`. -/
def CHARGER_SECOND_DIST : Int := 500

def CHARGER_THIRD_DIST : Int := 170

/-- Macros `DEFAULT_SPEEDLIM` and `MAX_CONFIGURABLE_SPEEDLIM`. -/
def DEFAULT_SPEEDLIM : Int := 45

def MAX_CONFIGURABLE_SPEEDLIM : Int := 70

/-- Function `conf_charger_pos`. -/
def conf_charger_pos (e : Env) (s : Host) : Host :=
  let m := e.map_lidars 4 s.lidars_to_map_at_routing_start
  let s := emit (cmd_t.map_lidars 4 s.lidars_to_map_at_routing_start) s
  let s : Host := { s with pos_corr_id := INCR_POS_CORR_ID s.pos_corr_id }
  let cha_ang := s.cur_ang - m.1
  let cha_x := s.cur_x + m.2.1
  let cha_y := s.cur_y + m.2.2
  let s := emit (cmd_t.correct_robot_pos m.1 m.2.1 m.2.2 s.pos_corr_id) s
  let c := e.charger_points cha_ang cha_x cha_y
  let s : Host := { s with charger_first_x := c.1, charger_first_y := c.2.1,
                           charger_second_x := c.2.2.1, charger_second_y := c.2.2.2,
                           charger_fwd := CHARGER_SECOND_DIST - CHARGER_THIRD_DIST,
                           charger_ang := cha_ang }
  emit cmd_t.write_charger_pos s

/-- Function `read_charger_pos`. -/
def read_charger_pos (e : Env) (s : Host) : Host :=
  match e.charger_file with
  | some c =>
    emit cmd_t.read_charger_pos
      { s with charger_first_x := c.1, charger_first_y := c.2.1, charger_second_x := c.2.2.1,
               charger_second_y := c.2.2.2.1, charger_ang := c.2.2.2.2.1,
               charger_fwd := c.2.2.2.2.2 }
  | none => s

/-- A client message as left in the `msg_cr_*` structures by `handle_tcp_client`. -/
inductive client_msg
  | CR_DEST (x y backmode : Int)
  | CR_ROUTE (x y dummy : Int)
  | CR_CHARGE
  | CR_ADDCONSTRAINT (x y : Int)
  | CR_REMCONSTRAINT (x y : Int)
  | CR_MODE (mode : Int)
  | CR_MANU (op : Int)
  | CR_MAINTENANCE (magic retval : Int)
  | CR_SPEEDLIM (speedlim_linear_fwd : Int)
  | CR_STATEVECT
  | CR_SETPOS (ang x y : Int)
  | other
  deriving DecidableEq, Repr

/-- Return value of `handle_tcp_client` for a message. -/
def client_msg.mid : client_msg → mid_t
  | CR_DEST _ _ _ => mid_t.CR_DEST
  | CR_ROUTE _ _ _ => mid_t.CR_ROUTE
  | CR_CHARGE => mid_t.CR_CHARGE
  | CR_ADDCONSTRAINT _ _ => mid_t.CR_ADDCONSTRAINT
  | CR_REMCONSTRAINT _ _ => mid_t.CR_REMCONSTRAINT
  | CR_MODE _ => mid_t.CR_MODE
  | CR_MANU _ => mid_t.CR_MANU
  | CR_MAINTENANCE _ _ => mid_t.CR_MAINTENANCE
  | CR_SPEEDLIM _ => mid_t.CR_SPEEDLIM
  | CR_STATEVECT => mid_t.CR_STATEVECT
  | CR_SETPOS _ _ _ => mid_t.CR_SETPOS
  | other => mid_t.other

/-- Assignment `mapping_collisions = mapping_3d = mapping_2d = loca_3d = loca_2d = v`. -/
def set_map_loca (v : Int) (s : Host) : Host :=
  { s with mapping_collisions := v, mapping_3d := v, mapping_2d := v, loca_3d := v, loca_2d := v }

/-- The two nested loops of the `TCP_CR_REMCONSTRAINT_MID` branch, as the list of the 25
removed points in loop order. -/
def remconstraint_points (x y : Int) : List cmd_t :=
  ([-2, -1, 0, 1, 2] : List Int).flatMap (fun xx =>
    ([-2, -1, 0, 1, 2] : List Int).map (fun yy =>
      cmd_t.remove_map_constraint (x + xx * 40) (y + yy * 40)))

/-- Branch `TCP_CR_MODE_MID` of `cmd_from_client_to_host`. -/
def cmd_mode (e : Env) (s : Host) (mode : Int) : Host :=
  if mode = 0 then
    let s : Host := { s with keep_position := 1 }
    let s := emit (cmd_t.daiju_mode 0) s
    let s := emit cmd_t.stop_automapping s
    set_map_loca 0 s
  else if mode = 1 then
    let s : Host := { s with keep_position := 1 }
    let s := emit (cmd_t.daiju_mode 0) s
    let s := emit cmd_t.stop_automapping s
    let s : Host := { s with find_charger_state := 0, lookaround_creep_reroute := 0,
                             do_follow_route := 0 }
    let s := emit (cmd_t.send_info info_state_t.IDLE) s
    set_map_loca 1 s
  else if mode = 2 then
    let s : Host := { s with keep_position := 1 }
    let s := emit (cmd_t.daiju_mode 0) s
    let s := emit cmd_t.routing_set_world s
    let s := emit cmd_t.start_automapping_skip_compass s
    set_map_loca 1 s
  else if mode = 3 then
    let s : Host := { s with keep_position := 1 }
    let s := emit (cmd_t.daiju_mode 0) s
    let s := emit cmd_t.routing_set_world s
    let s := emit cmd_t.start_automapping_from_compass s
    set_map_loca 1 s
  else if mode = 4 then
    let s := emit cmd_t.stop_automapping s
    let s : Host := { s with find_charger_state := 0, lookaround_creep_reroute := 0,
                             do_follow_route := 0, keep_position := 1 }
    let s := emit (cmd_t.send_info info_state_t.DAIJUING) s
    let s := emit (cmd_t.daiju_mode 1) s
    set_map_loca 0 s
  else if mode = 5 then
    let s := emit cmd_t.stop_automapping s
    let s : Host := { s with find_charger_state := 0, lookaround_creep_reroute := 0,
                             do_follow_route := 0 }
    let s := emit (cmd_t.send_info info_state_t.IDLE) s
    let s : Host := { s with keep_position := 0 }
    let s := emit cmd_t.release_motors s
    set_map_loca 1 s
  else if mode = 6 then
    let s := emit cmd_t.stop_automapping s
    let s : Host := { s with find_charger_state := 0, lookaround_creep_reroute := 0 }
    let s := emit (cmd_t.send_info info_state_t.IDLE) s
    let s : Host := { s with do_follow_route := 0, keep_position := 0 }
    let s := emit cmd_t.release_motors s
    set_map_loca 0 s
  else if mode = 7 then
    conf_charger_pos e s
  else if mode = 8 then
    let s := emit cmd_t.stop_automapping s
    let s : Host := { s with find_charger_state := 0, lookaround_creep_reroute := 0,
                             do_follow_route := 0 }
    let s := emit cmd_t.stop_movement s
    emit (cmd_t.send_info info_state_t.IDLE) s
  else s

/-- Branch `TCP_CR_SPEEDLIM_MID` of `cmd_from_client_to_host`. -/
def cmd_speedlim (s : Host) (new_lim : Int) : Host :=
  let s :=
    if new_lim < 1 ∨ new_lim > MAX_CONFIGURABLE_SPEEDLIM then
      { s with max_speedlim := DEFAULT_SPEEDLIM }
    else
      { s with max_speedlim := new_lim }
  if s.cur_speedlim > s.max_speedlim then
    let s : Host := { s with cur_speedlim := s.max_speedlim }
    emit (cmd_t.limit_speed s.cur_speedlim) s
  else s

/-- Branch `TCP_CR_SETPOS_MID` of `cmd_from_client_to_host`. -/
def cmd_setpos (s : Host) (ang x y : Int) : Host :=
  let s := emit (cmd_t.set_robot_pos (ang * 65536) x y) s
  let s : Host := { s with pos_corr_id := INCR_POS_CORR_ID s.pos_corr_id }
  let s := emit (cmd_t.correct_robot_pos 0 0 0 s.pos_corr_id) s
  { s with flush_3dtof := 2 }

/-- Function `cmd_from_client_to_host`. -/
def cmd_from_client_to_host (e : Env) (s : Host) (msg : client_msg) : Host :=
  match msg with
  | client_msg.CR_DEST x y backmode =>
    let s : Host := { s with keep_position := 1 }
    let s := emit (cmd_t.daiju_mode 0) s
    let s : Host := { s with cur_xymove := { s.cur_xymove with remaining := 999999 } }
    let s :=
      if Int.land backmode 8 ≠ 0 then
        emit (cmd_t.turn_and_go_abs_rel (ang_t.toward (x - s.cur_x) (y - s.cur_y) 0 0) 0
          s.cur_speedlim 1) s
      else
        emit (cmd_t.move_to x y backmode 0 s.cur_speedlim 1) s
    let s : Host := { s with find_charger_state := 0, lookaround_creep_reroute := 0,
                             do_follow_route := 0 }
    emit (cmd_t.send_info info_state_t.IDLE) s
  | client_msg.CR_ROUTE x y _ =>
    let s : Host := { s with dest_x := x, dest_y := y, num_reroutes := -1 }
    let s : Host := { s with keep_position := 1 }
    let s := emit (cmd_t.daiju_mode 0) s
    let s : Host := { s with find_charger_state := 0 }
    let s := request_routing e s
    if s.no_route_found ≠ 0 then send_route_end_status e s.no_route_found s else s
  | client_msg.CR_CHARGE =>
    let s := read_charger_pos e s
    { s with find_charger_state := 1 }
  | client_msg.CR_ADDCONSTRAINT x y => emit (cmd_t.add_map_constraint x y) s
  | client_msg.CR_REMCONSTRAINT x y => { s with out := s.out ++ remconstraint_points x y }
  | client_msg.CR_MODE mode => cmd_mode e s mode
  | client_msg.CR_MANU op =>
    let s := emit cmd_t.stop_automapping s
    let s := emit (cmd_t.daiju_mode 0) s
    let s : Host := { s with keep_position := 1 }
    if op = 10 then emit (cmd_t.turn_and_go_abs_rel (ang_t.raw s.cur_ang) 100 10 1) s
    else if op = 11 then emit (cmd_t.turn_and_go_abs_rel (ang_t.raw s.cur_ang) (-100) 10 1) s
    else if op = 12 then
      emit (cmd_t.turn_and_go_abs_rel (ang_t.cur_plus_deg s.cur_ang (-10)) 0 10 1) s
    else if op = 13 then
      emit (cmd_t.turn_and_go_abs_rel (ang_t.cur_plus_deg s.cur_ang 10) 0 10 1) s
    else s
  | client_msg.CR_MAINTENANCE magic retval =>
    if magic = 0x12345678 then { s with retval := retval } else s
  | client_msg.CR_SPEEDLIM new_lim => cmd_speedlim s new_lim
  | client_msg.CR_STATEVECT => emit cmd_t.tcp_send_statevect s
  | client_msg.CR_SETPOS ang x y => cmd_setpos s ang x y
  | client_msg.other => s

/-- The client branch of `communication_handling`: `cmd_state` takes the return value
of `handle_tcp_client`, then the command is run. -/
def client_command (e : Env) (s : Host) (msg : client_msg) : Host :=
  cmd_from_client_to_host e { s with cmd_state := msg.mid } msg

/-- MCU feedback record: pose with its timestamp, current move, power status. -/
structure mcu_feedback_t where
  cur_ang : Int
  cur_x : Int
  cur_y : Int
  robot_pos_timestamp : Int
  cur_xymove : xymove_t
  charging : Int
  charged : Int
  deriving DecidableEq, Repr

/-- Modelled from the spec: `handle_uart` (uart.c, hwdata.c) is not part of the source;
per the MCU motion protocol "responses stream current `(ang, x, y, timestamp)`,
`cur_xymove = {id, remaining, micronavi_stop_flags, feedback_stop_flags, ...}`, power
status", so the handler overwrites these globals with the received values. -/
def handle_uart (fb : mcu_feedback_t) (s : Host) : Host :=
  { s with cur_ang := fb.cur_ang, cur_x := fb.cur_x, cur_y := fb.cur_y,
           robot_pos_timestamp := fb.robot_pos_timestamp, cur_xymove := fb.cur_xymove,
           pwr_charging := fb.charging, pwr_charged := fb.charged }

/-! ## The host as a transition system

The workers run concurrently; a run of the host is modelled as an interleaving of whole
operations: one iteration of the navigation loop, one part of the mapping loop, one
client command, one MCU feedback update. -/

/-- One operation of the host. -/
inductive step_t
  | nav (e : Env)
  | lidar (e : Env) (p_lid : Option lidar_scan_t)
  | ramp1 (e : Env)
  | ramp2 (e : Env)
  | client (e : Env) (msg : client_msg)
  | uart (fb : mcu_feedback_t)

/-- Effect of one operation. -/
def step (s : Host) : step_t → Host
  | step_t.nav e => route_fsm e s
  | step_t.lidar e p_lid => lidar_handling e s p_lid
  | step_t.ramp1 e => speed_ramp_1 e s
  | step_t.ramp2 e => speed_ramp_2 e s
  | step_t.client e msg => client_command e s msg
  | step_t.uart fb => handle_uart fb s

/-- Effect of a sequence of operations. -/
def run (s : Host) (l : List step_t) : Host := l.foldl step s

/-- The ids passed to `correct_robot_pos`, in log order. -/
def corr_ids : List cmd_t → List Int
  | [] => []
  | cmd_t.correct_robot_pos _ _ _ id :: l => id :: corr_ids l
  | _ :: l => corr_ids l

/-- Replays a list of correction ids from the id `p`: every id must be the previous one
plus one modulo 100; the result is the last id. -/
def replay_ids (p : Int) : List Int → Option Int
  | [] => some p
  | i :: l => if i = (p + 1) % 100 then replay_ids i l else none

/-- The routing requests in a log. -/
def routing_requests : List cmd_t → Nat
  | [] => 0
  | cmd_t.need_routing _ _ _ _ :: l => routing_requests l + 1
  | _ :: l => routing_requests l

/-- The speed invariant `0 < cur_speedlim <= max_speedlim <= 70`. -/
def speed_inv (s : Host) : Prop :=
  0 < s.cur_speedlim ∧ s.cur_speedlim ≤ s.max_speedlim ∧ s.max_speedlim ≤ 70

/-- Pairs `(stamp, pose_stamp)` of the calls of `do_live_obstacle_checking`, in log
order. -/
def live_calls : List cmd_t → List (Int × Int)
  | [] => []
  | cmd_t.live_obstacle_check t p :: l => (t, p) :: live_calls l
  | _ :: l => live_calls l

/-- The clock readings of the calls of `do_live_obstacle_checking`, in log order. -/
def live_stamps (out : List cmd_t) : List Int := (live_calls out).map Prod.fst

/-- What the routing and Recovery code never changes: the two speed limits, the cadence
stamp of the live obstacle check, the charger stage, the live obstacle checking switch,
the pose timestamp, and the logged calls of `do_live_obstacle_checking`. -/
def frameA (s : Host) : Int × Int × Int × Int × Int × Int × List (Int × Int) :=
  (s.cur_speedlim, s.max_speedlim, s.live_prev_incr, s.find_charger_state,
   s.live_obstacle_checking_on, s.robot_pos_timestamp, live_calls s.out)

/-- The id invariant of pose corrections for a log `out` and a current id: the current
id lies in `[0, 99]`, and replaying the logged correction ids from `p0`, each one being
its predecessor plus one modulo 100, ends at the current id. -/
def corr_ok (p0 : Int) (out : List cmd_t) (id : Int) : Prop :=
  0 ≤ id ∧ id ≤ 99 ∧ replay_ids p0 (corr_ids out) = some id

/-- Two clock readings more than 0.1 s apart. -/
def gap100ms (a b : Int) : Prop := a + 100000000 < b

/-- Invariant of the live obstacle check calls in a log, relative to the cadence stamp
`prev`: every call was made with a pose at most 0.2 s old, consecutive calls are more
than 0.1 s apart, and no call is later than `prev`. -/
def live_ok (out : List cmd_t) (prev : Int) : Prop :=
  (∀ c ∈ live_calls out, c.1 - c.2 ≤ 200000000) ∧
  List.Chain' gap100ms (live_stamps out) ∧
  (∀ t ∈ live_stamps out, t ≤ prev)

/-- The correction id invariant of a state, for corrections replayed from `p0`. -/
def corr_inv (p0 : Int) (s : Host) : Prop := corr_ok p0 s.out s.pos_corr_id

/-- What the follow-route block never changes: the configured maximum speed, the
charger stage, the live obstacle checking switch and the pose timestamp. -/
def frameF (s : Host) : Int × Int × Int × Int :=
  (s.max_speedlim, s.find_charger_state, s.live_obstacle_checking_on, s.robot_pos_timestamp)

/-- What the charger procedure never changes: the two speed limits, the cadence stamp
of the live obstacle check, the pose timestamp and the logged calls of
`do_live_obstacle_checking`. -/
def frameG (s : Host) : Int × Int × Int × Int × List (Int × Int) :=
  (s.cur_speedlim, s.max_speedlim, s.live_prev_incr, s.robot_pos_timestamp,
   live_calls s.out)

/-- The live obstacle check invariant of a state. -/
def live_inv (s : Host) : Prop := live_ok s.out s.live_prev_incr

/-- The result of the charger procedure has the same `frameG` as `s`. -/
def same_frameG (s : Host) (r : Host × Int) : Prop := frameG r.1 = frameG s

/-- What only the follow-route block changes: the cadence stamp of the live obstacle
check and the logged calls of `do_live_obstacle_checking`. -/
def frameL (s : Host) : Int × List (Int × Int) := (s.live_prev_incr, live_calls s.out)

/-- State `x` has the same `frameL` as `s`. -/
def same_frameL (s x : Host) : Prop := frameL x = frameL s

/-- State `x` has logged the same calls of `do_live_obstacle_checking` as `s`. -/
def same_calls (s x : Host) : Prop := live_calls x.out = live_calls s.out

/-- The result `r` of the charger procedure has the live obstacle checking switch that
the procedure computes from the stage found in `s`. -/
def fcp_loc (s : Host) (r : Host × Int) : Prop :=
  r.1.live_obstacle_checking_on = if s.find_charger_state < 4 then 1 else 0

/-- The charger stage and the two switches of the route follower. -/
def frameN (s : Host) : Int × Int × Int :=
  (s.find_charger_state, s.do_follow_route, s.lookaround_creep_reroute)

/-- From charger stage 3 on the route follower is off: no route is being followed and
Recovery is not active. -/
def follower_off (s : Host) : Prop :=
  3 ≤ s.find_charger_state → s.do_follow_route = 0 ∧ s.lookaround_creep_reroute = 0

/-- The state returned by the charger procedure satisfies `follower_off`. -/
def follower_off_res (r : Host × Int) : Prop := follower_off r.1

/-! ## Further observations on the call log -/

/-- The ids of the `move_to` calls in a log, in log order. -/
def move_ids : List cmd_t → List Int
  | [] => []
  | cmd_t.move_to _ _ _ id _ _ :: l => id :: move_ids l
  | _ :: l => move_ids l

/-- The look-ahead hit count that `do_live_obstacle_checking` computes for a forward
waypoint: `check_direct_route_non_turning_hitcnt_mm` from the pose to the waypoint, or
to the point 1200 mm ahead when the waypoint is 1200 mm away or further. -/
def live_hitcnt (e : Env) (s : Host) : Int :=
  let dx := (s.the_route s.route_pos).x - s.cur_x
  let dy := (s.the_route s.route_pos).y - s.cur_y
  let dist_to_next : Int := (isqrt (sq_sum dx dy).toNat : Nat)
  e.check_direct_route_non_turning_hitcnt_mm s.cur_x s.cur_y
    (if dist_to_next < 1200 then
      target_t.pt (s.the_route s.route_pos).x (s.the_route s.route_pos).y
    else target_t.polar s.cur_x s.cur_y dx dy 1200)

/-- Successive calls of `lidar_handling`, one for each scan of the list, each with the
environment it runs in. -/
def lidar_feed (s : Host) (l : List (Env × lidar_scan_t)) : Host :=
  l.foldl (fun s ep => lidar_handling ep.1 s (some ep.2)) s

/-- Every entry of a batch of scans is a scan tagged with the correction id `id`. -/
def all_current (id : Int) (scans : List (Option lidar_scan_t)) : Prop :=
  ∀ x ∈ scans, Option.map lidar_scan_t.id x = some id

instance (id : Int) (scans : List (Option lidar_scan_t)) : Decidable (all_current id scans) :=
  inferInstanceAs (Decidable (∀ x ∈ scans, Option.map lidar_scan_t.id x = some id))

/-- The scan-match queue of `lidar_handling`: the first `n_lidars_to_map` entries of
`lidars_to_map`. -/
def scan_queue (s : Host) : List (Option lidar_scan_t) :=
  first_n s.lidars_to_map s.n_lidars_to_map

/-- Every scan in the scan-match queue is tagged with the current `pos_corr_id`. -/
def queue_current (s : Host) : Prop := all_current s.pos_corr_id (scan_queue s)

instance (s : Host) : Decidable (queue_current s) :=
  inferInstanceAs (Decidable (all_current s.pos_corr_id (scan_queue s)))

/-- State `r` follows from `s` by one call that keeps the queue current: the queue
length is not negative, the queued scans carry the id of `r`, and every batch that was
passed to `map_lidars` on the way consisted of scans with the id of `s`, after which the
queue is empty. -/
def queue_post (s r : Host) : Prop :=
  0 ≤ r.n_lidars_to_map ∧ queue_current r ∧
  ∃ l, r.out = s.out ++ l ∧
    ∀ n scans, cmd_t.map_lidars n scans ∈ l →
      all_current s.pos_corr_id scans ∧ r.n_lidars_to_map = 0

/-- The test the skipping loop of `route_fsm` makes with `route_pos = j`: waypoint `j` is
a forward one and not the last, `sq(cur_x-x)+sq(cur_y-y) < sq(800)` holds in `int`
arithmetic for waypoint `j + 1`, and `check_direct_route_mm` finds a direct route to
it. -/
def can_skip (e : Env) (s : Host) (j : Int) : Prop :=
  ((s.the_route j).backmode = 0 ∧ j < s.the_route_len - 1) ∧
  (sq_sum (s.cur_x - (s.the_route (j + 1)).x) (s.cur_y - (s.the_route (j + 1)).y) < sq 800
    ∧ e.check_direct_route_mm s.cur_ang s.cur_x s.cur_y
        (s.the_route (j + 1)).x (s.the_route (j + 1)).y ≠ 0)

instance (e : Env) (s : Host) (j : Int) : Decidable (can_skip e s j) :=
  inferInstanceAs (Decidable (_ ∧ _))

/-- The skipping rule in exact arithmetic: waypoint `j` is a forward one and not the
last, waypoint `j + 1` is strictly less than 800 mm from the pose, and
`check_direct_route_mm` reports a direct route from the pose to it. -/
def skip_rule (e : Env) (s : Host) (j : Int) : Prop :=
  (s.the_route j).backmode = 0 ∧ j < s.the_route_len - 1 ∧
  dist2 s.cur_x s.cur_y (s.the_route (j + 1)).x (s.the_route (j + 1)).y < 800 * 800 ∧
  e.check_direct_route_mm s.cur_ang s.cur_x s.cur_y
    (s.the_route (j + 1)).x (s.the_route (j + 1)).y ≠ 0

instance (e : Env) (s : Host) (j : Int) : Decidable (skip_rule e s j) :=
  inferInstanceAs (Decidable (_ ∧ _))

/-- The number of `turn_and_go_abs_rel` calls in a log. -/
def turn_cmds : List cmd_t → Nat
  | [] => 0
  | cmd_t.turn_and_go_abs_rel _ _ _ _ :: l => turn_cmds l + 1
  | _ :: l => turn_cmds l

/-- The value `dist` that Recovery stage 7 computes from the pose and the current
waypoint: `sqrt(sq(dx)+sq(dy))` in `int` arithmetic, truncated. -/
def stage7_dist (s : Host) : Int :=
  (isqrt (sq_sum ((s.the_route s.route_pos).x - s.cur_x)
    ((s.the_route s.route_pos).y - s.cur_y)).toNat : Nat)

/-- No line of sight to the current waypoint: the test of the first block of `route_fsm`,
`check_direct_route_non_turning_mm` from the pose to the waypoint, fails. -/
def los_blocked (e : Env) (s : Host) : Prop :=
  e.check_direct_route_non_turning_mm s.cur_x s.cur_y (s.the_route s.route_pos).x
    (s.the_route s.route_pos).y = 0

instance (e : Env) (s : Host) : Decidable (los_blocked e s) :=
  inferInstanceAs (Decidable (_ = _))

/-- Squared distance from the pose to the current waypoint, in exact integer
arithmetic. -/
def waypoint_dist2 (s : Host) : Int :=
  dist2 s.cur_x s.cur_y (s.the_route s.route_pos).x (s.the_route s.route_pos).y

/-- State `x` has logged as many `turn_and_go_abs_rel` calls as `s`. -/
def same_turns (s x : Host) : Prop := turn_cmds x.out = turn_cmds s.out

/-- State `x` has logged at least as many routing requests as `s`. -/
def more_requests (s x : Host) : Prop := routing_requests s.out ≤ routing_requests x.out

/-- The look-ahead hit count of Recovery stage 7: `check_direct_route_non_turning_hitcnt_mm`
from the pose to the point 100 mm ahead in the direction of the current waypoint. -/
def creep_hitcnt (e : Env) (s : Host) : Int :=
  e.check_direct_route_non_turning_hitcnt_mm s.cur_x s.cur_y
    (target_t.polar s.cur_x s.cur_y ((s.the_route s.route_pos).x - s.cur_x)
      ((s.the_route s.route_pos).y - s.cur_y) 100)

/-- The creep move of Recovery stage 7 from the pose of `s`: 100 mm towards the current
waypoint at speed 15, the direction offset by `jit` degrees. -/
def creep_cmd (s : Host) (jit : Int) : cmd_t :=
  cmd_t.turn_and_go_abs_rel
    (ang_t.toward ((s.the_route s.route_pos).x - s.cur_x)
      ((s.the_route s.route_pos).y - s.cur_y) 0 jit) 100 15 1

/-- The waypoint part of the `move_to` calls in a log: target coordinates, back mode
and move id of each call, in log order. -/
def move_wps : List cmd_t → List (Int × Int × Int × Int)
  | [] => []
  | cmd_t.move_to x y b id _ _ :: l => (x, y, b, id) :: move_wps l
  | _ :: l => move_wps l

/-- The waypoint part of the `move_to` call of route following for waypoint `j`: its
coordinates and back mode, and the id `(id_cnt << 4) | (j & 0xF)`. -/
def route_wp (s : Host) (j : Int) : Int × Int × Int × Int :=
  ((s.the_route j).x, (s.the_route j).y, (s.the_route j).backmode, move_id s.id_cnt j)

/-- MCU feedback that echoes the id of the move to the current waypoint, reports no stop
and a remaining distance below the waypoint's `take_next_early`. -/
def echo_arrival (s : Host) (fb : mcu_feedback_t) : Prop :=
  fb.cur_xymove.id = move_id s.id_cnt s.route_pos ∧
  fb.cur_xymove.remaining < (s.the_route s.route_pos).take_next_early ∧
  fb.cur_xymove.micronavi_stop_flags = 0 ∧ fb.cur_xymove.feedback_stop_flags = 0

instance (s : Host) (fb : mcu_feedback_t) : Decidable (echo_arrival s fb) :=
  inferInstanceAs (Decidable (_ ∧ _))

/-- The live obstacle check is made in the follow-route block of a tick that handles no
arrival: the check is switched on, more than 0.1 s have passed since the last one, the
pose is not older than 0.2 s, and the current waypoint is a forward one. -/
def live_check_runs (e : Env) (s : Host) : Prop :=
  s.live_obstacle_checking_on ≠ 0 ∧ e.t_live > s.live_prev_incr + 100000000 ∧
  ¬ s.robot_pos_timestamp < e.t_live - 200000000 ∧ (s.the_route s.route_pos).backmode = 0

instance (e : Env) (s : Host) : Decidable (live_check_runs e s) :=
  inferInstanceAs (Decidable (_ ∧ _))

/-- MCU feedback on the way to the current waypoint: it echoes the id of the move,
reports no stop and a remaining distance not below the waypoint's `take_next_early`,
and the live obstacle check, if it is made in the tick, counts fewer than 3 hits. -/
def echo_en_route (e : Env) (s : Host) (fb : mcu_feedback_t) : Prop :=
  fb.cur_xymove.id = move_id s.id_cnt s.route_pos ∧
  ¬ fb.cur_xymove.remaining < (s.the_route s.route_pos).take_next_early ∧
  (fb.cur_xymove.micronavi_stop_flags = 0 ∧ fb.cur_xymove.feedback_stop_flags = 0) ∧
  (live_check_runs e (handle_uart fb s) → live_hitcnt e (handle_uart fb s) < 3)

instance (e : Env) (s : Host) (fb : mcu_feedback_t) : Decidable (echo_en_route e s fb) :=
  inferInstanceAs (Decidable (_ ∧ _))

/-- A navigation tick after MCU feedback, repeated: for each entry of the list the
feedback is taken in and one iteration of `route_fsm` runs. -/
def follow_run (s : Host) : List (mcu_feedback_t × Env) → Host
  | [] => s
  | fe :: l => follow_run (route_fsm fe.2 (handle_uart fe.1 s)) l

/-- Every feedback of the list either reports the arrival at the waypoint that is
current when it is taken in, on a tick in which the skip test fails for the waypoint
advanced to, or is feedback on the way to that waypoint. -/
def ticks_ok (s : Host) : List (mcu_feedback_t × Env) → Prop
  | [] => True
  | fe :: l =>
    ((echo_arrival s fe.1 ∧ ¬ can_skip fe.2 (handle_uart fe.1 s) (s.route_pos + 1))
      ∨ echo_en_route fe.2 s fe.1) ∧
    ticks_ok (route_fsm fe.2 (handle_uart fe.1 s)) l

/-- The number of entries of the list whose remaining distance is below the
`take_next_early` of the waypoint that is current when the feedback is taken in. -/
def arrivals (s : Host) : List (mcu_feedback_t × Env) → Nat
  | [] => 0
  | fe :: l =>
    (if fe.1.cur_xymove.remaining < (s.the_route s.route_pos).take_next_early then 1 else 0)
      + arrivals (route_fsm fe.2 (handle_uart fe.1 s)) l

/-- A route is being followed and nothing else is going on: no Recovery, no pending
route start, no charger procedure; `id_cnt` is in `[1..7]` and `route_pos` in
`[0, 199]`. -/
def following (s : Host) : Prop :=
  s.do_follow_route ≠ 0 ∧ s.lookaround_creep_reroute = 0 ∧ s.start_route = 0 ∧
  s.find_charger_state = 0 ∧ (1 ≤ s.id_cnt ∧ s.id_cnt ≤ 7) ∧
  (0 ≤ s.route_pos ∧ s.route_pos ≤ 199)

instance (s : Host) : Decidable (following s) := inferInstanceAs (Decidable (_ ∧ _))

/-- What a tick of route following leaves as it is until the route ends: the follower
switches, the charger stage, `id_cnt`, the route buffer and its length, the command
state and the finished flag. -/
def frameR (s : Host) :
    Int × Int × Int × Int × Int × (Int → route_point_t) × Int × mid_t × Int :=
  (s.do_follow_route, s.lookaround_creep_reroute, s.start_route, s.find_charger_state,
   s.id_cnt, s.the_route, s.the_route_len, s.cmd_state, s.route_finished_or_notfound)

/-! ## Mapping: `tof_handling` -/

/-- Statement `if(send_raw_tof >= 0 && send_raw_tof < 4) { ... }` of `tof_handling`. -/
def tof_send_raws (s : Host) : Host :=
  if s.send_raw_tof ≥ 0 ∧ s.send_raw_tof < 4 then
    emit (cmd_t.tcp_send_picture 101) (emit (cmd_t.tcp_send_picture 100) s)
  else s

/-- Statement `if(send_pointcloud) save_pointcloud(...)` of `tof_handling`. -/
def tof_send_cloud (s : Host) : Host :=
  if s.send_pointcloud ≠ 0 then emit cmd_t.save_pointcloud s else s

/-- Body of `if(hmap_cnt >= 4)` in the display block of `tof_handling`: the scan is sent
as a height map, with the raw images and the point cloud when these are switched on,
and `hmap_cnt` restarts. -/
def tof_send (s : Host) (p : tof3d_scan_t) : Host :=
  tof_send_cloud
    { tof_send_raws (emit (cmd_t.tcp_send_hmap p.robot_pos) s) with hmap_cnt := 0 }

/-- The display block of `tof_handling` (the code compiled with `PULUTOF1` defined and
`PULUTOF1_GIVE_RAWS` not): with a client connected, every fourth scan is sent. -/
def tof_display (e : Env) (s : Host) (p : tof3d_scan_t) : Host :=
  if e.tcp_client_sock ≥ 0 then
    if s.hmap_cnt + 1 ≥ 4 then tof_send { s with hmap_cnt := s.hmap_cnt + 1 } p
    else { s with hmap_cnt := s.hmap_cnt + 1 }
  else s

/-- The mapping block of `tof_handling`: a scan is eligible for the mapping batch when
`flush_3dtof` is 0, 3D mapping is on and the robot is not on the charger; an eligible
scan with a pose other than `(0, 0, 0)` is appended to `tofs_to_map`, and the batch is
mapped once it holds 3 scans (robot moving) or 20 (robot standing). -/
def tof_mapping (e : Env) (s : Host) (p : tof3d_scan_t) : Host :=
  if s.flush_3dtof = 0 ∧ s.mapping_3d ≠ 0 ∧ s.pwr_charging = 0 ∧ s.pwr_charged = 0 then
    if p.robot_pos.x ≠ 0 ∨ p.robot_pos.y ≠ 0 ∨ p.robot_pos.ang ≠ 0 then
      let robot_moving : Int :=
        if s.tof_prev_x ≠ p.robot_pos.x ∨ s.tof_prev_y ≠ p.robot_pos.y
            ∨ s.tof_prev_ang ≠ p.robot_pos.ang then 1 else 0
      let s : Host :=
        if s.tof_prev_x ≠ p.robot_pos.x ∨ s.tof_prev_y ≠ p.robot_pos.y
            ∨ s.tof_prev_ang ≠ p.robot_pos.ang then
          { s with tof_prev_x := p.robot_pos.x, tof_prev_y := p.robot_pos.y,
                   tof_prev_ang := p.robot_pos.ang }
        else s
      let s : Host := { s with tofs_to_map := store s.tofs_to_map s.n_tofs_to_map (some p) }
      let s : Host := { s with n_tofs_to_map := s.n_tofs_to_map + 1 }
      if s.n_tofs_to_map ≥ (if robot_moving ≠ 0 then 3 else 20) then
        let m := e.map_3dtof s.n_tofs_to_map (first_n s.tofs_to_map s.n_tofs_to_map)
        let s := emit (cmd_t.map_3dtof s.n_tofs_to_map
          (first_n s.tofs_to_map s.n_tofs_to_map)) s
        let s := if s.do_follow_route ≠ 0 then emit (cmd_t.gen_routing_pages m.1 m.2) s else s
        { s with n_tofs_to_map := 0 }
      else s
    else s
  else s

/-- Function `tof_handling`.  The argument is the scan returned by `get_tof3d()`, `none`
when it returns `NULL`. -/
def tof_handling (e : Env) (s : Host) (p_tof : Option tof3d_scan_t) : Host :=
  match p_tof with
  | none => s
  | some p =>
    let s := tof_mapping e (tof_display e s p) p
    if s.flush_3dtof ≠ 0 then { s with flush_3dtof := s.flush_3dtof - 1 } else s

/-- The scans passed to `map_3dtof` in a log, batch by batch. -/
def tof_batches : List cmd_t → List (List (Option tof3d_scan_t))
  | [] => []
  | cmd_t.map_3dtof _ scans :: l => scans :: tof_batches l
  | _ :: l => tof_batches l

/-- What the display block of `tof_handling` never changes: the flush counter, the
mapping batch, the 3D mapping switch, the charging status and the batches that were
passed to `map_3dtof`. -/
def frameT (s : Host) :
    Int × Int × (Int → Option tof3d_scan_t) × Int × Int × Int
      × List (List (Option tof3d_scan_t)) :=
  (s.flush_3dtof, s.n_tofs_to_map, s.tofs_to_map, s.mapping_3d, s.pwr_charging,
   s.pwr_charged, tof_batches s.out)

/-! ## Thread management around a client command -/

/-- The three worker threads. -/
inductive worker_t
  | mapping | routing | navigation
  deriving DecidableEq, Repr

/-- The calls and flag raisings of `thread_management_before_running_cmd`:
`cancel w` is `pthread_cancel(thread_w)`, `flag_up w` is `waiting_for_w_to_end = 1`,
`wait_done w` is `pthread_cond_wait(&cond_w_done, &mutex_waiting_w_t)`. -/
inductive thread_op
  | cancel (w : worker_t)
  | flag_up (w : worker_t)
  | wait_done (w : worker_t)
  deriving DecidableEq, Repr

/-- The fields of `thread_struct` that the thread management reads or writes, with their
initial values, and the log of its operations. -/
structure thread_struct where
  map_thread_cancel_state : Int := 1
  rout_thread_cancel_state : Int := 1
  nav_thread_cancel_state : Int := 1
  map_thread_were_canceled : Int := 0
  rout_thread_were_canceled : Int := 0
  nav_thread_were_canceled : Int := 0
  waiting_for_map_to_end : Int := 0
  waiting_for_rout_to_end : Int := 0
  waiting_for_nav_to_end : Int := 0
  map_thread_on_pause : Int := 0
  rout_thread_on_pause : Int := 0
  nav_thread_on_pause : Int := 0
  ops : List thread_op := []
  deriving DecidableEq, Repr

/-- Record one operation. -/
def log_op (o : thread_op) (t : thread_struct) : thread_struct := { t with ops := t.ops ++ [o] }

/-- Mapping block of `thread_management_before_running_cmd`; `cancel_ret` is the return
value of `pthread_cancel`. -/
def manage_mapping (cancel_ret : worker_t → Int) (priority_bits : Nat) (t : thread_struct) :
    thread_struct :=
  if Nat.land priority_bits 1 = 1 then
    if t.map_thread_cancel_state = 1 then
      let t := log_op (thread_op.cancel worker_t.mapping) t
      if cancel_ret worker_t.mapping ≠ 0 then t
      else { t with map_thread_were_canceled := 1 }
    else
      let t := log_op (thread_op.flag_up worker_t.mapping) { t with waiting_for_map_to_end := 1 }
      let t := log_op (thread_op.wait_done worker_t.mapping) t
      { t with waiting_for_map_to_end := 0 }
  else
    let t := log_op (thread_op.flag_up worker_t.mapping) { t with waiting_for_map_to_end := 1 }
    let t := log_op (thread_op.wait_done worker_t.mapping) t
    { t with waiting_for_map_to_end := 0 }

/-- Navigation block: the test is `(priority_bits & 0x04) == 1`, and the branch without
priority also sets `map_thread_on_pause`. -/
def manage_navigation (cancel_ret : worker_t → Int) (priority_bits : Nat)
    (t : thread_struct) : thread_struct :=
  if Nat.land priority_bits 4 = 1 then
    if t.nav_thread_cancel_state = 1 then
      let t := log_op (thread_op.cancel worker_t.navigation) t
      if cancel_ret worker_t.navigation ≠ 0 then t
      else { t with nav_thread_were_canceled := 1 }
    else
      let t := log_op (thread_op.flag_up worker_t.navigation)
        { t with waiting_for_nav_to_end := 1 }
      let t := log_op (thread_op.wait_done worker_t.navigation) t
      { t with waiting_for_nav_to_end := 0 }
  else
    let t := log_op (thread_op.flag_up worker_t.navigation)
      { t with waiting_for_nav_to_end := 1 }
    let t := log_op (thread_op.wait_done worker_t.navigation) t
    { t with waiting_for_nav_to_end := 0, map_thread_on_pause := 1 }

/-- Routing block: the test is `(priority_bits & 0x01) == 1`. -/
def manage_routing (cancel_ret : worker_t → Int) (priority_bits : Nat) (t : thread_struct) :
    thread_struct :=
  if Nat.land priority_bits 1 = 1 then
    if t.rout_thread_cancel_state = 1 then
      let t := log_op (thread_op.cancel worker_t.routing) t
      if cancel_ret worker_t.routing ≠ 0 then t
      else { t with rout_thread_were_canceled := 1 }
    else
      let t := log_op (thread_op.flag_up worker_t.routing) { t with waiting_for_rout_to_end := 1 }
      let t := log_op (thread_op.wait_done worker_t.routing) t
      { t with waiting_for_rout_to_end := 0 }
  else
    let t := log_op (thread_op.flag_up worker_t.routing) { t with waiting_for_rout_to_end := 1 }
    let t := log_op (thread_op.wait_done worker_t.routing) t
    { t with waiting_for_rout_to_end := 0 }

/-- Function `thread_management_before_running_cmd`; `priority_bits` is an
`unsigned char`.  The blocks run in the order mapping, navigation, routing. -/
def thread_management_before_running_cmd (cancel_ret : worker_t → Int) (priority_bits : Nat)
    (t : thread_struct) : thread_struct :=
  manage_routing cancel_ret priority_bits
    (manage_navigation cancel_ret priority_bits (manage_mapping cancel_ret priority_bits t))

/-- The operations on worker `w` when it is cancelled. -/
def cancel_ops (w : worker_t) : List thread_op := [thread_op.cancel w]

/-- The operations on worker `w` when the dispatcher waits for the end of its loop. -/
def wait_ops (w : worker_t) : List thread_op := [thread_op.flag_up w, thread_op.wait_done w]

/-- The local `priority_bits` of `communication_handling`: initialised to `0x00` and
never assigned. -/
def priority_bits : Nat := 0

/-- The call `thread_management_before_running_cmd(priority_bits, &p_host_t)` of
`communication_handling`, the only call of the function. -/
def manage_threads_for_cmd (cancel_ret : worker_t → Int) (t : thread_struct) : thread_struct :=
  thread_management_before_running_cmd cancel_ret priority_bits t

/-- The priority bit that the comment in `communication_handling` assigns to a worker:
`0x01` mapping, `0x02` routing, `0x04` navigation. -/
def own_bit : worker_t → Nat
  | worker_t.mapping => 1
  | worker_t.routing => 2
  | worker_t.navigation => 4

/-- Field `*_thread_cancel_state` of a worker. -/
def cancel_state_of (t : thread_struct) : worker_t → Int
  | worker_t.mapping => t.map_thread_cancel_state
  | worker_t.routing => t.rout_thread_cancel_state
  | worker_t.navigation => t.nav_thread_cancel_state

/-- Field `*_thread_were_canceled` of a worker, the mark for the re-spawn. -/
def were_canceled_of (t : thread_struct) : worker_t → Int
  | worker_t.mapping => t.map_thread_were_canceled
  | worker_t.routing => t.rout_thread_were_canceled
  | worker_t.navigation => t.nav_thread_were_canceled

/-- The stated decision for a worker, not the test of the function: the worker is
cancelled when its own priority bit is set and its cancel state is 1. -/
def stated_cancel (priority_bits : Nat) (t : thread_struct) (w : worker_t) : Prop :=
  Nat.land priority_bits (own_bit w) ≠ 0 ∧ cancel_state_of t w = 1

instance (priority_bits : Nat) (t : thread_struct) (w : worker_t) :
    Decidable (stated_cancel priority_bits t w) :=
  inferInstanceAs (Decidable (_ ∧ _))

/-- The operations on a worker under the stated decision: cancel it, or raise its
waiting-to-end flag and wait for its loop-done signal. -/
def stated_ops (priority_bits : Nat) (t : thread_struct) (w : worker_t) : List thread_op :=
  if stated_cancel priority_bits t w then cancel_ops w else wait_ops w

/-! ## Further definitions for the claims on mapping, Recovery and the worker threads -/

/-- The trigger condition of the scan-match queue after a scan has been appended. -/
def queue_trigger (s : Host) : Prop :=
  (s.localize_with_big_search_area ≠ 0 ∧ s.n_lidars_to_map + 1 > 11) ∨
  (s.localize_with_big_search_area = 0 ∧
    ((s.good_time_for_lidar_mapping ≠ 0 ∧ s.n_lidars_to_map + 1 > 3)
      ∨ s.n_lidars_to_map + 1 > 4))

instance (s : Host) : Decidable (queue_trigger s) := inferInstanceAs (Decidable (_ ∨ _))

/-- The queue passed to `map_lidars` when the scan `p` triggers the match. -/
def queue_with (s : Host) (p : lidar_scan_t) : List (Option lidar_scan_t) :=
  first_n (store s.lidars_to_map s.n_lidars_to_map (some p)) (s.n_lidars_to_map + 1)

/-- The arguments of the `daiju_mode` calls in a log, in order. -/
def daiju_cmds : List cmd_t → List Int
  | [] => []
  | cmd_t.daiju_mode v :: l => v :: daiju_cmds l
  | _ :: l => daiju_cmds l

/-- Two facts about the statics of the navigation: `id_cnt` is in `[1..7]`, and the
`time_interval` of Recovery stage 7 is 2.5 s. -/
def nav_inv (s : Host) : Prop :=
  (1 ≤ s.id_cnt ∧ s.id_cnt ≤ 7) ∧ s.time_interval = 2500000000

/-- The result of the charger procedure satisfies `nav_inv`. -/
def nav_inv_res (r : Host × Int) : Prop := nav_inv r.1

/-- A Recovery stage whose timer has not yet passed at the clock reading of `e`: stages
2 to 6 wait 1.0 s, stage 7 waits 2.5 s, stages 8 to 11 wait 5.0 s. -/
def stage_waiting (e : Env) (s : Host) : Prop :=
  (2 ≤ s.lookaround_creep_reroute ∧ s.lookaround_creep_reroute ≤ 6 ∧
    e.t_gate ≤ s.timestamp + 1000000000) ∨
  (s.lookaround_creep_reroute = 7 ∧ e.t_gate ≤ s.timestamp + 2500000000) ∨
  (8 ≤ s.lookaround_creep_reroute ∧ s.lookaround_creep_reroute ≤ 11 ∧
    e.t_gate ≤ s.timestamp + 5000000000)

instance (e : Env) (s : Host) : Decidable (stage_waiting e s) :=
  inferInstanceAs (Decidable (_ ∨ _))

/-- State `x` has logged the same `daiju_mode` calls as `s`. -/
def same_daiju (s x : Host) : Prop := daiju_cmds x.out = daiju_cmds s.out

/-! ## Concrete worlds and runs used for evaluation -/

/-- A small world for evaluation: the planner answers every request with the three
waypoints `(1000,0) (2000,0) (3000,0)` (in map units of 40 mm) and return code 0, all
map queries report free space, the scan matcher reports the delta `(3, -5, 7)`. -/
def env_demo : Env where
  t_gate := 0
  t_mark := 0
  t_live := 0
  t_cha := 0
  t_map := 0
  t_map2 := 0
  TCP_RC_ROUTE_STATUS_SUCCESS := 1
  charger_points := fun _ x y => (x - 1000, y, x - 500, y)
  reret := 0
  tcp_client_sock := 3
  doing_autonomous_things := 0
  check_direct_route_non_turning_mm := fun _ _ _ _ => 0
  check_direct_route_mm := fun _ _ _ _ _ => 0
  test_robot_turn_mm := fun _ _ _ _ => 0
  check_direct_route_non_turning_hitcnt_mm := fun _ _ _ => 0
  search_route := fun _ _ _ _ _ _ => (0, [⟨25, 0, 0⟩, ⟨50, 0, 0⟩, ⟨75, 0, 0⟩])
  mm_from_unit_coords := fun x y => (40 * x, 40 * y)
  map_lidars := fun _ _ => (3, -5, 7)
  map_3dtof := fun _ _ => (0, 0)
  map_significance_mode := 6
  charger_file := none

/-- The demo world with a planner that answers with two waypoints 50 m apart, `(0,0)`
and `(50000,0)`. -/
def env_long : Env :=
  { env_demo with search_route := fun _ _ _ _ _ _ => (0, [⟨0, 0, 0⟩, ⟨1250, 0, 0⟩]) }

/-- World of the docking run at clock reading `t` (all clocks read `t`): the planner
finds the one-waypoint route to `(1000, 0)`, the stored charger position has its first
point at `(1000, 0)`, its second point at `(1500, 0)`, angle 0 and forward distance
330. -/
def env_dock (t : Int) : Env :=
  { env_demo with
    t_gate := t, t_mark := t, t_live := t, t_cha := t, t_map := t, t_map2 := t,
    search_route := fun _ _ _ _ _ _ => (0, [⟨25, 0, 0⟩]),
    charger_file := some (1000, 0, 1500, 0, 0, 330) }

/-- Docking run up to charger stage 2 with the robot arrived at the first charger
point: the client asks for charging at clock 99 s, stage 1 routes to the first point,
the tick at 99.5 s starts the route, and at 99.9 s the MCU reports the pose `(990, 0)`
with 10 mm remaining for move id `0x20`. -/
def dock_to_stage2 : List step_t :=
  [ step_t.client (env_dock 99000000000) client_msg.CR_CHARGE,
    step_t.nav (env_dock 99000000000),
    step_t.nav (env_dock 99500000000),
    step_t.uart ⟨0, 990, 0, 99900000000, ⟨32, 10, 0, 0⟩, 0, 0⟩ ]

/-- The tick at clock 100.000 s ends the route, and in it stage 2 acts (turns to the
charger angle). -/
def dock_to_stage3 : List step_t := dock_to_stage2 ++ [step_t.nav (env_dock 100000000000)]

/-- One more tick, 1 ms later, at clock 100.001 s. -/
def dock_to_stage4 : List step_t := dock_to_stage3 ++ [step_t.nav (env_dock 100001000000)]

/-- A lidar scan with the current correction id 44 arrives, then one tick per
millisecond; before the tick at 100.003 s the MCU reports move `0x7f` done at the
second charger point, never reporting `charging` or `charged`. -/
def dock_to_stage8 : List step_t := dock_to_stage4 ++
  [ step_t.lidar (env_dock 100001500000) (some ⟨44, 0, 0, ⟨0, 990, 0⟩⟩),
    step_t.nav (env_dock 100002000000),
    step_t.uart ⟨0, 1500, 0, 100002500000, ⟨127, 5, 0, 0⟩, 0, 0⟩,
    step_t.nav (env_dock 100003000000),
    step_t.nav (env_dock 100004000000),
    step_t.nav (env_dock 100005000000) ]

/-- One more tick, 1 ms after the tick that asked the MCU to mount the charger. -/
def dock_watchdog : List step_t := dock_to_stage8 ++ [step_t.nav (env_dock 100006000000)]

/-- World with a direct line of sight from everywhere to everywhere. -/
def env_clear : Env := { env_demo with check_direct_route_non_turning_mm := fun _ _ _ _ => 1 }

/-- The MCU reports a stop (micronavi stop flags set) of the move with id `id`, then one
navigation tick. -/
def stop_cycle (id : Int) : List step_t :=
  [ step_t.uart ⟨0, 0, 0, 0, ⟨id, 900, 1, 0⟩, 0, 0⟩, step_t.nav env_clear ]

/-- A route to `(3000, 0)` is requested and started; then the MCU stops six times on
the way to the first waypoint, each time reporting the id of the latest `move_to`.
After each stop one tick sees the line of sight and resumes the route with the next
`id_cnt` (3, ..., 7, 1).  The run ends with the MCU report of a seventh stop. -/
def before_stop_7 : List step_t :=
  [ step_t.client env_clear (client_msg.CR_ROUTE 3000 0 0), step_t.nav env_clear ]
  ++ stop_cycle 32 ++ [step_t.nav env_clear]
  ++ stop_cycle 48 ++ [step_t.nav env_clear]
  ++ stop_cycle 64 ++ [step_t.nav env_clear]
  ++ stop_cycle 80 ++ [step_t.nav env_clear]
  ++ stop_cycle 96 ++ [step_t.nav env_clear]
  ++ stop_cycle 112 ++ [step_t.nav env_clear]
  ++ [step_t.uart ⟨0, 0, 0, 0, ⟨16, 900, 1, 0⟩, 0, 0⟩]

/-- The tick that handles the seventh stop. -/
def stops_1_to_7 : List step_t := before_stop_7 ++ [step_t.nav env_clear]

/-- The route is resumed once more (with `id_cnt = 2`) and the MCU reports an eighth
stop. -/
def before_stop_8 : List step_t :=
  stops_1_to_7 ++ [step_t.nav env_clear, step_t.uart ⟨0, 0, 0, 0, ⟨32, 900, 1, 0⟩, 0, 0⟩]

/-- The tick that handles the eighth stop. -/
def stops_1_to_8 : List step_t := before_stop_8 ++ [step_t.nav env_clear]

/-- The demo world at clock reading `t` (all clocks read `t`). -/
def env_at (t : Int) : Env :=
  { env_demo with t_gate := t, t_mark := t, t_live := t, t_cha := t, t_map := t, t_map2 := t }

/-- Driving to the first waypoint: a route to `(3000, 0)` is requested at clock 99 s,
the tick at 99.5 s starts it, and at 99.9 s the MCU reports the pose `(500, 0)` with
500 mm remaining for move id `0x20`. -/
def driving : List step_t :=
  [ step_t.client (env_at 99000000000) (client_msg.CR_ROUTE 3000 0 0),
    step_t.nav (env_at 99500000000),
    step_t.uart ⟨0, 500, 0, 99900000000, ⟨32, 500, 0, 0⟩, 0, 0⟩ ]

/-- A lidar scan tagged with the correction id 43, which is stale once charger stage 3
has published id 44. -/
def stale_scan : lidar_scan_t := ⟨43, 6, 0, ⟨0, 990, 0⟩⟩

/-- The client lowers the speed limit to 10 and raises it again to 45, which leaves
`cur_speedlim = 10`; then the robot drives as in `driving`. -/
def slow_driving : List step_t :=
  [ step_t.client (env_at 98000000000) (client_msg.CR_SPEEDLIM 10),
    step_t.client (env_at 98500000000) (client_msg.CR_SPEEDLIM 45) ] ++ driving

/-- Following a 17-waypoint route with `id_cnt = 7`: the MCU reports 50 mm remaining to
waypoint 14 (move id `0x7e`). -/
def at_waypoint_14 : Host :=
  { host_init with
    the_route := fun i => ⟨1000 * (i + 1), 0, 0, if i = 16 then 20 else 100, 0⟩,
    the_route_len := 17, do_follow_route := 1, route_pos := 14, id_cnt := 7,
    cur_x := 14950, cur_xymove := ⟨126, 50, 0, 0⟩ }

/-- A lidar scan tagged with the correction id 41, stale from the start (the id starts
at 42). -/
def stale_41 : lidar_scan_t := ⟨41, 6, 0, ⟨0, 0, 0⟩⟩

/-- Twenty scans tagged 41, each handled in the demo world. -/
def stale_20 : List (Env × lidar_scan_t) := List.replicate 20 (env_demo, stale_41)

/-- A significant, valid lidar scan tagged with correction id `id`. -/
def scan_with_id (id : Int) : lidar_scan_t := ⟨id, 6, 0, ⟨0, 100, 0⟩⟩

/-- Two scans tagged 42 are queued, 21 scans tagged 41 force the id to 43, and two scans
tagged 43 are queued. -/
def mixed_queue_feed : List (Env × lidar_scan_t) :=
  List.replicate 2 (env_demo, scan_with_id 42) ++ List.replicate 21 (env_demo, stale_41)
  ++ List.replicate 2 (env_demo, scan_with_id 43)

/-- Two scans tagged with the initial id 42. -/
def two_current : List (Env × lidar_scan_t) := List.replicate 2 (env_demo, scan_with_id 42)

/-- A 3D-ToF scan taken at pose `(x, 0)` with angle 0. -/
def tof_at (x : Int) : tof3d_scan_t := ⟨⟨0, x, 0⟩⟩

/-- The client lowers the speed limit to 10 and raises it again to 45: `cur_speedlim`
is left at 10 below `max_speedlim = 45`. -/
def lowered_speed : List step_t :=
  [ step_t.client (env_at 98000000000) (client_msg.CR_SPEEDLIM 10),
    step_t.client (env_at 98500000000) (client_msg.CR_SPEEDLIM 45) ]

/-- One iteration of the mapping loop at clock reading `t` with no scan waiting: the
first speed block, the second speed block, `lidar_handling`. -/
def mapping_iteration (t : Int) : List step_t :=
  [ step_t.ramp1 (env_at t), step_t.ramp2 (env_at t), step_t.lidar (env_at t) none ]

/-- World in which `check_direct_route_mm` always finds a direct route. -/
def env_direct : Env := { env_demo with check_direct_route_mm := fun _ _ _ _ _ => 1 }

/-- At the origin, on a route of two forward waypoints, the second one 50 m away at
`(50000, 0)`. -/
def on_long_route : Host :=
  { host_init with
    the_route := fun i => ⟨50000 * i, 0, 0, 100, 0⟩, the_route_len := 2, do_follow_route := 1 }

/-- At the origin, on a route of six forward waypoints `(300 i, 0)`, `i = 0..5`. -/
def on_dense_route : Host :=
  { host_init with
    the_route := fun i => ⟨300 * i, 0, 0, 100, 0⟩, the_route_len := 6, do_follow_route := 1 }

/-- World of the blocked robot at clock reading `t`: no line of sight, the planner
fails with return code 1, and `test_robot_turn_mm` answers `turn`. -/
def env_blocked (t turn : Int) : Env :=
  { env_demo with
    t_gate := t, t_mark := t, t_live := t, t_cha := t, t_map := t, t_map2 := t,
    search_route := fun _ _ _ _ _ _ => (1, []),
    test_robot_turn_mm := fun _ _ _ _ => turn }

/-- A route to `(3000, 0)` is requested and started, the MCU stops, and from then on
the robot is blocked: the tick at 10 s enters Recovery, the ticks at 11 s, 12.1 s, ...,
15.4 s run stages 1 to 5. -/
def blocked_to_stage6 : List step_t :=
  [ step_t.client env_demo (client_msg.CR_ROUTE 3000 0 0), step_t.nav env_demo,
    step_t.uart ⟨0, 0, 0, 0, ⟨32, 900, 1, 0⟩, 0, 0⟩,
    step_t.nav (env_blocked 10000000000 0),
    step_t.nav (env_blocked 11000000000 0),
    step_t.nav (env_blocked 12100000000 0),
    step_t.nav (env_blocked 13200000000 0),
    step_t.nav (env_blocked 14300000000 0),
    step_t.nav (env_blocked 15400000000 0) ]

/-- Stage 6 cannot turn and its reroute fails: daiju mode is switched on. -/
def daiju_from_stage6 : List step_t :=
  blocked_to_stage6 ++ [step_t.nav (env_blocked 16500000000 0)]

/-- The tick 5.1 s later: the first routing retry, which fails. -/
def retry_from_stage6 : List step_t :=
  daiju_from_stage6 ++ [step_t.nav (env_blocked 21600000000 0)]

/-- Stage 6 can turn, then stage 7 creeps three times. -/
def blocked_to_stage7 : List step_t := blocked_to_stage6 ++
  [ step_t.nav (env_blocked 16500000000 1),
    step_t.nav (env_blocked 19100000000 1),
    step_t.nav (env_blocked 21700000000 1),
    step_t.nav (env_blocked 24300000000 1) ]

/-- With the creeps used up the reroute of stage 7 fails: daiju mode is switched
on. -/
def daiju_from_stage7 : List step_t :=
  blocked_to_stage7 ++ [step_t.nav (env_blocked 26900000000 1)]

/-- MCU feedback of the stopped robot at the origin (move `0x20`, 900 mm remaining, stop
flag set). -/
def fb_stopped : mcu_feedback_t := ⟨0, 0, 0, 0, ⟨32, 900, 1, 0⟩, 0, 0⟩

/-- The blocked robot right after Recovery stage 6 has turned it towards the waypoint:
stage 7 with no creep made yet. -/
def at_stage7 : Host :=
  run host_init (blocked_to_stage6 ++ [step_t.nav (env_blocked 16500000000 1)])

/-- The blocked robot after the first, second and third gated stage 7 tick (2.6 s
apart), each followed by MCU feedback. -/
def creep_1 : Host := handle_uart fb_stopped (route_fsm (env_blocked 19100000000 1) at_stage7)

def creep_2 : Host := handle_uart fb_stopped (route_fsm (env_blocked 21700000000 1) creep_1)

def creep_3 : Host := handle_uart fb_stopped (route_fsm (env_blocked 24300000000 1) creep_2)

/-- The robot of `at_stage7` with its waypoint moved 50 m away, to `(50000, 0)`. -/
def at_stage7_far : Host := { at_stage7 with the_route := fun _ => ⟨50000, 0, 0, 100, 0⟩ }

/-- The robot of `at_stage7` with its waypoint 200 mm away, at `(200, 0)`. -/
def at_stage7_near : Host := { at_stage7 with the_route := fun _ => ⟨200, 0, 0, 100, 0⟩ }

/-- World of the blocked robot in which the 100 mm look-ahead reports one hit. -/
def env_hit (t : Int) : Env :=
  { env_blocked t 1 with check_direct_route_non_turning_hitcnt_mm := fun _ _ _ => 1 }

/-- Start of route following as `run_search` leaves it on a client's route command: the
three waypoints `(1000,0) (2000,0) (3000,0)` are stored (`take_next_early` 100, 100 and
20), `id_cnt = 2`, `start_route` is set and `cmd_state` is `TCP_CR_ROUTE_MID`. -/
def route_start : Host :=
  { host_init with
    the_route := fun i => ⟨1000 * (i + 1), 0, 0, if i = 2 then 20 else 100, 0⟩,
    the_route_len := 3, do_follow_route := 1, start_route := 1, route_pos := 0, id_cnt := 2,
    cmd_state := mid_t.CR_ROUTE }

/-- Ticks of the demo route after its start: at clock 1 s the MCU reports the pose
`(500, 0)` with 500 mm remaining for move `0x20` (on the way, the live obstacle check
runs and counts no hit), then 10 mm remaining for the moves `0x20` and `0x21` to the
first two waypoints, each report followed by a tick. -/
def demo_ticks : List (mcu_feedback_t × Env) :=
  [ (⟨0, 500, 0, 900000000, ⟨32, 500, 0, 0⟩, 0, 0⟩, env_at 1000000000),
    (⟨0, 990, 0, 0, ⟨32, 10, 0, 0⟩, 0, 0⟩, env_demo),
    (⟨0, 1990, 0, 0, ⟨33, 10, 0, 0⟩, 0, 0⟩, env_demo) ]

/-- The MCU reports 10 mm remaining for the move `0x22` to the third waypoint. -/
def demo_last_arrival : mcu_feedback_t := ⟨0, 2990, 0, 0, ⟨34, 10, 0, 0⟩, 0, 0⟩

/-- The demo world at clock reading `t` with an obstacle ahead: the look-ahead of the
live obstacle check counts 3 hits. -/
def env_obstacle (t : Int) : Env :=
  { env_at t with check_direct_route_non_turning_hitcnt_mm := fun _ _ _ => 3 }

/-- Ticks of the demo route after its start, with an obstacle that shows up and goes
away: on the way to the first waypoint (move `0x20`, 500 mm remaining, no stop flag) the
live obstacle check counts 3 hits; at the next tick, with the same feedback, there is a
line of sight again; then the MCU reports 10 mm remaining for the moves `0x30` and
`0x31`. -/
def stop_and_resume : List (mcu_feedback_t × Env) :=
  [ (⟨0, 500, 0, 900000000, ⟨32, 500, 0, 0⟩, 0, 0⟩, env_obstacle 1000000000),
    (⟨0, 500, 0, 900000000, ⟨32, 500, 0, 0⟩, 0, 0⟩, env_clear),
    (⟨0, 990, 0, 0, ⟨48, 10, 0, 0⟩, 0, 0⟩, env_demo),
    (⟨0, 1990, 0, 0, ⟨49, 10, 0, 0⟩, 0, 0⟩, env_demo) ]

/-- The MCU reports 10 mm remaining for the move `0x32` to the third waypoint. -/
def resumed_last_arrival : mcu_feedback_t := ⟨0, 2990, 0, 0, ⟨50, 10, 0, 0⟩, 0, 0⟩

/-- The route status messages in a log of outgoing calls. -/
def route_statuses : List cmd_t → List Int
  | [] => []
  | cmd_t.tcp_send_route_status r :: l => r :: route_statuses l
  | _ :: l => route_statuses l

/-- A state with four scans waiting in the scan-match queue. -/
def queue_of_4 : Host := { host_init with n_lidars_to_map := 4 }

/-- The same with the big search area switched on and eleven scans waiting. -/
def queue_of_11 : Host :=
  { host_init with n_lidars_to_map := 11, localize_with_big_search_area := 1 }

/-- Stage 6 cannot turn and its reroute finds a route (the demo world at 16.5 s). -/
def rerouted_from_stage6 : List step_t :=
  blocked_to_stage6 ++ [step_t.nav (env_at 16500000000)]

/-- The tick 1 ms after the successful reroute of stage 6. -/
def restart_after_reroute : List step_t :=
  rerouted_from_stage6 ++ [step_t.nav (env_at 16501000000)]

/-- The blocked robot in daiju mode after the failed reroute of stage 6, then a tick in
a world with a direct line of sight to the waypoint. -/
def los_after_daiju : List step_t := daiju_from_stage6 ++ [step_t.nav env_clear]

/-- The same, but the tick comes 5.1 s later in the demo world, whose planner finds a
route. -/
def rerouted_after_daiju : List step_t :=
  daiju_from_stage6 ++ [step_t.nav (env_at 21600000000)]

/-- The docking run to its end: after `hw_find_charger` the MCU reports `charging`, and
the tick at 100.006 s ends the charger procedure with success. -/
def dock_success : List step_t := dock_to_stage8 ++
  [ step_t.uart ⟨0, 1500, 0, 100005500000, ⟨127, 5, 0, 0⟩, 1, 0⟩,
    step_t.nav (env_dock 100006000000) ]

/-- After the successful docking a route to `(3000, 0)` is requested at 199 s and
started at 199.5 s, the MCU reports the pose `(500, 0)` at 199.9 s with 500 mm remaining
for move `0x30`, and a tick follows at 200.0 s. -/
def drive_after_dock : List step_t := dock_success ++
  [ step_t.client (env_at 199000000000) (client_msg.CR_ROUTE 3000 0 0),
    step_t.nav (env_at 199500000000),
    step_t.uart ⟨0, 500, 0, 199900000000, ⟨48, 500, 0, 0⟩, 0, 0⟩,
    step_t.nav (env_at 200000000000) ]

/-- The docking run aborted at stage 8 by a destination command. -/
def dock_aborted : List step_t := dock_to_stage8 ++
  [ step_t.client (env_dock 100005500000) (client_msg.CR_DEST 0 0 0) ]

/-! # Theorems -/

/-! ## Properties of `run_search` -/

theorem sqrtBits_spec (n b r : Nat) (h1 : r * r ≤ n) (h2 : n < (r + 2 ^ b) * (r + 2 ^ b)) :
    sqrtBits n b r * sqrtBits n b r ≤ n ∧
      n < (sqrtBits n b r + 1) * (sqrtBits n b r + 1) := by
  induction b generalizing r with
  | zero => simpa [sqrtBits] using ⟨h1, h2⟩
  | succ b ih =>
    unfold sqrtBits
    split
    · rename_i h
      apply ih _ h
      have hp : r + 2 ^ b + 2 ^ b = r + 2 ^ (b + 1) := by rw [pow_succ]; ring
      rw [hp]; exact h2
    · rename_i h
      exact ih _ h1 (not_le.mp h)

theorem sqrtBits_ge_start (n b r : Nat) : r ≤ sqrtBits n b r := by
  induction b generalizing r with
  | zero => simp [sqrtBits]
  | succ b ih =>
    unfold sqrtBits
    split
    · exact le_trans (Nat.le_add_right _ _) (ih _)
    · exact ih _

theorem sqrtBits_max (n b r m : Nat) (hr : r ≤ m) (hm : m < r + 2 ^ b) (hmn : m * m ≤ n) :
    m ≤ sqrtBits n b r := by
  induction b generalizing r with
  | zero => simp [sqrtBits]; omega
  | succ b ih =>
    unfold sqrtBits
    have hp : r + 2 ^ b + 2 ^ b = r + 2 ^ (b + 1) := by rw [pow_succ]; ring
    split
    · rename_i h
      by_cases hc : r + 2 ^ b ≤ m
      · exact ih _ hc (by omega)
      · exact le_trans (by omega) (sqrtBits_ge_start n b (r + 2 ^ b))
    · rename_i h
      apply ih _ hr
      by_contra hc
      have hle : r + 2 ^ b ≤ m := by omega
      exact h (le_trans (Nat.mul_le_mul hle hle) hmn)

/-- Below `2^64` the bitwise search is the integer square root. -/
theorem isqrt_eq_sqrt (n : Nat) (h : n < 2 ^ 64) : isqrt n = Nat.sqrt n := by
  have hs := sqrtBits_spec n 32 0 (by simp) (by simpa using (by omega : n < 2 ^ 32 * 2 ^ 32))
  exact (Nat.eq_sqrt.mpr hs).symm ▸ rfl

/-- The clamped quotient agrees with the one of the exact integer square root for
every argument (above `2^64` both are clamped to 250). -/
theorem clamp_isqrt (n : Nat) :
    clamp_early ((isqrt n / 10 : Nat) : Int) = clamp_early ((Nat.sqrt n / 10 : Nat) : Int) := by
  by_cases h : n < 2 ^ 64
  · rw [isqrt_eq_sqrt n h]
  · have h1 : 2510 ≤ isqrt n :=
      sqrtBits_max n 32 0 2510 (by omega) (by norm_num) (by omega)
    have h2 : 2510 ≤ Nat.sqrt n := Nat.le_sqrt.mpr (by omega)
    have h3 : 251 ≤ isqrt n / 10 := by omega
    have h4 : 251 ≤ Nat.sqrt n / 10 := by omega
    unfold clamp_early
    have h5 : ¬ (((isqrt n / 10 : Nat) : Int) < 50) := by omega
    have h6 : ¬ (((Nat.sqrt n / 10 : Nat) : Int) < 50) := by omega
    have h7 : (((isqrt n / 10 : Nat) : Int) > 250) := by omega
    have h8 : (((Nat.sqrt n / 10 : Nat) : Int) > 250) := by omega
    rw [if_neg h5, if_pos h7, if_neg h6, if_pos h8]

theorem clamp_early_range (v : Int) : 50 ≤ clamp_early v ∧ clamp_early v ≤ 250 := by
  unfold clamp_early
  split_ifs <;> omega

theorem fill_route_len (mm : Int → Int → Int × Int) (l : List route_unit_t) (k : Int)
    (r : Int → route_point_t) (h0 : 0 ≤ k) (hk : k < 200) :
    (fill_route mm l k r).2 = min (k + l.length) 200 := by
  induction l generalizing k r with
  | nil => simp [fill_route]; omega
  | cons rt rest ih =>
    unfold fill_route
    simp only [THE_ROUTE_MAX]
    split
    · simp only [List.length_cons]; push_cast; omega
    · rename_i h
      rw [ih (k + 1) _ (by omega) (by omega)]
      simp only [List.length_cons]; push_cast; omega

theorem fill_route_below (mm : Int → Int → Int × Int) (l : List route_unit_t) (k : Int)
    (r : Int → route_point_t) (j : Int) (hj : j < k) :
    (fill_route mm l k r).1 j = r j := by
  induction l generalizing k r with
  | nil => simp [fill_route]
  | cons rt rest ih =>
    unfold fill_route
    simp only [THE_ROUTE_MAX]
    have hne : j ≠ k := by omega
    split
    · simp [store, hne]
    · rw [ih (k + 1) _ (by omega)]
      simp [store, hne]

theorem fill_route_get (mm : Int → Int → Int × Int) (l : List route_unit_t) (k : Int)
    (r : Int → route_point_t) (i : Nat) (rt : route_unit_t) (hi : l[i]? = some rt)
    (hlt : k + i < 200) :
    ((fill_route mm l k r).1 (k + i)).x = (mm rt.loc_x rt.loc_y).1 ∧
    ((fill_route mm l k r).1 (k + i)).y = (mm rt.loc_x rt.loc_y).2 ∧
    ((fill_route mm l k r).1 (k + i)).backmode = rt.backmode := by
  induction l generalizing k r i with
  | nil => simp at hi
  | cons a rest ih =>
    unfold fill_route
    simp only [THE_ROUTE_MAX]
    cases i with
    | zero =>
      simp at hi
      subst hi
      split
      · simp [store]
      · rw [fill_route_below mm rest (k + 1) _ (k + (0 : Nat)) (by push_cast; omega)]
        simp [store]
    | succ i =>
      simp at hi
      have hk : ¬ (k + 1 ≥ 200) := by push_cast at hlt; omega
      rw [if_neg hk]
      have := ih (k + 1) (store r k
        { r k with x := (mm a.loc_x a.loc_y).1, y := (mm a.loc_x a.loc_y).2,
                   backmode := a.backmode, take_next_early := 100 }) i hi
        (by push_cast at hlt; omega)
      have he : k + ((i + 1 : Nat) : Int) = k + 1 + (i : Int) := by push_cast; ring
      rw [he]
      exact this

theorem early_body_xyb (len i : Int) (r : Int → route_point_t) (j : Int) :
    (early_body len i r j).x = (r j).x ∧ (early_body len i r j).y = (r j).y ∧
    (early_body len i r j).backmode = (r j).backmode := by
  unfold early_body store
  by_cases h1 : i < len - 1
  · by_cases h2 : j = i
    · subst h2; simp [h1]
    · simp [h1, h2]
  · simp [h1]

theorem early_loop_xyb (len : Int) (n : Nat) (r : Int → route_point_t) (j : Int) :
    (early_loop len n r j).x = (r j).x ∧ (early_loop len n r j).y = (r j).y ∧
    (early_loop len n r j).backmode = (r j).backmode := by
  induction n with
  | zero => simp [early_loop]
  | succ n ih =>
    unfold early_loop
    have := early_body_xyb len n (early_loop len n r) j
    exact ⟨this.1.trans ih.1, this.2.1.trans ih.2.1, this.2.2.trans ih.2.2⟩

theorem new_early_raw_congr (p q p1 q1 : route_point_t) (h1 : p.x = p1.x) (h2 : p.y = p1.y)
    (h3 : q.x = q1.x) (h4 : q.y = q1.y) : new_early_raw p q = new_early_raw p1 q1 := by
  unfold new_early_raw
  rw [h1, h2, h3, h4]

theorem early_loop_above (len : Int) (n : Nat) (r : Int → route_point_t) (j : Int)
    (hj : (n : Int) ≤ j) : early_loop len n r j = r j := by
  induction n with
  | zero => simp [early_loop]
  | succ n ih =>
    unfold early_loop early_body store
    have hne : j ≠ (n : Int) := by push_cast at hj; omega
    split_ifs
    · simp [hne]; exact ih (by push_cast at hj; omega)
    · exact ih (by push_cast at hj; omega)

theorem early_loop_set (len : Int) (n : Nat) (r : Int → route_point_t) (i : Nat)
    (hi : i < n) (hl : (i : Int) < len - 1) :
    (early_loop len n r i).take_next_early = clamp_early (new_early_raw (r i) (r (i + 1))) := by
  induction n with
  | zero => omega
  | succ n ih =>
    unfold early_loop
    by_cases hin : i = n
    · subst hin
      unfold early_body
      rw [if_pos hl]
      simp only [store, if_true]
      have a := early_loop_xyb len i r i
      have b := early_loop_xyb len i r (i + 1)
      rw [new_early_raw_congr _ _ _ _ a.1 a.2.1 b.1 b.2.1]
    · have hlt : i < n := by omega
      unfold early_body store
      have hne : (i : Int) ≠ (n : Int) := by omega
      split_ifs
      · simp [hne]; exact ih hlt
      · exact ih hlt

theorem run_search_the_route (e : Env) (s : Host) (dest_x dest_y dml no_tight : Int) :
    (run_search e s dest_x dest_y dml no_tight).1.the_route =
      store (early_loop (fill_route e.mm_from_unit_coords (planned e s dest_x dest_y no_tight) 0
                s.the_route).2
              (fill_route e.mm_from_unit_coords (planned e s dest_x dest_y no_tight) 0
                s.the_route).2.toNat
              (fill_route e.mm_from_unit_coords (planned e s dest_x dest_y no_tight) 0
                s.the_route).1)
        ((fill_route e.mm_from_unit_coords (planned e s dest_x dest_y no_tight) 0
                s.the_route).2 - 1)
        { (early_loop (fill_route e.mm_from_unit_coords (planned e s dest_x dest_y no_tight) 0
                s.the_route).2
              (fill_route e.mm_from_unit_coords (planned e s dest_x dest_y no_tight) 0
                s.the_route).2.toNat
              (fill_route e.mm_from_unit_coords (planned e s dest_x dest_y no_tight) 0
                s.the_route).1)
            ((fill_route e.mm_from_unit_coords (planned e s dest_x dest_y no_tight) 0
                s.the_route).2 - 1) with take_next_early := 20 } := by
  unfold run_search planned
  by_cases h1 : dml = 0 <;> by_cases h2 : (e.search_route s.cur_ang s.cur_x s.cur_y dest_x dest_y no_tight).2 = [] <;>
    simp [emit, h1, h2]

theorem run_search_found (e : Env) (s : Host) (dest_x dest_y dml no_tight : Int)
    (h : planned e s dest_x dest_y no_tight ≠ []) :
    (run_search e s dest_x dest_y dml no_tight).1.the_route_len =
        (fill_route e.mm_from_unit_coords (planned e s dest_x dest_y no_tight) 0 s.the_route).2 ∧
    (run_search e s dest_x dest_y dml no_tight).1.do_follow_route = 1 ∧
    (run_search e s dest_x dest_y dml no_tight).1.start_route = 1 ∧
    (run_search e s dest_x dest_y dml no_tight).1.route_pos = 0 ∧
    (run_search e s dest_x dest_y dml no_tight).1.route_finished_or_notfound = 0 ∧
    (run_search e s dest_x dest_y dml no_tight).1.lookaround_creep_reroute = 0 ∧
    (run_search e s dest_x dest_y dml no_tight).1.id_cnt = bump_id_cnt s.id_cnt := by
  unfold planned at h
  unfold run_search planned
  by_cases h1 : dml = 0 <;> simp [emit, h1, h]

theorem wrap32_id (v : Int) (h1 : -2147483648 ≤ v) (h2 : v < 2147483648) : wrap32 v = v := by
  unfold wrap32
  omega

/-- Below `2^31` the `int` sum of squares is the exact one. -/
theorem sq_sum_exact (dx dy : Int) (h : dx * dx + dy * dy < 2147483648) :
    sq_sum dx dy = dx * dx + dy * dy := by
  have hx : 0 ≤ dx * dx := mul_self_nonneg dx
  have hy : 0 ≤ dy * dy := mul_self_nonneg dy
  unfold sq_sum sq
  rw [wrap32_id (dx * dx) (by omega) (by omega), wrap32_id (dy * dy) (by omega) (by omega),
    wrap32_id _ (by omega) (by omega)]

theorem sq_sum_dist2 (x0 y0 x1 y1 : Int) (h : dist2 x0 y0 x1 y1 < 2147483648) :
    sq_sum (x1 - x0) (y1 - y0) = dist2 x0 y0 x1 y1 :=
  sq_sum_exact _ _ h

theorem dist2_comm (x0 y0 x1 y1 : Int) : dist2 x0 y0 x1 y1 = dist2 x1 y1 x0 y0 := by
  unfold dist2
  ring

theorem clamp_early_eq (v : Int) : clamp_early v = max 50 (min 250 v) := by
  unfold clamp_early
  split_ifs <;> omega

/-- For a segment whose squared length is below `2^31` the clamped `new_early` is the
clamped tenth of the exact length. -/
theorem clamp_new_early_raw (p q : route_point_t)
    (h : dist2 q.x q.y p.x p.y < 2147483648) :
    clamp_early (new_early_raw p q)
      = max 50 (min 250 ((Nat.sqrt (dist2 q.x q.y p.x p.y).toNat / 10 : Nat) : Int)) := by
  unfold new_early_raw
  rw [sq_sum_dist2 _ _ _ _ h, clamp_isqrt, clamp_early_eq]

/-- C1: for every route that `run_search` installs (planner list non-empty), the
installed length `L` is at least 1; every waypoint `i < L-1` gets a `take_next_early` in
`[50, 250]`, which is `clamp(trunc(segment_len_i / 10), 50, 250)` whenever the squared
length of segment `i` is below `2^31` (a segment shorter than 46341 mm, for which the
`int` arithmetic of `sq` is exact); and the terminal waypoint `L-1` gets
`take_next_early = 20`. -/
theorem c1_take_next_early (e : Env) (s : Host) (dest_x dest_y dml no_tight : Int)
    (hroute : planned e s dest_x dest_y no_tight ≠ []) :
    1 ≤ (run_search e s dest_x dest_y dml no_tight).1.the_route_len ∧
    (∀ i : Int, 0 ≤ i → i < (run_search e s dest_x dest_y dml no_tight).1.the_route_len - 1 →
      (50 ≤ ((run_search e s dest_x dest_y dml no_tight).1.the_route i).take_next_early ∧
        ((run_search e s dest_x dest_y dml no_tight).1.the_route i).take_next_early ≤ 250) ∧
      (segment_len2 (run_search e s dest_x dest_y dml no_tight).1.the_route i < 2147483648 →
        ((run_search e s dest_x dest_y dml no_tight).1.the_route i).take_next_early =
          max 50 (min 250 ((Nat.sqrt
            (segment_len2 (run_search e s dest_x dest_y dml no_tight).1.the_route i).toNat
              / 10 : Nat) : Int)))) ∧
    ((run_search e s dest_x dest_y dml no_tight).1.the_route
      ((run_search e s dest_x dest_y dml no_tight).1.the_route_len - 1)).take_next_early = 20 := by
  have hlen := (run_search_found e s dest_x dest_y dml no_tight hroute).1
  have hL := fill_route_len e.mm_from_unit_coords (planned e s dest_x dest_y no_tight) 0
    s.the_route (le_refl 0) (by norm_num)
  have hpos : 0 < (planned e s dest_x dest_y no_tight).length :=
    List.length_pos.mpr hroute
  rw [hlen, run_search_the_route]
  generalize hf : fill_route e.mm_from_unit_coords (planned e s dest_x dest_y no_tight) 0
    s.the_route = f at *
  have h1 : 1 ≤ f.2 := by rw [hL]; omega
  refine ⟨h1, ?_, ?_⟩
  · intro i h0 hi
    have hne : i ≠ f.2 - 1 := by omega
    have hset := early_loop_set f.2 f.2.toNat f.1 i.toNat (by omega) (by omega)
    have hi' : ((i.toNat : Nat) : Int) = i := Int.toNat_of_nonneg h0
    rw [hi'] at hset
    have a := early_loop_xyb f.2 f.2.toNat f.1 i
    have b := early_loop_xyb f.2 f.2.toNat f.1 (i + 1)
    have e1 : store (early_loop f.2 f.2.toNat f.1) (f.2 - 1)
        { early_loop f.2 f.2.toNat f.1 (f.2 - 1) with take_next_early := 20 } i
          = early_loop f.2 f.2.toNat f.1 i := by simp [store, hne]
    have e2 : segment_len2 (store (early_loop f.2 f.2.toNat f.1) (f.2 - 1)
        { early_loop f.2 f.2.toNat f.1 (f.2 - 1) with take_next_early := 20 }) i
          = dist2 (f.1 (i + 1)).x (f.1 (i + 1)).y (f.1 i).x (f.1 i).y := by
      unfold segment_len2
      rw [e1, a.1, a.2.1]
      by_cases hc : i + 1 = f.2 - 1
      · simp only [store, hc, if_true]
        rw [← hc, b.1, b.2.1]
      · simp only [store, hc, if_false]
        rw [b.1, b.2.1]
    rw [e1, e2, hset]
    refine ⟨clamp_early_range _, fun hb => ?_⟩
    have hx : 0 ≤ ((f.1 i).x - (f.1 (i + 1)).x) * ((f.1 i).x - (f.1 (i + 1)).x) :=
      mul_self_nonneg _
    have hy : 0 ≤ ((f.1 i).y - (f.1 (i + 1)).y) * ((f.1 i).y - (f.1 (i + 1)).y) :=
      mul_self_nonneg _
    have hsum : sq_sum ((f.1 i).x - (f.1 (i + 1)).x) ((f.1 i).y - (f.1 (i + 1)).y)
        = dist2 (f.1 (i + 1)).x (f.1 (i + 1)).y (f.1 i).x (f.1 i).y := by
      unfold dist2 at hb ⊢
      unfold sq_sum sq wrap32
      omega
    have hcl : ∀ v : Int, clamp_early v = max 50 (min 250 v) := by
      intro v
      unfold clamp_early
      split_ifs <;> omega
    unfold new_early_raw
    rw [hsum, clamp_isqrt, hcl]
  · simp [store]

/-- C2: when the planner yields a non-empty route of `n` waypoints, after `run_search`
the route buffer holds the first `min(n, 200)` planner waypoints in planner order,
`the_route_len = min(n, 200) <= 200`, `do_follow_route = 1`, `start_route = 1`,
`route_pos = 0`, `route_finished_or_notfound = 0`, `lookaround_creep_reroute = 0`, and
`id_cnt` has been bumped (`id_cnt+1`, wrapping 7 -> 1), which lies in `[1..7]` whenever
it was in `[0..7]` before. -/
theorem c2_route_installed (e : Env) (s : Host) (dest_x dest_y dml no_tight : Int)
    (hroute : planned e s dest_x dest_y no_tight ≠ []) :
    (∀ (i : Nat) (rt : route_unit_t),
      (planned e s dest_x dest_y no_tight)[i]? = some rt → i < 200 →
      ((run_search e s dest_x dest_y dml no_tight).1.the_route i).x
          = (e.mm_from_unit_coords rt.loc_x rt.loc_y).1 ∧
      ((run_search e s dest_x dest_y dml no_tight).1.the_route i).y
          = (e.mm_from_unit_coords rt.loc_x rt.loc_y).2 ∧
      ((run_search e s dest_x dest_y dml no_tight).1.the_route i).backmode = rt.backmode) ∧
    (run_search e s dest_x dest_y dml no_tight).1.the_route_len
        = min ((planned e s dest_x dest_y no_tight).length : Int) 200 ∧
    (run_search e s dest_x dest_y dml no_tight).1.the_route_len ≤ 200 ∧
    (run_search e s dest_x dest_y dml no_tight).1.do_follow_route = 1 ∧
    (run_search e s dest_x dest_y dml no_tight).1.start_route = 1 ∧
    (run_search e s dest_x dest_y dml no_tight).1.route_pos = 0 ∧
    (run_search e s dest_x dest_y dml no_tight).1.route_finished_or_notfound = 0 ∧
    (run_search e s dest_x dest_y dml no_tight).1.lookaround_creep_reroute = 0 ∧
    (run_search e s dest_x dest_y dml no_tight).1.id_cnt
        = (if s.id_cnt + 1 > 7 then 1 else s.id_cnt + 1) ∧
    (0 ≤ s.id_cnt → s.id_cnt ≤ 7 →
      1 ≤ (run_search e s dest_x dest_y dml no_tight).1.id_cnt ∧
      (run_search e s dest_x dest_y dml no_tight).1.id_cnt ≤ 7) := by
  obtain ⟨hlen, hf, hs, hp, hfin, hl, hid⟩ := run_search_found e s dest_x dest_y dml no_tight hroute
  have hL := fill_route_len e.mm_from_unit_coords (planned e s dest_x dest_y no_tight) 0
    s.the_route (le_refl 0) (by norm_num)
  simp only [zero_add] at hL
  refine ⟨?_, by rw [hlen, hL], by rw [hlen, hL]; omega, hf, hs, hp, hfin, hl,
    by rw [hid]; rfl, ?_⟩
  · intro i rt hi h200
    have hg := fill_route_get e.mm_from_unit_coords (planned e s dest_x dest_y no_tight) 0
      s.the_route i rt hi (by omega)
    simp only [zero_add] at hg
    rw [run_search_the_route]
    generalize fill_route e.mm_from_unit_coords (planned e s dest_x dest_y no_tight) 0
      s.the_route = f at *
    have a := early_loop_xyb f.2 f.2.toNat f.1 i
    have b := early_loop_xyb f.2 f.2.toNat f.1 (f.2 - 1)
    by_cases hc : (i : Int) = f.2 - 1
    · simp only [store, hc, if_true]
      rw [hc] at a hg
      exact ⟨a.1.trans hg.1, a.2.1.trans hg.2.1, a.2.2.trans hg.2.2⟩
    · simp only [store, hc, if_false]
      exact ⟨a.1.trans hg.1, a.2.1.trans hg.2.1, a.2.2.trans hg.2.2⟩
  · intro h0 h7
    rw [hid]
    unfold bump_id_cnt
    split_ifs <;> omega

/-- C1, instance on the demo world: the planner yields three waypoints 1000 mm apart;
waypoint 0 gets `take_next_early = clamp(1000 / 10, 50, 250) = 100` and the last one
gets 20. -/
theorem c1_take_next_early_witness :
    planned env_demo host_init 3000 0 1 ≠ [] ∧
    (0 : Int) < (run_search env_demo host_init 3000 0 0 1).1.the_route_len - 1 ∧
    segment_len2 (run_search env_demo host_init 3000 0 0 1).1.the_route 0 = 1000000 ∧
    ((run_search env_demo host_init 3000 0 0 1).1.the_route 0).take_next_early = 100 ∧
    ((run_search env_demo host_init 3000 0 0 1).1.the_route
      ((run_search env_demo host_init 3000 0 0 1).1.the_route_len - 1)).take_next_early
        = 20 := by
  have w := c1_take_next_early env_demo host_init 3000 0 0 1 (by decide)
  have h0 := (w.2.1 0 (by decide) (by decide)).2 (by decide)
  have hs : segment_len2 (run_search env_demo host_init 3000 0 0 1).1.the_route 0
      = 1000000 := by decide
  have hq : Nat.sqrt 1000000 = 1000 := (Nat.eq_sqrt.2 ⟨by decide, by decide⟩).symm
  have ht : (1000000 : Int).toNat = 1000000 := rfl
  rw [hs, ht, hq] at h0
  exact ⟨by decide, by decide, hs, h0.trans (by decide), w.2.2⟩

/-- Evaluation of `run_search` on a route with one segment of 50 m: the square of the
difference 50000 exceeds the `int` range, the wrapped sum is negative, and waypoint 0
gets `take_next_early = 50`, where the tenth of the segment length, 5000, is clamped to
250. -/
theorem run_search_long_segment :
    (run_search env_long host_init 50000 0 0 1).1.the_route_len = 2 ∧
    segment_len2 (run_search env_long host_init 50000 0 0 1).1.the_route 0 = 50000 * 50000 ∧
    sq_sum (0 - 50000) (0 - 0) = -1794967296 ∧
    ((run_search env_long host_init 50000 0 0 1).1.the_route 0).take_next_early = 50 ∧
    max 50 (min 250 (((5000 * 10) / 10 : Nat) : Int)) = 250 := by
  decide

/-- C2, instance on the demo world: the installed length is `min 3 200` and the route
is being followed. -/
theorem c2_route_installed_witness :
    planned env_demo host_init 3000 0 1 ≠ [] ∧
    (run_search env_demo host_init 3000 0 0 1).1.the_route_len
        = min ((planned env_demo host_init 3000 0 1).length : Int) 200 ∧
    (run_search env_demo host_init 3000 0 0 1).1.do_follow_route = 1 :=
  ⟨by decide, (c2_route_installed env_demo host_init 3000 0 0 1 (by decide)).2.1,
   (c2_route_installed env_demo host_init 3000 0 0 1 (by decide)).2.2.2.1⟩

/-- Evaluation of `run_search` on the demo world: three waypoints 1000 mm apart get
`take_next_early` 100, 100, 20. -/
theorem run_search_demo :
    (run_search env_demo host_init 3000 0 0 1).1.the_route_len = 3 ∧
    ((run_search env_demo host_init 3000 0 0 1).1.the_route 0).take_next_early = 100 ∧
    ((run_search env_demo host_init 3000 0 0 1).1.the_route 1).take_next_early = 100 ∧
    ((run_search env_demo host_init 3000 0 0 1).1.the_route 2).take_next_early = 20 ∧
    ((run_search env_demo host_init 3000 0 0 1).1.the_route 2).x = 3000 ∧
    (run_search env_demo host_init 3000 0 0 1).1.id_cnt = 2 ∧
    (run_search env_demo host_init 3000 0 0 1).1.pos_corr_id = 43 ∧
    (run_search env_demo host_init 3000 0 0 1).1.out =
      [cmd_t.send_info info_state_t.THINK, cmd_t.map_lidars 4 [none, none, none, none],
       cmd_t.correct_robot_pos 1 (-2) 3 43, cmd_t.tcp_send_route 3] := by
  decide

/-! ## Log projections -/

theorem live_calls_append (l1 l2 : List cmd_t) :
    live_calls (l1 ++ l2) = live_calls l1 ++ live_calls l2 := by
  induction l1 with
  | nil => simp [live_calls]
  | cons c l ih => cases c <;> simp [live_calls, ih]

theorem corr_ids_append (l1 l2 : List cmd_t) :
    corr_ids (l1 ++ l2) = corr_ids l1 ++ corr_ids l2 := by
  induction l1 with
  | nil => simp [corr_ids]
  | cons c l ih => cases c <;> simp [corr_ids, ih]

theorem routing_requests_append (l1 l2 : List cmd_t) :
    routing_requests (l1 ++ l2) = routing_requests l1 + routing_requests l2 := by
  induction l1 with
  | nil => simp [routing_requests]
  | cons c l ih => cases c <;> simp [routing_requests, ih]; omega

theorem replay_ids_append (p : Int) (l1 l2 : List Int) :
    replay_ids p (l1 ++ l2) = (replay_ids p l1).bind (fun q => replay_ids q l2) := by
  induction l1 generalizing p with
  | nil => simp [replay_ids]
  | cons i l ih =>
    simp only [List.cons_append, replay_ids]
    split_ifs
    · exact ih i
    · rfl

theorem INCR_POS_CORR_ID_eq (p : Int) (h0 : 0 ≤ p) (h1 : p ≤ 99) :
    INCR_POS_CORR_ID p = (p + 1) % 100 ∧ 0 ≤ INCR_POS_CORR_ID p ∧ INCR_POS_CORR_ID p ≤ 99 := by
  unfold INCR_POS_CORR_ID
  split_ifs <;> omega

/-- Appending a call that is no correction does not change the correction invariant. -/
theorem corr_ok_snoc_other (p0 : Int) (l : List cmd_t) (c : cmd_t) (id : Int)
    (hc : corr_ids [c] = []) : corr_ok p0 (l ++ [c]) id ↔ corr_ok p0 l id := by
  unfold corr_ok
  rw [corr_ids_append, hc, List.append_nil]

/-- Appending a correction that carries the incremented id keeps the invariant for the
incremented id. -/
theorem corr_ok_append_incr (p0 : Int) (l : List cmd_t) (id a b c : Int)
    (h : corr_ok p0 l id) :
    corr_ok p0 (l ++ [cmd_t.correct_robot_pos a b c (INCR_POS_CORR_ID id)])
      (INCR_POS_CORR_ID id) := by
  unfold corr_ok at *
  obtain ⟨h0, h1, h2⟩ := h
  obtain ⟨e1, e2, e3⟩ := INCR_POS_CORR_ID_eq id h0 h1
  refine ⟨e2, e3, ?_⟩
  rw [corr_ids_append, replay_ids_append, h2]
  simp [corr_ids, replay_ids, e1]

/-! ## `run_search` and the routing handshake -/

theorem run_search_frameA (e : Env) (s : Host) (a b c d : Int) :
    frameA (run_search e s a b c d).1 = frameA s := by
  unfold run_search frameA
  simp only [↓apply_ite Host.cur_speedlim, ↓apply_ite Host.max_speedlim,
    ↓apply_ite Host.live_prev_incr, ↓apply_ite Host.find_charger_state,
    ↓apply_ite Host.live_obstacle_checking_on, ↓apply_ite Host.robot_pos_timestamp,
    ↓apply_ite Host.out, apply_ite live_calls, live_calls_append, live_calls,
    List.append_nil, emit, ite_self]

theorem run_search_lcr (e : Env) (s : Host) (a b c d : Int) :
    (run_search e s a b c d).1.lookaround_creep_reroute = 0 := by
  unfold run_search
  simp only [↓apply_ite Host.lookaround_creep_reroute, emit, ite_self]

theorem request_routing_frameA (e : Env) (s : Host) :
    frameA (request_routing e s) = frameA s := by
  have h := run_search_frameA e
    (emit (cmd_t.need_routing s.dest_x s.dest_y s.dont_map_lidars s.no_tight) s)
    s.dest_x s.dest_y s.dont_map_lidars s.no_tight
  unfold request_routing
  unfold frameA at *
  simpa [emit, live_calls_append, live_calls] using h

theorem rr_cur (e : Env) (s : Host) : (request_routing e s).cur_speedlim = s.cur_speedlim :=
  congrArg (fun t => t.1) (request_routing_frameA e s)

theorem rr_max (e : Env) (s : Host) : (request_routing e s).max_speedlim = s.max_speedlim :=
  congrArg (fun t => t.2.1) (request_routing_frameA e s)

theorem rr_prev (e : Env) (s : Host) :
    (request_routing e s).live_prev_incr = s.live_prev_incr :=
  congrArg (fun t => t.2.2.1) (request_routing_frameA e s)

theorem rr_fcs (e : Env) (s : Host) :
    (request_routing e s).find_charger_state = s.find_charger_state :=
  congrArg (fun t => t.2.2.2.1) (request_routing_frameA e s)

theorem rr_loc (e : Env) (s : Host) :
    (request_routing e s).live_obstacle_checking_on = s.live_obstacle_checking_on :=
  congrArg (fun t => t.2.2.2.2.1) (request_routing_frameA e s)

theorem rr_pts (e : Env) (s : Host) :
    (request_routing e s).robot_pos_timestamp = s.robot_pos_timestamp :=
  congrArg (fun t => t.2.2.2.2.2.1) (request_routing_frameA e s)

theorem rr_live (e : Env) (s : Host) :
    live_calls (request_routing e s).out = live_calls s.out :=
  congrArg (fun t => t.2.2.2.2.2.2) (request_routing_frameA e s)

theorem rr_lcr (e : Env) (s : Host) : (request_routing e s).lookaround_creep_reroute = 0 := by
  unfold request_routing
  simp only [run_search_lcr]

/-! ## Recovery -/

theorem los_resume_frameA (e : Env) (s : Host) : frameA (los_resume e s) = frameA s := by
  unfold los_resume frameA
  simp only [↓apply_ite Host.cur_speedlim, ↓apply_ite Host.max_speedlim,
    ↓apply_ite Host.live_prev_incr, ↓apply_ite Host.find_charger_state,
    ↓apply_ite Host.live_obstacle_checking_on, ↓apply_ite Host.robot_pos_timestamp,
    ↓apply_ite Host.out, apply_ite live_calls, live_calls_append, live_calls,
    List.append_nil, emit, ite_self]

theorem start_route_step_frameA (s : Host) : frameA (start_route_step s) = frameA s := by
  unfold start_route_step frameA
  simp only [↓apply_ite Host.cur_speedlim, ↓apply_ite Host.max_speedlim,
    ↓apply_ite Host.live_prev_incr, ↓apply_ite Host.find_charger_state,
    ↓apply_ite Host.live_obstacle_checking_on, ↓apply_ite Host.robot_pos_timestamp,
    ↓apply_ite Host.out, apply_ite live_calls, live_calls_append, live_calls,
    List.append_nil, emit, ite_self]

theorem send_route_end_status_frameA (e : Env) (r : Int) (s : Host) :
    frameA (send_route_end_status e r s) = frameA s := by
  unfold send_route_end_status frameA
  simp only [↓apply_ite Host.cur_speedlim, ↓apply_ite Host.max_speedlim,
    ↓apply_ite Host.live_prev_incr, ↓apply_ite Host.find_charger_state,
    ↓apply_ite Host.live_obstacle_checking_on, ↓apply_ite Host.robot_pos_timestamp,
    ↓apply_ite Host.out, apply_ite live_calls, live_calls_append, live_calls,
    List.append_nil, emit, ite_self]

theorem lookaround_probe_frameA (e : Env) (s : Host) (a b c : Int) :
    frameA (lookaround_probe e s a b c) = frameA s := by
  unfold lookaround_probe frameA
  simp only [↓apply_ite Host.cur_speedlim, ↓apply_ite Host.max_speedlim,
    ↓apply_ite Host.live_prev_incr, ↓apply_ite Host.find_charger_state,
    ↓apply_ite Host.live_obstacle_checking_on, ↓apply_ite Host.robot_pos_timestamp,
    ↓apply_ite Host.out, apply_ite live_calls, live_calls_append, live_calls,
    List.append_nil, emit, ite_self]

theorem stage6_act_frameA (e : Env) (s : Host) : frameA (stage6_act e s) = frameA s := by
  unfold stage6_act frameA
  simp only [↓apply_ite Host.cur_speedlim, ↓apply_ite Host.max_speedlim,
    ↓apply_ite Host.live_prev_incr, ↓apply_ite Host.find_charger_state,
    ↓apply_ite Host.live_obstacle_checking_on, ↓apply_ite Host.robot_pos_timestamp,
    ↓apply_ite Host.out, apply_ite live_calls, live_calls_append, live_calls,
    List.append_nil, emit, ite_self, rr_cur, rr_max, rr_prev, rr_fcs, rr_loc, rr_pts, rr_live]

theorem stage7_act_frameA (e : Env) (s : Host) : frameA (stage7_act e s) = frameA s := by
  unfold stage7_act send_route_end_status frameA
  simp only [↓apply_ite Host.cur_speedlim, ↓apply_ite Host.max_speedlim,
    ↓apply_ite Host.live_prev_incr, ↓apply_ite Host.find_charger_state,
    ↓apply_ite Host.live_obstacle_checking_on, ↓apply_ite Host.robot_pos_timestamp,
    ↓apply_ite Host.out, apply_ite live_calls, live_calls_append, live_calls,
    List.append_nil, emit, ite_self, rr_cur, rr_max, rr_prev, rr_fcs, rr_loc, rr_pts, rr_live]

theorem daiju_retry_act_frameA (e : Env) (s : Host) :
    frameA (daiju_retry_act e s) = frameA s := by
  unfold daiju_retry_act send_route_end_status frameA
  simp only [↓apply_ite Host.cur_speedlim, ↓apply_ite Host.max_speedlim,
    ↓apply_ite Host.live_prev_incr, ↓apply_ite Host.find_charger_state,
    ↓apply_ite Host.live_obstacle_checking_on, ↓apply_ite Host.robot_pos_timestamp,
    ↓apply_ite Host.out, apply_ite live_calls, live_calls_append, live_calls,
    List.append_nil, emit, ite_self, rr_cur, rr_max, rr_prev, rr_fcs, rr_loc, rr_pts, rr_live]

theorem recovery_step_frameA (e : Env) (s : Host) : frameA (recovery_step e s) = frameA s := by
  unfold recovery_step
  simp only [↓apply_ite frameA, lookaround_probe_frameA, stage6_act_frameA, stage7_act_frameA,
    daiju_retry_act_frameA, ite_self]
  unfold frameA
  simp only [↓apply_ite Host.cur_speedlim, ↓apply_ite Host.max_speedlim,
    ↓apply_ite Host.live_prev_incr, ↓apply_ite Host.find_charger_state,
    ↓apply_ite Host.live_obstacle_checking_on, ↓apply_ite Host.robot_pos_timestamp,
    ↓apply_ite Host.out, apply_ite live_calls, live_calls_append, live_calls,
    List.append_nil, emit, ite_self, rr_cur, rr_max, rr_prev, rr_fcs, rr_loc, rr_pts, rr_live]

theorem emit_out (c : cmd_t) (s : Host) : (emit c s).out = s.out ++ [c] := rfl

theorem emit_pos_corr_id (c : cmd_t) (s : Host) : (emit c s).pos_corr_id = s.pos_corr_id := rfl

/-! ## The correction id invariant through the navigation code -/

theorem corr_inv_emit (c : cmd_t) (s : Host) (p0 : Int) (hc : corr_ids [c] = [])
    (h : corr_inv p0 s) : corr_inv p0 (emit c s) := by
  unfold corr_inv at *
  rw [emit_out, emit_pos_corr_id, corr_ok_snoc_other _ _ _ _ hc]
  exact h

/-- A state with the same log and the same `pos_corr_id` has the same invariant. -/
theorem corr_inv_congr (p0 : Int) (s s1 : Host) (ho : s1.out = s.out)
    (hp : s1.pos_corr_id = s.pos_corr_id) (h : corr_inv p0 s) : corr_inv p0 s1 := by
  unfold corr_inv at *
  rw [ho, hp]
  exact h

theorem run_search_corr (e : Env) (s : Host) (a b c d p0 : Int) (h : corr_inv p0 s) :
    corr_inv p0 (run_search e s a b c d).1 := by
  unfold corr_inv at *
  unfold run_search
  simp only [↓apply_ite Host.out, ↓apply_ite Host.pos_corr_id, emit]
  split_ifs <;> simp only [corr_ok_snoc_other, corr_ids] <;>
    first
    | exact h
    | (apply corr_ok_append_incr; simp only [corr_ok_snoc_other, corr_ids]; exact h)

theorem request_routing_corr (e : Env) (s : Host) (p0 : Int) (h : corr_inv p0 s) :
    corr_inv p0 (request_routing e s) := by
  unfold request_routing
  exact corr_inv_congr p0 _ _ rfl rfl
    (run_search_corr e _ _ _ _ _ p0 (corr_inv_emit _ s p0 rfl h))

theorem send_route_end_status_corr (e : Env) (r : Int) (s : Host) (p0 : Int)
    (h : corr_inv p0 s) : corr_inv p0 (send_route_end_status e r s) := by
  unfold corr_inv at *
  unfold send_route_end_status
  simp only [↓apply_ite Host.out, ↓apply_ite Host.pos_corr_id, emit]
  split_ifs <;> (try simp only [corr_ok_snoc_other, corr_ids]) <;> exact h

theorem los_resume_corr (e : Env) (s : Host) (p0 : Int) (h : corr_inv p0 s) :
    corr_inv p0 (los_resume e s) := by
  unfold corr_inv at *
  unfold los_resume
  simp only [↓apply_ite Host.out, ↓apply_ite Host.pos_corr_id, emit]
  split_ifs <;> (try simp only [corr_ok_snoc_other, corr_ids]) <;> exact h

theorem start_route_step_corr (s : Host) (p0 : Int) (h : corr_inv p0 s) :
    corr_inv p0 (start_route_step s) := by
  unfold corr_inv at *
  unfold start_route_step
  simp only [↓apply_ite Host.out, ↓apply_ite Host.pos_corr_id, emit]
  split_ifs <;> (try simp only [corr_ok_snoc_other, corr_ids]) <;> exact h

theorem lookaround_probe_corr (e : Env) (s : Host) (a b c p0 : Int) (h : corr_inv p0 s) :
    corr_inv p0 (lookaround_probe e s a b c) := by
  unfold corr_inv at *
  unfold lookaround_probe
  simp only [↓apply_ite Host.out, ↓apply_ite Host.pos_corr_id, emit]
  split_ifs <;> (try simp only [corr_ok_snoc_other, corr_ids]) <;> exact h

theorem stage6_act_corr (e : Env) (s : Host) (p0 : Int) (h : corr_inv p0 s) :
    corr_inv p0 (stage6_act e s) := by
  have h1 := request_routing_corr e s p0 h
  unfold corr_inv at *
  unfold stage6_act
  simp only [↓apply_ite Host.out, ↓apply_ite Host.pos_corr_id, emit]
  split_ifs <;> (try simp only [corr_ok_snoc_other, corr_ids]) <;>
    first
    | with_reducible exact h
    | with_reducible exact h1

theorem stage7_act_corr (e : Env) (s : Host) (p0 : Int) (h : corr_inv p0 s) :
    corr_inv p0 (stage7_act e s) := by
  have h1 := request_routing_corr e s p0 h
  have h2 := send_route_end_status_corr e e.reret _ p0 h1
  unfold corr_inv at *
  unfold stage7_act
  simp only [↓apply_ite Host.out, ↓apply_ite Host.pos_corr_id, emit]
  split_ifs <;> (try simp only [corr_ok_snoc_other, corr_ids]) <;>
    first
    | with_reducible exact h
    | with_reducible exact h1
    | with_reducible exact h2

theorem daiju_retry_act_corr (e : Env) (s : Host) (p0 : Int) (h : corr_inv p0 s) :
    corr_inv p0 (daiju_retry_act e s) := by
  have h1 := request_routing_corr e _ p0 (corr_inv_emit (cmd_t.daiju_mode 0) s p0 rfl h)
  have h2 := send_route_end_status_corr e e.reret _ p0 h1
  unfold corr_inv at *
  unfold daiju_retry_act
  simp only [↓apply_ite Host.out, ↓apply_ite Host.pos_corr_id, emit_out, emit_pos_corr_id]
  split_ifs <;> (try simp only [corr_ok_snoc_other, corr_ids]) <;>
    first
    | with_reducible exact h1
    | with_reducible exact h2

/-- Case split of a state predicate over a state-level conditional. -/
theorem pred_ite (P : Host → Prop) (c : Prop) [Decidable c] (a b : Host)
    (ha : c → P a) (hb : ¬ c → P b) : P (if c then a else b) := by
  split_ifs with h
  · exact ha h
  · exact hb h

theorem recovery_step_corr (e : Env) (s : Host) (p0 : Int) (h : corr_inv p0 s) :
    corr_inv p0 (recovery_step e s) := by
  unfold recovery_step
  repeat' (with_reducible apply pred_ite (corr_inv p0) <;> intro _)
  all_goals
    first
    | exact h
    | exact lookaround_probe_corr e s _ _ _ p0 h
    | exact stage6_act_corr e _ p0 (corr_inv_congr p0 s _ rfl rfl h)
    | exact stage7_act_corr e s p0 h
    | exact daiju_retry_act_corr e s p0 h
    | exact corr_inv_congr p0 _ _ rfl rfl (request_routing_corr e s p0 h)
    | exact corr_inv_congr p0 _ _ rfl rfl
        (corr_inv_emit (cmd_t.turn_and_go_abs_rel _ _ _ _) _ p0 rfl
          (corr_inv_congr p0 s _ rfl rfl h))

/-! ## The follow-route block -/

/-- The skipping loop only changes `route_pos`. -/
theorem skip_loop_eq (e : Env) (n : Nat) (s : Host) :
    skip_loop e n s = { s with route_pos := (skip_loop e n s).route_pos } := by
  induction n generalizing s with
  | zero => rfl
  | succ n ih =>
    unfold skip_loop
    split_ifs
    · rw [ih]
    · rfl
    · rfl

theorem skip_points_eq (e : Env) (s : Host) :
    skip_points e s = { s with route_pos := (skip_points e s).route_pos } := by
  unfold skip_points
  exact skip_loop_eq e _ s

theorem skip_points_out (e : Env) (s : Host) : (skip_points e s).out = s.out := by
  rw [skip_points_eq]

theorem skip_points_pos_corr_id (e : Env) (s : Host) :
    (skip_points e s).pos_corr_id = s.pos_corr_id := by
  rw [skip_points_eq]

theorem skip_points_frameA (e : Env) (s : Host) : frameA (skip_points e s) = frameA s := by
  rw [skip_points_eq]
  rfl

theorem do_live_obstacle_checking_corr (e : Env) (s : Host) (p0 : Int) (h : corr_inv p0 s) :
    corr_inv p0 (do_live_obstacle_checking e s) := by
  unfold corr_inv at *
  unfold do_live_obstacle_checking
  simp only [↓apply_ite Host.out, ↓apply_ite Host.pos_corr_id, emit]
  split_ifs <;> (try simp only [corr_ok_snoc_other, corr_ids]) <;> exact h

theorem live_check_step_corr (e : Env) (s : Host) (p0 : Int) (h : corr_inv p0 s) :
    corr_inv p0 (live_check_step e s) := by
  unfold live_check_step
  repeat' (with_reducible apply pred_ite (corr_inv p0) <;> intro _)
  all_goals
    first
    | exact h
    | exact corr_inv_congr p0 s _ rfl rfl h
    | exact do_live_obstacle_checking_corr e _ p0
        (corr_inv_emit (cmd_t.live_obstacle_check _ _) _ p0 rfl (corr_inv_congr p0 s _ rfl rfl h))

theorem follow_route_step_corr (e : Env) (s : Host) (p0 : Int) (h : corr_inv p0 s) :
    corr_inv p0 (follow_route_step e s) := by
  unfold follow_route_step
  repeat' (with_reducible apply pred_ite (corr_inv p0) <;> intro _)
  all_goals
    first
    | exact h
    | exact request_routing_corr e s p0 h
    | (unfold corr_inv at *
       simp only [↓apply_ite Host.out, ↓apply_ite Host.pos_corr_id, emit_out, emit_pos_corr_id,
         skip_points_out, skip_points_pos_corr_id, corr_ok_snoc_other, corr_ids, ite_self]
       exact h)
    | (apply send_route_end_status_corr
       unfold corr_inv at *
       simp only [↓apply_ite Host.out, ↓apply_ite Host.pos_corr_id, emit_out, emit_pos_corr_id,
         skip_points_out, skip_points_pos_corr_id, corr_ok_snoc_other, corr_ids, ite_self]
       exact h)
    | (apply live_check_step_corr
       unfold corr_inv at *
       simp only [↓apply_ite Host.out, ↓apply_ite Host.pos_corr_id, emit_out, emit_pos_corr_id,
         skip_points_out, skip_points_pos_corr_id, corr_ok_snoc_other, corr_ids, ite_self]
       exact h)

/-! ## Charger procedure, whole navigation iteration -/

/-- Case split of a predicate over a conditional. -/
theorem pred_ite2 {α : Type} (P : α → Prop) (c : Prop) [Decidable c] (a b : α)
    (ha : c → P a) (hb : ¬ c → P b) : P (if c then a else b) := by
  split_ifs with h
  · exact ha h
  · exact hb h

theorem request_routing_corr_ok (e : Env) (s : Host) (p0 : Int) (h : corr_inv p0 s) :
    corr_ok p0 (request_routing e s).out (request_routing e s).pos_corr_id :=
  request_routing_corr e s p0 h

theorem find_charger_procedure_corr (e : Env) (s : Host) (p0 : Int) (h : corr_inv p0 s) :
    corr_inv p0 (find_charger_procedure e s).1 := by
  have h1 : corr_ok p0 s.out s.pos_corr_id := h
  unfold find_charger_procedure
  repeat' (with_reducible apply pred_ite2 (fun r : Host × Int => corr_inv p0 r.1) <;> intro _)
  all_goals
    show corr_inv p0 _
    unfold corr_inv
    try simp only [emit_out, emit_pos_corr_id, corr_ok_snoc_other, corr_ids]
    first
    | exact h1
    | (apply corr_ok_append_incr; simp only [corr_ok_snoc_other, corr_ids]; exact h1)
    | (apply request_routing_corr_ok
       unfold corr_inv
       simp only [emit_out, emit_pos_corr_id, corr_ok_snoc_other, corr_ids]
       exact h1)

theorem charger_step_corr (e : Env) (s : Host) (p0 : Int) (h : corr_inv p0 s) :
    corr_inv p0 (charger_step e s) := by
  unfold charger_step
  split_ifs
  · exact find_charger_procedure_corr e s p0 h
  · exact h

theorem route_fsm_corr (e : Env) (s : Host) (p0 : Int) (h : corr_inv p0 s) :
    corr_inv p0 (route_fsm e s) := by
  unfold route_fsm
  exact charger_step_corr e _ p0 (follow_route_step_corr e _ p0
    (start_route_step_corr _ p0 (recovery_step_corr e _ p0 (los_resume_corr e s p0 h))))

/-! ## Mapping and command operations -/

theorem lidar_queue_step_corr (e : Env) (s : Host) (p : lidar_scan_t) (p0 : Int)
    (h : corr_inv p0 s) : corr_inv p0 (lidar_queue_step e s p) := by
  unfold corr_inv at *
  unfold lidar_queue_step
  simp only [↓apply_ite Host.out, ↓apply_ite Host.pos_corr_id, emit_out, emit_pos_corr_id]
  split_ifs <;> (try simp only [corr_ok_snoc_other, corr_ids]) <;>
    first
    | exact h
    | (apply corr_ok_append_incr; simp only [corr_ok_snoc_other, corr_ids]; exact h)

theorem lidar_display_corr (e : Env) (s : Host) (p : lidar_scan_t) (p0 : Int)
    (h : corr_inv p0 s) : corr_inv p0 (lidar_display e s p) := by
  unfold corr_inv at *
  unfold lidar_display
  simp only [↓apply_ite Host.out, ↓apply_ite Host.pos_corr_id, emit, ite_self]
  split_ifs <;> (try simp only [corr_ok_snoc_other, corr_ids]) <;> exact h

theorem lidar_ignore_corr (s : Host) (p0 : Int) (h : corr_inv p0 s) :
    corr_inv p0 (lidar_ignore s) := by
  unfold corr_inv at *
  unfold lidar_ignore
  simp only [↓apply_ite Host.out, ↓apply_ite Host.pos_corr_id, emit, ite_self]
  split_ifs
  · exact corr_ok_append_incr _ _ _ _ _ _ h
  · exact h

theorem lidar_accept_corr (e : Env) (s : Host) (p : lidar_scan_t) (p0 : Int)
    (h : corr_inv p0 s) : corr_inv p0 (lidar_accept e s p) := by
  unfold corr_inv at *
  unfold lidar_accept
  simp only [↓apply_ite Host.out, ↓apply_ite Host.pos_corr_id, emit, ite_self]
  split_ifs <;> (try simp only [corr_ok_snoc_other, corr_ids]) <;> exact h

theorem lidar_handling_corr (e : Env) (s : Host) (p_lid : Option lidar_scan_t) (p0 : Int)
    (h : corr_inv p0 s) : corr_inv p0 (lidar_handling e s p_lid) := by
  cases p_lid with
  | none => exact h
  | some p =>
    unfold lidar_handling
    simp only []
    split_ifs
    · exact lidar_ignore_corr _ p0 (lidar_display_corr e s p p0 h)
    · exact lidar_queue_step_corr e _ p p0
        (lidar_accept_corr e _ p p0 (lidar_display_corr e s p p0 h))
    · exact lidar_accept_corr e _ p p0 (lidar_display_corr e s p p0 h)

theorem speed_ramp_1_corr (e : Env) (s : Host) (p0 : Int) (h : corr_inv p0 s) :
    corr_inv p0 (speed_ramp_1 e s) := by
  unfold corr_inv at *
  unfold speed_ramp_1
  simp only [↓apply_ite Host.out, ↓apply_ite Host.pos_corr_id, emit_out, emit_pos_corr_id]
  split_ifs <;> (try simp only [corr_ok_snoc_other, corr_ids]) <;> exact h

theorem speed_ramp_2_corr (e : Env) (s : Host) (p0 : Int) (h : corr_inv p0 s) :
    corr_inv p0 (speed_ramp_2 e s) := by
  unfold corr_inv at *
  unfold speed_ramp_2
  simp only [↓apply_ite Host.out, ↓apply_ite Host.pos_corr_id, emit_out, emit_pos_corr_id]
  split_ifs <;> (try simp only [corr_ok_snoc_other, corr_ids]) <;> exact h

theorem conf_charger_pos_corr (e : Env) (s : Host) (p0 : Int) (h : corr_inv p0 s) :
    corr_inv p0 (conf_charger_pos e s) := by
  unfold corr_inv at *
  unfold conf_charger_pos
  simp only [emit_out, emit_pos_corr_id, corr_ok_snoc_other, corr_ids]
  apply corr_ok_append_incr
  simp only [corr_ok_snoc_other, corr_ids]
  exact h

theorem cmd_mode_corr (e : Env) (s : Host) (mode p0 : Int) (h : corr_inv p0 s) :
    corr_inv p0 (cmd_mode e s mode) := by
  have h1 : corr_ok p0 s.out s.pos_corr_id := h
  unfold cmd_mode
  repeat' (with_reducible apply pred_ite (corr_inv p0) <;> intro _)
  all_goals
    first
    | with_reducible exact h
    | with_reducible exact conf_charger_pos_corr e s p0 h
    | (unfold corr_inv
       simp only [set_map_loca, emit_out, emit_pos_corr_id, corr_ok_snoc_other, corr_ids]
       exact h1)

theorem corr_ok_append_others (p0 : Int) (l l2 : List cmd_t) (id : Int)
    (h2 : corr_ids l2 = []) (h : corr_ok p0 l id) : corr_ok p0 (l ++ l2) id := by
  unfold corr_ok at *
  rw [corr_ids_append, h2, List.append_nil]
  exact h

theorem remconstraint_points_corr (x y : Int) : corr_ids (remconstraint_points x y) = [] := by
  simp [remconstraint_points, corr_ids]

theorem cmd_from_client_to_host_corr (e : Env) (s : Host) (msg : client_msg) (p0 : Int)
    (h : corr_inv p0 s) : corr_inv p0 (cmd_from_client_to_host e s msg) := by
  have h1 : corr_ok p0 s.out s.pos_corr_id := h
  cases msg with
  | CR_MODE mode => exact cmd_mode_corr e s mode p0 h
  | CR_REMCONSTRAINT x y =>
    exact corr_ok_append_others p0 _ _ _ (remconstraint_points_corr x y) h1
  | CR_ROUTE x y d =>
    unfold cmd_from_client_to_host
    simp only []
    with_reducible apply pred_ite (corr_inv p0) <;> intro _
    all_goals
      first
      | apply send_route_end_status_corr
      | skip
      apply request_routing_corr
      unfold corr_inv
      simp only [emit_out, emit_pos_corr_id, corr_ok_snoc_other, corr_ids]
      exact h1
  | CR_SETPOS a x y =>
    unfold cmd_from_client_to_host cmd_setpos corr_inv
    simp only [emit_out, emit_pos_corr_id, corr_ok_snoc_other, corr_ids]
    apply corr_ok_append_incr
    simp only [corr_ok_snoc_other, corr_ids]
    exact h1
  | _ =>
    unfold cmd_from_client_to_host corr_inv
    simp only [↓apply_ite Host.out, ↓apply_ite Host.pos_corr_id, emit_out, emit_pos_corr_id,
      read_charger_pos, cmd_speedlim]
    (try split) <;> (try split_ifs) <;>
      (try simp only [↓apply_ite Host.out, ↓apply_ite Host.pos_corr_id, emit_out,
        emit_pos_corr_id, corr_ok_snoc_other, corr_ids, ite_self]) <;>
      exact h1

theorem step_corr (s : Host) (st : step_t) (p0 : Int) (h : corr_inv p0 s) :
    corr_inv p0 (step s st) := by
  cases st with
  | nav e => exact route_fsm_corr e s p0 h
  | lidar e p_lid => exact lidar_handling_corr e s p_lid p0 h
  | ramp1 e => exact speed_ramp_1_corr e s p0 h
  | ramp2 e => exact speed_ramp_2_corr e s p0 h
  | client e msg =>
    exact cmd_from_client_to_host_corr e _ msg p0 (corr_inv_congr p0 s _ rfl rfl h)
  | uart fb => exact corr_inv_congr p0 s _ rfl rfl h

/-! ## Speed and live obstacle check invariants -/

theorem frameA_F (s s1 : Host) (h : frameA s1 = frameA s) : frameF s1 = frameF s := by
  unfold frameA at h
  unfold frameF
  simp only [Prod.mk.injEq] at h ⊢
  exact ⟨h.2.1, h.2.2.2.1, h.2.2.2.2.1, h.2.2.2.2.2.1⟩

theorem frameA_G (s s1 : Host) (h : frameA s1 = frameA s) : frameG s1 = frameG s := by
  unfold frameA at h
  unfold frameG
  simp only [Prod.mk.injEq] at h ⊢
  exact ⟨h.1, h.2.1, h.2.2.1, h.2.2.2.2.2.1, h.2.2.2.2.2.2⟩

theorem speed_inv_of_frameG (s s1 : Host) (h : frameG s1 = frameG s) (hs : speed_inv s) :
    speed_inv s1 := by
  unfold frameG at h
  unfold speed_inv at *
  simp only [Prod.mk.injEq] at h
  rw [h.1, h.2.1]
  exact hs

theorem live_inv_of_frameG (s s1 : Host) (h : frameG s1 = frameG s) (hs : live_inv s) :
    live_inv s1 := by
  unfold frameG at h
  unfold live_inv live_ok live_stamps at *
  simp only [Prod.mk.injEq] at h
  rw [h.2.2.1, h.2.2.2.2]
  exact hs

theorem do_live_obstacle_checking_frame (e : Env) (s : Host) :
    frameF (do_live_obstacle_checking e s) = frameF s ∧
    (do_live_obstacle_checking e s).live_prev_incr = s.live_prev_incr ∧
    live_calls (do_live_obstacle_checking e s).out = live_calls s.out := by
  unfold do_live_obstacle_checking frameF
  simp only [↓apply_ite Host.max_speedlim, ↓apply_ite Host.live_prev_incr,
    ↓apply_ite Host.find_charger_state, ↓apply_ite Host.live_obstacle_checking_on,
    ↓apply_ite Host.robot_pos_timestamp, ↓apply_ite Host.out, apply_ite live_calls,
    live_calls_append, live_calls, List.append_nil, emit, ite_self, and_self]

theorem do_live_obstacle_checking_speed (e : Env) (s : Host) (hs : speed_inv s) :
    speed_inv (do_live_obstacle_checking e s) := by
  unfold speed_inv at *
  unfold do_live_obstacle_checking
  simp only [↓apply_ite Host.max_speedlim, ↓apply_ite Host.cur_speedlim, emit, ite_self]
  split_ifs <;> omega

theorem live_check_step_frameF (e : Env) (s : Host) :
    frameF (live_check_step e s) = frameF s := by
  unfold live_check_step
  simp only [↓apply_ite frameF, (do_live_obstacle_checking_frame e _).1]
  unfold frameF
  simp only [emit, ite_self]

theorem live_check_step_speed (e : Env) (s : Host) (hs : speed_inv s) :
    speed_inv (live_check_step e s) := by
  unfold live_check_step
  repeat' (with_reducible apply pred_ite speed_inv <;> intro _)
  all_goals
    first
    | exact hs
    | exact do_live_obstacle_checking_speed e _ hs

/-- Appending a call made at `t` with pose stamp `p` keeps the invariant when the pose
is at most 0.2 s old and `t` is more than 0.1 s after the previous cadence stamp. -/
theorem live_ok_snoc (out : List cmd_t) (prev t p : Int) (h : live_ok out prev)
    (hfresh : ¬ p < t - 200000000) (hgap : t > prev + 100000000) :
    live_ok (out ++ [cmd_t.live_obstacle_check t p]) t := by
  unfold live_ok live_stamps at *
  obtain ⟨h1, h2, h3⟩ := h
  simp only [live_calls_append, live_calls, List.map_append, List.map_cons, List.map_nil,
    List.mem_append, List.mem_singleton]
  refine ⟨?_, ?_, ?_⟩
  · intro c hc
    rcases hc with hc | hc
    · exact h1 c hc
    · subst hc
      show t - p ≤ 200000000
      omega
  · rw [List.chain'_append]
    refine ⟨h2, List.chain'_singleton _, ?_⟩
    intro x hx y hy
    simp only [List.head?_cons, Option.mem_def, Option.some.injEq] at hy
    subst hy
    have := h3 x (List.mem_of_mem_getLast? hx)
    unfold gap100ms
    omega
  · intro x hx
    rcases hx with hx | hx
    · have := h3 x hx; omega
    · omega

theorem live_ok_mono (out : List cmd_t) (prev t : Int) (h : live_ok out prev) (ht : prev ≤ t) :
    live_ok out t := by
  unfold live_ok at *
  exact ⟨h.1, h.2.1, fun x hx => le_trans (h.2.2 x hx) ht⟩

theorem live_check_step_live (e : Env) (s : Host) (hs : live_inv s) :
    live_inv (live_check_step e s) := by
  unfold live_check_step
  repeat' (with_reducible apply pred_ite live_inv <;> intro _)
  · rename_i hgap _
    exact live_ok_mono s.out s.live_prev_incr e.t_live hs (by omega)
  · rename_i hgap hfresh
    unfold live_inv
    rw [(do_live_obstacle_checking_frame e _).2.1, show live_ok _ _ = live_ok _ _ from rfl]
    unfold live_ok live_stamps
    rw [(do_live_obstacle_checking_frame e _).2.2]
    exact live_ok_snoc s.out s.live_prev_incr e.t_live s.robot_pos_timestamp hs hfresh hgap
  · exact hs

/-! ## Field forms of the frame lemmas -/

theorem sp_cur (e : Env) (s : Host) :
    (skip_points e s).cur_speedlim = s.cur_speedlim :=
  congrArg (fun t => t.1) (skip_points_frameA e s)

theorem sp_max (e : Env) (s : Host) :
    (skip_points e s).max_speedlim = s.max_speedlim :=
  congrArg (fun t => t.2.1) (skip_points_frameA e s)

theorem sp_prev (e : Env) (s : Host) :
    (skip_points e s).live_prev_incr = s.live_prev_incr :=
  congrArg (fun t => t.2.2.1) (skip_points_frameA e s)

theorem sp_fcs (e : Env) (s : Host) :
    (skip_points e s).find_charger_state = s.find_charger_state :=
  congrArg (fun t => t.2.2.2.1) (skip_points_frameA e s)

theorem sp_loc (e : Env) (s : Host) :
    (skip_points e s).live_obstacle_checking_on = s.live_obstacle_checking_on :=
  congrArg (fun t => t.2.2.2.2.1) (skip_points_frameA e s)

theorem sp_pts (e : Env) (s : Host) :
    (skip_points e s).robot_pos_timestamp = s.robot_pos_timestamp :=
  congrArg (fun t => t.2.2.2.2.2.1) (skip_points_frameA e s)

theorem sp_live (e : Env) (s : Host) :
    live_calls (skip_points e s).out = live_calls s.out :=
  congrArg (fun t => t.2.2.2.2.2.2) (skip_points_frameA e s)

theorem sres_cur (e : Env) (r : Int) (s : Host) :
    (send_route_end_status e r s).cur_speedlim = s.cur_speedlim :=
  congrArg (fun t => t.1) (send_route_end_status_frameA e r s)

theorem sres_max (e : Env) (r : Int) (s : Host) :
    (send_route_end_status e r s).max_speedlim = s.max_speedlim :=
  congrArg (fun t => t.2.1) (send_route_end_status_frameA e r s)

theorem sres_prev (e : Env) (r : Int) (s : Host) :
    (send_route_end_status e r s).live_prev_incr = s.live_prev_incr :=
  congrArg (fun t => t.2.2.1) (send_route_end_status_frameA e r s)

theorem sres_fcs (e : Env) (r : Int) (s : Host) :
    (send_route_end_status e r s).find_charger_state = s.find_charger_state :=
  congrArg (fun t => t.2.2.2.1) (send_route_end_status_frameA e r s)

theorem sres_loc (e : Env) (r : Int) (s : Host) :
    (send_route_end_status e r s).live_obstacle_checking_on = s.live_obstacle_checking_on :=
  congrArg (fun t => t.2.2.2.2.1) (send_route_end_status_frameA e r s)

theorem sres_pts (e : Env) (r : Int) (s : Host) :
    (send_route_end_status e r s).robot_pos_timestamp = s.robot_pos_timestamp :=
  congrArg (fun t => t.2.2.2.2.2.1) (send_route_end_status_frameA e r s)

theorem sres_live (e : Env) (r : Int) (s : Host) :
    live_calls (send_route_end_status e r s).out = live_calls s.out :=
  congrArg (fun t => t.2.2.2.2.2.2) (send_route_end_status_frameA e r s)

/-! ## Invariants of the follow-route block and of the charger procedure -/

theorem lcs_max (e : Env) (s : Host) : (live_check_step e s).max_speedlim = s.max_speedlim :=
  congrArg (fun t => t.1) (live_check_step_frameF e s)

theorem lcs_fcs (e : Env) (s : Host) :
    (live_check_step e s).find_charger_state = s.find_charger_state :=
  congrArg (fun t => t.2.1) (live_check_step_frameF e s)

theorem lcs_loc (e : Env) (s : Host) :
    (live_check_step e s).live_obstacle_checking_on = s.live_obstacle_checking_on :=
  congrArg (fun t => t.2.2.1) (live_check_step_frameF e s)

theorem lcs_pts (e : Env) (s : Host) :
    (live_check_step e s).robot_pos_timestamp = s.robot_pos_timestamp :=
  congrArg (fun t => t.2.2.2) (live_check_step_frameF e s)

theorem follow_route_step_frameF (e : Env) (s : Host) :
    frameF (follow_route_step e s) = frameF s := by
  unfold follow_route_step
  repeat' (with_reducible apply pred_ite (fun x => frameF x = frameF s) <;> intro _)
  all_goals
    show frameF _ = frameF s
    unfold frameF
    simp only [↓apply_ite Host.max_speedlim, ↓apply_ite Host.find_charger_state,
      ↓apply_ite Host.live_obstacle_checking_on, ↓apply_ite Host.robot_pos_timestamp,
      emit, ite_self, rr_max, rr_fcs, rr_loc, rr_pts, sp_max, sp_fcs, sp_loc, sp_pts,
      sres_max, sres_fcs, sres_loc, sres_pts, lcs_max, lcs_fcs, lcs_loc, lcs_pts]

theorem follow_route_step_speed (e : Env) (s : Host) (hs : speed_inv s) :
    speed_inv (follow_route_step e s) := by
  have h0 : 0 < s.cur_speedlim ∧ s.cur_speedlim ≤ s.max_speedlim ∧ s.max_speedlim ≤ 70 := hs
  unfold follow_route_step
  repeat' (with_reducible apply pred_ite speed_inv <;> intro _)
  all_goals
    first
    | exact hs
    | (unfold speed_inv
       simp only [↓apply_ite Host.max_speedlim, ↓apply_ite Host.cur_speedlim,
         emit, ite_self, rr_max, rr_cur, sp_max, sp_cur, sres_max, sres_cur]
       exact h0)
    | (apply live_check_step_speed
       unfold speed_inv
       simp only [↓apply_ite Host.max_speedlim, ↓apply_ite Host.cur_speedlim,
         emit, ite_self]
       exact h0)

theorem follow_route_step_live (e : Env) (s : Host) (hs : live_inv s) :
    live_inv (follow_route_step e s) := by
  have h0 : live_ok s.out s.live_prev_incr := hs
  unfold live_ok live_stamps at h0
  unfold follow_route_step
  repeat' (with_reducible apply pred_ite live_inv <;> intro _)
  all_goals
    first
    | exact hs
    | (unfold live_inv live_ok live_stamps
       simp only [↓apply_ite Host.out, ↓apply_ite Host.live_prev_incr, emit, ite_self,
         live_calls_append, live_calls, List.append_nil, rr_prev, rr_live, sp_prev, sp_live,
         sres_prev, sres_live, skip_points_out]
       exact h0)
    | (apply live_check_step_live
       unfold live_inv live_ok live_stamps
       simp only [↓apply_ite Host.out, ↓apply_ite Host.live_prev_incr, emit, ite_self]
       exact h0)

theorem find_charger_procedure_frameG (e : Env) (s : Host) :
    frameG (find_charger_procedure e s).1 = frameG s := by
  unfold find_charger_procedure
  show same_frameG s _
  repeat' (with_reducible apply pred_ite2 (same_frameG s) <;> intro _)
  all_goals
    show frameG _ = frameG s
    unfold frameG
    simp only [emit, rr_cur, rr_max, rr_prev, rr_pts, rr_live, live_calls_append, live_calls,
      List.append_nil]

theorem charger_step_frameG (e : Env) (s : Host) : frameG (charger_step e s) = frameG s := by
  unfold charger_step
  split_ifs
  · exact find_charger_procedure_frameG e s
  · rfl

/-! ## Invariants of every operation of the host -/

theorem frameG_L (s s1 : Host) (h : frameG s1 = frameG s) : frameL s1 = frameL s := by
  unfold frameG at h
  unfold frameL
  simp only [Prod.mk.injEq] at h ⊢
  exact ⟨h.2.2.1, h.2.2.2.2⟩

theorem live_inv_of_frameL (s s1 : Host) (h : frameL s1 = frameL s) (hs : live_inv s) :
    live_inv s1 := by
  unfold frameL at h
  unfold live_inv live_ok live_stamps at *
  simp only [Prod.mk.injEq] at h
  rw [h.1, h.2]
  exact hs

theorem route_fsm_speed (e : Env) (s : Host) (hs : speed_inv s) : speed_inv (route_fsm e s) := by
  unfold route_fsm
  refine speed_inv_of_frameG _ _ (charger_step_frameG e _) ?_
  refine follow_route_step_speed e _ ?_
  refine speed_inv_of_frameG _ _ (frameA_G _ _ (start_route_step_frameA _)) ?_
  refine speed_inv_of_frameG _ _ (frameA_G _ _ (recovery_step_frameA e _)) ?_
  exact speed_inv_of_frameG _ _ (frameA_G _ _ (los_resume_frameA e s)) hs

theorem route_fsm_live (e : Env) (s : Host) (hs : live_inv s) : live_inv (route_fsm e s) := by
  unfold route_fsm
  refine live_inv_of_frameG _ _ (charger_step_frameG e _) ?_
  refine follow_route_step_live e _ ?_
  refine live_inv_of_frameG _ _ (frameA_G _ _ (start_route_step_frameA _)) ?_
  refine live_inv_of_frameG _ _ (frameA_G _ _ (recovery_step_frameA e _)) ?_
  exact live_inv_of_frameG _ _ (frameA_G _ _ (los_resume_frameA e s)) hs

theorem lidar_handling_frameG (e : Env) (s : Host) (p_lid : Option lidar_scan_t) :
    frameG (lidar_handling e s p_lid) = frameG s := by
  cases p_lid with
  | none => rfl
  | some p =>
    unfold lidar_handling lidar_queue_step lidar_accept lidar_ignore lidar_display frameG
    simp only [↓apply_ite Host.cur_speedlim, ↓apply_ite Host.max_speedlim,
      ↓apply_ite Host.live_prev_incr, ↓apply_ite Host.robot_pos_timestamp,
      ↓apply_ite Host.out, apply_ite live_calls, live_calls_append, live_calls,
      List.append_nil, emit, ite_self]

theorem speed_ramp_1_frameL (e : Env) (s : Host) : frameL (speed_ramp_1 e s) = frameL s := by
  unfold speed_ramp_1 frameL
  simp only [↓apply_ite Host.live_prev_incr, ↓apply_ite Host.out, apply_ite live_calls,
    live_calls_append, live_calls, List.append_nil, emit, ite_self]

theorem speed_ramp_2_frameL (e : Env) (s : Host) : frameL (speed_ramp_2 e s) = frameL s := by
  unfold speed_ramp_2 frameL
  simp only [↓apply_ite Host.live_prev_incr, ↓apply_ite Host.out, apply_ite live_calls,
    live_calls_append, live_calls, List.append_nil, emit, ite_self]

theorem speed_ramp_1_speed (e : Env) (s : Host) (hs : speed_inv s) :
    speed_inv (speed_ramp_1 e s) := by
  unfold speed_inv at *
  unfold speed_ramp_1
  simp only [↓apply_ite Host.max_speedlim, ↓apply_ite Host.cur_speedlim, emit, ite_self]
  split_ifs <;> omega

theorem speed_ramp_2_speed (e : Env) (s : Host) (hs : speed_inv s) :
    speed_inv (speed_ramp_2 e s) := by
  unfold speed_inv at *
  unfold speed_ramp_2
  simp only [↓apply_ite Host.max_speedlim, ↓apply_ite Host.cur_speedlim, emit, ite_self]
  split_ifs <;> omega

theorem cmd_speedlim_speed (s : Host) (v : Int) (hs : speed_inv s) :
    speed_inv (cmd_speedlim s v) := by
  unfold speed_inv at *
  unfold cmd_speedlim MAX_CONFIGURABLE_SPEEDLIM DEFAULT_SPEEDLIM
  simp only [↓apply_ite Host.max_speedlim, ↓apply_ite Host.cur_speedlim, emit, ite_self]
  split_ifs <;> omega

theorem live_calls_remconstraint (x y : Int) : live_calls (remconstraint_points x y) = [] := by
  simp [remconstraint_points, live_calls]

theorem cmd_mode_frameL (e : Env) (s : Host) (mode : Int) :
    frameL (cmd_mode e s mode) = frameL s := by
  unfold cmd_mode
  show same_frameL s _
  repeat' (with_reducible apply pred_ite (same_frameL s) <;> intro _)
  all_goals
    show frameL _ = frameL s
    unfold frameL
    simp only [conf_charger_pos, set_map_loca, live_calls_append, live_calls,
      List.append_nil, emit]

set_option maxHeartbeats 1000000 in
theorem cmd_from_client_to_host_frameL (e : Env) (s : Host) (msg : client_msg) :
    frameL (cmd_from_client_to_host e s msg) = frameL s := by
  cases msg with
  | CR_MODE mode => exact cmd_mode_frameL e s mode
  | _ =>
    unfold cmd_from_client_to_host frameL
    simp only [read_charger_pos, cmd_speedlim, cmd_setpos, send_route_end_status,
      ↓apply_ite Host.live_prev_incr, ↓apply_ite Host.out, apply_ite live_calls,
      live_calls_append, live_calls, live_calls_remconstraint, List.append_nil, emit,
      ite_self, rr_prev, rr_live]
    try (split <;> simp only [live_calls_append, live_calls, List.append_nil])

theorem step_live (s : Host) (st : step_t) (hs : live_inv s) : live_inv (step s st) := by
  cases st with
  | nav e => exact route_fsm_live e s hs
  | lidar e p_lid => exact live_inv_of_frameG _ _ (lidar_handling_frameG e s p_lid) hs
  | ramp1 e => exact live_inv_of_frameL _ _ (speed_ramp_1_frameL e s) hs
  | ramp2 e => exact live_inv_of_frameL _ _ (speed_ramp_2_frameL e s) hs
  | client e msg =>
    exact live_inv_of_frameL _ _ (cmd_from_client_to_host_frameL e _ msg)
      (live_inv_of_frameL s _ rfl hs)
  | uart fb => exact live_inv_of_frameL s _ rfl hs

theorem run_append (s : Host) (l : List step_t) (st : step_t) :
    run s (l ++ [st]) = step (run s l) st := by
  unfold run
  rw [List.foldl_append]
  rfl

theorem run_live (l : List step_t) : live_inv (run host_init l) := by
  induction l using List.reverseRecOn with
  | nil =>
    show live_ok [] 0
    unfold live_ok live_stamps
    simp [live_calls]
  | append_singleton l st ih =>
    rw [run_append]
    exact step_live _ st ih

theorem cmd_mode_speed (e : Env) (s : Host) (mode : Int) (hs : speed_inv s) :
    speed_inv (cmd_mode e s mode) := by
  have h0 : 0 < s.cur_speedlim ∧ s.cur_speedlim ≤ s.max_speedlim ∧ s.max_speedlim ≤ 70 := hs
  unfold cmd_mode
  repeat' (with_reducible apply pred_ite speed_inv <;> intro _)
  all_goals
    unfold speed_inv
    try simp only [conf_charger_pos, set_map_loca, emit]
    exact h0

set_option maxHeartbeats 1000000 in
theorem cmd_from_client_to_host_speed (e : Env) (s : Host) (msg : client_msg)
    (hs : speed_inv s) : speed_inv (cmd_from_client_to_host e s msg) := by
  have h0 : 0 < s.cur_speedlim ∧ s.cur_speedlim ≤ s.max_speedlim ∧ s.max_speedlim ≤ 70 := hs
  cases msg with
  | CR_MODE mode => exact cmd_mode_speed e s mode hs
  | CR_SPEEDLIM v => exact cmd_speedlim_speed s v hs
  | _ =>
    unfold cmd_from_client_to_host speed_inv
    simp only [read_charger_pos, cmd_setpos, send_route_end_status,
      ↓apply_ite Host.cur_speedlim, ↓apply_ite Host.max_speedlim, emit,
      ite_self, rr_cur, rr_max]
    first
    | exact h0
    | (split <;> exact h0)

theorem step_speed (s : Host) (st : step_t) (hs : speed_inv s) : speed_inv (step s st) := by
  cases st with
  | nav e => exact route_fsm_speed e s hs
  | lidar e p_lid => exact speed_inv_of_frameG _ _ (lidar_handling_frameG e s p_lid) hs
  | ramp1 e => exact speed_ramp_1_speed e s hs
  | ramp2 e => exact speed_ramp_2_speed e s hs
  | client e msg => exact cmd_from_client_to_host_speed e _ msg hs
  | uart fb => exact hs

theorem run_corr (l : List step_t) : corr_inv 42 (run host_init l) := by
  induction l using List.reverseRecOn with
  | nil =>
    show corr_ok 42 [] 42
    unfold corr_ok
    simp [corr_ids, replay_ids]
  | append_singleton l st ih =>
    rw [run_append]
    exact step_corr _ st 42 ih

/-- C4: `pos_corr_id` starts at 42 and, in every state the host reaches (any
interleaving of navigation iterations, lidar ingestions, speed ramps, client commands
and MCU feedback), lies in `[0, 99]`; the ids passed to `correct_robot_pos` after
start-up, in order, are 43, 44, ... each being the previous value of `pos_corr_id` plus
one modulo 100, and the last one passed is the current value of `pos_corr_id`.  This
covers every call site: scan match and distorted-scan mapping and stale-id fix in
`lidar_handling`, route-start correction in `run_search`, charger stage 3,
`conf_charger_pos` and `CR_SETPOS`. -/
theorem c4_pos_corr_id (l : List step_t) :
    host_init.pos_corr_id = 42 ∧
    0 ≤ (run host_init l).pos_corr_id ∧ (run host_init l).pos_corr_id ≤ 99 ∧
    replay_ids 42 (corr_ids (run host_init l).out) = some (run host_init l).pos_corr_id :=
  ⟨rfl, run_corr l⟩

/-- C5: the speed invariant `0 < cur_speedlim <= max_speedlim <= 70` holds initially and
is preserved by the `CR_SPEEDLIM` command, by both ramp blocks of the mapping loop and by
`SPEED(18)` in the live obstacle check; moreover every operation of the host preserves
it. -/
theorem c5_speed_invariant (e : Env) (s : Host) (v : Int) (st : step_t) (hs : speed_inv s) :
    speed_inv host_init ∧
    speed_inv (cmd_from_client_to_host e s (client_msg.CR_SPEEDLIM v)) ∧
    speed_inv (speed_ramp_1 e s) ∧
    speed_inv (speed_ramp_2 e s) ∧
    speed_inv (do_live_obstacle_checking e s) ∧
    speed_inv (step s st) := by
  refine ⟨?_, cmd_speedlim_speed s v hs, speed_ramp_1_speed e s hs, speed_ramp_2_speed e s hs,
    do_live_obstacle_checking_speed e s hs, step_speed s st hs⟩
  unfold speed_inv host_init
  decide

/-- Witness of C5 at a state where the ramp is active: `cur_speedlim = 10` below
`max_speedlim = 30`, after `CR_SPEEDLIM 30`. -/
theorem c5_speed_invariant_witness :
    speed_inv { host_init with cur_speedlim := 10, max_speedlim := 30 } ∧
    speed_inv (speed_ramp_2 env_demo { host_init with cur_speedlim := 10, max_speedlim := 30 }) :=
  ⟨by unfold speed_inv; decide,
   (c5_speed_invariant env_demo { host_init with cur_speedlim := 10, max_speedlim := 30 } 30
      (step_t.ramp1 env_demo) (by unfold speed_inv; decide)).2.2.2.1⟩

theorem live_check_step_no_call (e : Env) (s : Host)
    (h : s.robot_pos_timestamp < e.t_live - 200000000) :
    live_calls (live_check_step e s).out = live_calls s.out := by
  unfold live_check_step
  simp only [↓apply_ite Host.out, h, if_true, ite_self]

theorem follow_route_step_no_call (e : Env) (s : Host)
    (h : s.robot_pos_timestamp < e.t_live - 200000000 ∨ s.live_obstacle_checking_on = 0) :
    live_calls (follow_route_step e s).out = live_calls s.out := by
  unfold follow_route_step
  show same_calls s _
  repeat' (with_reducible apply pred_ite (same_calls s) <;> intro _)
  all_goals
    show live_calls _ = live_calls s.out
    first
    | rfl
    | (simp only [↓apply_ite Host.out, emit, ite_self, live_calls_append, live_calls,
         List.append_nil, rr_live, sres_live, skip_points_out])
    | (rename_i hloc
       simp only [↓apply_ite Host.live_obstacle_checking_on, ite_self] at hloc
       rcases h with h | h
       · rw [live_check_step_no_call e _ (by
           simp only [↓apply_ite Host.robot_pos_timestamp, ite_self]; exact h)]
         simp only [↓apply_ite Host.out, ite_self]
       · exact absurd h hloc)

theorem route_fsm_no_call (e : Env) (s : Host)
    (h : s.robot_pos_timestamp < e.t_live - 200000000 ∨ s.live_obstacle_checking_on = 0) :
    live_calls (route_fsm e s).out = live_calls s.out := by
  have h1 := los_resume_frameA e s
  have h2 := recovery_step_frameA e (los_resume e s)
  have h3 := start_route_step_frameA (recovery_step e (los_resume e s))
  have h4 := (h3.trans h2).trans h1
  have h5 := charger_step_frameG e
    (follow_route_step e (start_route_step (recovery_step e (los_resume e s))))
  unfold frameA at h4
  unfold frameG at h5
  simp only [Prod.mk.injEq] at h4 h5
  unfold route_fsm
  rw [h5.2.2.2.2, follow_route_step_no_call e _ (by
    rw [h4.2.2.2.2.2.1, h4.2.2.2.2.1]; exact h)]
  exact h4.2.2.2.2.2.2

/-- C6: in every state the host reaches, every call of `do_live_obstacle_checking` was
made with a pose at most 0.2 s old (`stamp - robot_pos_timestamp <= 0.2 s`), and any two
consecutive calls are more than 0.1 s apart; and an iteration of `route_fsm` that finds
the pose staler than that makes no call. -/
theorem c6_live_check_gate (l : List step_t) (e : Env) :
    (∀ c ∈ live_calls (run host_init l).out, c.1 - c.2 ≤ 200000000) ∧
    List.Chain' (fun a b => a + 100000000 < b) (live_stamps (run host_init l).out) ∧
    ((run host_init l).robot_pos_timestamp < e.t_live - 200000000 →
      live_calls (route_fsm e (run host_init l)).out = live_calls (run host_init l).out) := by
  have h := run_live l
  exact ⟨h.1, h.2.1, fun hst => route_fsm_no_call e _ (Or.inl hst)⟩

/-! ## Stale lidar frames -/

theorem lidar_display_frame (e : Env) (s : Host) (p : lidar_scan_t) :
    (lidar_display e s p).pos_corr_id = s.pos_corr_id ∧
    (lidar_display e s p).lidars_to_map = s.lidars_to_map ∧
    (lidar_display e s p).n_lidars_to_map = s.n_lidars_to_map ∧
    (lidar_display e s p).lidars_to_map_at_routing_start = s.lidars_to_map_at_routing_start ∧
    (lidar_display e s p).lidar_ignore_cnt = s.lidar_ignore_cnt := by
  unfold lidar_display
  simp only [↓apply_ite Host.pos_corr_id, ↓apply_ite Host.lidars_to_map,
    ↓apply_ite Host.n_lidars_to_map, ↓apply_ite Host.lidars_to_map_at_routing_start,
    ↓apply_ite Host.lidar_ignore_cnt, emit, ite_self, and_self]

theorem lidar_display_out (e : Env) (s : Host) (p : lidar_scan_t) :
    ∃ l : List cmd_t, (lidar_display e s p).out = s.out ++ l ∧
      ∀ c ∈ l, c = cmd_t.tcp_send_hwdbg ∨ c = cmd_t.tcp_send_lidar_lowres p := by
  unfold lidar_display
  simp only [↓apply_ite Host.out, ↓apply_ite Host.hwdbg_cnt, ↓apply_ite Host.lidar_send_cnt,
    emit, ite_self]
  split_ifs <;>
    first
    | (refine ⟨[], ?_, ?_⟩ <;> simp <;> done)
    | (refine ⟨[cmd_t.tcp_send_hwdbg], ?_, ?_⟩ <;> simp <;> done)
    | (refine ⟨[cmd_t.tcp_send_lidar_lowres p], ?_, ?_⟩ <;> simp <;> done)
    | (refine ⟨[cmd_t.tcp_send_hwdbg, cmd_t.tcp_send_lidar_lowres p], ?_, ?_⟩ <;> simp)

/-- C3: a lidar frame whose id differs from `pos_corr_id` when `lidar_handling` ingests
it is not used for mapping: the scan-match queue (array and count) and the routing-start
ring buffer are unchanged, and the only calls made are the display messages
`tcp_send_hwdbg` and `tcp_send_lidar_lowres` and possibly the no-op correction of the
stale-id fix; in particular neither `clear_within_robot` nor `map_lidars` is called. -/
theorem c3_stale_lidar_not_mapped (e : Env) (s : Host) (p : lidar_scan_t)
    (hid : p.id ≠ s.pos_corr_id) :
    (lidar_handling e s (some p)).lidars_to_map = s.lidars_to_map ∧
    (lidar_handling e s (some p)).n_lidars_to_map = s.n_lidars_to_map ∧
    (lidar_handling e s (some p)).lidars_to_map_at_routing_start
      = s.lidars_to_map_at_routing_start ∧
    ∃ l : List cmd_t, (lidar_handling e s (some p)).out = s.out ++ l ∧
      (∀ c ∈ l, c = cmd_t.tcp_send_hwdbg ∨ c = cmd_t.tcp_send_lidar_lowres p ∨
        c = cmd_t.correct_robot_pos 0 0 0 (lidar_handling e s (some p)).pos_corr_id) ∧
      (∀ q, cmd_t.clear_within_robot q ∉ l) ∧ (∀ n scans, cmd_t.map_lidars n scans ∉ l) := by
  obtain ⟨f1, f2, f3, f4, _⟩ := lidar_display_frame e s p
  obtain ⟨l, hl, hc⟩ := lidar_display_out e s p
  have hid2 : p.id ≠ (lidar_display e s p).pos_corr_id := by rw [f1]; exact hid
  unfold lidar_handling
  simp only [hid2, ne_eq, not_false_eq_true, if_true]
  unfold lidar_ignore
  simp only [↓apply_ite Host.out, ↓apply_ite Host.pos_corr_id, ↓apply_ite Host.lidars_to_map,
    ↓apply_ite Host.n_lidars_to_map, ↓apply_ite Host.lidars_to_map_at_routing_start, emit,
    ite_self, f1, f2, f3, f4, hl, true_and]
  split_ifs
  · refine ⟨l ++ [cmd_t.correct_robot_pos 0 0 0 (INCR_POS_CORR_ID s.pos_corr_id)],
      by simp, ?_, ?_, ?_⟩
    · intro c hc2
      rcases List.mem_append.mp hc2 with h1 | h1
      · rcases hc c h1 with h2 | h2
        · exact Or.inl h2
        · exact Or.inr (Or.inl h2)
      · exact Or.inr (Or.inr (List.mem_singleton.mp h1))
    · intro q hq
      rcases List.mem_append.mp hq with h1 | h1
      · rcases hc _ h1 with h2 | h2 <;> cases h2
      · cases List.mem_singleton.mp h1
    · intro n scans hq
      rcases List.mem_append.mp hq with h1 | h1
      · rcases hc _ h1 with h2 | h2 <;> cases h2
      · cases List.mem_singleton.mp h1
  · refine ⟨l, rfl, ?_, ?_, ?_⟩
    · intro c h1
      rcases hc c h1 with h2 | h2
      · exact Or.inl h2
      · exact Or.inr (Or.inl h2)
    · intro q h1
      rcases hc _ h1 with h2 | h2 <;> cases h2
    · intro n scans h1
      rcases hc _ h1 with h2 | h2 <;> cases h2

/-! ## Charger stage and the live obstacle checking switch -/

theorem find_charger_procedure_loc (e : Env) (s : Host) :
    (find_charger_procedure e s).1.live_obstacle_checking_on
      = if s.find_charger_state < 4 then 1 else 0 := by
  unfold find_charger_procedure
  show fcp_loc s _
  repeat' (with_reducible apply pred_ite2 (fcp_loc s) <;> intro _)
  all_goals
    show Host.live_obstacle_checking_on _ = _
    simp only [emit, rr_loc]

theorem route_fsm_frameF_before_charger (e : Env) (s : Host) :
    frameF (follow_route_step e (start_route_step (recovery_step e (los_resume e s))))
      = frameF s :=
  (follow_route_step_frameF e _).trans
    ((frameA_F _ _ (start_route_step_frameA _)).trans
      ((frameA_F _ _ (recovery_step_frameA e _)).trans (frameA_F _ _ (los_resume_frameA e s))))

/-! ## The route follower is off from charger stage 3 on -/

theorem follower_off_of_frameN (s s1 : Host) (h : frameN s1 = frameN s) (hs : follower_off s) :
    follower_off s1 := by
  unfold frameN at h
  unfold follower_off at *
  simp only [Prod.mk.injEq] at h
  rw [h.1, h.2.1, h.2.2]
  exact hs

theorem follower_off_of_stage (s : Host) (h : s.find_charger_state < 3) : follower_off s := by
  unfold follower_off
  intro h3
  omega

theorem lidar_handling_frameN (e : Env) (s : Host) (p_lid : Option lidar_scan_t) :
    frameN (lidar_handling e s p_lid) = frameN s := by
  cases p_lid with
  | none => rfl
  | some p =>
    unfold lidar_handling lidar_queue_step lidar_accept lidar_ignore lidar_display frameN
    simp only [↓apply_ite Host.find_charger_state, ↓apply_ite Host.do_follow_route,
      ↓apply_ite Host.lookaround_creep_reroute, emit, ite_self]

theorem speed_ramp_1_frameN (e : Env) (s : Host) : frameN (speed_ramp_1 e s) = frameN s := by
  unfold speed_ramp_1 frameN
  simp only [↓apply_ite Host.find_charger_state, ↓apply_ite Host.do_follow_route,
    ↓apply_ite Host.lookaround_creep_reroute, emit, ite_self]

theorem speed_ramp_2_frameN (e : Env) (s : Host) : frameN (speed_ramp_2 e s) = frameN s := by
  unfold speed_ramp_2 frameN
  simp only [↓apply_ite Host.find_charger_state, ↓apply_ite Host.do_follow_route,
    ↓apply_ite Host.lookaround_creep_reroute, emit, ite_self]

theorem cmd_mode_follower (e : Env) (s : Host) (mode : Int) (hs : follower_off s) :
    follower_off (cmd_mode e s mode) := by
  have h0 : 3 ≤ s.find_charger_state →
      s.do_follow_route = 0 ∧ s.lookaround_creep_reroute = 0 := hs
  unfold cmd_mode
  repeat' (with_reducible apply pred_ite follower_off <;> intro _)
  all_goals
    unfold follower_off
    try simp only [conf_charger_pos, set_map_loca, emit]
    first
    | exact h0
    | (intro h3; omega)

theorem send_route_end_status_fcs (e : Env) (r : Int) (s : Host) :
    (send_route_end_status e r s).find_charger_state = s.find_charger_state := by
  unfold send_route_end_status
  simp only [↓apply_ite Host.find_charger_state, emit, ite_self]

theorem cmd_from_client_to_host_follower (e : Env) (s : Host) (msg : client_msg)
    (hs : follower_off s) : follower_off (cmd_from_client_to_host e s msg) := by
  cases msg with
  | CR_MODE mode => exact cmd_mode_follower e s mode hs
  | CR_DEST x y b => exact follower_off_of_stage _ (by show (0 : Int) < 3; decide)
  | CR_ROUTE x y d =>
    apply follower_off_of_stage
    simp only [cmd_from_client_to_host, ↓apply_ite Host.find_charger_state,
      send_route_end_status_fcs, rr_fcs, emit, ite_self]
    decide
  | CR_CHARGE => exact follower_off_of_stage _ (by show (1 : Int) < 3; decide)
  | _ =>
    refine follower_off_of_frameN s _ ?_ hs
    unfold cmd_from_client_to_host frameN
    simp only [cmd_speedlim, cmd_setpos, ↓apply_ite Host.find_charger_state,
      ↓apply_ite Host.do_follow_route, ↓apply_ite Host.lookaround_creep_reroute, emit,
      ite_self]

theorem los_resume_idle (e : Env) (s : Host) (h : s.lookaround_creep_reroute = 0) :
    los_resume e s = s := by
  unfold los_resume
  rw [if_neg (by omega)]

theorem recovery_step_idle (e : Env) (s : Host) (h : s.lookaround_creep_reroute = 0) :
    recovery_step e s = s := by
  unfold recovery_step
  iterate 9 rw [if_neg (by omega)]

theorem start_route_step_frameN (s : Host) : frameN (start_route_step s) = frameN s := by
  unfold start_route_step frameN
  simp only [↓apply_ite Host.find_charger_state, ↓apply_ite Host.do_follow_route,
    ↓apply_ite Host.lookaround_creep_reroute, emit, ite_self]

theorem follow_route_step_idle (e : Env) (s : Host) (h : s.do_follow_route = 0) :
    follow_route_step e s = s := by
  unfold follow_route_step
  rw [if_neg (by omega)]

theorem route_fsm_idle (e : Env) (s : Host) (hf : s.do_follow_route = 0)
    (hl : s.lookaround_creep_reroute = 0) :
    route_fsm e s = charger_step e (start_route_step s) := by
  have hN := start_route_step_frameN s
  unfold frameN at hN
  simp only [Prod.mk.injEq] at hN
  unfold route_fsm
  rw [los_resume_idle e s hl, recovery_step_idle e s hl,
    follow_route_step_idle e _ (hN.2.1.trans hf)]

theorem find_charger_procedure_follower (e : Env) (s : Host) (hs : follower_off s) :
    follower_off (find_charger_procedure e s).1 := by
  have h0 : 3 ≤ s.find_charger_state →
      s.do_follow_route = 0 ∧ s.lookaround_creep_reroute = 0 := hs
  unfold find_charger_procedure
  show follower_off_res _
  repeat' (with_reducible apply pred_ite2 follower_off_res <;> intro _)
  all_goals
    show follower_off _
    unfold follower_off
    simp only [emit, rr_fcs] at *
    intro h3
    omega

theorem charger_step_follower (e : Env) (s : Host) (hs : follower_off s) :
    follower_off (charger_step e s) := by
  unfold charger_step
  split_ifs
  · exact find_charger_procedure_follower e s hs
  · exact hs

theorem route_fsm_follower (e : Env) (s : Host) (hs : follower_off s) :
    follower_off (route_fsm e s) := by
  by_cases h3 : 3 ≤ s.find_charger_state
  · rw [route_fsm_idle e s (hs h3).1 (hs h3).2]
    exact charger_step_follower e _ (follower_off_of_frameN s _ (start_route_step_frameN s) hs)
  · have hF := route_fsm_frameF_before_charger e s
    unfold frameF at hF
    simp only [Prod.mk.injEq] at hF
    unfold route_fsm
    refine charger_step_follower e _ (follower_off_of_stage _ ?_)
    rw [hF.2.1]
    omega

theorem step_follower (s : Host) (st : step_t) (hs : follower_off s) :
    follower_off (step s st) := by
  cases st with
  | nav e => exact route_fsm_follower e s hs
  | lidar e p_lid => exact follower_off_of_frameN _ _ (lidar_handling_frameN e s p_lid) hs
  | ramp1 e => exact follower_off_of_frameN _ _ (speed_ramp_1_frameN e s) hs
  | ramp2 e => exact follower_off_of_frameN _ _ (speed_ramp_2_frameN e s) hs
  | client e msg =>
    exact cmd_from_client_to_host_follower e _ msg (follower_off_of_frameN s _ rfl hs)
  | uart fb => exact follower_off_of_frameN s _ rfl hs

theorem run_follower (l : List step_t) : follower_off (run host_init l) := by
  induction l using List.reverseRecOn with
  | nil => exact follower_off_of_stage _ (by decide)
  | append_singleton l st ih =>
    rw [run_append]
    exact step_follower _ st ih

theorem route_fsm_idle_no_call (e : Env) (s : Host) (hf : s.do_follow_route = 0)
    (hl : s.lookaround_creep_reroute = 0) :
    live_calls (route_fsm e s).out = live_calls s.out := by
  have h1 := frameA_G _ _ (start_route_step_frameA s)
  have h2 := (charger_step_frameG e (start_route_step s)).trans h1
  rw [route_fsm_idle e s hf hl]
  unfold frameG at h2
  simp only [Prod.mk.injEq] at h2
  exact h2.2.2.2.2

/-! ## C8: the live obstacle checking switch during docking -/

/-- C8 (amended): at the end of every iteration of `route_fsm` that began with
`find_charger_state >= 4`, `live_obstacle_checking_on` is 0, and an iteration that begins
with `live_obstacle_checking_on = 0` makes no call of `do_live_obstacle_checking`.
Moreover in every state reached from the initial state with `find_charger_state >= 3`
no route is followed and Recovery is inactive, so the next iteration of `route_fsm`
makes no call of `do_live_obstacle_checking` whatever the switch says. -/
theorem c8_live_check_off_from_stage4 (l : List step_t) (e : Env) (s : Host) :
    (4 ≤ s.find_charger_state → (route_fsm e s).live_obstacle_checking_on = 0) ∧
    (s.live_obstacle_checking_on = 0 →
      live_calls (route_fsm e s).out = live_calls s.out) ∧
    (3 ≤ (run host_init l).find_charger_state →
      (run host_init l).do_follow_route = 0 ∧
      (run host_init l).lookaround_creep_reroute = 0 ∧
      live_calls (route_fsm e (run host_init l)).out = live_calls (run host_init l).out) := by
  refine ⟨?_, fun h => route_fsm_no_call e s (Or.inr h), ?_⟩
  · intro h
    have hF := route_fsm_frameF_before_charger e s
    unfold frameF at hF
    simp only [Prod.mk.injEq] at hF
    unfold route_fsm charger_step
    have hne : (follow_route_step e (start_route_step (recovery_step e
        (los_resume e s)))).find_charger_state ≠ 0 := by rw [hF.2.1]; omega
    rw [if_pos hne, find_charger_procedure_loc, hF.2.1]
    have : ¬ s.find_charger_state < 4 := by omega
    rw [if_neg this]
  · intro h
    have hI := run_follower l h
    exact ⟨hI.1, hI.2, route_fsm_idle_no_call e _ hI.1 hI.2⟩

/-- C8, instance of the amended statement: in the docking run the tick that begins at
stage 4 ends with the switch off, the tick that begins at stage 8 (switch off) makes no
call, and at stage 4 the follower is off. -/
theorem c8_live_check_off_from_stage4_witness :
    (route_fsm (env_dock 100002000000)
      (run host_init dock_to_stage4)).live_obstacle_checking_on = 0 ∧
    live_calls (route_fsm (env_dock 100006000000) (run host_init dock_to_stage8)).out
      = live_calls (run host_init dock_to_stage8).out ∧
    (run host_init dock_to_stage4).do_follow_route = 0 ∧
    (run host_init dock_to_stage4).lookaround_creep_reroute = 0 ∧
    live_calls (route_fsm (env_dock 100002000000) (run host_init dock_to_stage4)).out
      = live_calls (run host_init dock_to_stage4).out :=
  ⟨(c8_live_check_off_from_stage4 dock_to_stage4 (env_dock 100002000000)
      (run host_init dock_to_stage4)).1 (by decide),
   (c8_live_check_off_from_stage4 dock_to_stage4 (env_dock 100006000000)
      (run host_init dock_to_stage8)).2.1 (by decide),
   (c8_live_check_off_from_stage4 dock_to_stage4 (env_dock 100002000000)
      (run host_init dock_to_stage4)).2.2 (by decide)⟩

/-- C8, counterexample to the claim as stated: the tick of the docking run in which
stage 3 acts ends with `find_charger_state = 4` and `live_obstacle_checking_on = 1`,
because the switch is computed from the stage found at the entry of
`find_charger_procedure`. -/
theorem c8_counterexample :
    (run host_init dock_to_stage3).find_charger_state = 3 ∧
    (run host_init dock_to_stage4).find_charger_state = 4 ∧
    (run host_init dock_to_stage4).live_obstacle_checking_on = 1 := by decide

set_option maxRecDepth 100000

/-! ## C9: MCU stops while following a route -/

theorem run_search_stops (e : Env) (s : Host) (a b c d : Int) :
    (run_search e s a b c d).1.micronavi_stops = s.micronavi_stops := by
  unfold run_search
  simp only [↓apply_ite Host.micronavi_stops, emit, ite_self]

theorem run_search_requests (e : Env) (s : Host) (a b c d : Int) :
    routing_requests (run_search e s a b c d).1.out = routing_requests s.out := by
  unfold run_search
  simp only [↓apply_ite Host.out, apply_ite routing_requests, routing_requests_append,
    routing_requests, emit, ite_self, Nat.add_zero]

theorem rr_stops (e : Env) (s : Host) :
    (request_routing e s).micronavi_stops = s.micronavi_stops := by
  unfold request_routing
  simp only [run_search_stops, emit]

theorem rr_requests (e : Env) (s : Host) :
    routing_requests (request_routing e s).out = routing_requests s.out + 1 := by
  unfold request_routing
  simp only [run_search_requests, emit, routing_requests_append, routing_requests]

/-- C9 (amended): while a route is followed and the MCU reports a stop of the move with
the matching id, `follow_route_step` enters Recovery at stage 1 and increments
`micronavi_stops` without any call as long as the counter is below 7, so for the first
seven stops since the counter was reset (counter values 1 to 7); with the counter at 7,
so at the eighth stop, it requests a new route instead, which leaves
`lookaround_creep_reroute = 0` and the counter at 7. -/
theorem c9_micronavi_stops (e : Env) (s : Host) (hf : s.do_follow_route ≠ 0)
    (hid : id_matches s = true)
    (hstop : s.cur_xymove.micronavi_stop_flags ≠ 0 ∨ s.cur_xymove.feedback_stop_flags ≠ 0) :
    (s.micronavi_stops < 7 →
      (follow_route_step e s).lookaround_creep_reroute = 1 ∧
      (follow_route_step e s).micronavi_stops = s.micronavi_stops + 1 ∧
      (follow_route_step e s).out = s.out) ∧
    (7 ≤ s.micronavi_stops →
      follow_route_step e s = request_routing e s ∧
      routing_requests (follow_route_step e s).out = routing_requests s.out + 1 ∧
      (follow_route_step e s).lookaround_creep_reroute = 0 ∧
      (follow_route_step e s).micronavi_stops = s.micronavi_stops) := by
  have h : follow_route_step e s =
      if s.micronavi_stops < 7 then
        { s with micronavi_stops := s.micronavi_stops + 1, lookaround_creep_reroute := 1 }
      else request_routing e s := by
    unfold follow_route_step
    rw [if_pos hf, if_pos hid, if_pos hstop]
  constructor
  · intro h7
    rw [h, if_pos h7]
    exact ⟨rfl, rfl, rfl⟩
  · intro h7
    rw [h, if_neg (by omega)]
    exact ⟨rfl, rr_requests e s, rr_lcr e s, rr_stops e s⟩

/-- C9, instances of the amended statement: the seventh stop of the run `before_stop_7`
(counter at 6) enters Recovery, the eighth stop (run `before_stop_8`, counter at 7)
requests a route. -/
theorem c9_micronavi_stops_witness :
    ((follow_route_step env_clear (run host_init before_stop_7)).lookaround_creep_reroute = 1 ∧
      (follow_route_step env_clear (run host_init before_stop_7)).micronavi_stops
        = (run host_init before_stop_7).micronavi_stops + 1 ∧
      (follow_route_step env_clear (run host_init before_stop_7)).out
        = (run host_init before_stop_7).out) ∧
    (follow_route_step env_clear (run host_init before_stop_8)
        = request_routing env_clear (run host_init before_stop_8) ∧
      routing_requests (follow_route_step env_clear (run host_init before_stop_8)).out
        = routing_requests (run host_init before_stop_8).out + 1 ∧
      (follow_route_step env_clear (run host_init before_stop_8)).lookaround_creep_reroute = 0 ∧
      (follow_route_step env_clear (run host_init before_stop_8)).micronavi_stops
        = (run host_init before_stop_8).micronavi_stops) :=
  ⟨(c9_micronavi_stops env_clear (run host_init before_stop_7) (by decide) (by decide)
      (by decide)).1 (by decide),
   (c9_micronavi_stops env_clear (run host_init before_stop_8) (by decide) (by decide)
      (by decide)).2 (by decide)⟩

/-- C9, counterexample to the claim as stated: in the run `stops_1_to_7` the seventh
stop since the route was installed still enters Recovery at stage 1, with the counter
going from 6 to 7, and the only routing request is the one of the client command; it is
the eighth stop that requests a new route. -/
theorem c9_counterexample :
    (run host_init before_stop_7).micronavi_stops = 6 ∧
    (run host_init stops_1_to_7).micronavi_stops = 7 ∧
    (run host_init stops_1_to_7).lookaround_creep_reroute = 1 ∧
    routing_requests (run host_init stops_1_to_7).out = 1 ∧
    (run host_init stops_1_to_8).micronavi_stops = 7 ∧
    (run host_init stops_1_to_8).lookaround_creep_reroute = 0 ∧
    routing_requests (run host_init stops_1_to_8).out = 2 := by decide

/-! ## Evaluation on concrete runs -/

/-- C3, instance: in the docking run, after charger stage 3 has published correction
id 44, a scan tagged 43 is ingested without touching the mapping buffers. -/
theorem c3_stale_lidar_not_mapped_witness :
    stale_scan.id ≠ (run host_init dock_to_stage4).pos_corr_id ∧
    ((lidar_handling env_demo (run host_init dock_to_stage4) (some stale_scan)).lidars_to_map
      = (run host_init dock_to_stage4).lidars_to_map ∧
    (lidar_handling env_demo (run host_init dock_to_stage4) (some stale_scan)).n_lidars_to_map
      = (run host_init dock_to_stage4).n_lidars_to_map ∧
    (lidar_handling env_demo (run host_init dock_to_stage4)
        (some stale_scan)).lidars_to_map_at_routing_start
      = (run host_init dock_to_stage4).lidars_to_map_at_routing_start ∧
    ∃ l : List cmd_t,
      (lidar_handling env_demo (run host_init dock_to_stage4) (some stale_scan)).out
        = (run host_init dock_to_stage4).out ++ l ∧
      (∀ c ∈ l, c = cmd_t.tcp_send_hwdbg ∨ c = cmd_t.tcp_send_lidar_lowres stale_scan ∨
        c = cmd_t.correct_robot_pos 0 0 0
          (lidar_handling env_demo (run host_init dock_to_stage4)
            (some stale_scan)).pos_corr_id) ∧
      (∀ q, cmd_t.clear_within_robot q ∉ l) ∧ (∀ n scans, cmd_t.map_lidars n scans ∉ l)) :=
  ⟨by decide,
   c3_stale_lidar_not_mapped env_demo (run host_init dock_to_stage4) stale_scan (by decide)⟩

/-- C6, instance: while driving, the pose reported at 99.9 s is fresh for the tick at
100.0 s, which makes the call, and stale for a tick at 101.0 s, which makes none. -/
theorem c6_live_check_gate_witness :
    live_calls (run host_init (driving ++ [step_t.nav (env_at 100000000000)])).out
      = [(100000000000, 99900000000)] ∧
    (run host_init driving).robot_pos_timestamp < (env_at 101000000000).t_live - 200000000 ∧
    live_calls (route_fsm (env_at 101000000000) (run host_init driving)).out
      = live_calls (run host_init driving).out :=
  ⟨by decide, by decide, (c6_live_check_gate driving (env_at 101000000000)).2.2 (by decide)⟩

/-- C7, run that shows the divergence: the timers of `find_charger_procedure` are not
measured from the preceding stage.  In the docking run stage 2 acts in the tick at
clock 100.000 s and stage 3 acts in the next tick, 1 ms later, not 2.5 s later; stages
4, 6 and 7 each act in the first tick in which they are entered, 1 ms after the stage
before; and the tick 1 ms after the one that called `hw_find_charger`, with neither
`charging` nor `charged` reported, resets `find_charger_state` from 8 to 1, not 90 s
later. -/
theorem c7_charger_timers_absolute :
    (run host_init dock_to_stage2).find_charger_state = 2 ∧
    (run host_init dock_to_stage3).find_charger_state = 3 ∧
    (run host_init dock_to_stage4).find_charger_state = 4 ∧
    (run host_init dock_to_stage8).find_charger_state = 8 ∧
    (run host_init dock_to_stage8).out.getLast? = some cmd_t.hw_find_charger ∧
    (run host_init dock_to_stage8).pwr_charging = 0 ∧
    (run host_init dock_to_stage8).pwr_charged = 0 ∧
    (run host_init dock_watchdog).find_charger_state = 1 := by decide

/-- C10, runs that show the divergence: stage 12 is not reached through four retries.
With the robot blocked and the planner failing, the failed reroute of stage 6 leaves
`lookaround_creep_reroute = 9` with daiju mode on, and the first retry 5.1 s later,
failing again, leaves it at 1 (Recovery starts over) after three routing requests in
all; the failed reroute of stage 7 (after three creeps) switches daiju mode on and
leaves `lookaround_creep_reroute = 1` at once, without any retry. -/
theorem c10_daiju_retries :
    (run host_init blocked_to_stage6).lookaround_creep_reroute = 6 ∧
    (run host_init daiju_from_stage6).lookaround_creep_reroute = 9 ∧
    (run host_init daiju_from_stage6).out.getLast? = some (cmd_t.daiju_mode 1) ∧
    routing_requests (run host_init daiju_from_stage6).out = 2 ∧
    (run host_init retry_from_stage6).lookaround_creep_reroute = 1 ∧
    routing_requests (run host_init retry_from_stage6).out = 3 ∧
    (run host_init blocked_to_stage7).lookaround_creep_reroute = 7 ∧
    (run host_init blocked_to_stage7).creep_cnt = 3 ∧
    (run host_init daiju_from_stage7).lookaround_creep_reroute = 1 ∧
    (run host_init daiju_from_stage7).out.getLast?
      = some (cmd_t.send_info info_state_t.DAIJUING) ∧
    routing_requests (run host_init daiju_from_stage7).out = 2 := by decide

/-! ## The timers of the charger procedure and the stages of daiju -/

theorem find_charger_procedure_stage3 (e : Env) (s : Host) (h : s.find_charger_state = 3)
    (ht : 2500000000 < e.t_cha) : (find_charger_procedure e s).1.find_charger_state = 4 := by
  unfold find_charger_procedure
  dsimp only
  rw [if_neg (by omega), if_neg (by omega), if_pos h, if_pos (by omega)]
  show s.find_charger_state + 1 = 4
  omega

theorem find_charger_procedure_stage8 (e : Env) (s : Host) (h : s.find_charger_state = 8)
    (hc : s.pwr_charging = 0 ∧ s.pwr_charged = 0) (ht : 90000000000 < e.t_cha) :
    (find_charger_procedure e s).1.find_charger_state = 1 := by
  unfold find_charger_procedure
  dsimp only
  iterate 7 rw [if_neg (by omega)]
  rw [if_pos h, if_pos hc, if_pos (by omega)]

theorem stage6_act_failed (e : Env) (s : Host)
    (ht : e.test_robot_turn_mm s.cur_x s.cur_y s.cur_ang
      (ang_t.toward ((s.the_route s.route_pos).x - s.cur_x)
        ((s.the_route s.route_pos).y - s.cur_y) 0 0) = 0)
    (h : (request_routing e s).no_route_found = 1) :
    (stage6_act e s).lookaround_creep_reroute = 9 := by
  unfold stage6_act
  dsimp only
  rw [if_neg (by simp [ht]), if_pos h]
  rfl

theorem stage7_act_failed (e : Env) (s : Host) (hc : 3 ≤ s.creep_cnt)
    (h : (request_routing e s).no_route_found = 1) :
    (stage7_act e s).lookaround_creep_reroute = 1 := by
  unfold stage7_act
  dsimp only
  rw [if_neg (by omega), if_pos h]
  show (request_routing e s).lookaround_creep_reroute + 1 = 1
  rw [rr_lcr]
  rfl

theorem daiju_retry_act_failed (e : Env) (s : Host)
    (h : (request_routing e (emit (cmd_t.daiju_mode 0) s)).no_route_found = 1) :
    (daiju_retry_act e s).lookaround_creep_reroute = 1 := by
  unfold daiju_retry_act
  dsimp only
  rw [if_pos h]
  show (request_routing e (emit (cmd_t.daiju_mode 0) s)).lookaround_creep_reroute + 1 = 1
  rw [rr_lcr]
  rfl

/-! ## C17: the speed limit command -/

/-- C17: after `CR_SPEEDLIM v`, `max_speedlim` is `v` when `1 <= v <= 70` and the default
45 for every other `v`, and `cur_speedlim` is the minimum of its previous value and the
new `max_speedlim`; the command handler is total (it has a result for every `v` and
every state), and the only call it can make is `limit_speed` with the lowered value. -/
theorem c17_speedlim (e : Env) (s : Host) (v : Int) :
    (cmd_from_client_to_host e s (client_msg.CR_SPEEDLIM v)).max_speedlim
      = (if 1 ≤ v ∧ v ≤ 70 then v else 45) ∧
    (cmd_from_client_to_host e s (client_msg.CR_SPEEDLIM v)).cur_speedlim
      = min s.cur_speedlim
          (cmd_from_client_to_host e s (client_msg.CR_SPEEDLIM v)).max_speedlim ∧
    ((cmd_from_client_to_host e s (client_msg.CR_SPEEDLIM v)).out = s.out ∨
     (cmd_from_client_to_host e s (client_msg.CR_SPEEDLIM v)).out = s.out ++
       [cmd_t.limit_speed (cmd_from_client_to_host e s (client_msg.CR_SPEEDLIM v)).cur_speedlim]) := by
  have h : cmd_from_client_to_host e s (client_msg.CR_SPEEDLIM v) = cmd_speedlim s v := rfl
  rw [h]
  unfold cmd_speedlim MAX_CONFIGURABLE_SPEEDLIM DEFAULT_SPEEDLIM
  simp only [↓apply_ite Host.max_speedlim, ↓apply_ite Host.cur_speedlim, ↓apply_ite Host.out,
    emit, ite_self]
  refine ⟨?_, ?_, ?_⟩
  · split_ifs <;> first | rfl | omega
  · split_ifs <;> omega
  · split_ifs <;> simp

/-- C17, evaluation: 30 is taken, 0 and 71 give the default 45, and a current limit of
45 is lowered to 30. -/
theorem c17_speedlim_demo :
    (cmd_from_client_to_host env_demo host_init (client_msg.CR_SPEEDLIM 30)).max_speedlim = 30 ∧
    (cmd_from_client_to_host env_demo host_init (client_msg.CR_SPEEDLIM 30)).cur_speedlim = 30 ∧
    (cmd_from_client_to_host env_demo host_init (client_msg.CR_SPEEDLIM 0)).max_speedlim = 45 ∧
    (cmd_from_client_to_host env_demo host_init (client_msg.CR_SPEEDLIM 71)).max_speedlim = 45 ∧
    (cmd_from_client_to_host env_demo host_init (client_msg.CR_SPEEDLIM 70)).max_speedlim = 70 := by
  decide

/-! ## C14: the live obstacle check -/

/-- C14 (amended): for a waypoint with `backmode != 0`, `do_live_obstacle_checking`
changes nothing.  For a forward waypoint it sets `cur_speedlim` to
`min(18, max_speedlim)` (the macro `SPEED(18)`: the previous `cur_speedlim` plays no
part) and calls `limit_speed` with it; with a hit count below 3 that is all (the Recovery
stage is unchanged), with a hit count of 3 or more it also calls `stop_movement` and sets
the Recovery stage to 1. -/
theorem c14_live_obstacle_check (e : Env) (s : Host) :
    ((s.the_route s.route_pos).backmode ≠ 0 → do_live_obstacle_checking e s = s) ∧
    ((s.the_route s.route_pos).backmode = 0 →
      (do_live_obstacle_checking e s).cur_speedlim = min 18 s.max_speedlim ∧
      (live_hitcnt e s < 3 →
        (do_live_obstacle_checking e s).lookaround_creep_reroute = s.lookaround_creep_reroute ∧
        (do_live_obstacle_checking e s).out
          = s.out ++ [cmd_t.limit_speed (min 18 s.max_speedlim)]) ∧
      (3 ≤ live_hitcnt e s →
        (do_live_obstacle_checking e s).lookaround_creep_reroute = 1 ∧
        (do_live_obstacle_checking e s).out
          = s.out ++ [cmd_t.limit_speed (min 18 s.max_speedlim), cmd_t.stop_movement])) := by
  have hmin : (if 18 > s.max_speedlim then s.max_speedlim else 18) = min 18 s.max_speedlim := by
    split_ifs <;> omega
  constructor
  · intro hb
    unfold do_live_obstacle_checking
    rw [if_neg hb]
  · intro hb
    unfold do_live_obstacle_checking live_hitcnt
    rw [if_pos hb]
    simp only [↓apply_ite Host.cur_speedlim, ↓apply_ite Host.lookaround_creep_reroute,
      ↓apply_ite Host.out, emit, ite_self, hmin, List.append_assoc, List.singleton_append]
    refine ⟨trivial, ?_, ?_⟩
    · intro h
      simp only [if_pos h, and_self]
    · intro h
      have hn := not_lt.mpr h
      simp only [if_neg hn, and_self]

/-- C14, instances of the amended statement on the run `driving` (forward waypoint, no
hit) and with the first waypoint marked as a backward one. -/
theorem c14_live_obstacle_check_witness :
    (do_live_obstacle_checking (env_at 100000000000)
        { run host_init driving with the_route := fun _ => ⟨1000, 0, 1, 100, 0⟩ }
      = { run host_init driving with the_route := fun _ => ⟨1000, 0, 1, 100, 0⟩ }) ∧
    (do_live_obstacle_checking (env_at 100000000000) (run host_init driving)).cur_speedlim
      = min 18 (run host_init driving).max_speedlim ∧
    (do_live_obstacle_checking (env_at 100000000000)
        (run host_init driving)).lookaround_creep_reroute
      = (run host_init driving).lookaround_creep_reroute :=
  ⟨(c14_live_obstacle_check (env_at 100000000000)
      { run host_init driving with the_route := fun _ => ⟨1000, 0, 1, 100, 0⟩ }).1 (by decide),
   ((c14_live_obstacle_check (env_at 100000000000) (run host_init driving)).2 (by decide)).1,
   (((c14_live_obstacle_check (env_at 100000000000) (run host_init driving)).2
      (by decide)).2.1 (by decide)).1⟩

/-- C14, counterexample to the claim as stated: in the run `slow_driving` the current
speed limit is 10 (below 18, with `max_speedlim = 45`) when the live obstacle check runs
for a forward waypoint, and afterwards it is 18, not `min(10, 18) = 10`. -/
theorem c14_counterexample :
    (run host_init slow_driving).cur_speedlim = 10 ∧
    (run host_init slow_driving).max_speedlim = 45 ∧
    ((run host_init slow_driving).the_route (run host_init slow_driving).route_pos).backmode = 0 ∧
    (do_live_obstacle_checking (env_at 100000000000)
      (run host_init slow_driving)).cur_speedlim = 18 ∧
    (run host_init (slow_driving ++ [step_t.nav (env_at 100000000000)])).cur_speedlim = 18 := by
  decide

/-! ## C15: route move ids and the charger move id `0x7f` -/

theorem move_id_table :
    ∀ i : Fin 8, ∀ r : Fin 200,
      (move_id (i.val : Int) (r.val : Int) = 127 ↔ i.val = 7 ∧ r.val % 16 = 15) := by
  decide

/-- C15 (amended): for `id_cnt` in `[1..7]` and `route_pos` in `[0, 199]` the route move
id `(id_cnt << 4) | (route_pos & 0xF)` equals `0x7F` exactly when `id_cnt = 7` and
`route_pos mod 16 = 15`; for every other pair it differs from `0x7F`. -/
theorem c15_move_id_0x7f (id_cnt route_pos : Int) (hi : 1 ≤ id_cnt ∧ id_cnt ≤ 7)
    (hr : 0 ≤ route_pos ∧ route_pos ≤ 199) :
    (move_id id_cnt route_pos = 127 ↔ id_cnt = 7 ∧ route_pos % 16 = 15) := by
  obtain ⟨i, rfl⟩ := Int.eq_ofNat_of_zero_le (by omega : 0 ≤ id_cnt)
  obtain ⟨r, rfl⟩ := Int.eq_ofNat_of_zero_le hr.1
  have h := move_id_table ⟨i, by omega⟩ ⟨r, by omega⟩
  simp only at h
  rw [h]
  omega

/-- C15, instances of the amended statement: `id_cnt = 3`, `route_pos = 15` gives an id
other than `0x7F`, and `id_cnt = 7`, `route_pos = 31` gives `0x7F`. -/
theorem c15_move_id_0x7f_witness :
    move_id 3 15 ≠ 127 ∧ move_id 7 31 = 127 :=
  ⟨fun h => absurd ((c15_move_id_0x7f 3 15 (by decide) (by decide)).mp h).1 (by decide),
   (c15_move_id_0x7f 7 31 (by decide) (by decide)).mpr (by decide)⟩

/-- C15, counterexample to the claim as stated: with `id_cnt = 7` and `route_pos = 15`
the route move id is `0x7F`, and `route_fsm` issues it when a route of 17 waypoints
followed with `id_cnt = 7` advances from waypoint 14 to waypoint 15. -/
theorem c15_counterexample :
    (1 : Int) ≤ 7 ∧ (7 : Int) ≤ 7 ∧ (0 : Int) ≤ 15 ∧ (15 : Int) ≤ 199 ∧ move_id 7 15 = 127 ∧
    (route_fsm env_demo at_waypoint_14).route_pos = 15 ∧
    move_ids (route_fsm env_demo at_waypoint_14).out = [127] := by
  decide

/-! ## C20: the stale-id fix of `lidar_handling` -/

theorem lidar_display_corr_ids (e : Env) (s : Host) (p : lidar_scan_t) :
    corr_ids (lidar_display e s p).out = corr_ids s.out := by
  obtain ⟨l, hl, hc⟩ := lidar_display_out e s p
  rw [hl, corr_ids_append]
  have : corr_ids l = [] := by
    clear hl
    induction l with
    | nil => rfl
    | cons c l ih =>
      have hc1 := hc c (List.mem_cons_self c l)
      have ih1 := ih (fun d hd => hc d (List.mem_cons_of_mem c hd))
      rcases hc1 with h | h <;> subst h <;> simpa [corr_ids] using ih1
  rw [this, List.append_nil]

theorem lidar_handling_stale (e : Env) (s : Host) (p : lidar_scan_t)
    (hid : p.id ≠ s.pos_corr_id) :
    lidar_handling e s (some p) = lidar_ignore (lidar_display e s p) := by
  obtain ⟨f1, _⟩ := lidar_display_frame e s p
  unfold lidar_handling
  simp only
  rw [if_pos (by rw [f1]; exact hid)]

theorem lidar_handling_stale_below (e : Env) (s : Host) (p : lidar_scan_t)
    (hid : p.id ≠ s.pos_corr_id) (hc : s.lidar_ignore_cnt < 20) :
    (lidar_handling e s (some p)).pos_corr_id = s.pos_corr_id ∧
    corr_ids (lidar_handling e s (some p)).out = corr_ids s.out ∧
    (lidar_handling e s (some p)).lidar_ignore_cnt = s.lidar_ignore_cnt + 1 := by
  obtain ⟨f1, _, _, _, f5⟩ := lidar_display_frame e s p
  rw [lidar_handling_stale e s p hid]
  unfold lidar_ignore
  simp only
  rw [if_neg (by rw [f5]; omega)]
  exact ⟨f1, lidar_display_corr_ids e s p, by rw [f5]⟩

theorem lidar_handling_stale_fix (e : Env) (s : Host) (p : lidar_scan_t)
    (hid : p.id ≠ s.pos_corr_id) (hc : 20 ≤ s.lidar_ignore_cnt) :
    (lidar_handling e s (some p)).pos_corr_id = INCR_POS_CORR_ID s.pos_corr_id ∧
    (lidar_handling e s (some p)).out = (lidar_display e s p).out ++
      [cmd_t.correct_robot_pos 0 0 0 (INCR_POS_CORR_ID s.pos_corr_id)] ∧
    corr_ids (lidar_handling e s (some p)).out
      = corr_ids s.out ++ [INCR_POS_CORR_ID s.pos_corr_id] ∧
    (lidar_handling e s (some p)).lidar_ignore_cnt = 0 := by
  obtain ⟨f1, _, _, _, f5⟩ := lidar_display_frame e s p
  rw [lidar_handling_stale e s p hid]
  unfold lidar_ignore
  simp only
  rw [if_pos (by rw [f5]; omega)]
  simp only [emit, f1, corr_ids_append, lidar_display_corr_ids, corr_ids, and_self]

theorem lidar_handling_accept_cnt (e : Env) (s : Host) (p : lidar_scan_t)
    (hid : p.id = s.pos_corr_id) : (lidar_handling e s (some p)).lidar_ignore_cnt = 0 := by
  obtain ⟨f1, _⟩ := lidar_display_frame e s p
  unfold lidar_handling
  simp only
  rw [if_neg (by rw [f1]; simp [hid])]
  unfold lidar_queue_step lidar_accept
  simp only [↓apply_ite Host.lidar_ignore_cnt, emit, ite_self]

theorem lidar_feed_stale (l : List (Env × lidar_scan_t)) (s : Host)
    (hl : s.lidar_ignore_cnt + l.length ≤ 20)
    (hst : ∀ ep ∈ l, ep.2.id ≠ s.pos_corr_id) :
    (lidar_feed s l).pos_corr_id = s.pos_corr_id ∧
    corr_ids (lidar_feed s l).out = corr_ids s.out ∧
    (lidar_feed s l).lidar_ignore_cnt = s.lidar_ignore_cnt + l.length := by
  induction l generalizing s with
  | nil => simp [lidar_feed]
  | cons ep l ih =>
    have h1 := lidar_handling_stale_below ep.1 s ep.2 (hst ep (List.mem_cons_self ep l))
      (by simp only [List.length_cons, Nat.cast_add, Nat.cast_one] at hl; omega)
    have h2 := ih (lidar_handling ep.1 s (some ep.2))
      (by simp only [List.length_cons, Nat.cast_add, Nat.cast_one] at hl; rw [h1.2.2]; omega)
      (fun q hq => by rw [h1.1]; exact hst q (List.mem_cons_of_mem ep hq))
    have hf : lidar_feed s (ep :: l) = lidar_feed (lidar_handling ep.1 s (some ep.2)) l := rfl
    rw [hf, h2.1, h2.2.1, h2.2.2, h1.1, h1.2.1, h1.2.2]
    simp only [List.length_cons, Nat.cast_add, Nat.cast_one]
    exact ⟨trivial, trivial, by omega⟩

/-- C20: starting with the stale count at 0, up to 20 consecutive scans whose id differs
from `pos_corr_id` leave `pos_corr_id` unchanged, emit no correction and count the stale
scans; the 21st such scan advances `pos_corr_id` once, to `pos_corr_id + 1`, or to 0
from 99 (for an id in `[0, 99]` that is `(pos_corr_id + 1) % 100`, a different id),
emits `correct_robot_pos(0, 0, 0, new id)` as its last call and restarts the count at
0; and a scan whose id equals `pos_corr_id` resets the count to 0. -/
theorem c20_stale_id_fix (s : Host) (l : List (Env × lidar_scan_t)) (e : Env)
    (p : lidar_scan_t) (h0 : s.lidar_ignore_cnt = 0) (hl : l.length ≤ 20)
    (hst : ∀ ep ∈ l, ep.2.id ≠ s.pos_corr_id) :
    ((lidar_feed s l).pos_corr_id = s.pos_corr_id ∧
      corr_ids (lidar_feed s l).out = corr_ids s.out ∧
      (lidar_feed s l).lidar_ignore_cnt = l.length) ∧
    (l.length = 20 → p.id ≠ s.pos_corr_id →
      (lidar_handling e (lidar_feed s l) (some p)).pos_corr_id
        = (if s.pos_corr_id + 1 > 99 then 0 else s.pos_corr_id + 1) ∧
      (0 ≤ s.pos_corr_id → s.pos_corr_id ≤ 99 →
        (lidar_handling e (lidar_feed s l) (some p)).pos_corr_id = (s.pos_corr_id + 1) % 100 ∧
        (lidar_handling e (lidar_feed s l) (some p)).pos_corr_id ≠ s.pos_corr_id) ∧
      (lidar_handling e (lidar_feed s l) (some p)).out.getLast?
        = some (cmd_t.correct_robot_pos 0 0 0
            (if s.pos_corr_id + 1 > 99 then 0 else s.pos_corr_id + 1)) ∧
      corr_ids (lidar_handling e (lidar_feed s l) (some p)).out
        = corr_ids s.out ++ [if s.pos_corr_id + 1 > 99 then 0 else s.pos_corr_id + 1] ∧
      (lidar_handling e (lidar_feed s l) (some p)).lidar_ignore_cnt = 0) ∧
    (p.id = (lidar_feed s l).pos_corr_id →
      (lidar_handling e (lidar_feed s l) (some p)).lidar_ignore_cnt = 0) := by
  have h := lidar_feed_stale l s (by rw [h0]; omega) hst
  rw [h0, zero_add] at h
  refine ⟨h, ?_, fun hp => lidar_handling_accept_cnt e _ p hp⟩
  intro h20 hp
  have hf := lidar_handling_stale_fix e (lidar_feed s l) p (by rw [h.1]; exact hp)
    (by rw [h.2.2, h20]; decide)
  rw [h.1, h.2.1] at hf
  have hI : INCR_POS_CORR_ID s.pos_corr_id
      = (if s.pos_corr_id + 1 > 99 then 0 else s.pos_corr_id + 1) := rfl
  rw [hI] at hf
  refine ⟨hf.1, fun h1 h2 => ?_, ?_, hf.2.2.1, hf.2.2.2⟩
  · rw [hf.1]
    split_ifs <;> omega
  · rw [hf.2.1]
    simp

/-- C20, instance: from the initial state (id 42) twenty scans tagged 41 leave the id at
42 with the count at 20, the 21st advances it to 43, emitting
`correct_robot_pos(0, 0, 0, 43)`, and restarts the count, and a scan tagged 42 after the
twenty resets the count. -/
theorem c20_stale_id_fix_witness :
    ((lidar_feed host_init stale_20).pos_corr_id = 42 ∧
      corr_ids (lidar_feed host_init stale_20).out = corr_ids host_init.out ∧
      (lidar_feed host_init stale_20).lidar_ignore_cnt = 20) ∧
    (lidar_handling env_demo (lidar_feed host_init stale_20) (some stale_41)).pos_corr_id
      = 43 ∧
    (lidar_handling env_demo (lidar_feed host_init stale_20) (some stale_41)).out.getLast?
      = some (cmd_t.correct_robot_pos 0 0 0 43) ∧
    (lidar_handling env_demo (lidar_feed host_init stale_20)
      (some stale_41)).lidar_ignore_cnt = 0 ∧
    (lidar_handling env_demo (lidar_feed host_init stale_20)
      (some (scan_with_id 42))).lidar_ignore_cnt = 0 :=
  ⟨(c20_stale_id_fix host_init stale_20 env_demo stale_41 (by decide) (by decide)
      (by decide)).1,
   ((c20_stale_id_fix host_init stale_20 env_demo stale_41 (by decide) (by decide)
      (by decide)).2.1 (by decide) (by decide)).1,
   ((c20_stale_id_fix host_init stale_20 env_demo stale_41 (by decide) (by decide)
      (by decide)).2.1 (by decide) (by decide)).2.2.1,
   ((c20_stale_id_fix host_init stale_20 env_demo stale_41 (by decide) (by decide)
      (by decide)).2.1 (by decide) (by decide)).2.2.2.2,
   (c20_stale_id_fix host_init stale_20 env_demo (scan_with_id 42) (by decide) (by decide)
      (by decide)).2.2 (by decide)⟩

/-- C20, evaluation: the ids and counts of the instance above. -/
theorem c20_stale_id_fix_demo :
    (lidar_feed host_init stale_20).pos_corr_id = 42 ∧
    (lidar_feed host_init stale_20).lidar_ignore_cnt = 20 ∧
    corr_ids (lidar_feed host_init stale_20).out = [] ∧
    (lidar_handling env_demo (lidar_feed host_init stale_20) (some stale_41)).pos_corr_id = 43 ∧
    corr_ids (lidar_handling env_demo (lidar_feed host_init stale_20) (some stale_41)).out
      = [43] := by decide

/-! ## C19: the ids of the scans in the scan-match queue -/

theorem flatMap_singleton_fn {α β : Type} (f : α → β) (l : List α) :
    (l.flatMap fun x => [f x]) = l.map f := by
  induction l with
  | nil => rfl
  | cons x l ih => simp [List.flatMap_cons, ih]

theorem first_n_eq {α : Type} (a : Int → Option α) (n : Int) :
    first_n a n = (List.range n.toNat).map (fun i : Nat => a (i : Int)) := by
  unfold first_n
  simp [List.map_flatMap, Function.comp_def, flatMap_singleton_fn]

theorem first_n_store_same {α : Type} (a : Int → Option α) (n : Int) (v : Option α)
    (hn : 0 ≤ n) : first_n (store a n v) n = first_n a n := by
  rw [first_n_eq, first_n_eq]
  apply List.map_congr_left
  intro i hi
  have : i < n.toNat := List.mem_range.mp hi
  unfold store
  rw [if_neg (by omega)]

theorem first_n_succ {α : Type} (a : Int → Option α) (n : Int) (hn : 0 ≤ n) :
    first_n a (n + 1) = first_n a n ++ [a n] := by
  rw [first_n_eq, first_n_eq]
  have h1 : (n + 1).toNat = n.toNat + 1 := by omega
  rw [h1, List.range_succ, List.map_append]
  simp only [List.map_cons, List.map_nil]
  rw [Int.toNat_of_nonneg hn]

theorem first_n_zero {α : Type} (a : Int → Option α) : first_n a 0 = [] := by
  rw [first_n_eq]
  rfl

theorem all_current_nil (id : Int) : all_current id [] := by
  intro x hx
  cases hx

theorem all_current_snoc (id : Int) (q : List (Option lidar_scan_t)) (p : lidar_scan_t)
    (hq : all_current id q) (hp : p.id = id) : all_current id (q ++ [some p]) := by
  intro x hx
  rcases List.mem_append.mp hx with h | h
  · exact hq x h
  · rw [List.mem_singleton.mp h]
    simp [hp]

theorem queue_post_empty (s r : Host) (l : List cmd_t) (hn : r.n_lidars_to_map = 0)
    (ho : r.out = s.out ++ l)
    (hm : ∀ n scans, cmd_t.map_lidars n scans ∈ l → all_current s.pos_corr_id scans) :
    queue_post s r := by
  refine ⟨by omega, ?_, l, ho, fun n scans h => ⟨hm n scans h, hn⟩⟩
  unfold queue_current scan_queue
  rw [hn, first_n_zero]
  exact all_current_nil _

theorem lidar_queue_step_post (e : Env) (s : Host) (p : lidar_scan_t)
    (hn : 0 ≤ s.n_lidars_to_map) (hq : queue_current s) (hp : p.id = s.pos_corr_id) :
    queue_post s (lidar_queue_step e s p) := by
  have hq1 : all_current s.pos_corr_id (first_n s.lidars_to_map s.n_lidars_to_map) := hq
  have hq2 : all_current s.pos_corr_id
      (first_n (store s.lidars_to_map s.n_lidars_to_map (some p)) (s.n_lidars_to_map + 1)) := by
    rw [first_n_succ _ _ hn, first_n_store_same _ _ _ hn]
    have : store s.lidars_to_map s.n_lidars_to_map (some p) s.n_lidars_to_map = some p := by
      unfold store
      rw [if_pos rfl]
    rw [this]
    exact all_current_snoc _ _ p hq1 hp
  unfold lidar_queue_step
  repeat' (with_reducible apply pred_ite (queue_post s) <;> intro _)
  · exact queue_post_empty s _ [] rfl (List.append_nil _).symm (fun n scans h => by cases h)
  · refine queue_post_empty s _ [cmd_t.map_lidars s.n_lidars_to_map
        (first_n s.lidars_to_map s.n_lidars_to_map),
      cmd_t.correct_robot_pos
        (Int.tdiv (e.map_lidars s.n_lidars_to_map
          (first_n s.lidars_to_map s.n_lidars_to_map)).1 3)
        (Int.tdiv (e.map_lidars s.n_lidars_to_map
          (first_n s.lidars_to_map s.n_lidars_to_map)).2.1 3)
        (Int.tdiv (e.map_lidars s.n_lidars_to_map
          (first_n s.lidars_to_map s.n_lidars_to_map)).2.2 3)
        (INCR_POS_CORR_ID s.pos_corr_id)] rfl ?_ ?_
    · simp only [emit, List.append_assoc, List.singleton_append]
    · intro n scans h
      simp only [List.mem_cons, cmd_t.map_lidars.injEq, List.mem_singleton, reduceCtorEq,
        or_false, List.not_mem_nil] at h
      rw [h.2]
      exact hq1
  · refine ⟨le_refl _, ?_, ?_⟩
    · unfold queue_current scan_queue
      show all_current _ (first_n _ 0)
      rw [first_n_zero]
      exact all_current_nil _
    · simp only [↓apply_ite Host.out, emit, ite_self, List.append_assoc, List.singleton_append]
      split_ifs <;>
        exact ⟨_, rfl, fun n scans h => by
          simp only [List.mem_cons, cmd_t.map_lidars.injEq, List.mem_singleton, reduceCtorEq,
            or_false, List.not_mem_nil] at h
          exact ⟨h.2 ▸ hq2, trivial⟩⟩
  · refine ⟨?_, hq2, [], (List.append_nil _).symm, fun n scans h => by cases h⟩
    show 0 ≤ s.n_lidars_to_map + 1
    omega

theorem lidar_accept_frame (e : Env) (s : Host) (p : lidar_scan_t) :
    (lidar_accept e s p).n_lidars_to_map = s.n_lidars_to_map ∧
    (lidar_accept e s p).lidars_to_map = s.lidars_to_map ∧
    (lidar_accept e s p).pos_corr_id = s.pos_corr_id ∧
    ∃ l, (lidar_accept e s p).out = s.out ++ l ∧ ∀ n scans, cmd_t.map_lidars n scans ∉ l := by
  unfold lidar_accept
  simp only [↓apply_ite Host.n_lidars_to_map, ↓apply_ite Host.lidars_to_map,
    ↓apply_ite Host.pos_corr_id, ↓apply_ite Host.out, ↓apply_ite Host.mapping_collisions,
    ↓apply_ite Host.curpos_send_cnt, emit, ite_self, true_and, List.append_assoc]
  split_ifs <;>
    (try simp only [List.append_assoc]) <;>
    exact ⟨_, rfl, fun n scans h => by simp at h⟩

theorem lidar_display_no_map (e : Env) (s : Host) (p : lidar_scan_t) :
    ∃ l, (lidar_display e s p).out = s.out ++ l ∧ ∀ n scans, cmd_t.map_lidars n scans ∉ l := by
  obtain ⟨l, hl, hc⟩ := lidar_display_out e s p
  refine ⟨l, hl, fun n scans h => ?_⟩
  rcases hc _ h with h2 | h2 <;> cases h2

theorem queue_post_trans (s a r : Host) (l0 : List cmd_t) (ho : a.out = s.out ++ l0)
    (hm : ∀ n scans, cmd_t.map_lidars n scans ∉ l0) (hid : a.pos_corr_id = s.pos_corr_id)
    (h : queue_post a r) : queue_post s r := by
  obtain ⟨h1, h2, l, h3, h4⟩ := h
  refine ⟨h1, h2, l0 ++ l, by rw [h3, ho, List.append_assoc], fun n scans hmem => ?_⟩
  rcases List.mem_append.mp hmem with h5 | h5
  · exact absurd h5 (hm n scans)
  · rw [← hid]
    exact h4 n scans h5

theorem queue_post_same (s r : Host) (l : List cmd_t) (hn : 0 ≤ s.n_lidars_to_map)
    (hq : queue_current s) (h1 : r.n_lidars_to_map = s.n_lidars_to_map)
    (h2 : r.lidars_to_map = s.lidars_to_map) (h3 : r.pos_corr_id = s.pos_corr_id)
    (ho : r.out = s.out ++ l) (hm : ∀ n scans, cmd_t.map_lidars n scans ∉ l) :
    queue_post s r := by
  refine ⟨by rw [h1]; exact hn, ?_, l, ho, fun n scans h => absurd h (hm n scans)⟩
  unfold queue_current scan_queue at *
  rw [h1, h2, h3]
  exact hq

theorem lidar_handling_accept_post (e : Env) (s : Host) (p : lidar_scan_t)
    (hn : 0 ≤ s.n_lidars_to_map) (hq : queue_current s) (hid : p.id = s.pos_corr_id) :
    queue_post s (lidar_handling e s (some p)) := by
  obtain ⟨f1, f2, f3, _, _⟩ := lidar_display_frame e s p
  obtain ⟨l1, ho1, hm1⟩ := lidar_display_no_map e s p
  obtain ⟨g1, g2, g3, l2, ho2, hm2⟩ := lidar_accept_frame e (lidar_display e s p) p
  have hA : queue_post s (lidar_accept e (lidar_display e s p) p) :=
    queue_post_same s _ (l1 ++ l2) hn hq (by rw [g1, f3]) (by rw [g2, f2]) (by rw [g3, f1])
      (by rw [ho2, ho1, List.append_assoc]) (fun n scans h => by
        rcases List.mem_append.mp h with h | h
        · exact hm1 n scans h
        · exact hm2 n scans h)
  unfold lidar_handling
  simp only
  rw [if_neg (by rw [f1]; simp [hid])]
  split_ifs
  · refine queue_post_trans s _ _ (l1 ++ l2) (by rw [ho2, ho1, List.append_assoc]) ?_
      (by rw [g3, f1]) (lidar_queue_step_post e _ p hA.1 hA.2.1 (by rw [g3, f1]; exact hid))
    intro n scans h
    rcases List.mem_append.mp h with h | h
    · exact hm1 n scans h
    · exact hm2 n scans h
  · exact hA

theorem lidar_handling_stale_frame (e : Env) (s : Host) (p : lidar_scan_t)
    (hid : p.id ≠ s.pos_corr_id) :
    (lidar_handling e s (some p)).n_lidars_to_map = s.n_lidars_to_map ∧
    (lidar_handling e s (some p)).lidars_to_map = s.lidars_to_map ∧
    ∃ l, (lidar_handling e s (some p)).out = s.out ++ l ∧
      ∀ n scans, cmd_t.map_lidars n scans ∉ l := by
  obtain ⟨_, f2, f3, _, _⟩ := lidar_display_frame e s p
  obtain ⟨l1, ho1, hm1⟩ := lidar_display_no_map e s p
  rw [lidar_handling_stale e s p hid]
  unfold lidar_ignore
  simp only [↓apply_ite Host.n_lidars_to_map, ↓apply_ite Host.lidars_to_map,
    ↓apply_ite Host.out, emit, ite_self, f2, f3, ho1, true_and, List.append_assoc]
  split_ifs
  · refine ⟨_, rfl, fun n scans h => ?_⟩
    rcases List.mem_append.mp h with h | h
    · exact hm1 n scans h
    · simp at h
  · exact ⟨l1, rfl, hm1⟩

/-- C19 (amended): let every scan in the scan-match queue carry the current
`pos_corr_id` (as it does initially and whenever the queue is empty).  Then every batch
that the next call of `lidar_handling` passes to `map_lidars` consists of scans with the
id current at that moment, and the call leaves the queue empty; and after the call every
queued scan again carries the current id, unless the call was the forced stale-id
increment (a stale scan with the stale count at 20), which advances the id and keeps the
queue. -/
theorem c19_queue_ids (e : Env) (s : Host) (p : lidar_scan_t)
    (hn : 0 ≤ s.n_lidars_to_map) (hq : queue_current s) :
    0 ≤ (lidar_handling e s (some p)).n_lidars_to_map ∧
    (∃ l, (lidar_handling e s (some p)).out = s.out ++ l ∧
      ∀ n scans, cmd_t.map_lidars n scans ∈ l →
        all_current s.pos_corr_id scans ∧
        (lidar_handling e s (some p)).n_lidars_to_map = 0) ∧
    ((p.id = s.pos_corr_id ∨ s.lidar_ignore_cnt < 20) →
      queue_current (lidar_handling e s (some p))) := by
  by_cases hid : p.id = s.pos_corr_id
  · obtain ⟨h1, h2, h3⟩ := lidar_handling_accept_post e s p hn hq hid
    exact ⟨h1, h3, fun _ => h2⟩
  · obtain ⟨g1, g2, l, ho, hm⟩ := lidar_handling_stale_frame e s p hid
    refine ⟨by rw [g1]; exact hn, ⟨l, ho, fun n scans h => absurd h (hm n scans)⟩, ?_⟩
    intro hc
    rcases hc with hc | hc
    · exact absurd hc hid
    · have g3 := (lidar_handling_stale_below e s p hid hc).1
      unfold queue_current scan_queue at *
      rw [g1, g2, g3]
      exact hq

/-- C19, instance of the amended statement: after two scans tagged 42 have been queued,
a third scan tagged 42 keeps the queue current. -/
theorem c19_queue_ids_witness :
    0 ≤ (lidar_handling env_demo (lidar_feed host_init two_current)
      (some (scan_with_id 42))).n_lidars_to_map ∧
    queue_current (lidar_handling env_demo (lidar_feed host_init two_current)
      (some (scan_with_id 42))) :=
  ⟨(c19_queue_ids env_demo (lidar_feed host_init two_current) (scan_with_id 42)
      (by decide) (by decide)).1,
   (c19_queue_ids env_demo (lidar_feed host_init two_current) (scan_with_id 42)
      (by decide) (by decide)).2.2 (by decide)⟩

/-- C19, counterexample to the claim as stated: two scans tagged 42 are queued, 21 stale
scans force `pos_corr_id` to 43, two scans tagged 43 are queued behind the two old ones,
and with the next scan tagged 43 `lidar_handling` calls `map_lidars` on a queue of five
scans of which the first two carry the id 42, while the current id is 43. -/
theorem c19_counterexample :
    (lidar_feed host_init mixed_queue_feed).pos_corr_id = 43 ∧
    scan_queue (lidar_feed host_init mixed_queue_feed)
      = [some (scan_with_id 42), some (scan_with_id 42), some (scan_with_id 43),
         some (scan_with_id 43)] ∧
    cmd_t.map_lidars 5 [some (scan_with_id 42), some (scan_with_id 42),
        some (scan_with_id 43), some (scan_with_id 43), some (scan_with_id 43)]
      ∈ (lidar_handling env_demo (lidar_feed host_init mixed_queue_feed)
          (some (scan_with_id 43))).out ∧
    ¬ all_current 43 [some (scan_with_id 42), some (scan_with_id 42),
        some (scan_with_id 43), some (scan_with_id 43), some (scan_with_id 43)] := by
  decide

/-! ## C16: `CR_SETPOS` and the 3D-ToF flush -/

theorem tof_batches_append (l1 l2 : List cmd_t) :
    tof_batches (l1 ++ l2) = tof_batches l1 ++ tof_batches l2 := by
  induction l1 with
  | nil => simp [tof_batches]
  | cons c l ih => cases c <;> simp [tof_batches, ih]

theorem tof_send_raws_frame (s : Host) : frameT (tof_send_raws s) = frameT s := by
  unfold tof_send_raws
  split_ifs
  · simp only [frameT, emit, tof_batches_append, tof_batches, List.append_nil]
  · rfl

theorem tof_send_cloud_frame (s : Host) : frameT (tof_send_cloud s) = frameT s := by
  unfold tof_send_cloud
  split_ifs
  · simp only [frameT, emit, tof_batches_append, tof_batches, List.append_nil]
  · rfl

theorem tof_send_frame (s : Host) (p : tof3d_scan_t) : frameT (tof_send s p) = frameT s := by
  unfold tof_send
  rw [tof_send_cloud_frame]
  have h := tof_send_raws_frame (emit (cmd_t.tcp_send_hmap p.robot_pos) s)
  have h2 : frameT (emit (cmd_t.tcp_send_hmap p.robot_pos) s) = frameT s := by
    simp only [frameT, emit, tof_batches_append, tof_batches, List.append_nil]
  rw [h2] at h
  exact h

theorem tof_display_frameT (e : Env) (s : Host) (p : tof3d_scan_t) :
    frameT (tof_display e s p) = frameT s := by
  unfold tof_display
  split_ifs
  · exact tof_send_frame _ p
  · rfl
  · rfl
theorem tof_display_frame (e : Env) (s : Host) (p : tof3d_scan_t) :
    (tof_display e s p).flush_3dtof = s.flush_3dtof ∧
    (tof_display e s p).n_tofs_to_map = s.n_tofs_to_map ∧
    (tof_display e s p).tofs_to_map = s.tofs_to_map ∧
    (tof_display e s p).mapping_3d = s.mapping_3d ∧
    (tof_display e s p).pwr_charging = s.pwr_charging ∧
    (tof_display e s p).pwr_charged = s.pwr_charged ∧
    tof_batches (tof_display e s p).out = tof_batches s.out := by
  have h := tof_display_frameT e s p
  unfold frameT at h
  simp only [Prod.mk.injEq] at h
  exact h

theorem tof_handling_flushing (e : Env) (s : Host) (p : tof3d_scan_t)
    (hf : s.flush_3dtof ≠ 0) :
    (tof_handling e s (some p)).flush_3dtof = s.flush_3dtof - 1 ∧
    (tof_handling e s (some p)).n_tofs_to_map = s.n_tofs_to_map ∧
    (tof_handling e s (some p)).tofs_to_map = s.tofs_to_map ∧
    (tof_handling e s (some p)).mapping_3d = s.mapping_3d ∧
    (tof_handling e s (some p)).pwr_charging = s.pwr_charging ∧
    (tof_handling e s (some p)).pwr_charged = s.pwr_charged ∧
    tof_batches (tof_handling e s (some p)).out = tof_batches s.out := by
  obtain ⟨f1, f2, f3, f4, f5, f6, f7⟩ := tof_display_frame e s p
  have hm : tof_mapping e (tof_display e s p) p = tof_display e s p := by
    unfold tof_mapping
    rw [if_neg (by rw [f1]; tauto)]
  unfold tof_handling
  simp only [hm]
  rw [if_pos (by rw [f1]; exact hf)]
  exact ⟨by rw [← f1], f2, f3, f4, f5, f6, f7⟩

theorem tof_mapping_eligible (e : Env) (s : Host) (p : tof3d_scan_t)
    (hf : s.flush_3dtof = 0) (h3 : s.mapping_3d ≠ 0)
    (hc : s.pwr_charging = 0 ∧ s.pwr_charged = 0)
    (hp : p.robot_pos.x ≠ 0 ∨ p.robot_pos.y ≠ 0 ∨ p.robot_pos.ang ≠ 0) :
    (tof_mapping e s p).tofs_to_map s.n_tofs_to_map = some p ∧
    (tof_mapping e s p).flush_3dtof = 0 := by
  unfold tof_mapping
  rw [if_pos ⟨hf, h3, hc.1, hc.2⟩, if_pos hp]
  constructor
  · simp only [↓apply_ite Host.tofs_to_map, ↓apply_ite Host.n_tofs_to_map, emit, ite_self]
    unfold store
    rw [if_pos rfl]
  · simp only [↓apply_ite Host.flush_3dtof, emit, ite_self]
    exact hf

theorem tof_handling_eligible (e : Env) (s : Host) (p : tof3d_scan_t)
    (hf : s.flush_3dtof = 0) (h3 : s.mapping_3d ≠ 0)
    (hc : s.pwr_charging = 0 ∧ s.pwr_charged = 0)
    (hp : p.robot_pos.x ≠ 0 ∨ p.robot_pos.y ≠ 0 ∨ p.robot_pos.ang ≠ 0) :
    (tof_handling e s (some p)).tofs_to_map s.n_tofs_to_map = some p ∧
    (tof_handling e s (some p)).flush_3dtof = 0 := by
  obtain ⟨f1, f2, _, f4, f5, f6, _⟩ := tof_display_frame e s p
  have hm := tof_mapping_eligible e (tof_display e s p) p (by rw [f1]; exact hf)
    (by rw [f4]; exact h3) ⟨by rw [f5]; exact hc.1, by rw [f6]; exact hc.2⟩ hp
  rw [f2] at hm
  unfold tof_handling
  simp only
  rw [if_neg (by rw [hm.2]; decide)]
  exact hm

theorem cmd_setpos_id (s : Host) (ang x y : Int)
    (hid : 0 ≤ s.pos_corr_id ∧ s.pos_corr_id ≤ 99) :
    (cmd_setpos s ang x y).pos_corr_id = (s.pos_corr_id + 1) % 100 ∧
    (cmd_setpos s ang x y).pos_corr_id ≠ s.pos_corr_id := by
  have h : (cmd_setpos s ang x y).pos_corr_id = INCR_POS_CORR_ID s.pos_corr_id := rfl
  rw [h]
  unfold INCR_POS_CORR_ID
  split_ifs <;> omega

/-- C16: after `CR_SETPOS`, `pos_corr_id` is the old value plus one modulo 100 (so it
differs from the old value), and the calls made are `set_robot_pos` with the new pose
followed by `correct_robot_pos(0, 0, 0, new id)`.  The next two scans handled by
`tof_handling` leave the mapping batch as it was and cause no call of `map_3dtof`; for
the third scan the flush counter is 0 again, and with 3D mapping on, the robot off the
charger and a scan pose other than `(0, 0, 0)` the scan is stored in the batch. -/
theorem c16_setpos_flush (e e1 e2 e3 : Env) (s : Host) (ang x y : Int)
    (p1 p2 p3 : tof3d_scan_t) (hid : 0 ≤ s.pos_corr_id ∧ s.pos_corr_id ≤ 99) :
    let s0 := cmd_from_client_to_host e s (client_msg.CR_SETPOS ang x y)
    let s1 := tof_handling e1 s0 (some p1)
    let s2 := tof_handling e2 s1 (some p2)
    let s3 := tof_handling e3 s2 (some p3)
    s0.pos_corr_id = (s.pos_corr_id + 1) % 100 ∧ s0.pos_corr_id ≠ s.pos_corr_id ∧
    s0.out = s.out ++ [cmd_t.set_robot_pos (ang * 65536) x y,
      cmd_t.correct_robot_pos 0 0 0 s0.pos_corr_id] ∧
    (s1.n_tofs_to_map = s.n_tofs_to_map ∧ s1.tofs_to_map = s.tofs_to_map ∧
      tof_batches s1.out = tof_batches s.out) ∧
    (s2.n_tofs_to_map = s.n_tofs_to_map ∧ s2.tofs_to_map = s.tofs_to_map ∧
      tof_batches s2.out = tof_batches s.out) ∧
    s2.flush_3dtof = 0 ∧
    (s.mapping_3d ≠ 0 → s.pwr_charging = 0 ∧ s.pwr_charged = 0 →
      (p3.robot_pos.x ≠ 0 ∨ p3.robot_pos.y ≠ 0 ∨ p3.robot_pos.ang ≠ 0) →
      s3.tofs_to_map s.n_tofs_to_map = some p3) := by
  intro s0 s1 s2 s3
  have h0 : s0 = cmd_setpos s ang x y := rfl
  have hf0 : s0.flush_3dtof = 2 := rfl
  have hb0 : tof_batches s0.out = tof_batches s.out := by
    rw [h0]
    simp only [cmd_setpos, emit, tof_batches_append, tof_batches, List.append_nil]
  obtain ⟨a1, a2, a3, a4, a5, a6, a7⟩ := tof_handling_flushing e1 s0 p1 (by rw [hf0]; decide)
  have hf1 : s1.flush_3dtof = 1 := by
    show (tof_handling e1 s0 (some p1)).flush_3dtof = 1
    rw [a1, hf0]
    rfl
  obtain ⟨b1, b2, b3, b4, b5, b6, b7⟩ := tof_handling_flushing e2 s1 p2 (by rw [hf1]; decide)
  have hf2 : s2.flush_3dtof = 0 := by
    show (tof_handling e2 s1 (some p2)).flush_3dtof = 0
    rw [b1, hf1]
    rfl
  refine ⟨(cmd_setpos_id s ang x y hid).1, (cmd_setpos_id s ang x y hid).2, ?_,
    ⟨a2, a3, a7.trans hb0⟩, ⟨b2.trans a2, b3.trans a3, b7.trans (a7.trans hb0)⟩, hf2, ?_⟩
  · rw [h0]
    simp only [cmd_setpos, emit, List.append_assoc, List.singleton_append]
  · intro h3 hc hp
    have := (tof_handling_eligible e3 s2 p3 hf2 (by rw [b4, a4]; exact h3)
      ⟨by rw [b5, a5]; exact hc.1, by rw [b6, a6]; exact hc.2⟩ hp).1
    rw [b2, a2] at this
    exact this

/-- C16, instance: from the initial state (id 42), `CR_SETPOS` gives id 43; of three
scans taken at `x = 510, 520, 530` the first two leave the batch empty and the third is
stored at index 0. -/
theorem c16_setpos_flush_witness :
    (0 ≤ host_init.pos_corr_id ∧ host_init.pos_corr_id ≤ 99) ∧
    (cmd_from_client_to_host env_demo host_init (client_msg.CR_SETPOS 0 500 0)).pos_corr_id
      = (host_init.pos_corr_id + 1) % 100 ∧
    (tof_handling env_demo (tof_handling env_demo
      (cmd_from_client_to_host env_demo host_init (client_msg.CR_SETPOS 0 500 0))
      (some (tof_at 510))) (some (tof_at 520))).n_tofs_to_map = host_init.n_tofs_to_map ∧
    (tof_handling env_demo (tof_handling env_demo (tof_handling env_demo
      (cmd_from_client_to_host env_demo host_init (client_msg.CR_SETPOS 0 500 0))
      (some (tof_at 510))) (some (tof_at 520))) (some (tof_at 530))).tofs_to_map
        host_init.n_tofs_to_map = some (tof_at 530) :=
  ⟨by decide,
   (c16_setpos_flush env_demo env_demo env_demo env_demo host_init 0 500 0 (tof_at 510)
      (tof_at 520) (tof_at 530) (by decide)).1,
   (c16_setpos_flush env_demo env_demo env_demo env_demo host_init 0 500 0 (tof_at 510)
      (tof_at 520) (tof_at 530) (by decide)).2.2.2.2.1.1,
   (c16_setpos_flush env_demo env_demo env_demo env_demo host_init 0 500 0 (tof_at 510)
      (tof_at 520) (tof_at 530) (by decide)).2.2.2.2.2.2 (by decide) (by decide) (by decide)⟩

/-- C16, evaluation of the same run: id, calls, flush counter and batch length. -/
theorem c16_setpos_flush_demo :
    (cmd_from_client_to_host env_demo host_init (client_msg.CR_SETPOS 0 500 0)).pos_corr_id = 43 ∧
    (cmd_from_client_to_host env_demo host_init (client_msg.CR_SETPOS 0 500 0)).out
      = [cmd_t.set_robot_pos 0 500 0, cmd_t.correct_robot_pos 0 0 0 43] ∧
    (cmd_from_client_to_host env_demo host_init (client_msg.CR_SETPOS 0 500 0)).flush_3dtof = 2 ∧
    (tof_handling env_demo (cmd_from_client_to_host env_demo host_init
      (client_msg.CR_SETPOS 0 500 0)) (some (tof_at 510))).flush_3dtof = 1 ∧
    (tof_handling env_demo (tof_handling env_demo (tof_handling env_demo
      (cmd_from_client_to_host env_demo host_init (client_msg.CR_SETPOS 0 500 0))
      (some (tof_at 510))) (some (tof_at 520))) (some (tof_at 530))).n_tofs_to_map = 1 := by
  decide

/-! ## C18: the cadence of the speed ramps -/

theorem speed_ramp_1_prev (e : Env) (s : Host) :
    (speed_ramp_1 e s).ramp1_prev_incr = s.ramp1_prev_incr := by
  unfold speed_ramp_1
  simp only [↓apply_ite Host.ramp1_prev_incr, emit, ite_self]

theorem speed_ramp_1_fires (e : Env) (s : Host)
    (ht : e.t_map > s.ramp1_prev_incr + 150000000) (hc : s.cur_speedlim < s.max_speedlim) :
    (speed_ramp_1 e s).cur_speedlim = s.cur_speedlim + 1 := by
  unfold speed_ramp_1
  rw [if_pos ht, if_pos hc]
  rfl

/-- C18, run that shows the divergence: with `cur_speedlim = 10` below
`max_speedlim = 45`, the mapping iteration at clock 100.000 s raises `cur_speedlim` by
two steps (both speed blocks fire), and the iteration 1 ms later raises it again,
because the first speed block never stores the time of its last adjustment
(`ramp1_prev_incr` stays 0). -/
theorem c18_ramp_cadence :
    (run host_init lowered_speed).cur_speedlim = 10 ∧
    (run host_init lowered_speed).max_speedlim = 45 ∧
    (run host_init (lowered_speed ++ mapping_iteration 100000000000)).cur_speedlim = 12 ∧
    (run host_init (lowered_speed ++ mapping_iteration 100000000000
      ++ mapping_iteration 100001000000)).cur_speedlim = 13 ∧
    (run host_init (lowered_speed ++ mapping_iteration 100000000000
      ++ mapping_iteration 100001000000)).ramp1_prev_incr = 0 ∧
    (run host_init (lowered_speed ++ mapping_iteration 100000000000
      ++ mapping_iteration 100001000000)).ramp2_prev_incr = 100000000000 := by
  decide

/-! ## C12: the waypoint skipping loop -/

theorem can_skip_route_pos (e : Env) (s : Host) (r j : Int) :
    can_skip e { s with route_pos := r } j ↔ can_skip e s j := Iff.rfl

theorem skip_loop_step (e : Env) (n : Nat) (s : Host) :
    skip_loop e (n + 1) s
      = if can_skip e s s.route_pos then skip_loop e n { s with route_pos := s.route_pos + 1 }
        else s := by
  show (if _ then (if _ then _ else _) else _) = _
  unfold can_skip
  by_cases h1 : (s.the_route s.route_pos).backmode = 0 ∧ s.route_pos < s.the_route_len - 1
  · by_cases h2 : sq_sum (s.cur_x - (s.the_route (s.route_pos + 1)).x)
        (s.cur_y - (s.the_route (s.route_pos + 1)).y) < sq 800
      ∧ e.check_direct_route_mm s.cur_ang s.cur_x s.cur_y
          (s.the_route (s.route_pos + 1)).x (s.the_route (s.route_pos + 1)).y ≠ 0
    · rw [if_pos h1, if_pos h2, if_pos ⟨h1, h2⟩]
    · rw [if_pos h1, if_neg h2, if_neg (fun h => h2 h.2)]
  · rw [if_neg h1, if_neg (fun h => h1 h.1)]

theorem skip_loop_spec (e : Env) (n : Nat) (s : Host)
    (hn : s.the_route_len - 1 - s.route_pos ≤ n) :
    s.route_pos ≤ (skip_loop e n s).route_pos ∧
    (∀ j, s.route_pos ≤ j → j < (skip_loop e n s).route_pos → can_skip e s j) ∧
    ¬ can_skip e s (skip_loop e n s).route_pos ∧
    (skip_loop e n s).route_pos ≤ max s.route_pos (s.the_route_len - 1) := by
  induction n generalizing s with
  | zero =>
    have h : skip_loop e 0 s = s := rfl
    rw [h]
    refine ⟨le_refl _, fun j h1 h2 => by omega, fun hc => ?_, le_max_left _ _⟩
    have := hc.1.2
    simp only [Nat.cast_zero] at hn
    omega
  | succ n ih =>
    rw [skip_loop_step]
    by_cases hc : can_skip e s s.route_pos
    · rw [if_pos hc]
      have h := ih { s with route_pos := s.route_pos + 1 } (by
        show s.the_route_len - 1 - (s.route_pos + 1) ≤ n
        push_cast at hn
        omega)
      obtain ⟨h1, h2, h3, h4⟩ := h
      have h1a : s.route_pos + 1 ≤ (skip_loop e n { s with route_pos := s.route_pos + 1 }).route_pos := h1
      have h4a : (skip_loop e n { s with route_pos := s.route_pos + 1 }).route_pos
          ≤ max (s.route_pos + 1) (s.the_route_len - 1) := h4
      refine ⟨by omega, fun j hj1 hj2 => ?_, h3, ?_⟩
      · by_cases hj : j = s.route_pos
        · rw [hj]
          exact hc
        · exact h2 j (by show s.route_pos + 1 ≤ j; omega) hj2
      · have := hc.1.2
        omega
    · rw [if_neg hc]
      exact ⟨le_refl _, fun j h1 h2 => by omega, hc, le_max_left _ _⟩

theorem skip_loop_more (e : Env) (n : Nat) (s : Host)
    (hn : s.the_route_len - 1 - s.route_pos ≤ n) :
    skip_loop e (n + 1) s = skip_loop e n s := by
  induction n generalizing s with
  | zero =>
    rw [skip_loop_step]
    have h : skip_loop e 0 s = s := rfl
    rw [h, if_neg]
    intro hc
    have := hc.1.2
    simp only [Nat.cast_zero] at hn
    omega
  | succ n ih =>
    rw [skip_loop_step e (n + 1) s, skip_loop_step e n s]
    by_cases hc : can_skip e s s.route_pos
    · rw [if_pos hc, if_pos hc]
      exact ih _ (by
        show s.the_route_len - 1 - (s.route_pos + 1) ≤ n
        push_cast at hn
        omega)
    · rw [if_neg hc, if_neg hc]

theorem skip_loop_enough (e : Env) (s : Host) (n : Nat)
    (hn : (s.the_route_len - 1 - s.route_pos).toNat ≤ n) :
    skip_loop e n s = skip_points e s := by
  unfold skip_points
  induction n with
  | zero =>
    have : (s.the_route_len - 1 - s.route_pos).toNat = 0 := by omega
    rw [this]
  | succ n ih =>
    by_cases h : (s.the_route_len - 1 - s.route_pos).toNat ≤ n
    · rw [skip_loop_more e n s (by omega)]
      exact ih h
    · have : (s.the_route_len - 1 - s.route_pos).toNat = n + 1 := by omega
      rw [this]

/-- When the squared distance to waypoint `j + 1` is below `2^31`, the test of the loop
is the skipping rule in exact arithmetic. -/
theorem can_skip_iff (e : Env) (s : Host) (j : Int)
    (h : dist2 s.cur_x s.cur_y (s.the_route (j + 1)).x (s.the_route (j + 1)).y
      < 2147483648) : can_skip e s j ↔ skip_rule e s j := by
  have h8 : sq 800 = 800 * 800 := by decide
  rw [dist2_comm] at h
  unfold can_skip skip_rule
  rw [sq_sum_dist2 _ _ _ _ h, h8, dist2_comm s.cur_x]
  tauto

/-- C12: the skipping loop of `route_fsm` changes nothing but `route_pos`, which it only
increases.  Every index `j` it steps over passed the loop's test `can_skip`; when
waypoint `j + 1` is less than 46341 mm from the pose (squared distance below `2^31`, so
that the `int` arithmetic of `sq` is exact) this means: waypoint `j` has backmode 0 and
is not the last, waypoint `j + 1` is strictly less than 800 mm from the pose, and
`check_direct_route_mm` reports a direct route to it.  The loop stops at the first index
that fails the test, within `the_route_len - 1 - route_pos` iterations (more iterations
give the same result), and a `route_pos` that was at most `the_route_len - 1` stays
so. -/
theorem c12_skip_points (e : Env) (s : Host) :
    skip_points e s = { s with route_pos := (skip_points e s).route_pos } ∧
    s.route_pos ≤ (skip_points e s).route_pos ∧
    (∀ j, s.route_pos ≤ j → j < (skip_points e s).route_pos →
      can_skip e s j ∧
      (dist2 s.cur_x s.cur_y (s.the_route (j + 1)).x (s.the_route (j + 1)).y < 2147483648 →
        (s.the_route j).backmode = 0 ∧ j < s.the_route_len - 1 ∧
        dist2 s.cur_x s.cur_y (s.the_route (j + 1)).x (s.the_route (j + 1)).y < 800 * 800 ∧
        e.check_direct_route_mm s.cur_ang s.cur_x s.cur_y
          (s.the_route (j + 1)).x (s.the_route (j + 1)).y ≠ 0)) ∧
    (¬ can_skip e s (skip_points e s).route_pos ∧
      (dist2 s.cur_x s.cur_y (s.the_route ((skip_points e s).route_pos + 1)).x
          (s.the_route ((skip_points e s).route_pos + 1)).y < 2147483648 →
        ¬ skip_rule e s (skip_points e s).route_pos)) ∧
    (s.route_pos ≤ s.the_route_len - 1 →
      (skip_points e s).route_pos ≤ s.the_route_len - 1) ∧
    (∀ n, (s.the_route_len - 1 - s.route_pos).toNat ≤ n →
      skip_loop e n s = skip_points e s) := by
  have h := skip_loop_spec e (s.the_route_len - 1 - s.route_pos).toNat s (by omega)
  have hp : skip_loop e (s.the_route_len - 1 - s.route_pos).toNat s = skip_points e s := rfl
  rw [hp] at h
  have hiff : ∀ j, dist2 s.cur_x s.cur_y (s.the_route (j + 1)).x (s.the_route (j + 1)).y
      < 2147483648 → (can_skip e s j ↔ skip_rule e s j) := by
    intro j hb
    have hx : 0 ≤ (s.cur_x - (s.the_route (j + 1)).x) * (s.cur_x - (s.the_route (j + 1)).x) :=
      mul_self_nonneg _
    have hy : 0 ≤ (s.cur_y - (s.the_route (j + 1)).y) * (s.cur_y - (s.the_route (j + 1)).y) :=
      mul_self_nonneg _
    rw [dist2_comm] at hb
    have hsum : sq_sum (s.cur_x - (s.the_route (j + 1)).x) (s.cur_y - (s.the_route (j + 1)).y)
        = dist2 (s.the_route (j + 1)).x (s.the_route (j + 1)).y s.cur_x s.cur_y := by
      unfold dist2 at hb ⊢
      unfold sq_sum sq wrap32
      omega
    have h8 : sq 800 = 800 * 800 := by decide
    unfold can_skip skip_rule
    rw [hsum, h8, dist2_comm s.cur_x]
    tauto
  refine ⟨skip_points_eq e s, h.1,
    fun j h1 h2 => ⟨h.2.1 j h1 h2, fun hb => (hiff j hb).1 (h.2.1 j h1 h2)⟩,
    ⟨h.2.2.1, fun hb hr => h.2.2.1 ((hiff _ hb).2 hr)⟩, fun hle => ?_,
    fun n hn => skip_loop_enough e s n hn⟩
  have := h.2.2.2
  omega

/-- C12, instance: at the origin on the route of waypoints `(300 i, 0)` with a direct
route to everything, the loop steps over waypoints 0 and 1, whose successors are 300 mm
and 600 mm away, and stops at waypoint 2, because waypoint 3 is 900 mm away. -/
theorem c12_skip_points_witness :
    can_skip env_direct on_dense_route 0 ∧
    dist2 on_dense_route.cur_x on_dense_route.cur_y (on_dense_route.the_route (1 + 1)).x
      (on_dense_route.the_route (1 + 1)).y < 800 * 800 ∧
    ¬ skip_rule env_direct on_dense_route (skip_points env_direct on_dense_route).route_pos ∧
    (skip_points env_direct on_dense_route).route_pos ≤ on_dense_route.the_route_len - 1 ∧
    skip_loop env_direct 9 on_dense_route = skip_points env_direct on_dense_route :=
  ⟨((c12_skip_points env_direct on_dense_route).2.2.1 0 (by decide) (by decide)).1,
   (((c12_skip_points env_direct on_dense_route).2.2.1 1 (by decide) (by decide)).2
      (by decide)).2.2.1,
   (c12_skip_points env_direct on_dense_route).2.2.2.1.2 (by decide),
   (c12_skip_points env_direct on_dense_route).2.2.2.2.1 (by decide),
   (c12_skip_points env_direct on_dense_route).2.2.2.2.2 9 (by decide)⟩

/-- C12, evaluation: with a direct route the loop ends at waypoint 2; with no direct
route (the demo world) it does not move; on a backward waypoint it does not move. -/
theorem c12_skip_points_demo :
    (skip_points env_direct on_dense_route).route_pos = 2 ∧
    (skip_points env_demo on_dense_route).route_pos = 0 ∧
    (skip_points env_direct
      { on_dense_route with the_route := fun i => ⟨300 * i, 0, 1, 100, 0⟩ }).route_pos = 0 := by
  decide

/-- Evaluation of the skipping loop with the next waypoint 50 m away and a direct route
to it: the `int` sum of squares has wrapped to a negative number, the test
`< sq(800)` passes and the waypoint is skipped to, although it is not within 800 mm. -/
theorem skip_points_far_waypoint :
    dist2 on_long_route.cur_x on_long_route.cur_y (on_long_route.the_route 1).x
      (on_long_route.the_route 1).y = 50000 * 50000 ∧
    sq_sum (on_long_route.cur_x - (on_long_route.the_route 1).x)
      (on_long_route.cur_y - (on_long_route.the_route 1).y) = -1794967296 ∧
    can_skip env_direct on_long_route 0 ∧ ¬ skip_rule env_direct on_long_route 0 ∧
    (skip_points env_direct on_long_route).route_pos = 1 := by
  decide

/-! ## C11: the creeps of Recovery stage 7 -/

theorem los_resume_blocked (e : Env) (s : Host)
    (hlos : e.check_direct_route_non_turning_mm s.cur_x s.cur_y (s.the_route s.route_pos).x
      (s.the_route s.route_pos).y = 0) : los_resume e s = s := by
  unfold los_resume
  by_cases h : s.lookaround_creep_reroute = 0
  · rw [if_neg (by simp [h])]
  · rw [if_pos h, if_neg (by simp [hlos])]

theorem turn_cmds_append (l1 l2 : List cmd_t) :
    turn_cmds (l1 ++ l2) = turn_cmds l1 + turn_cmds l2 := by
  induction l1 with
  | nil => simp [turn_cmds]
  | cons c l ih => cases c <;> simp [turn_cmds, ih]; omega

theorem run_search_turns (e : Env) (s : Host) (a b c d : Int) :
    turn_cmds (run_search e s a b c d).1.out = turn_cmds s.out := by
  unfold run_search
  simp only [↓apply_ite Host.out, apply_ite turn_cmds, turn_cmds_append, turn_cmds, emit,
    ite_self, Nat.add_zero]

theorem rr_turns (e : Env) (s : Host) :
    turn_cmds (request_routing e s).out = turn_cmds s.out := by
  unfold request_routing
  simp only [run_search_turns, emit, turn_cmds_append, turn_cmds, Nat.add_zero]

theorem send_route_end_status_counts (e : Env) (r : Int) (s : Host) :
    turn_cmds (send_route_end_status e r s).out = turn_cmds s.out ∧
    routing_requests (send_route_end_status e r s).out = routing_requests s.out := by
  unfold send_route_end_status
  simp only [↓apply_ite Host.out, apply_ite turn_cmds, apply_ite routing_requests,
    turn_cmds_append, routing_requests_append, turn_cmds, routing_requests, emit, ite_self,
    Nat.add_zero, and_self]

theorem recovery_step_stage7 (e : Env) (s : Host) (h7 : s.lookaround_creep_reroute = 7) :
    recovery_step e s
      = if e.t_gate > s.timestamp + s.time_interval then stage7_act e s else s := by
  unfold recovery_step
  iterate 6 rw [if_neg (by omega)]
  rw [if_pos h7]

/-- With the squared distance to the waypoint below `2^31`, the `dist` of stage 7 is the
truncated distance. -/
theorem stage7_dist_exact (s : Host) (h : waypoint_dist2 s < 2147483648) :
    stage7_dist s = (Nat.sqrt (waypoint_dist2 s).toNat : Nat) := by
  unfold stage7_dist
  unfold waypoint_dist2 at h ⊢
  rw [sq_sum_dist2 _ _ _ _ h, isqrt_eq_sqrt _ (by omega)]

theorem stage7_creep (e : Env) (s : Host) (h7 : s.lookaround_creep_reroute = 7)
    (hg : e.t_gate > s.timestamp + s.time_interval) (hd : 300 < stage7_dist s)
    (hc : s.creep_cnt < 3) (hh : creep_hitcnt e s < 1) :
    recovery_step e s =
      { s with time_interval := 2500000000,
               out := s.out ++ [creep_cmd s (if Int.land s.creep_cnt 1 ≠ 0 then 5 else -5)],
               creep_cnt := s.creep_cnt + 1, timestamp := e.t_mark } := by
  rw [recovery_step_stage7 e s h7, if_pos hg]
  unfold stage7_act
  simp only
  unfold creep_hitcnt at hh
  rw [if_pos ⟨hd, hc⟩, if_pos hh]
  rfl

theorem stage7_hit (e : Env) (s : Host) (h7 : s.lookaround_creep_reroute = 7)
    (hg : e.t_gate > s.timestamp + s.time_interval) (hd : 300 < stage7_dist s)
    (hc : s.creep_cnt < 3) (hh : 1 ≤ creep_hitcnt e s) :
    recovery_step e s = { s with creep_cnt := 100, timestamp := e.t_mark } := by
  rw [recovery_step_stage7 e s h7, if_pos hg]
  unfold stage7_act
  simp only
  rw [if_pos ⟨hd, hc⟩, if_neg (by unfold creep_hitcnt at hh; omega)]
  rfl

theorem stage7_reroute (e : Env) (s : Host) (h7 : s.lookaround_creep_reroute = 7)
    (hg : e.t_gate > s.timestamp + s.time_interval)
    (hc : ¬ (300 < stage7_dist s ∧ s.creep_cnt < 3)) :
    routing_requests (recovery_step e s).out = routing_requests s.out + 1 ∧
    turn_cmds (recovery_step e s).out = turn_cmds s.out := by
  have hc2 : ¬ (((isqrt (sq_sum ((s.the_route s.route_pos).x - s.cur_x)
      ((s.the_route s.route_pos).y - s.cur_y)).toNat : Nat) : Int) > 300
      ∧ s.creep_cnt < 3) := hc
  rw [recovery_step_stage7 e s h7, if_pos hg]
  unfold stage7_act
  simp only
  rw [if_neg hc2]
  simp only [↓apply_ite Host.out, apply_ite turn_cmds, apply_ite routing_requests,
    send_route_end_status_counts, rr_turns, rr_requests, turn_cmds_append,
    routing_requests_append, turn_cmds, routing_requests, emit, ite_self, Nat.add_zero,
    and_self]

/-- A tick in which the Recovery block leaves the follower and the start of a route
switched off, with no line of sight and no charger procedure, is its Recovery block. -/
theorem route_fsm_recovery_only (e : Env) (s : Host) (hlos : los_blocked e s)
    (hf : (recovery_step e s).do_follow_route = 0) (hst : (recovery_step e s).start_route = 0)
    (hch : (recovery_step e s).find_charger_state = 0) :
    route_fsm e s = recovery_step e s := by
  have hl : los_resume e s = s := los_resume_blocked e s hlos
  have h1 : start_route_step (recovery_step e s) = recovery_step e s := by
    unfold start_route_step
    rw [if_neg (by simp [hst])]
  unfold route_fsm
  rw [hl, h1, follow_route_step_idle e _ hf]
  unfold charger_step
  rw [if_neg (by simp [hch])]

theorem route_fsm_stage7_creep (e : Env) (s : Host) (h7 : s.lookaround_creep_reroute = 7)
    (hg : e.t_gate > s.timestamp + s.time_interval) (hd : 300 < stage7_dist s)
    (hc : s.creep_cnt < 3) (hh : creep_hitcnt e s < 1) (hlos : los_blocked e s)
    (hf : s.do_follow_route = 0) (hst : s.start_route = 0) (hch : s.find_charger_state = 0) :
    route_fsm e s = recovery_step e s := by
  have c := stage7_creep e s h7 hg hd hc hh
  exact route_fsm_recovery_only e s hlos (by rw [c]; exact hf) (by rw [c]; exact hst)
    (by rw [c]; exact hch)

theorem route_fsm_stage7_hit (e : Env) (s : Host) (h7 : s.lookaround_creep_reroute = 7)
    (hg : e.t_gate > s.timestamp + s.time_interval) (hd : 300 < stage7_dist s)
    (hc : s.creep_cnt < 3) (hh : 1 ≤ creep_hitcnt e s) (hlos : los_blocked e s)
    (hf : s.do_follow_route = 0) (hst : s.start_route = 0) (hch : s.find_charger_state = 0) :
    route_fsm e s = recovery_step e s := by
  have c := stage7_hit e s h7 hg hd hc hh
  exact route_fsm_recovery_only e s hlos (by rw [c]; exact hf) (by rw [c]; exact hst)
    (by rw [c]; exact hch)

theorem route_fsm_stage7_wait (e : Env) (s : Host) (h7 : s.lookaround_creep_reroute = 7)
    (hg : ¬ e.t_gate > s.timestamp + s.time_interval) (hlos : los_blocked e s)
    (hf : s.do_follow_route = 0) (hst : s.start_route = 0) (hch : s.find_charger_state = 0) :
    route_fsm e s = s := by
  have c : recovery_step e s = s := by rw [recovery_step_stage7 e s h7, if_neg hg]
  have h := route_fsm_recovery_only e s hlos (by rw [c]; exact hf) (by rw [c]; exact hst)
    (by rw [c]; exact hch)
  rw [h, c]

theorem do_live_obstacle_checking_counts (e : Env) (s : Host) :
    turn_cmds (do_live_obstacle_checking e s).out = turn_cmds s.out ∧
    routing_requests (do_live_obstacle_checking e s).out = routing_requests s.out := by
  unfold do_live_obstacle_checking
  simp only [↓apply_ite Host.out, apply_ite turn_cmds, apply_ite routing_requests,
    turn_cmds_append, routing_requests_append, turn_cmds, routing_requests, emit, ite_self,
    Nat.add_zero, and_self]

theorem live_check_step_counts (e : Env) (s : Host) :
    turn_cmds (live_check_step e s).out = turn_cmds s.out ∧
    routing_requests (live_check_step e s).out = routing_requests s.out := by
  unfold live_check_step
  simp only [↓apply_ite Host.out, apply_ite turn_cmds, apply_ite routing_requests,
    do_live_obstacle_checking_counts, turn_cmds_append, routing_requests_append, turn_cmds,
    routing_requests, emit, ite_self, Nat.add_zero, and_self]

theorem follow_route_step_turns (e : Env) (s : Host) :
    turn_cmds (follow_route_step e s).out = turn_cmds s.out := by
  unfold follow_route_step
  show same_turns s _
  repeat' (with_reducible apply pred_ite (same_turns s) <;> intro _)
  all_goals
    show turn_cmds _ = turn_cmds s.out
    first
    | rfl
    | exact rr_turns e s
    | (simp only [↓apply_ite Host.out, apply_ite turn_cmds, emit, skip_points_out,
         send_route_end_status_counts, live_check_step_counts, turn_cmds_append, turn_cmds,
         ite_self, Nat.add_zero])

theorem follow_route_step_requests (e : Env) (s : Host) :
    routing_requests s.out ≤ routing_requests (follow_route_step e s).out := by
  unfold follow_route_step
  show more_requests s _
  repeat' (with_reducible apply pred_ite (more_requests s) <;> intro _)
  all_goals
    show routing_requests s.out ≤ routing_requests _
    first
    | exact le_refl _
    | (rw [rr_requests]; omega)
    | (simp only [↓apply_ite Host.out, apply_ite routing_requests, emit, skip_points_out,
         send_route_end_status_counts, live_check_step_counts, routing_requests_append,
         routing_requests, ite_self, Nat.add_zero, le_refl])

theorem start_route_step_counts (s : Host) :
    turn_cmds (start_route_step s).out = turn_cmds s.out ∧
    routing_requests (start_route_step s).out = routing_requests s.out := by
  unfold start_route_step
  simp only [↓apply_ite Host.out, apply_ite turn_cmds, apply_ite routing_requests,
    turn_cmds_append, routing_requests_append, turn_cmds, routing_requests, emit, ite_self,
    Nat.add_zero, and_self]

/-- With the charger procedure not running and no line of sight, the creep moves of a
tick are those of its Recovery block, and the tick makes at least the routing requests
of its Recovery block. -/
theorem route_fsm_counts (e : Env) (s : Host) (hlos : los_blocked e s)
    (hc : s.find_charger_state = 0) :
    turn_cmds (route_fsm e s).out = turn_cmds (recovery_step e s).out ∧
    routing_requests (recovery_step e s).out ≤ routing_requests (route_fsm e s).out := by
  have hF := route_fsm_frameF_before_charger e s
  unfold frameF at hF
  simp only [Prod.mk.injEq] at hF
  have hl : los_resume e s = s := los_resume_blocked e s hlos
  rw [hl] at hF
  unfold route_fsm charger_step
  rw [hl, if_neg (by rw [hF.2.1]; simp [hc])]
  refine ⟨?_, ?_⟩
  · rw [follow_route_step_turns, (start_route_step_counts _).1]
  · have h := follow_route_step_requests e (start_route_step (recovery_step e s))
    rw [(start_route_step_counts _).2] at h
    exact h

theorem handle_uart_recovery (fb : mcu_feedback_t) (s : Host) :
    (handle_uart fb s).lookaround_creep_reroute = s.lookaround_creep_reroute ∧
    (handle_uart fb s).creep_cnt = s.creep_cnt ∧
    (handle_uart fb s).timestamp = s.timestamp ∧
    (handle_uart fb s).time_interval = s.time_interval ∧
    (handle_uart fb s).out = s.out := ⟨rfl, rfl, rfl, rfl, rfl⟩

/-- C11: the robot is in Recovery stage 7 with `creep_cnt = 0` (stage 6 zeroes it), no
route followed or about to start, and no charger procedure.  Every tick below is a whole
iteration of `route_fsm` that finds no line of sight to the waypoint.  A tick whose
2.5 s gate has not passed changes nothing.  Three gated ticks, each finding the waypoint
more than 300 mm away (truncated distance above 300, squared distance below `2^31` so
that the `int` arithmetic of `sq` is exact) and no hit on the 100 mm look-ahead, issue
exactly three creep moves of 100 mm, with direction offsets -5, +5, -5 degrees (the MCU
may report a new pose after each), and the fourth gated tick requests a reroute and
issues no creep.  Any gated stage 7 tick that finds the waypoint at a truncated distance
of 300 mm or less requests the reroute and issues no creep.  A gated tick whose
look-ahead has a hit issues no call, and the next gated tick requests the reroute and
issues no creep. -/
theorem c11_creep_budget (e1 e2 e3 e4 : Env) (fb1 fb2 fb3 : mcu_feedback_t)
    (s s1 s2 s3 : Host)
    (h7 : s.lookaround_creep_reroute = 7) (h0 : s.creep_cnt = 0)
    (hidle : s.do_follow_route = 0 ∧ s.start_route = 0 ∧ s.find_charger_state = 0)
    (hs1 : s1 = handle_uart fb1 (route_fsm e1 s))
    (hs2 : s2 = handle_uart fb2 (route_fsm e2 s1))
    (hs3 : s3 = handle_uart fb3 (route_fsm e3 s2))
    (hl1 : los_blocked e1 s) (hl2 : los_blocked e2 s1) (hl3 : los_blocked e3 s2)
    (hl4 : los_blocked e4 s3)
    (hg1 : e1.t_gate > s.timestamp + s.time_interval)
    (hg2 : e2.t_gate > e1.t_mark + 2500000000)
    (hg3 : e3.t_gate > e2.t_mark + 2500000000)
    (hg4 : e4.t_gate > e3.t_mark + 2500000000)
    (hd1 : waypoint_dist2 s < 2147483648 ∧ 300 < Nat.sqrt (waypoint_dist2 s).toNat)
    (hd2 : waypoint_dist2 s1 < 2147483648 ∧ 300 < Nat.sqrt (waypoint_dist2 s1).toNat)
    (hd3 : waypoint_dist2 s2 < 2147483648 ∧ 300 < Nat.sqrt (waypoint_dist2 s2).toNat)
    (hh1 : creep_hitcnt e1 s < 1) (hh2 : creep_hitcnt e2 s1 < 1)
    (hh3 : creep_hitcnt e3 s2 < 1) :
    (∀ e : Env, los_blocked e s → ¬ e.t_gate > s.timestamp + s.time_interval →
      route_fsm e s = s) ∧
    s3.out = s.out ++ [creep_cmd s (-5), creep_cmd s1 5, creep_cmd s2 (-5)] ∧
    s3.lookaround_creep_reroute = 7 ∧ s3.creep_cnt = 3 ∧
    routing_requests s3.out + 1 ≤ routing_requests (route_fsm e4 s3).out ∧
    turn_cmds (route_fsm e4 s3).out = turn_cmds s3.out ∧
    (∀ x : Host, x.lookaround_creep_reroute = 7 → x.find_charger_state = 0 →
      los_blocked e4 x → e4.t_gate > x.timestamp + x.time_interval →
      waypoint_dist2 x < 2147483648 → Nat.sqrt (waypoint_dist2 x).toNat ≤ 300 →
      routing_requests x.out + 1 ≤ routing_requests (route_fsm e4 x).out ∧
      turn_cmds (route_fsm e4 x).out = turn_cmds x.out) ∧
    (∀ (e e5 : Env) (fb : mcu_feedback_t), los_blocked e s →
      e.t_gate > s.timestamp + s.time_interval → 1 ≤ creep_hitcnt e s →
      (route_fsm e s).out = s.out ∧
      (los_blocked e5 (handle_uart fb (route_fsm e s)) →
        e5.t_gate > e.t_mark + s.time_interval →
        routing_requests s.out + 1
          ≤ routing_requests (route_fsm e5 (handle_uart fb (route_fsm e s))).out ∧
        turn_cmds (route_fsm e5 (handle_uart fb (route_fsm e s))).out
          = turn_cmds s.out)) := by
  obtain ⟨hf, hst, hch⟩ := hidle
  have dist_eq : ∀ x : Host, waypoint_dist2 x < 2147483648 →
      stage7_dist x = (Nat.sqrt (waypoint_dist2 x).toNat : Nat) := by
    intro x hx
    have hx2 : 0 ≤ ((x.the_route x.route_pos).x - x.cur_x)
        * ((x.the_route x.route_pos).x - x.cur_x) := mul_self_nonneg _
    have hy2 : 0 ≤ ((x.the_route x.route_pos).y - x.cur_y)
        * ((x.the_route x.route_pos).y - x.cur_y) := mul_self_nonneg _
    unfold waypoint_dist2 at hx ⊢
    have hsum : sq_sum ((x.the_route x.route_pos).x - x.cur_x)
        ((x.the_route x.route_pos).y - x.cur_y)
        = dist2 x.cur_x x.cur_y (x.the_route x.route_pos).x (x.the_route x.route_pos).y := by
      unfold dist2 at hx ⊢
      unfold sq_sum sq wrap32
      omega
    unfold stage7_dist
    rw [hsum, isqrt_eq_sqrt _ (by omega)]
  have far : ∀ x : Host, waypoint_dist2 x < 2147483648 ∧
      300 < Nat.sqrt (waypoint_dist2 x).toNat → 300 < stage7_dist x := by
    intro x hx
    rw [dist_eq x hx.1]
    exact_mod_cast hx.2
  have hd1' := far s hd1
  have hd2' := far s1 hd2
  have hd3' := far s2 hd3
  have c1 := stage7_creep e1 s h7 hg1 hd1' (by omega) hh1
  have r1 := route_fsm_stage7_creep e1 s h7 hg1 hd1' (by omega) hh1 hl1 hf hst hch
  have k1 : s1.lookaround_creep_reroute = 7 ∧ s1.creep_cnt = 1 ∧ s1.timestamp = e1.t_mark ∧
      s1.time_interval = 2500000000 ∧ s1.out = s.out ++ [creep_cmd s (-5)] ∧
      s1.do_follow_route = 0 ∧ s1.start_route = 0 ∧ s1.find_charger_state = 0 := by
    rw [hs1, r1, c1, h0]
    exact ⟨h7, rfl, rfl, rfl, rfl, hf, hst, hch⟩
  obtain ⟨k11, k12, k13, k14, k15, k16, k17, k18⟩ := k1
  have g2 : e2.t_gate > s1.timestamp + s1.time_interval := by rw [k13, k14]; exact hg2
  have c2 := stage7_creep e2 s1 k11 g2 hd2' (by rw [k12]; decide) hh2
  have r2 := route_fsm_stage7_creep e2 s1 k11 g2 hd2' (by rw [k12]; decide) hh2 hl2 k16 k17 k18
  have k2 : s2.lookaround_creep_reroute = 7 ∧ s2.creep_cnt = 2 ∧ s2.timestamp = e2.t_mark ∧
      s2.time_interval = 2500000000 ∧
      s2.out = s.out ++ [creep_cmd s (-5)] ++ [creep_cmd s1 5] ∧
      s2.do_follow_route = 0 ∧ s2.start_route = 0 ∧ s2.find_charger_state = 0 := by
    rw [hs2, r2, c2, k12, k15]
    exact ⟨k11, rfl, rfl, rfl, rfl, k16, k17, k18⟩
  obtain ⟨k21, k22, k23, k24, k25, k26, k27, k28⟩ := k2
  have g3 : e3.t_gate > s2.timestamp + s2.time_interval := by rw [k23, k24]; exact hg3
  have c3 := stage7_creep e3 s2 k21 g3 hd3' (by rw [k22]; decide) hh3
  have r3 := route_fsm_stage7_creep e3 s2 k21 g3 hd3' (by rw [k22]; decide) hh3 hl3 k26 k27 k28
  have k3 : s3.lookaround_creep_reroute = 7 ∧ s3.creep_cnt = 3 ∧ s3.timestamp = e3.t_mark ∧
      s3.time_interval = 2500000000 ∧
      s3.out = s.out ++ [creep_cmd s (-5)] ++ [creep_cmd s1 5] ++ [creep_cmd s2 (-5)] ∧
      s3.find_charger_state = 0 := by
    rw [hs3, r3, c3, k22, k25]
    exact ⟨k21, rfl, rfl, rfl, rfl, k28⟩
  obtain ⟨k31, k32, k33, k34, k35, k38⟩ := k3
  have c4 := stage7_reroute e4 s3 k31 (by rw [k33, k34]; exact hg4)
    (by rw [k32]; exact fun h => absurd h.2 (by decide))
  have t4 := route_fsm_counts e4 s3 hl4 k38
  refine ⟨fun e hl hg => route_fsm_stage7_wait e s h7 hg hl hf hst hch, ?_, k31, k32, ?_, ?_,
    ?_, ?_⟩
  · rw [k35]
    simp only [List.append_assoc, List.singleton_append, List.cons_append, List.nil_append]
  · have := t4.2
    omega
  · rw [t4.1, c4.2]
  · intro x x7 xc xl xg xb xn
    have cx := stage7_reroute e4 x x7 xg (by
      rw [dist_eq x xb]
      intro h
      have h3 : (300 : Int) < (Nat.sqrt (waypoint_dist2 x).toNat : Nat) := h.1
      omega)
    have tx := route_fsm_counts e4 x xl xc
    refine ⟨?_, ?_⟩
    · have := tx.2
      omega
    · rw [tx.1, cx.2]
  · intro e e5 fb hl hg hh
    have ch := stage7_hit e s h7 hg hd1' (by omega) hh
    have rh := route_fsm_stage7_hit e s h7 hg hd1' (by omega) hh hl hf hst hch
    refine ⟨by rw [rh, ch], fun hl5 hg5 => ?_⟩
    rw [rh] at hl5 ⊢
    have c5 := stage7_reroute e5 (handle_uart fb (recovery_step e s))
      (by rw [ch]; exact h7) (by rw [ch]; exact hg5)
      (by
        rw [ch]
        intro h
        have h3 : (100 : Int) < 3 := h.2
        omega)
    have t5 := route_fsm_counts e5 (handle_uart fb (recovery_step e s)) hl5
      (by rw [ch]; exact hch)
    have o5 : (handle_uart fb (recovery_step e s)).out = s.out := by rw [ch]; rfl
    rw [o5] at c5
    refine ⟨?_, ?_⟩
    · have := t5.2
      omega
    · rw [t5.1, c5.2]

/-- C11, instance on the blocked robot, 1000 mm from its waypoint: three gated ticks
2.6 s apart creep with offsets -5, +5, -5 degrees, the fourth requests a reroute; with a
hit on the first look-ahead no call is made and the next gated tick requests the
reroute; with the waypoint 200 mm away a gated tick issues no creep. -/
theorem c11_creep_budget_witness :
    waypoint_dist2 at_stage7 = 1000 * 1000 ∧
    creep_3.out = at_stage7.out
      ++ [creep_cmd at_stage7 (-5), creep_cmd creep_1 5, creep_cmd creep_2 (-5)] ∧
    creep_3.creep_cnt = 3 ∧
    routing_requests creep_3.out + 1
      ≤ routing_requests (route_fsm (env_blocked 26900000000 1) creep_3).out ∧
    turn_cmds (route_fsm (env_blocked 26900000000 1) creep_3).out = turn_cmds creep_3.out ∧
    (route_fsm (env_hit 19100000000) at_stage7).out = at_stage7.out ∧
    routing_requests at_stage7.out + 1
      ≤ routing_requests (route_fsm (env_blocked 21700000000 1)
          (handle_uart fb_stopped (route_fsm (env_hit 19100000000) at_stage7))).out ∧
    waypoint_dist2 at_stage7_near = 200 * 200 ∧
    turn_cmds (route_fsm (env_blocked 26900000000 1) at_stage7_near).out
      = turn_cmds at_stage7_near.out := by
  have w := c11_creep_budget (env_blocked 19100000000 1) (env_blocked 21700000000 1)
    (env_blocked 24300000000 1) (env_blocked 26900000000 1) fb_stopped fb_stopped fb_stopped
    at_stage7 creep_1 creep_2 creep_3 (by decide) (by decide) (by decide) rfl rfl rfl
    (by decide) (by decide) (by decide) (by decide)
    (by decide) (by decide) (by decide) (by decide)
    ⟨by decide, Nat.le_sqrt.2 (by decide)⟩ ⟨by decide, Nat.le_sqrt.2 (by decide)⟩
    ⟨by decide, Nat.le_sqrt.2 (by decide)⟩ (by decide) (by decide) (by decide)
  have h := w.2.2.2.2.2.2.2 (env_hit 19100000000) (env_blocked 21700000000 1) fb_stopped
    (by decide) (by decide) (by decide)
  have n := w.2.2.2.2.2.2.1 at_stage7_near (by decide) (by decide) (by decide) (by decide)
    (by decide) (Nat.lt_succ_iff.1 (Nat.sqrt_lt.2 (by decide)))
  exact ⟨by decide, w.2.1, w.2.2.2.1, w.2.2.2.2.1, w.2.2.2.2.2.1, h.1,
    (h.2 (by decide) (by decide)).1, by decide, n.2⟩

/-- C11, evaluation of the instance: the three creep moves and the stage and counter
after them; after the hit the counter is 100. -/
theorem c11_creep_budget_demo :
    at_stage7.lookaround_creep_reroute = 7 ∧ at_stage7.creep_cnt = 0 ∧
    creep_3.out.drop at_stage7.out.length
      = [cmd_t.turn_and_go_abs_rel (ang_t.toward 1000 0 0 (-5)) 100 15 1,
         cmd_t.turn_and_go_abs_rel (ang_t.toward 1000 0 0 5) 100 15 1,
         cmd_t.turn_and_go_abs_rel (ang_t.toward 1000 0 0 (-5)) 100 15 1] ∧
    creep_3.lookaround_creep_reroute = 7 ∧
    (route_fsm (env_hit 19100000000) at_stage7).creep_cnt = 100 := by
  decide

/-- Evaluation of a gated stage 7 tick with the waypoint 50 m away, a free look-ahead
and no creep made yet: the `int` sum of squares has wrapped to a negative number, `dist`
is not above 300, and the tick requests a reroute instead of creeping. -/
theorem stage7_far_waypoint :
    at_stage7_far.lookaround_creep_reroute = 7 ∧ at_stage7_far.creep_cnt = 0 ∧
    waypoint_dist2 at_stage7_far = 50000 * 50000 ∧
    stage7_dist at_stage7_far = 0 ∧
    los_blocked (env_blocked 19100000000 1) at_stage7_far ∧
    creep_hitcnt (env_blocked 19100000000 1) at_stage7_far < 1 ∧
    (env_blocked 19100000000 1).t_gate
      > at_stage7_far.timestamp + at_stage7_far.time_interval ∧
    routing_requests (route_fsm (env_blocked 19100000000 1) at_stage7_far).out
      = routing_requests at_stage7_far.out + 1 ∧
    turn_cmds (route_fsm (env_blocked 19100000000 1) at_stage7_far).out
      = turn_cmds at_stage7_far.out := by
  decide

/-! ## C13: following a route to its end -/

theorem move_wps_append (l1 l2 : List cmd_t) :
    move_wps (l1 ++ l2) = move_wps l1 ++ move_wps l2 := by
  induction l1 with
  | nil => simp [move_wps]
  | cons c l ih => cases c <;> simp [move_wps, ih]

theorem id_matches_table :
    ∀ i : Fin 8, ∀ r : Fin 200,
      Int.land (move_id (i.val : Int) (r.val : Int)) 112 = shl4 (i.val : Int) ∧
      Int.land (move_id (i.val : Int) (r.val : Int)) 15 = Int.land (r.val : Int) 15 := by
  decide

theorem id_matches_echo (s : Host) (fb : mcu_feedback_t)
    (hi : 1 ≤ s.id_cnt ∧ s.id_cnt ≤ 7) (hr : 0 ≤ s.route_pos ∧ s.route_pos ≤ 199)
    (hid : fb.cur_xymove.id = move_id s.id_cnt s.route_pos) :
    id_matches (handle_uart fb s) = true := by
  obtain ⟨i, hi2⟩ := Int.eq_ofNat_of_zero_le (by omega : 0 ≤ s.id_cnt)
  obtain ⟨r, hr2⟩ := Int.eq_ofNat_of_zero_le hr.1
  have h := id_matches_table ⟨i, by omega⟩ ⟨r, by omega⟩
  simp only at h
  unfold id_matches
  show (decide (Int.land fb.cur_xymove.id 112 = shl4 s.id_cnt) &&
    decide (Int.land fb.cur_xymove.id 15 = Int.land s.route_pos 15)) = true
  rw [hid, hi2, hr2, h.1, h.2]
  simp

theorem skip_points_no_skip (e : Env) (s : Host) (hno : ¬ can_skip e s s.route_pos) :
    skip_points e s = s := by
  have h : ∀ n, skip_loop e n s = s := by
    intro n
    cases n with
    | zero => rfl
    | succ n => rw [skip_loop_step, if_neg hno]
  exact h _

theorem route_fsm_following (e : Env) (s : Host) (hl : s.lookaround_creep_reroute = 0)
    (hs : s.start_route = 0) :
    route_fsm e s = charger_step e (follow_route_step e s) := by
  unfold route_fsm
  rw [los_resume_idle e s hl, recovery_step_idle e s hl]
  have : start_route_step s = s := by
    unfold start_route_step
    rw [if_neg (by simp [hs])]
  rw [this]

theorem follow_route_step_arrived (e : Env) (s : Host) (hf : s.do_follow_route ≠ 0)
    (hid : id_matches s = true)
    (hst : s.cur_xymove.micronavi_stop_flags = 0 ∧ s.cur_xymove.feedback_stop_flags = 0)
    (hc : s.id_cnt ≠ 0)
    (hrem : s.cur_xymove.remaining < (s.the_route s.route_pos).take_next_early)
    (hno : ¬ can_skip e s (s.route_pos + 1)) :
    (s.route_pos < s.the_route_len - 1 →
      frameR (follow_route_step e s) = frameR s ∧
      (follow_route_step e s).route_pos = s.route_pos + 1 ∧
      (follow_route_step e s).micronavi_stops = 0 ∧
      (follow_route_step e s).out = s.out ++
        [cmd_t.move_to (s.the_route (s.route_pos + 1)).x (s.the_route (s.route_pos + 1)).y
           (s.the_route (s.route_pos + 1)).backmode (move_id s.id_cnt (s.route_pos + 1))
           s.cur_speedlim 0,
         cmd_t.send_info (dir_info (s.the_route (s.route_pos + 1)).backmode)]) := by
  intro hlt
  have hsk : ∀ g m : Int, skip_points e
      { s with good_time_for_lidar_mapping := g, maneuver_cnt := m,
               route_pos := s.route_pos + 1 }
      = { s with good_time_for_lidar_mapping := g, maneuver_cnt := m,
                 route_pos := s.route_pos + 1 } :=
    fun g m => skip_points_no_skip e _ hno
  unfold follow_route_step
  rw [if_pos hf, if_pos hid, if_neg (by omega), if_neg hc]
  by_cases h250 : s.cur_xymove.remaining < 250
  · simp only [if_pos h250, if_pos hrem, if_pos hlt, hsk]
    unfold frameR
    simp only [emit, List.append_assoc, List.singleton_append, List.cons_append,
      List.nil_append, and_self]
  · simp only [if_neg h250, if_pos hrem, if_pos hlt]
    have hsk2 : skip_points e { s with maneuver_cnt := 0, route_pos := s.route_pos + 1 }
        = { s with maneuver_cnt := 0, route_pos := s.route_pos + 1 } :=
      skip_points_no_skip e _ hno
    simp only [hsk2]
    unfold frameR
    simp only [emit, List.append_assoc, List.singleton_append, List.cons_append,
      List.nil_append, and_self]

theorem do_live_few_hits (e : Env) (s : Host)
    (hh : (s.the_route s.route_pos).backmode = 0 → live_hitcnt e s < 3) :
    frameR (do_live_obstacle_checking e s) = frameR s ∧
    (do_live_obstacle_checking e s).route_pos = s.route_pos ∧
    move_wps (do_live_obstacle_checking e s).out = move_wps s.out := by
  unfold live_hitcnt at hh
  unfold do_live_obstacle_checking
  by_cases hb : (s.the_route s.route_pos).backmode = 0
  · rw [if_pos hb]
    simp only
    rw [if_pos (hh hb)]
    unfold frameR
    simp only [emit, move_wps_append, move_wps, List.append_nil, and_self]
  · rw [if_neg hb]
    exact ⟨rfl, rfl, rfl⟩

theorem live_check_step_few_hits (e : Env) (s : Host)
    (hh : e.t_live > s.live_prev_incr + 100000000 →
      ¬ s.robot_pos_timestamp < e.t_live - 200000000 →
      (s.the_route s.route_pos).backmode = 0 → live_hitcnt e s < 3) :
    frameR (live_check_step e s) = frameR s ∧
    (live_check_step e s).route_pos = s.route_pos ∧
    move_wps (live_check_step e s).out = move_wps s.out := by
  unfold live_check_step
  by_cases h1 : e.t_live > s.live_prev_incr + 100000000
  · rw [if_pos h1]
    by_cases h2 : s.robot_pos_timestamp < e.t_live - 200000000
    · simp only [if_pos h2]
      refine ⟨?_, ?_, ?_⟩ <;> first | rfl | trivial
    · simp only [if_neg h2]
      have k := do_live_few_hits e
        (emit (cmd_t.live_obstacle_check e.t_live s.robot_pos_timestamp)
          { s with live_prev_incr := e.t_live }) (hh h1 h2)
      refine ⟨k.1, k.2.1, ?_⟩
      rw [k.2.2]
      simp only [emit, move_wps_append, move_wps, List.append_nil]
  · rw [if_neg h1]
    exact ⟨rfl, rfl, rfl⟩

theorem follow_route_step_en_route (e : Env) (s : Host) (hf : s.do_follow_route ≠ 0)
    (hid : id_matches s = true)
    (hst : s.cur_xymove.micronavi_stop_flags = 0 ∧ s.cur_xymove.feedback_stop_flags = 0)
    (hc : s.id_cnt ≠ 0)
    (hrem : ¬ s.cur_xymove.remaining < (s.the_route s.route_pos).take_next_early)
    (hh : live_check_runs e s → live_hitcnt e s < 3) :
    frameR (follow_route_step e s) = frameR s ∧
    (follow_route_step e s).route_pos = s.route_pos ∧
    move_wps (follow_route_step e s).out = move_wps s.out := by
  unfold follow_route_step
  rw [if_pos hf, if_pos hid, if_neg (by omega), if_neg hc]
  by_cases h250 : s.cur_xymove.remaining < 250
  · simp only [if_pos h250, if_neg hrem]
    by_cases hl : s.live_obstacle_checking_on = 0
    · rw [if_neg (by simp [hl])]
      exact ⟨rfl, rfl, rfl⟩
    · rw [if_pos hl]
      exact live_check_step_few_hits e { s with good_time_for_lidar_mapping := 1 }
        (fun h1 h2 h3 => hh ⟨hl, h1, h2, h3⟩)
  · simp only [if_neg h250, if_neg hrem]
    by_cases hl : s.live_obstacle_checking_on = 0
    · rw [if_neg (by simp [hl])]
      exact ⟨rfl, rfl, rfl⟩
    · rw [if_pos hl]
      exact live_check_step_few_hits e s (fun h1 h2 h3 => hh ⟨hl, h1, h2, h3⟩)

theorem follow_route_step_finished (e : Env) (s : Host) (hf : s.do_follow_route ≠ 0)
    (hid : id_matches s = true)
    (hst : s.cur_xymove.micronavi_stop_flags = 0 ∧ s.cur_xymove.feedback_stop_flags = 0)
    (hc : s.id_cnt ≠ 0)
    (hrem : s.cur_xymove.remaining < (s.the_route s.route_pos).take_next_early)
    (hlast : ¬ s.route_pos < s.the_route_len - 1) :
    (follow_route_step e s).do_follow_route = 0 ∧
    (follow_route_step e s).route_finished_or_notfound = 1 ∧
    (follow_route_step e s).micronavi_stops = 0 ∧
    (follow_route_step e s).route_pos = s.route_pos ∧
    (follow_route_step e s).find_charger_state = s.find_charger_state ∧
    (follow_route_step e s).out = s.out ++ (cmd_t.send_info info_state_t.IDLE ::
      if s.cmd_state = mid_t.CR_ROUTE ∧ e.tcp_client_sock ≥ 0 then
        [cmd_t.tcp_send_route_status (e.TCP_RC_ROUTE_STATUS_SUCCESS % 256)] else []) := by
  unfold follow_route_step
  rw [if_pos hf, if_pos hid, if_neg (by omega), if_neg hc]
  simp only [↓apply_ite Host.cur_xymove, ↓apply_ite Host.the_route, ↓apply_ite Host.route_pos,
    ↓apply_ite Host.the_route_len, ite_self, if_pos hrem, if_neg hlast]
  unfold send_route_end_status
  simp only [↓apply_ite Host.do_follow_route, ↓apply_ite Host.route_finished_or_notfound,
    ↓apply_ite Host.micronavi_stops, ↓apply_ite Host.route_pos,
    ↓apply_ite Host.find_charger_state, ↓apply_ite Host.cmd_state, ↓apply_ite Host.out, emit,
    ite_self, true_and]
  by_cases h1 : s.cmd_state = mid_t.CR_ROUTE
  · by_cases h2 : e.tcp_client_sock ≥ 0
    · simp only [if_pos h1, if_pos h2, if_pos (And.intro h1 h2), List.append_assoc,
        List.singleton_append]
    · simp only [if_pos h1, if_neg h2, if_neg (fun h : _ ∧ _ => h2 h.2)]
  · simp only [if_neg h1, if_neg (fun h : _ ∧ _ => h1 h.1)]

theorem charger_step_off (e : Env) (s : Host) (h : s.find_charger_state = 0) :
    charger_step e s = s := by
  unfold charger_step
  rw [if_neg (by simp [h])]

theorem frameR_fcs (s r : Host) (h : frameR r = frameR s) :
    r.find_charger_state = s.find_charger_state := by
  unfold frameR at h
  simp only [Prod.mk.injEq] at h
  exact h.2.2.2.1

theorem tick_advance (e : Env) (s : Host) (fb : mcu_feedback_t) (hs : following s)
    (ha : echo_arrival s fb) (hno : ¬ can_skip e (handle_uart fb s) (s.route_pos + 1))
    (hlt : s.route_pos < s.the_route_len - 1) :
    frameR (route_fsm e (handle_uart fb s)) = frameR s ∧
    (route_fsm e (handle_uart fb s)).route_pos = s.route_pos + 1 ∧
    move_wps (route_fsm e (handle_uart fb s)).out
      = move_wps s.out ++ [route_wp s (s.route_pos + 1)] := by
  obtain ⟨h1, h2, h3, h4, h5, h6⟩ := hs
  have hm := id_matches_echo s fb h5 h6 ha.1
  have hA := follow_route_step_arrived e (handle_uart fb s) h1 hm ⟨ha.2.2.1, ha.2.2.2⟩
    (by show s.id_cnt ≠ 0; omega) ha.2.1 hno hlt
  rw [route_fsm_following e (handle_uart fb s) h2 h3,
    charger_step_off e _ ((frameR_fcs _ _ hA.1).trans h4)]
  refine ⟨hA.1, hA.2.1, ?_⟩
  rw [hA.2.2.2, move_wps_append]
  rfl

theorem tick_en_route (e : Env) (s : Host) (fb : mcu_feedback_t) (hs : following s)
    (ha : echo_en_route e s fb) :
    frameR (route_fsm e (handle_uart fb s)) = frameR s ∧
    (route_fsm e (handle_uart fb s)).route_pos = s.route_pos ∧
    move_wps (route_fsm e (handle_uart fb s)).out = move_wps s.out := by
  obtain ⟨h1, h2, h3, h4, h5, h6⟩ := hs
  have hm := id_matches_echo s fb h5 h6 ha.1
  have hA := follow_route_step_en_route e (handle_uart fb s) h1 hm ha.2.2.1
    (by show s.id_cnt ≠ 0; omega) ha.2.1 ha.2.2.2
  rw [route_fsm_following e (handle_uart fb s) h2 h3,
    charger_step_off e _ ((frameR_fcs _ _ hA.1).trans h4)]
  exact hA

theorem tick_finish (e : Env) (s : Host) (fb : mcu_feedback_t) (hs : following s)
    (ha : echo_arrival s fb) (hlast : ¬ s.route_pos < s.the_route_len - 1) :
    (route_fsm e (handle_uart fb s)).do_follow_route = 0 ∧
    (route_fsm e (handle_uart fb s)).route_finished_or_notfound = 1 ∧
    (route_fsm e (handle_uart fb s)).micronavi_stops = 0 ∧
    (route_fsm e (handle_uart fb s)).route_pos = s.route_pos ∧
    (route_fsm e (handle_uart fb s)).out = s.out ++ (cmd_t.send_info info_state_t.IDLE ::
      if s.cmd_state = mid_t.CR_ROUTE ∧ e.tcp_client_sock ≥ 0 then
        [cmd_t.tcp_send_route_status (e.TCP_RC_ROUTE_STATUS_SUCCESS % 256)] else []) := by
  obtain ⟨h1, h2, h3, h4, h5, h6⟩ := hs
  have hm := id_matches_echo s fb h5 h6 ha.1
  have hA := follow_route_step_finished e (handle_uart fb s) h1 hm ⟨ha.2.2.1, ha.2.2.2⟩
    (by show s.id_cnt ≠ 0; omega) ha.2.1 hlast
  rw [route_fsm_following e (handle_uart fb s) h2 h3]
  unfold charger_step
  rw [if_neg (by
    rw [hA.2.2.2.2.1]; simp [show (handle_uart fb s).find_charger_state = 0 from h4])]
  exact ⟨hA.1, hA.2.1, hA.2.2.1, hA.2.2.2.1, hA.2.2.2.2.2⟩

theorem route_wp_congr (s r : Host) (h : frameR r = frameR s) (j : Int) :
    route_wp r j = route_wp s j := by
  unfold frameR at h
  simp only [Prod.mk.injEq] at h
  unfold route_wp
  rw [h.2.2.2.2.1, h.2.2.2.2.2.1]

theorem following_of_frameR (s r : Host) (h : frameR r = frameR s) (hs : following s)
    (hr : 0 ≤ r.route_pos ∧ r.route_pos ≤ 199) : following r := by
  unfold frameR at h
  simp only [Prod.mk.injEq] at h
  obtain ⟨h1, h2, h3, h4, h5, _⟩ := hs
  exact ⟨by rw [h.1]; exact h1, by rw [h.2.1]; exact h2, by rw [h.2.2.1]; exact h3,
    by rw [h.2.2.2.1]; exact h4, by rw [h.2.2.2.2.1]; exact h5, hr⟩

theorem frameR_len (s r : Host) (h : frameR r = frameR s) :
    r.the_route_len = s.the_route_len ∧ r.the_route = s.the_route ∧
    r.cmd_state = s.cmd_state := by
  unfold frameR at h
  simp only [Prod.mk.injEq] at h
  exact ⟨h.2.2.2.2.2.2.1, h.2.2.2.2.2.1, h.2.2.2.2.2.2.2.1⟩

/-- The waypoints `a, a+1, ..., a+n-1` of the route of `s`, as `move_to` targets. -/
theorem range_shift (s : Host) (a : Int) (n : Nat) :
    route_wp s a :: (List.range n).map (fun (i : Nat) => route_wp s (a + 1 + (i : Int)))
      = (List.range (n + 1)).map (fun (i : Nat) => route_wp s (a + (i : Int))) := by
  rw [List.range_succ_eq_map, List.map_cons, List.map_map]
  congr 1
  · simp
  · apply List.map_congr_left
    intro i _
    simp only [Function.comp_apply, Nat.succ_eq_add_one, Nat.cast_add, Nat.cast_one]
    congr 1
    omega

theorem follow_run_spec (l : List (mcu_feedback_t × Env)) (s : Host) (hs : following s)
    (hok : ticks_ok s l) (hlen : s.route_pos + arrivals s l ≤ s.the_route_len - 1)
    (h200 : s.the_route_len ≤ 200) :
    following (follow_run s l) ∧ frameR (follow_run s l) = frameR s ∧
    (follow_run s l).route_pos = s.route_pos + arrivals s l ∧
    move_wps (follow_run s l).out = move_wps s.out ++
      (List.range (arrivals s l)).map
        (fun (i : Nat) => route_wp s (s.route_pos + 1 + (i : Int))) := by
  induction l generalizing s with
  | nil =>
    refine ⟨hs, rfl, ?_, ?_⟩
    · show s.route_pos = s.route_pos + ((0 : Nat) : Int)
      simp
    · show move_wps s.out = move_wps s.out ++ []
      simp
  | cons fe l ih =>
    obtain ⟨hkind, hrest⟩ := hok
    have hpos := hs.2.2.2.2.2
    have hrun : follow_run s (fe :: l) = follow_run (route_fsm fe.2 (handle_uart fe.1 s)) l :=
      rfl
    have harr : arrivals s (fe :: l)
        = (if fe.1.cur_xymove.remaining < (s.the_route s.route_pos).take_next_early
            then 1 else 0) + arrivals (route_fsm fe.2 (handle_uart fe.1 s)) l := rfl
    rw [harr] at hlen
    rw [hrun, harr]
    rcases hkind with ⟨ha, hno⟩ | ha
    · rw [if_pos ha.2.1] at hlen ⊢
      push_cast at hlen
      obtain ⟨t1, t2, t4⟩ := tick_advance fe.2 s fe.1 hs ha hno (by omega)
      obtain ⟨f1, f2, f3⟩ := frameR_len _ _ t1
      have hs1 : following (route_fsm fe.2 (handle_uart fe.1 s)) :=
        following_of_frameR s _ t1 hs (by rw [t2]; omega)
      obtain ⟨i1, i2, i3, i4⟩ := ih (route_fsm fe.2 (handle_uart fe.1 s)) hs1 hrest
        (by rw [t2, f1]; omega) (by rw [f1]; exact h200)
      refine ⟨i1, i2.trans t1, ?_, ?_⟩
      · rw [i3, t2]
        push_cast
        omega
      · rw [i4, t4, t2, List.append_assoc, List.singleton_append]
        congr 1
        have e1 : (fun (i : Nat) => route_wp (route_fsm fe.2 (handle_uart fe.1 s))
            (s.route_pos + 1 + 1 + (i : Int)))
            = (fun (i : Nat) => route_wp s (s.route_pos + 1 + 1 + (i : Int))) := by
          funext i
          exact route_wp_congr s _ t1 _
        rw [e1, range_shift s (s.route_pos + 1), Nat.add_comm 1]
    · rw [if_neg ha.2.1] at hlen ⊢
      simp only [Nat.zero_add, Nat.cast_zero, zero_add] at hlen ⊢
      obtain ⟨t1, t2, t4⟩ := tick_en_route fe.2 s fe.1 hs ha
      obtain ⟨f1, f2, f3⟩ := frameR_len _ _ t1
      have hs1 : following (route_fsm fe.2 (handle_uart fe.1 s)) :=
        following_of_frameR s _ t1 hs (by rw [t2]; exact hpos)
      obtain ⟨i1, i2, i3, i4⟩ := ih (route_fsm fe.2 (handle_uart fe.1 s)) hs1 hrest
        (by rw [t2, f1]; omega) (by rw [f1]; exact h200)
      refine ⟨i1, i2.trans t1, ?_, ?_⟩
      · rw [i3, t2]
      · rw [i4, t4, t2]
        congr 1
        apply List.map_congr_left
        intro i _
        exact route_wp_congr s _ t1 _

theorem ticks_ok_take (l : List (mcu_feedback_t × Env)) (s : Host) (k : Nat)
    (h : ticks_ok s l) : ticks_ok s (l.take k) := by
  induction l generalizing s k with
  | nil => simpa using h
  | cons fe l ih =>
    cases k with
    | zero => exact trivial
    | succ k => exact ⟨h.1, ih _ k h.2⟩

theorem arrivals_take_le (l : List (mcu_feedback_t × Env)) (s : Host) (k : Nat) :
    arrivals s (l.take k) ≤ arrivals s l := by
  induction l generalizing s k with
  | nil => simp [arrivals]
  | cons fe l ih =>
    cases k with
    | zero => exact Nat.zero_le _
    | succ k =>
      show _ + arrivals _ (l.take k) ≤ _ + arrivals _ l
      exact Nat.add_le_add_left (ih _ k) _

theorem move_id_first : ∀ i : Fin 8, move_id (i.val : Int) 0 = shl4 (i.val : Int) := by
  decide

theorem tick_start (e : Env) (s : Host)
    (hst : s.do_follow_route ≠ 0 ∧ s.start_route ≠ 0 ∧ s.route_pos = 0 ∧
      s.lookaround_creep_reroute = 0 ∧ s.find_charger_state = 0)
    (hid : 1 ≤ s.id_cnt ∧ s.id_cnt ≤ 7) (hnm : id_matches s = false) :
    route_fsm e s = ({ s with out := s.out ++
      [cmd_t.move_to (s.the_route 0).x (s.the_route 0).y (s.the_route 0).backmode
        (move_id s.id_cnt 0) s.cur_speedlim 0,
      cmd_t.send_info (dir_info (s.the_route 0).backmode)], start_route := 0 } : Host) := by
  obtain ⟨h1, h2, h3, h4, h5⟩ := hst
  obtain ⟨i, hi⟩ := Int.eq_ofNat_of_zero_le (by omega : 0 ≤ s.id_cnt)
  have hm : move_id s.id_cnt 0 = shl4 s.id_cnt := by
    have h := move_id_first ⟨i, by omega⟩
    simp only at h
    rw [hi]
    exact h
  unfold route_fsm
  rw [los_resume_idle e s h4, recovery_step_idle e s h4]
  have hs : start_route_step s = ({ s with out := s.out ++
      [cmd_t.move_to (s.the_route 0).x (s.the_route 0).y (s.the_route 0).backmode
        (move_id s.id_cnt 0) s.cur_speedlim 0,
      cmd_t.send_info (dir_info (s.the_route 0).backmode)], start_route := 0 } : Host) := by
    unfold start_route_step
    rw [if_pos h2, hm]
    simp only [emit, List.append_assoc, List.singleton_append, h3]
  rw [hs]
  unfold follow_route_step
  rw [if_pos h1, if_neg (by
    have : id_matches ({ s with out := s.out ++
      [cmd_t.move_to (s.the_route 0).x (s.the_route 0).y (s.the_route 0).backmode
        (move_id s.id_cnt 0) s.cur_speedlim 0,
      cmd_t.send_info (dir_info (s.the_route 0).backmode)], start_route := 0 } : Host)
        = id_matches s := rfl
    rw [this, hnm]
    simp)]
  unfold charger_step
  rw [if_neg (by simp [h5])]

theorem follow_from_start (e0 : Env) (s0 : Host) (l : List (mcu_feedback_t × Env))
    (hst : s0.do_follow_route ≠ 0 ∧ s0.start_route ≠ 0 ∧ s0.route_pos = 0 ∧
      s0.lookaround_creep_reroute = 0 ∧ s0.find_charger_state = 0)
    (hid : 1 ≤ s0.id_cnt ∧ s0.id_cnt ≤ 7) (h200 : s0.the_route_len ≤ 200)
    (hnm : id_matches s0 = false)
    (hlen : (arrivals (route_fsm e0 s0) l : Int) ≤ s0.the_route_len - 1)
    (hok : ticks_ok (route_fsm e0 s0) l) :
    following (follow_run (route_fsm e0 s0) l) ∧
    (follow_run (route_fsm e0 s0) l).route_pos = (arrivals (route_fsm e0 s0) l : Int) ∧
    (follow_run (route_fsm e0 s0) l).the_route_len = s0.the_route_len ∧
    (follow_run (route_fsm e0 s0) l).cmd_state = s0.cmd_state ∧
    move_wps (follow_run (route_fsm e0 s0) l).out = move_wps s0.out ++
      (List.range (arrivals (route_fsm e0 s0) l + 1)).map
        (fun (i : Nat) => route_wp s0 (i : Int)) := by
  have hT := tick_start e0 s0 hst hid hnm
  have h0 := hst.2.2.1
  have hf : following (route_fsm e0 s0) := by
    rw [hT]
    exact ⟨hst.1, hst.2.2.2.1, rfl, hst.2.2.2.2, hid, by
      show 0 ≤ s0.route_pos ∧ s0.route_pos ≤ 199
      omega⟩
  have hp : (route_fsm e0 s0).route_pos = 0 := by rw [hT]; exact h0
  have hl : (route_fsm e0 s0).the_route_len = s0.the_route_len := by rw [hT]
  have hc : (route_fsm e0 s0).cmd_state = s0.cmd_state := by rw [hT]
  have hw : ∀ j, route_wp (route_fsm e0 s0) j = route_wp s0 j := by
    intro j
    rw [hT]
    rfl
  have ho : move_wps (route_fsm e0 s0).out = move_wps s0.out ++ [route_wp s0 0] := by
    rw [hT]
    show move_wps (s0.out ++ _) = _
    rw [move_wps_append]
    rfl
  generalize route_fsm e0 s0 = s1 at *
  obtain ⟨g1, g2, g3, g4⟩ := follow_run_spec l s1 hf hok (by omega) (by omega)
  obtain ⟨f1, f2, f3⟩ := frameR_len _ _ g2
  refine ⟨g1, ?_, f1.trans hl, f3.trans hc, ?_⟩
  · rw [g3]
    omega
  · rw [g4, ho, List.append_assoc, List.singleton_append, hp]
    congr 1
    have := range_shift s0 0 (arrivals s1 l)
    simp only [zero_add] at this
    rw [← this]
    congr 1
    apply List.map_congr_left
    intro i _
    exact hw _

/-- C13 (amended): a route of `L = the_route_len` waypoints, `1 ≤ L ≤ 200`, has just
been found (`start_route` set, `route_pos = 0`, `id_cnt` in `[1..7]`, the MCU not yet
echoing the new id), and no Recovery or charger procedure is active.  The first tick
starts the route.  Then the MCU feedback of every tick echoes the id of the move to the
current waypoint and reports no stop; it is either an arrival (remaining distance below
the waypoint's `take_next_early`), on a tick in which the skip test fails, or feedback
on the way, on a tick whose live obstacle check, if made, counts fewer than 3 hits.
After any number of such ticks `route_pos` is the number of arrivals so far, the route
is still followed, and the `move_to` calls issued so far are those for waypoints `0` to
`route_pos`, in order.  When `L - 1` arrivals have been handled, a further arrival, at
the last waypoint, issues no `move_to`, so that exactly `L` were issued, for waypoints
`0..L-1` in order; it clears `do_follow_route`, sets `route_finished_or_notfound = 1`,
resets `micronavi_stops`, and publishes route status SUCCESS exactly when `cmd_state` is
still `TCP_CR_ROUTE_MID` and a client is connected. -/
theorem c13_follow_route (e0 e1 : Env) (s0 : Host) (l : List (mcu_feedback_t × Env))
    (fb : mcu_feedback_t)
    (hst : s0.do_follow_route ≠ 0 ∧ s0.start_route ≠ 0 ∧ s0.route_pos = 0 ∧
      s0.lookaround_creep_reroute = 0 ∧ s0.find_charger_state = 0)
    (hid : 1 ≤ s0.id_cnt ∧ s0.id_cnt ≤ 7) (h200 : s0.the_route_len ≤ 200)
    (hnm : id_matches s0 = false)
    (hok : ticks_ok (route_fsm e0 s0) l)
    (harr : (arrivals (route_fsm e0 s0) l : Int) = s0.the_route_len - 1)
    (hlast : echo_arrival (follow_run (route_fsm e0 s0) l) fb) :
    (∀ k : Nat, k ≤ l.length →
      (follow_run (route_fsm e0 s0) (l.take k)).route_pos
        = (arrivals (route_fsm e0 s0) (l.take k) : Int) ∧
      (follow_run (route_fsm e0 s0) (l.take k)).do_follow_route ≠ 0 ∧
      move_wps (follow_run (route_fsm e0 s0) (l.take k)).out = move_wps s0.out ++
        (List.range (arrivals (route_fsm e0 s0) (l.take k) + 1)).map
          (fun (i : Nat) => route_wp s0 (i : Int))) ∧
    move_wps (route_fsm e1 (handle_uart fb (follow_run (route_fsm e0 s0) l))).out
      = move_wps s0.out ++
        (List.range s0.the_route_len.toNat).map (fun (i : Nat) => route_wp s0 (i : Int)) ∧
    (route_fsm e1 (handle_uart fb (follow_run (route_fsm e0 s0) l))).do_follow_route = 0 ∧
    (route_fsm e1 (handle_uart fb
      (follow_run (route_fsm e0 s0) l))).route_finished_or_notfound = 1 ∧
    (route_fsm e1 (handle_uart fb (follow_run (route_fsm e0 s0) l))).micronavi_stops = 0 ∧
    (route_fsm e1 (handle_uart fb (follow_run (route_fsm e0 s0) l))).out
      = (follow_run (route_fsm e0 s0) l).out ++ (cmd_t.send_info info_state_t.IDLE ::
        if s0.cmd_state = mid_t.CR_ROUTE ∧ e1.tcp_client_sock ≥ 0 then
          [cmd_t.tcp_send_route_status (e1.TCP_RC_ROUTE_STATUS_SUCCESS % 256)] else []) := by
  constructor
  · intro k _
    have hle := arrivals_take_le l (route_fsm e0 s0) k
    obtain ⟨g1, g2, _, _, g5⟩ := follow_from_start e0 s0 (l.take k) hst hid h200 hnm
      (by omega) (ticks_ok_take l _ k hok)
    exact ⟨g2, g1.1, g5⟩
  · obtain ⟨g1, g2, g3, g4, g5⟩ := follow_from_start e0 s0 l hst hid h200 hnm
      (by omega) hok
    obtain ⟨f1, f2, f3, _, f5⟩ := tick_finish e1 _ fb g1 hlast (by rw [g2, g3]; omega)
    rw [g4] at f5
    refine ⟨?_, f1, f2, f3, f5⟩
    rw [f5, move_wps_append, g5]
    have : move_wps (cmd_t.send_info info_state_t.IDLE ::
        if s0.cmd_state = mid_t.CR_ROUTE ∧ e1.tcp_client_sock ≥ 0 then
          [cmd_t.tcp_send_route_status (e1.TCP_RC_ROUTE_STATUS_SUCCESS % 256)] else []) = [] := by
      split_ifs <;> rfl
    rw [this, List.append_nil]
    have hn : arrivals (route_fsm e0 s0) l + 1 = s0.the_route_len.toNat := by omega
    rw [hn]

/-- Witness of C13: the three-waypoint route of `route_start` in the demo world, with
the ticks `demo_ticks` (one on the way, two arrivals) and `demo_last_arrival`; after the
first two ticks one arrival has been handled, `route_pos = 1` and the moves to
waypoints 0 and 1 have been issued; at the end the three moves `0x20`, `0x21`, `0x22`
have been issued and the route is finished. -/
theorem c13_follow_route_witness :
    (follow_run (route_fsm env_demo route_start) (demo_ticks.take 2)).route_pos = 1 ∧
    move_wps (follow_run (route_fsm env_demo route_start) (demo_ticks.take 2)).out
      = [(1000, 0, 0, 32), (2000, 0, 0, 33)] ∧
    move_wps (route_fsm env_demo (handle_uart demo_last_arrival
        (follow_run (route_fsm env_demo route_start) demo_ticks))).out
      = [(1000, 0, 0, 32), (2000, 0, 0, 33), (3000, 0, 0, 34)] ∧
    (route_fsm env_demo (handle_uart demo_last_arrival
        (follow_run (route_fsm env_demo route_start) demo_ticks))).do_follow_route = 0 ∧
    (route_fsm env_demo (handle_uart demo_last_arrival
        (follow_run (route_fsm env_demo route_start) demo_ticks))).route_finished_or_notfound
      = 1 ∧
    (route_fsm env_demo (handle_uart demo_last_arrival
        (follow_run (route_fsm env_demo route_start) demo_ticks))).out
      = (follow_run (route_fsm env_demo route_start) demo_ticks).out
        ++ [cmd_t.send_info info_state_t.IDLE, cmd_t.tcp_send_route_status 1] := by
  have h := c13_follow_route env_demo env_demo route_start demo_ticks demo_last_arrival
    (by decide) (by decide) (by decide) (by decide)
    ⟨Or.inr (by decide), Or.inl ⟨by decide, by decide⟩, Or.inl ⟨by decide, by decide⟩, trivial⟩
    (by decide) (by decide)
  have h2 := h.1 2 (by decide)
  exact ⟨h2.1.trans (by decide), h2.2.2.trans (by decide), h.2.1.trans (by decide), h.2.2.1,
    h.2.2.2.1, h.2.2.2.2.2.trans (by decide)⟩

/-- The whole log of the demo route: the move `0x20`, the live obstacle check on the way
with its speed limit 18, the moves `0x21` and `0x22` at that speed, then the IDLE info
and the route status SUCCESS. -/
theorem c13_demo :
    (route_fsm env_demo (handle_uart demo_last_arrival
      (follow_run (route_fsm env_demo route_start) demo_ticks))).out =
    [ cmd_t.move_to 1000 0 0 32 45 0, cmd_t.send_info info_state_t.FWD,
      cmd_t.live_obstacle_check 1000000000 900000000, cmd_t.limit_speed 18,
      cmd_t.move_to 2000 0 0 33 18 0, cmd_t.send_info info_state_t.FWD,
      cmd_t.move_to 3000 0 0 34 18 0, cmd_t.send_info info_state_t.FWD,
      cmd_t.send_info info_state_t.IDLE, cmd_t.tcp_send_route_status 1 ] := by decide

/-- Counterexamples to C13 as stated.  First, on the docking run the one-waypoint route
to the first charger point was started with move id `0x20`, the MCU echoes that id with
no stop flags and 10 mm remaining (below `take_next_early`), a client is connected, and
`cmd_state` is the charge command: the next tick ends the route (`do_follow_route`
cleared, `route_finished_or_notfound = 1`, `micronavi_stops = 0`) and the log holds no
route status message at all.  Second, on the three-waypoint demo route with the ticks
`stop_and_resume` no skip test ever holds, every feedback echoes the id of the move
issued last and reports no stop; the live obstacle check counts 3 hits on the way to
the first waypoint and enters Recovery, the next tick finds a line of sight and issues
the move to waypoint 0 again with the id `0x30`, and the route ends after four `move_to`
calls for its three waypoints. -/
theorem c13_counterexample :
    ((run host_init dock_to_stage2).do_follow_route = 1 ∧
    (run host_init dock_to_stage2).the_route_len = 1 ∧
    (run host_init dock_to_stage2).route_pos = 0 ∧
    id_matches (run host_init dock_to_stage2) = true ∧
    (run host_init dock_to_stage2).cur_xymove.micronavi_stop_flags = 0 ∧
    (run host_init dock_to_stage2).cur_xymove.feedback_stop_flags = 0 ∧
    (run host_init dock_to_stage2).cur_xymove.remaining <
      ((run host_init dock_to_stage2).the_route 0).take_next_early ∧
    move_ids (run host_init dock_to_stage2).out = [32] ∧
    (env_dock 100000000000).tcp_client_sock ≥ 0 ∧
    (run host_init dock_to_stage2).cmd_state = mid_t.CR_CHARGE ∧
    (route_fsm (env_dock 100000000000) (run host_init dock_to_stage2)).do_follow_route = 0 ∧
    (route_fsm (env_dock 100000000000)
      (run host_init dock_to_stage2)).route_finished_or_notfound = 1 ∧
    (route_fsm (env_dock 100000000000) (run host_init dock_to_stage2)).micronavi_stops = 0 ∧
    route_statuses (route_fsm (env_dock 100000000000) (run host_init dock_to_stage2)).out
      = []) ∧
    (route_start.the_route_len = 3 ∧
    (∀ fe ∈ stop_and_resume, fe.1.cur_xymove.micronavi_stop_flags = 0 ∧
      fe.1.cur_xymove.feedback_stop_flags = 0 ∧ fe.2.check_direct_route_mm 0 0 0 0 0 = 0) ∧
    (follow_run (route_fsm env_demo route_start)
      (stop_and_resume.take 1)).lookaround_creep_reroute = 1 ∧
    move_wps (follow_run (route_fsm env_demo route_start) (stop_and_resume.take 1)).out
      = [(1000, 0, 0, 32)] ∧
    move_wps (follow_run (route_fsm env_demo route_start) (stop_and_resume.take 2)).out
      = [(1000, 0, 0, 32), (1000, 0, 0, 48)] ∧
    move_wps (route_fsm env_demo (handle_uart resumed_last_arrival
        (follow_run (route_fsm env_demo route_start) stop_and_resume))).out
      = [(1000, 0, 0, 32), (1000, 0, 0, 48), (2000, 0, 0, 49), (3000, 0, 0, 50)] ∧
    (route_fsm env_demo (handle_uart resumed_last_arrival
        (follow_run (route_fsm env_demo route_start) stop_and_resume))).do_follow_route = 0 ∧
    (route_fsm env_demo (handle_uart resumed_last_arrival
        (follow_run (route_fsm env_demo route_start) stop_and_resume))).route_finished_or_notfound
      = 1 ∧
    route_statuses (route_fsm env_demo (handle_uart resumed_last_arrival
        (follow_run (route_fsm env_demo route_start) stop_and_resume))).out = [1]) := by
  decide

/-! ## C21: the scaling of the scan-match correction -/

/-- C21: when a valid scan makes the scan-match queue reach its trigger condition,
`lidar_handling` passes the queue (the new scan included) to `map_lidars` and sends one
correction with the next correction id: with `localize_with_big_search_area = 0` it is
`(da/2, dx/2, dy/2)` for the matched delta `(da, dx, dy)`, the divisions truncating
toward zero, and with `localize_with_big_search_area != 0` it is `(da, dx, dy)`; the
queue is emptied. -/
theorem c21_queue_correction (e : Env) (s : Host) (p : lidar_scan_t)
    (hv : p.is_invalid = 0) (ht : queue_trigger s) :
    (s.localize_with_big_search_area = 0 →
      (lidar_queue_step e s p).out = s.out ++
        [cmd_t.map_lidars (s.n_lidars_to_map + 1) (queue_with s p),
         cmd_t.correct_robot_pos
           (Int.tdiv (e.map_lidars (s.n_lidars_to_map + 1) (queue_with s p)).1 2)
           (Int.tdiv (e.map_lidars (s.n_lidars_to_map + 1) (queue_with s p)).2.1 2)
           (Int.tdiv (e.map_lidars (s.n_lidars_to_map + 1) (queue_with s p)).2.2 2)
           (INCR_POS_CORR_ID s.pos_corr_id)]) ∧
    (s.localize_with_big_search_area ≠ 0 →
      (lidar_queue_step e s p).out = s.out ++
        [cmd_t.map_lidars (s.n_lidars_to_map + 1) (queue_with s p),
         cmd_t.correct_robot_pos
           (e.map_lidars (s.n_lidars_to_map + 1) (queue_with s p)).1
           (e.map_lidars (s.n_lidars_to_map + 1) (queue_with s p)).2.1
           (e.map_lidars (s.n_lidars_to_map + 1) (queue_with s p)).2.2
           (INCR_POS_CORR_ID s.pos_corr_id)]) ∧
    (lidar_queue_step e s p).pos_corr_id = INCR_POS_CORR_ID s.pos_corr_id ∧
    (lidar_queue_step e s p).n_lidars_to_map = 0 := by
  unfold queue_trigger at ht
  unfold lidar_queue_step queue_with
  rw [if_neg (by simp [hv])]
  dsimp only
  rw [if_pos ht]
  refine ⟨?_, ?_, ?_, ?_⟩
  · intro h0
    simp only [↓apply_ite Host.out, ↓apply_ite Host.localize_with_big_search_area,
      ↓apply_ite Host.pos_corr_id, ↓apply_ite Host.lidars_to_map,
      ↓apply_ite Host.n_lidars_to_map, emit, ite_self, h0, ne_eq, not_true_eq_false,
      if_false, List.append_assoc, List.singleton_append]
  · intro h1
    simp only [↓apply_ite Host.out, ↓apply_ite Host.localize_with_big_search_area,
      ↓apply_ite Host.pos_corr_id, ↓apply_ite Host.lidars_to_map,
      ↓apply_ite Host.n_lidars_to_map, emit, ite_self, h1, ne_eq, not_false_eq_true,
      if_true, List.append_assoc, List.singleton_append]
  · simp only [↓apply_ite Host.pos_corr_id, emit, ite_self]
  · simp only [↓apply_ite Host.n_lidars_to_map, emit, ite_self]

/-- C21, instance: five scans in the demo world with the big search area off. -/
theorem c21_queue_correction_witness :
    (lidar_queue_step env_demo queue_of_4 ⟨42, 6, 0, ⟨0, 0, 0⟩⟩).out = queue_of_4.out ++
      [cmd_t.map_lidars (queue_of_4.n_lidars_to_map + 1)
         (queue_with queue_of_4 ⟨42, 6, 0, ⟨0, 0, 0⟩⟩),
       cmd_t.correct_robot_pos
         (Int.tdiv (env_demo.map_lidars (queue_of_4.n_lidars_to_map + 1)
           (queue_with queue_of_4 ⟨42, 6, 0, ⟨0, 0, 0⟩⟩)).1 2)
         (Int.tdiv (env_demo.map_lidars (queue_of_4.n_lidars_to_map + 1)
           (queue_with queue_of_4 ⟨42, 6, 0, ⟨0, 0, 0⟩⟩)).2.1 2)
         (Int.tdiv (env_demo.map_lidars (queue_of_4.n_lidars_to_map + 1)
           (queue_with queue_of_4 ⟨42, 6, 0, ⟨0, 0, 0⟩⟩)).2.2 2)
         (INCR_POS_CORR_ID queue_of_4.pos_corr_id)] :=
  (c21_queue_correction env_demo queue_of_4 ⟨42, 6, 0, ⟨0, 0, 0⟩⟩ (by decide) (by decide)).1
    (by decide)

/-- C21, evaluation in the demo world, whose matcher reports `(3, -5, 7)`: the fifth
scan gives the correction `(1, -2, 3)`; with the big search area on the twelfth scan
gives `(3, -5, 7)`; a fourth scan does not trigger; a distorted scan met with four
scans waiting runs the match early and sends a third, `(1, -1, 2)`. -/
theorem c21_demo :
    (lidar_queue_step env_demo queue_of_4 ⟨42, 6, 0, ⟨0, 0, 0⟩⟩).out =
      [cmd_t.map_lidars 5 [none, none, none, none, some ⟨42, 6, 0, ⟨0, 0, 0⟩⟩],
       cmd_t.correct_robot_pos 1 (-2) 3 43] ∧
    ((lidar_queue_step env_demo queue_of_11 ⟨42, 6, 0, ⟨0, 0, 0⟩⟩).out.getLast?
      = some (cmd_t.correct_robot_pos 3 (-5) 7 43)) ∧
    (lidar_queue_step env_demo { queue_of_4 with n_lidars_to_map := 3 }
      ⟨42, 6, 0, ⟨0, 0, 0⟩⟩).out = [] ∧
    (lidar_queue_step env_demo queue_of_4 ⟨42, 6, 1, ⟨0, 0, 0⟩⟩).out.getLast?
      = some (cmd_t.correct_robot_pos 1 (-1) 2 43) := by
  decide

/-! ## C22: the correction at route start -/

/-- C22 (amended): with `dont_map_lidars = 0`, `run_search` matches the four latest
scans before it plans and sends one half of the matched delta, `(da/2, dx/2, dy/2)` with
divisions truncating toward zero, under the next correction id.  The whole log of the
call is: the THINK info, `map_lidars`, this correction, `tcp_send_route`, and the IDLE
info when the planner returned no route. -/
theorem c22_route_start_correction (e : Env) (s : Host) (dest_x dest_y no_tight : Int) :
    (run_search e s dest_x dest_y 0 no_tight).1.out = s.out ++
      ([cmd_t.send_info info_state_t.THINK,
        cmd_t.map_lidars 4 s.lidars_to_map_at_routing_start,
        cmd_t.correct_robot_pos
          (Int.tdiv (e.map_lidars 4 s.lidars_to_map_at_routing_start).1 2)
          (Int.tdiv (e.map_lidars 4 s.lidars_to_map_at_routing_start).2.1 2)
          (Int.tdiv (e.map_lidars 4 s.lidars_to_map_at_routing_start).2.2 2)
          (INCR_POS_CORR_ID s.pos_corr_id),
        cmd_t.tcp_send_route (planned e s dest_x dest_y no_tight).length] ++
       (if planned e s dest_x dest_y no_tight ≠ [] then []
        else [cmd_t.send_info info_state_t.IDLE])) ∧
    (run_search e s dest_x dest_y 0 no_tight).1.pos_corr_id
      = INCR_POS_CORR_ID s.pos_corr_id := by
  unfold run_search planned
  by_cases h : (e.search_route s.cur_ang s.cur_x s.cur_y dest_x dest_y no_tight).2 = []
  · simp [emit, h]
  · simp [emit, h]

/-- Counterexample to C22 as stated: in the demo world the matcher reports
`(3, -5, 7)`; `run_search` sends `(1, -2, 3)`, and the third of the delta,
`(1, -1, 2)`, is not sent by the call. -/
theorem c22_counterexample :
    env_demo.map_lidars 4 host_init.lidars_to_map_at_routing_start = (3, -5, 7) ∧
    (run_search env_demo host_init 3000 0 0 1).1.out =
      [cmd_t.send_info info_state_t.THINK, cmd_t.map_lidars 4 [none, none, none, none],
       cmd_t.correct_robot_pos 1 (-2) 3 43, cmd_t.tcp_send_route 3] ∧
    (Int.tdiv 3 3, Int.tdiv (-5) 3, Int.tdiv 7 3) = (1, -1, 2) ∧
    cmd_t.correct_robot_pos (Int.tdiv 3 3) (Int.tdiv (-5) 3) (Int.tdiv 7 3) 43
      ∉ (run_search env_demo host_init 3000 0 0 1).1.out := by
  decide

/-! ## C27: the indices of `the_route` that `run_search` writes -/

theorem fill_route_above (mm : Int → Int → Int × Int) (l : List route_unit_t) (k : Int)
    (r : Int → route_point_t) (j : Int) (hk : k < 200) (hj : 200 ≤ j) :
    (fill_route mm l k r).1 j = r j := by
  induction l generalizing k r with
  | nil => simp [fill_route]
  | cons rt rest ih =>
    unfold fill_route
    simp only [THE_ROUTE_MAX]
    have hne : j ≠ k := by omega
    split
    · simp [store, hne]
    · rw [ih (k + 1) _ (by omega)]
      simp [store, hne]

theorem early_loop_below (len : Int) (n : Nat) (r : Int → route_point_t) (j : Int)
    (hj : j < 0) : early_loop len n r j = r j := by
  induction n with
  | zero => simp [early_loop]
  | succ n ih =>
    unfold early_loop early_body store
    have hne : j ≠ (n : Int) := by omega
    split_ifs
    · simp [hne]; exact ih
    · exact ih

/-- C27, what `run_search` writes into `the_route`: no entry with an index below -1 or
above 199 is changed; when the planner returns a route, the entry at index -1 is not
changed either; when the planner returns no route (`len = 0`), the statement
`the_route[len-1].take_next_early = 20` stores 20 at index -1, in front of the
buffer. -/
theorem c27_route_buffer_writes (e : Env) (s : Host) (dest_x dest_y dml no_tight : Int) :
    (∀ i : Int, i < -1 ∨ 199 < i →
      (run_search e s dest_x dest_y dml no_tight).1.the_route i = s.the_route i) ∧
    (planned e s dest_x dest_y no_tight ≠ [] →
      (run_search e s dest_x dest_y dml no_tight).1.the_route (-1) = s.the_route (-1)) ∧
    (planned e s dest_x dest_y no_tight = [] →
      (run_search e s dest_x dest_y dml no_tight).1.the_route (-1)
        = { s.the_route (-1) with take_next_early := 20 }) := by
  have hlen := fill_route_len e.mm_from_unit_coords (planned e s dest_x dest_y no_tight) 0
    s.the_route (by omega) (by omega)
  rw [run_search_the_route]
  refine ⟨?_, ?_, ?_⟩
  · intro i hi
    unfold store
    rw [if_neg (by omega)]
    rcases hi with hi | hi
    · rw [early_loop_below _ _ _ _ (by omega), fill_route_below _ _ _ _ _ (by omega)]
    · rw [early_loop_above _ _ _ _ (by omega), fill_route_above _ _ _ _ _ (by omega) (by omega)]
  · intro hne
    have hpos : 0 < (planned e s dest_x dest_y no_tight).length := List.length_pos.mpr hne
    unfold store
    rw [if_neg (by omega), early_loop_below _ _ _ _ (by omega),
      fill_route_below _ _ _ _ _ (by omega)]
  · intro hnil
    rw [hnil]
    simp [fill_route, early_loop, store]

/-- C27, instance: in the world of the blocked robot the planner returns no route, and
the call changes `take_next_early` at index -1 from 0 to 20. -/
theorem c27_route_buffer_writes_witness :
    planned (env_blocked 0 0) host_init 3000 0 1 = [] ∧
    (host_init.the_route (-1)).take_next_early = 0 ∧
    ((run_search (env_blocked 0 0) host_init 3000 0 0 1).1.the_route (-1)).take_next_early
      = 20 :=
  ⟨by decide, by decide,
   congrArg route_point_t.take_next_early
     ((c27_route_buffer_writes (env_blocked 0 0) host_init 3000 0 0 1).2.2 (by decide))⟩

/-! ## C23: which workers a command cancels -/

theorem land_4_ne_1 : ∀ b : Fin 256, Nat.land b.val 4 ≠ 1 := by decide

theorem manage_mapping_ops (c : worker_t → Int) (pb : Nat) (t : thread_struct) :
    (manage_mapping c pb t).ops = t.ops ++
      (if Nat.land pb 1 = 1 ∧ t.map_thread_cancel_state = 1 then cancel_ops worker_t.mapping
       else wait_ops worker_t.mapping) ∧
    (manage_mapping c pb t).rout_thread_cancel_state = t.rout_thread_cancel_state ∧
    (manage_mapping c pb t).rout_thread_were_canceled = t.rout_thread_were_canceled ∧
    (manage_mapping c pb t).nav_thread_were_canceled = t.nav_thread_were_canceled ∧
    (manage_mapping c pb t).map_thread_were_canceled =
      (if Nat.land pb 1 = 1 ∧ t.map_thread_cancel_state = 1 ∧ c worker_t.mapping = 0 then 1
       else t.map_thread_were_canceled) := by
  unfold manage_mapping cancel_ops wait_ops
  by_cases h1 : Nat.land pb 1 = 1 <;> by_cases h2 : t.map_thread_cancel_state = 1 <;>
    by_cases h3 : c worker_t.mapping = 0 <;> simp [h1, h2, h3, log_op]

theorem manage_navigation_ops (c : worker_t → Int) (pb : Nat) (hb : pb < 256)
    (t : thread_struct) :
    (manage_navigation c pb t).ops = t.ops ++ wait_ops worker_t.navigation ∧
    (manage_navigation c pb t).rout_thread_cancel_state = t.rout_thread_cancel_state ∧
    (manage_navigation c pb t).rout_thread_were_canceled = t.rout_thread_were_canceled ∧
    (manage_navigation c pb t).nav_thread_were_canceled = t.nav_thread_were_canceled ∧
    (manage_navigation c pb t).map_thread_were_canceled = t.map_thread_were_canceled := by
  have h := land_4_ne_1 ⟨pb, hb⟩
  simp only at h
  unfold manage_navigation wait_ops
  rw [if_neg h]
  simp [log_op]

theorem manage_routing_ops (c : worker_t → Int) (pb : Nat) (t : thread_struct) :
    (manage_routing c pb t).ops = t.ops ++
      (if Nat.land pb 1 = 1 ∧ t.rout_thread_cancel_state = 1 then cancel_ops worker_t.routing
       else wait_ops worker_t.routing) ∧
    (manage_routing c pb t).nav_thread_were_canceled = t.nav_thread_were_canceled ∧
    (manage_routing c pb t).map_thread_were_canceled = t.map_thread_were_canceled ∧
    (manage_routing c pb t).rout_thread_were_canceled =
      (if Nat.land pb 1 = 1 ∧ t.rout_thread_cancel_state = 1 ∧ c worker_t.routing = 0 then 1
       else t.rout_thread_were_canceled) := by
  unfold manage_routing cancel_ops wait_ops
  by_cases h1 : Nat.land pb 1 = 1 <;> by_cases h2 : t.rout_thread_cancel_state = 1 <;>
    by_cases h3 : c worker_t.routing = 0 <;> simp [h1, h2, h3, log_op]

/-- What `thread_management_before_running_cmd` does for every value of the
`unsigned char priority_bits`: the mapping worker is cancelled when bit `0x01` is set
and it is cancellable, else waited for; the navigation worker is always waited for and
never cancelled or marked, whatever bit `0x04` is, because the test is
`(priority_bits & 0x04) == 1`; the routing worker is cancelled when the mapping bit
`0x01` is set and it is cancellable, whatever bit `0x02` is.  A cancelled worker is
marked for re-spawn when `pthread_cancel` returned 0. -/
theorem thread_management_ops (c : worker_t → Int) (pb : Nat) (hb : pb < 256)
    (t : thread_struct) :
    (thread_management_before_running_cmd c pb t).ops = t.ops ++
      (if Nat.land pb 1 = 1 ∧ t.map_thread_cancel_state = 1 then cancel_ops worker_t.mapping
       else wait_ops worker_t.mapping) ++
      wait_ops worker_t.navigation ++
      (if Nat.land pb 1 = 1 ∧ t.rout_thread_cancel_state = 1 then cancel_ops worker_t.routing
       else wait_ops worker_t.routing) ∧
    (thread_management_before_running_cmd c pb t).nav_thread_were_canceled
      = t.nav_thread_were_canceled ∧
    (thread_management_before_running_cmd c pb t).map_thread_were_canceled =
      (if Nat.land pb 1 = 1 ∧ t.map_thread_cancel_state = 1 ∧ c worker_t.mapping = 0 then 1
       else t.map_thread_were_canceled) ∧
    (thread_management_before_running_cmd c pb t).rout_thread_were_canceled =
      (if Nat.land pb 1 = 1 ∧ t.rout_thread_cancel_state = 1 ∧ c worker_t.routing = 0 then 1
       else t.rout_thread_were_canceled) := by
  obtain ⟨m1, m2, m3, m4, m5⟩ := manage_mapping_ops c pb t
  obtain ⟨n1, n2, n3, n4, n5⟩ := manage_navigation_ops c pb hb (manage_mapping c pb t)
  obtain ⟨r1, r2, r3, r4⟩ := manage_routing_ops c pb
    (manage_navigation c pb (manage_mapping c pb t))
  unfold thread_management_before_running_cmd
  refine ⟨?_, ?_, ?_, ?_⟩
  · rw [r1, n1, m1, n2, m2]
  · rw [r2, n4, m4]
  · rw [r3, n5, m5]
  · rw [r4, n2, m2, n3, m3]

set_option maxRecDepth 100000 in
theorem land_1_table : ∀ b : Fin 256, (Nat.land b.val 1 ≠ 0 ↔ Nat.land b.val 1 = 1) := by
  decide

/-- Evaluation of `thread_management_before_running_cmd` for values of `priority_bits`
that `communication_handling` never passes, from the initial `thread_struct` (every
worker cancellable, `pthread_cancel` succeeding): with `0x04` and with `0x02` all three
workers are waited for; with `0x01` the mapping and the routing worker are cancelled;
with `0x07` the navigation worker is still not cancelled; the branch that waits for the
navigation worker sets `map_thread_on_pause`. -/
theorem thread_management_other_bits :
    (thread_management_before_running_cmd (fun _ => 0) 4 {}).ops =
      wait_ops worker_t.mapping ++ wait_ops worker_t.navigation ++ wait_ops worker_t.routing ∧
    (thread_management_before_running_cmd (fun _ => 0) 2 {}).ops =
      wait_ops worker_t.mapping ++ wait_ops worker_t.navigation ++ wait_ops worker_t.routing ∧
    (thread_management_before_running_cmd (fun _ => 0) 2 {}).rout_thread_were_canceled = 0 ∧
    (thread_management_before_running_cmd (fun _ => 0) 1 {}).ops =
      cancel_ops worker_t.mapping ++ wait_ops worker_t.navigation
        ++ cancel_ops worker_t.routing ∧
    (thread_management_before_running_cmd (fun _ => 0) 1 {}).rout_thread_were_canceled = 1 ∧
    (thread_management_before_running_cmd (fun _ => 0) 7 {}).nav_thread_were_canceled = 0 ∧
    (thread_management_before_running_cmd (fun _ => 0) 0 {}).map_thread_on_pause = 1 := by
  decide

/-! ## Recovery: reroutes, daiju mode and the stage timers -/

theorem daiju_cmds_append (l1 l2 : List cmd_t) :
    daiju_cmds (l1 ++ l2) = daiju_cmds l1 ++ daiju_cmds l2 := by
  induction l1 with
  | nil => simp [daiju_cmds]
  | cons c l ih => cases c <;> simp [daiju_cmds, ih]

theorem run_search_daiju (e : Env) (s : Host) (a b c d : Int) :
    daiju_cmds (run_search e s a b c d).1.out = daiju_cmds s.out := by
  unfold run_search
  simp only [↓apply_ite Host.out, apply_ite daiju_cmds, daiju_cmds_append, daiju_cmds, emit,
    ite_self, List.append_nil]

theorem rr_daiju (e : Env) (s : Host) :
    daiju_cmds (request_routing e s).out = daiju_cmds s.out := by
  unfold request_routing
  simp only [run_search_daiju, emit, daiju_cmds_append, daiju_cmds, List.append_nil]

theorem run_search_ret (e : Env) (s : Host) (a b c d : Int) :
    (run_search e s a b c d).2 = (e.search_route s.cur_ang s.cur_x s.cur_y a b d).1 := by
  unfold run_search
  by_cases h1 : c = 0 <;> simp [emit, h1]

/-- What `run_search` leaves as it is. -/
theorem run_search_keeps (e : Env) (s : Host) (a b c d : Int) :
    (run_search e s a b c d).1.cur_xymove = s.cur_xymove ∧
    (run_search e s a b c d).1.timestamp = s.timestamp ∧
    (run_search e s a b c d).1.time_interval = s.time_interval ∧
    (run_search e s a b c d).1.cur_ang = s.cur_ang := by
  unfold run_search
  by_cases h1 : c = 0 <;>
    by_cases h2 : (e.search_route s.cur_ang s.cur_x s.cur_y a b d).2 = [] <;>
    simp [emit, h1, h2]

theorem run_search_empty (e : Env) (s : Host) (a b c d : Int)
    (h : planned e s a b d = []) :
    (run_search e s a b c d).1.do_follow_route = 0 ∧
    (run_search e s a b c d).1.start_route = s.start_route ∧
    (run_search e s a b c d).1.id_cnt = s.id_cnt ∧
    (run_search e s a b c d).1.route_pos = s.route_pos := by
  unfold planned at h
  unfold run_search
  by_cases h1 : c = 0 <;> simp [emit, h1, h]

theorem rr_nrf (e : Env) (s : Host) :
    (request_routing e s).no_route_found
      = (e.search_route s.cur_ang s.cur_x s.cur_y s.dest_x s.dest_y s.no_tight).1 :=
  run_search_ret e _ _ _ _ _

/-- What a routing request leaves as it is. -/
theorem rr_keeps (e : Env) (s : Host) :
    (request_routing e s).cur_xymove = s.cur_xymove ∧
    (request_routing e s).timestamp = s.timestamp ∧
    (request_routing e s).time_interval = s.time_interval ∧
    (request_routing e s).cur_ang = s.cur_ang :=
  run_search_keeps e _ _ _ _ _

theorem rr_empty (e : Env) (s : Host)
    (h : (e.search_route s.cur_ang s.cur_x s.cur_y s.dest_x s.dest_y s.no_tight).2 = []) :
    (request_routing e s).do_follow_route = 0 ∧
    (request_routing e s).start_route = s.start_route ∧
    (request_routing e s).id_cnt = s.id_cnt ∧
    (request_routing e s).route_pos = s.route_pos :=
  run_search_empty e _ _ _ _ _ h

theorem rr_found (e : Env) (s : Host)
    (h : (e.search_route s.cur_ang s.cur_x s.cur_y s.dest_x s.dest_y s.no_tight).2 ≠ []) :
    (request_routing e s).do_follow_route = 1 ∧
    (request_routing e s).start_route = 1 ∧
    (request_routing e s).id_cnt = bump_id_cnt s.id_cnt ∧
    (request_routing e s).route_pos = 0 ∧
    (request_routing e s).route_finished_or_notfound = 0 := by
  have k := run_search_found e
    (emit (cmd_t.need_routing s.dest_x s.dest_y s.dont_map_lidars s.no_tight) s)
    s.dest_x s.dest_y s.dont_map_lidars s.no_tight h
  exact ⟨k.2.1, k.2.2.1, k.2.2.2.2.2.2, k.2.2.2.1, k.2.2.2.2.1⟩

theorem start_route_step_keeps (s : Host) :
    (start_route_step s).lookaround_creep_reroute = s.lookaround_creep_reroute ∧
    (start_route_step s).timestamp = s.timestamp ∧
    (start_route_step s).do_follow_route = s.do_follow_route ∧
    (start_route_step s).find_charger_state = s.find_charger_state ∧
    (start_route_step s).id_cnt = s.id_cnt ∧
    (start_route_step s).route_pos = s.route_pos ∧
    (start_route_step s).cur_xymove = s.cur_xymove ∧
    (start_route_step s).start_route = 0 ∧
    daiju_cmds (start_route_step s).out = daiju_cmds s.out := by
  unfold start_route_step
  by_cases h : s.start_route = 0
  · rw [if_neg (by simp [h])]
    exact ⟨rfl, rfl, rfl, rfl, rfl, rfl, rfl, h, rfl⟩
  · rw [if_pos h]
    refine ⟨rfl, rfl, rfl, rfl, rfl, rfl, rfl, rfl, ?_⟩
    simp only [emit, daiju_cmds_append, daiju_cmds, List.append_nil]

/-- The rest of a tick after the Recovery block, when the follow-route block finds no
route being followed or no echo of the current move id, and the charger procedure is
not running: only the start-of-route block can act. -/
theorem route_fsm_tail (e : Env) (s x : Host) (hx : recovery_step e (los_resume e s) = x)
    (hf : x.do_follow_route = 0 ∨ id_matches x = false) (hc : x.find_charger_state = 0) :
    route_fsm e s = start_route_step x := by
  obtain ⟨_, _, k3, k4, k5, k6, k7, _, _⟩ := start_route_step_keeps x
  unfold route_fsm
  rw [hx]
  have h1 : follow_route_step e (start_route_step x) = start_route_step x := by
    rcases hf with hf | hf
    · exact follow_route_step_idle e _ (k3.trans hf)
    · unfold follow_route_step
      have hm : id_matches (start_route_step x) = false := by
        unfold id_matches at hf ⊢
        rw [k5, k6, k7]
        exact hf
      rw [hm]
      simp
  rw [h1]
  unfold charger_step
  rw [if_neg (by rw [k4]; simp [hc])]

theorem recovery_step_stage6 (e : Env) (s : Host) (h6 : s.lookaround_creep_reroute = 6) :
    recovery_step e s
      = if e.t_gate > s.timestamp + 1000000000 then stage6_act e { s with creep_cnt := 0 }
        else { s with creep_cnt := 0 } := by
  unfold recovery_step
  iterate 5 rw [if_neg (by omega)]
  rw [if_pos h6]

theorem stage6_act_reroute_failed (e : Env) (s : Host)
    (ht : e.test_robot_turn_mm s.cur_x s.cur_y s.cur_ang
      (ang_t.toward ((s.the_route s.route_pos).x - s.cur_x)
        ((s.the_route s.route_pos).y - s.cur_y) 0 0) = 0)
    (h : (request_routing e s).no_route_found = 1) :
    stage6_act e s = { request_routing e s with
      out := (request_routing e s).out
        ++ [cmd_t.send_info info_state_t.DAIJUING, cmd_t.daiju_mode 1],
      lookaround_creep_reroute := 9, timestamp := e.t_mark } := by
  unfold stage6_act
  dsimp only
  rw [if_neg (by simp [ht]), if_pos h]
  simp only [emit, List.append_assoc, List.singleton_append]
  rfl

theorem stage6_act_rerouted (e : Env) (s : Host)
    (ht : e.test_robot_turn_mm s.cur_x s.cur_y s.cur_ang
      (ang_t.toward ((s.the_route s.route_pos).x - s.cur_x)
        ((s.the_route s.route_pos).y - s.cur_y) 0 0) = 0)
    (h : (request_routing e s).no_route_found ≠ 1) :
    stage6_act e s = { request_routing e s with
      lookaround_creep_reroute := 1, timestamp := e.t_mark } := by
  unfold stage6_act
  dsimp only
  rw [if_neg (by simp [ht]), if_neg h]
  rfl

theorem move_ids_append (l1 l2 : List cmd_t) :
    move_ids (l1 ++ l2) = move_ids l1 ++ move_ids l2 := by
  induction l1 with
  | nil => simp [move_ids]
  | cons c l ih => cases c <;> simp [move_ids, ih]

theorem run_search_move_ids (e : Env) (s : Host) (a b c d : Int) :
    move_ids (run_search e s a b c d).1.out = move_ids s.out := by
  unfold run_search
  simp only [↓apply_ite Host.out, apply_ite move_ids, move_ids_append, move_ids, emit,
    ite_self, List.append_nil]

theorem rr_move_ids (e : Env) (s : Host) :
    move_ids (request_routing e s).out = move_ids s.out := by
  unfold request_routing
  simp only [run_search_move_ids, emit, move_ids_append, move_ids, List.append_nil]

theorem start_route_step_move (s : Host) (h : s.start_route ≠ 0) :
    move_ids (start_route_step s).out = move_ids s.out ++ [shl4 s.id_cnt] := by
  unfold start_route_step
  rw [if_pos h]
  simp only [emit, move_ids_append, move_ids, List.append_nil]

/-- A tick that begins in Recovery stage 1 with no line of sight to the waypoint and the
charger procedure not running: the route is no longer followed, the robot backs off
50 mm, the stage becomes 2. -/
theorem route_fsm_stage1 (e : Env) (s : Host) (h1 : s.lookaround_creep_reroute = 1)
    (hlos : e.check_direct_route_non_turning_mm s.cur_x s.cur_y (s.the_route s.route_pos).x
      (s.the_route s.route_pos).y = 0)
    (hc : s.find_charger_state = 0) :
    (route_fsm e s).lookaround_creep_reroute = 2 ∧
    (route_fsm e s).do_follow_route = 0 ∧
    (route_fsm e s).out
      = s.out ++ [cmd_t.turn_and_go_abs_rel (ang_t.raw s.cur_ang) (-50) 13 1] := by
  have hx : recovery_step e (los_resume e s) =
      { s with do_follow_route := 0, start_route := 0,
               out := s.out ++ [cmd_t.turn_and_go_abs_rel (ang_t.raw s.cur_ang) (-50) 13 1],
               timestamp := e.t_mark,
               lookaround_creep_reroute := s.lookaround_creep_reroute + 1 } := by
    rw [los_resume_blocked e s hlos]
    unfold recovery_step
    rw [if_pos h1]
    rfl
  rw [route_fsm_tail e s _ hx (Or.inl rfl) hc]
  unfold start_route_step
  rw [if_neg (by simp)]
  exact ⟨by show s.lookaround_creep_reroute + 1 = 2; omega, rfl, rfl⟩

/-! ## C24: the failed reroute of Recovery stage 6 -/

/-- C24, what the code does: in Recovery stage 6 with more than 1 s elapsed, no line
of sight, the turn toward the waypoint infeasible and the planner failing (return value
1, no route), with the charger procedure not running, daiju mode is switched on (one
`daiju_mode(1)` call), the route is not followed, the stage timer is restarted, and the
Recovery stage at the end of the tick is 9: the branch stores 8 and the increment that
ends the stage follows. -/
theorem c24_stage6_reroute_failure (e : Env) (s : Host)
    (h6 : s.lookaround_creep_reroute = 6) (hg : e.t_gate > s.timestamp + 1000000000)
    (hlos : e.check_direct_route_non_turning_mm s.cur_x s.cur_y (s.the_route s.route_pos).x
      (s.the_route s.route_pos).y = 0)
    (ht : e.test_robot_turn_mm s.cur_x s.cur_y s.cur_ang
      (ang_t.toward ((s.the_route s.route_pos).x - s.cur_x)
        ((s.the_route s.route_pos).y - s.cur_y) 0 0) = 0)
    (hfail : e.search_route s.cur_ang s.cur_x s.cur_y s.dest_x s.dest_y s.no_tight = (1, []))
    (hc : s.find_charger_state = 0) :
    (route_fsm e s).lookaround_creep_reroute = 9 ∧
    daiju_cmds (route_fsm e s).out = daiju_cmds s.out ++ [1] ∧
    (route_fsm e s).timestamp = e.t_mark ∧
    (route_fsm e s).do_follow_route = 0 := by
  have hn : (request_routing e { s with creep_cnt := 0 }).no_route_found = 1 := by
    rw [rr_nrf]
    show (e.search_route s.cur_ang s.cur_x s.cur_y s.dest_x s.dest_y s.no_tight).1 = 1
    rw [hfail]
  have he := rr_empty e { s with creep_cnt := 0 } (by
    show (e.search_route s.cur_ang s.cur_x s.cur_y s.dest_x s.dest_y s.no_tight).2 = []
    rw [hfail])
  have hx : recovery_step e (los_resume e s) = stage6_act e { s with creep_cnt := 0 } := by
    rw [los_resume_blocked e s hlos, recovery_step_stage6 e s h6, if_pos hg]
  have hA := stage6_act_reroute_failed e { s with creep_cnt := 0 } ht hn
  obtain ⟨k1, k2, k3, _, _, _, _, _, k9⟩ :=
    start_route_step_keeps (stage6_act e { s with creep_cnt := 0 })
  have hd : (stage6_act e { s with creep_cnt := 0 }).do_follow_route = 0 := by
    rw [hA]; exact he.1
  have hcs : (stage6_act e { s with creep_cnt := 0 }).find_charger_state = 0 := by
    rw [hA]; exact (rr_fcs e _).trans hc
  rw [route_fsm_tail e s _ hx (Or.inl hd) hcs, k1, k2, k3, k9]
  refine ⟨by rw [hA], ?_, by rw [hA], hd⟩
  rw [hA]
  show daiju_cmds ((request_routing e { s with creep_cnt := 0 }).out
      ++ [cmd_t.send_info info_state_t.DAIJUING, cmd_t.daiju_mode 1]) = _
  rw [daiju_cmds_append, rr_daiju]
  rfl

/-- C24, instance: the blocked robot at stage 6, 1.1 s after stage 5 acted. -/
theorem c24_stage6_reroute_failure_witness :
    (route_fsm (env_blocked 16500000000 0)
      (run host_init blocked_to_stage6)).lookaround_creep_reroute = 9 ∧
    daiju_cmds (route_fsm (env_blocked 16500000000 0) (run host_init blocked_to_stage6)).out
      = daiju_cmds (run host_init blocked_to_stage6).out ++ [1] :=
  have h := c24_stage6_reroute_failure (env_blocked 16500000000 0)
    (run host_init blocked_to_stage6) (by decide) (by decide) (by decide) (by decide)
    (by decide) (by decide)
  ⟨h.1, h.2.1⟩

/-! ## C25: the successful reroute of Recovery stage 6 -/

/-- C25 (amended): in Recovery stage 6 with more than 1 s elapsed, no line of sight and
the turn toward the waypoint infeasible, when the requested reroute succeeds (return
value other than 1, a route returned), `id_cnt` is in `[1..7]`, the MCU does not yet echo
the new move id and the charger procedure is not running: the new route is installed
with `route_pos = 0` and `id_cnt` in `[1..7]`, it is followed and its first move is
issued with id `id_cnt << 4`, but at the end of the tick `lookaround_creep_reroute = 1`;
the next tick (after any MCU feedback), if it sees no line of sight, runs Recovery
stage 1: it stops following the route, backs off 50 mm and goes on to stage 2. -/
theorem c25_stage6_reroute_success (e e2 : Env) (s : Host) (fb : mcu_feedback_t)
    (h6 : s.lookaround_creep_reroute = 6) (hg : e.t_gate > s.timestamp + 1000000000)
    (hlos : e.check_direct_route_non_turning_mm s.cur_x s.cur_y (s.the_route s.route_pos).x
      (s.the_route s.route_pos).y = 0)
    (ht : e.test_robot_turn_mm s.cur_x s.cur_y s.cur_ang
      (ang_t.toward ((s.the_route s.route_pos).x - s.cur_x)
        ((s.the_route s.route_pos).y - s.cur_y) 0 0) = 0)
    (hok : (e.search_route s.cur_ang s.cur_x s.cur_y s.dest_x s.dest_y s.no_tight).1 ≠ 1)
    (hroute : (e.search_route s.cur_ang s.cur_x s.cur_y s.dest_x s.dest_y s.no_tight).2 ≠ [])
    (hid : 1 ≤ s.id_cnt ∧ s.id_cnt ≤ 7)
    (hecho : id_matches { s with id_cnt := bump_id_cnt s.id_cnt, route_pos := 0 } = false)
    (hc : s.find_charger_state = 0)
    (hlos2 : e2.check_direct_route_non_turning_mm (handle_uart fb (route_fsm e s)).cur_x
      (handle_uart fb (route_fsm e s)).cur_y
      ((handle_uart fb (route_fsm e s)).the_route (handle_uart fb (route_fsm e s)).route_pos).x
      ((handle_uart fb (route_fsm e s)).the_route (handle_uart fb (route_fsm e s)).route_pos).y
        = 0) :
    (route_fsm e s).lookaround_creep_reroute = 1 ∧
    (route_fsm e s).route_pos = 0 ∧
    (1 ≤ (route_fsm e s).id_cnt ∧ (route_fsm e s).id_cnt ≤ 7) ∧
    (route_fsm e s).do_follow_route = 1 ∧
    move_ids (route_fsm e s).out = move_ids s.out ++ [shl4 (route_fsm e s).id_cnt] ∧
    (route_fsm e2 (handle_uart fb (route_fsm e s))).lookaround_creep_reroute = 2 ∧
    (route_fsm e2 (handle_uart fb (route_fsm e s))).do_follow_route = 0 ∧
    (route_fsm e2 (handle_uart fb (route_fsm e s))).out = (route_fsm e s).out
      ++ [cmd_t.turn_and_go_abs_rel (ang_t.raw fb.cur_ang) (-50) 13 1] := by
  have hn : (request_routing e { s with creep_cnt := 0 }).no_route_found ≠ 1 := by
    rw [rr_nrf]
    exact hok
  have hf := rr_found e { s with creep_cnt := 0 } hroute
  have hk := rr_keeps e { s with creep_cnt := 0 }
  have hx : recovery_step e (los_resume e s) = stage6_act e { s with creep_cnt := 0 } := by
    rw [los_resume_blocked e s hlos, recovery_step_stage6 e s h6, if_pos hg]
  have hA := stage6_act_rerouted e { s with creep_cnt := 0 } ht hn
  have a1 : (stage6_act e { s with creep_cnt := 0 }).cur_xymove = s.cur_xymove := by
    rw [hA]; exact hk.1
  have a2 : (stage6_act e { s with creep_cnt := 0 }).id_cnt = bump_id_cnt s.id_cnt := by
    rw [hA]; exact hf.2.2.1
  have a3 : (stage6_act e { s with creep_cnt := 0 }).route_pos = 0 := by
    rw [hA]; exact hf.2.2.2.1
  have a4 : (stage6_act e { s with creep_cnt := 0 }).find_charger_state = 0 := by
    rw [hA]; exact (rr_fcs e _).trans hc
  have a5 : (stage6_act e { s with creep_cnt := 0 }).start_route ≠ 0 := by
    rw [hA]
    show (request_routing e { s with creep_cnt := 0 }).start_route ≠ 0
    rw [hf.2.1]; decide
  have a6 : (stage6_act e { s with creep_cnt := 0 }).do_follow_route = 1 := by
    rw [hA]; exact hf.1
  have a7 : (stage6_act e { s with creep_cnt := 0 }).lookaround_creep_reroute = 1 := by
    rw [hA]
  have a8 : move_ids (stage6_act e { s with creep_cnt := 0 }).out = move_ids s.out := by
    rw [hA]; exact rr_move_ids e _
  have hm : id_matches (stage6_act e { s with creep_cnt := 0 }) = false := by
    unfold id_matches at hecho ⊢
    rw [a1, a2, a3]
    exact hecho
  obtain ⟨k1, _, k3, k4, k5, k6, _, _, _⟩ :=
    start_route_step_keeps (stage6_act e { s with creep_cnt := 0 })
  have hmv := start_route_step_move (stage6_act e { s with creep_cnt := 0 }) a5
  have hr := route_fsm_tail e s _ hx (Or.inr hm) a4
  have hid2 : (route_fsm e s).id_cnt = bump_id_cnt s.id_cnt := by rw [hr, k5, a2]
  have hfcs : (route_fsm e s).find_charger_state = 0 := by rw [hr, k4, a4]
  have hl1 : (route_fsm e s).lookaround_creep_reroute = 1 := by rw [hr, k1, a7]
  obtain ⟨n1, n2, n3⟩ := route_fsm_stage1 e2 (handle_uart fb (route_fsm e s)) hl1 hlos2 hfcs
  refine ⟨hl1, ?_, ?_, ?_, ?_, n1, n2, n3⟩
  · rw [hr, k6, a3]
  · rw [hid2]
    unfold bump_id_cnt
    split_ifs <;> omega
  · rw [hr, k3, a6]
  · rw [hid2, hr, hmv, a8, a2]

/-- C25, instance: the blocked robot at stage 6 in the demo world, whose planner
succeeds. -/
theorem c25_stage6_reroute_success_witness :
    (route_fsm (env_at 16500000000)
      (run host_init blocked_to_stage6)).lookaround_creep_reroute = 1 ∧
    (route_fsm (env_at 16501000000) (handle_uart fb_stopped
      (route_fsm (env_at 16500000000)
        (run host_init blocked_to_stage6)))).lookaround_creep_reroute = 2 ∧
    (route_fsm (env_at 16501000000) (handle_uart fb_stopped
      (route_fsm (env_at 16500000000)
        (run host_init blocked_to_stage6)))).do_follow_route = 0 :=
  have h := c25_stage6_reroute_success (env_at 16500000000) (env_at 16501000000)
    (run host_init blocked_to_stage6) fb_stopped (by decide) (by decide) (by decide)
    (by decide) (by decide) (by decide) (by decide) (by decide) (by decide) (by decide)
  ⟨h.1, h.2.2.2.2.2.1, h.2.2.2.2.2.2.1⟩

/-- Counterexample to C25 as stated: the robot is in stage 6 with the timer passed
(15.4 s to 16.5 s), it cannot turn, and the planner returns three waypoints with return
value 0.  At the end of that tick the route is installed (`route_pos = 0`,
`id_cnt = 3`, move `0x30` issued) and `lookaround_creep_reroute` is 1, not 0; the tick
1 ms later runs stage 1 again: `do_follow_route = 0`, the robot backs off 50 mm. -/
theorem c25_counterexample :
    (run host_init blocked_to_stage6).lookaround_creep_reroute = 6 ∧
    (run host_init blocked_to_stage6).timestamp = 15400000000 ∧
    (env_at 16500000000).search_route 0 0 0 3000 0 1
      = (0, [⟨25, 0, 0⟩, ⟨50, 0, 0⟩, ⟨75, 0, 0⟩]) ∧
    (run host_init rerouted_from_stage6).lookaround_creep_reroute = 1 ∧
    (run host_init rerouted_from_stage6).the_route_len = 3 ∧
    (run host_init rerouted_from_stage6).route_pos = 0 ∧
    (run host_init rerouted_from_stage6).id_cnt = 3 ∧
    (run host_init rerouted_from_stage6).do_follow_route = 1 ∧
    move_ids ((run host_init rerouted_from_stage6).out.drop
      (run host_init blocked_to_stage6).out.length) = [48] ∧
    (run host_init restart_after_reroute).lookaround_creep_reroute = 2 ∧
    (run host_init restart_after_reroute).do_follow_route = 0 ∧
    (run host_init restart_after_reroute).out.getLast?
      = some (cmd_t.turn_and_go_abs_rel (ang_t.raw 0) (-50) 13 1) := by
  decide

/-! ## `id_cnt` and the creep interval in every reachable state -/

theorem nav_inv_congr (s s1 : Host) (h1 : s1.id_cnt = s.id_cnt)
    (h2 : s1.time_interval = s.time_interval) (h : nav_inv s) : nav_inv s1 := by
  unfold nav_inv at *
  rw [h1, h2]
  exact h

theorem nav_inv_bump (s s1 : Host) (h1 : s1.id_cnt = bump_id_cnt s.id_cnt)
    (h2 : s1.time_interval = s.time_interval) (h : nav_inv s) : nav_inv s1 := by
  unfold nav_inv at *
  rw [h1, h2]
  unfold bump_id_cnt
  refine ⟨?_, h.2⟩
  split_ifs <;> omega

theorem run_search_nav (e : Env) (s : Host) (a b c d : Int) (h : nav_inv s) :
    nav_inv (run_search e s a b c d).1 := by
  have hk := run_search_keeps e s a b c d
  by_cases hp : planned e s a b d = []
  · exact nav_inv_congr s _ (run_search_empty e s a b c d hp).2.2.1 hk.2.2.1 h
  · exact nav_inv_bump s _ (run_search_found e s a b c d hp).2.2.2.2.2.2 hk.2.2.1 h

theorem request_routing_nav (e : Env) (s : Host) (h : nav_inv s) :
    nav_inv (request_routing e s) :=
  run_search_nav e _ _ _ _ _ (nav_inv_congr s _ rfl rfl h)

theorem send_route_end_status_keeps (e : Env) (r : Int) (s : Host) :
    (send_route_end_status e r s).id_cnt = s.id_cnt ∧
    (send_route_end_status e r s).time_interval = s.time_interval := by
  unfold send_route_end_status
  simp only [↓apply_ite Host.id_cnt, ↓apply_ite Host.time_interval, emit, ite_self, and_self]

theorem send_route_end_status_nav (e : Env) (r : Int) (s : Host) (h : nav_inv s) :
    nav_inv (send_route_end_status e r s) :=
  nav_inv_congr s _ (send_route_end_status_keeps e r s).1
    (send_route_end_status_keeps e r s).2 h

theorem los_resume_nav (e : Env) (s : Host) (h : nav_inv s) : nav_inv (los_resume e s) := by
  unfold los_resume
  repeat' (with_reducible apply pred_ite nav_inv <;> intro _)
  all_goals
    first
    | exact h
    | exact nav_inv_bump s _ rfl rfl h

theorem lookaround_probe_nav (e : Env) (s : Host) (a b c : Int) (h : nav_inv s) :
    nav_inv (lookaround_probe e s a b c) := by
  refine nav_inv_congr s _ ?_ ?_ h
  · unfold lookaround_probe
    simp only [↓apply_ite Host.id_cnt, emit, ite_self]
  · unfold lookaround_probe
    simp only [↓apply_ite Host.time_interval, emit, ite_self]

theorem stage6_act_nav (e : Env) (s : Host) (h : nav_inv s) : nav_inv (stage6_act e s) := by
  have hr := request_routing_nav e s h
  unfold stage6_act
  dsimp only
  refine nav_inv_congr
    (if e.test_robot_turn_mm s.cur_x s.cur_y s.cur_ang
        (ang_t.toward ((s.the_route s.route_pos).x - s.cur_x)
          ((s.the_route s.route_pos).y - s.cur_y) 0 0) ≠ 0 then s
     else request_routing e s) _ ?_ ?_ ?_
  · simp only [↓apply_ite Host.id_cnt, emit, ite_self]
  · simp only [↓apply_ite Host.time_interval, emit, ite_self]
  · split_ifs
    · exact h
    · exact hr

theorem stage7_act_nav (e : Env) (s : Host) (h : nav_inv s) : nav_inv (stage7_act e s) := by
  have h1 := request_routing_nav e s h
  unfold nav_inv at *
  unfold stage7_act
  simp only [↓apply_ite Host.id_cnt, ↓apply_ite Host.time_interval, emit,
    (send_route_end_status_keeps _ _ _).1, (send_route_end_status_keeps _ _ _).2, ite_self]
  split_ifs
  · exact ⟨h.1, rfl⟩
  · exact h
  · exact h1

theorem emit_keeps (c : cmd_t) (s : Host) :
    (emit c s).id_cnt = s.id_cnt ∧ (emit c s).time_interval = s.time_interval := ⟨rfl, rfl⟩

theorem daiju_retry_act_nav (e : Env) (s : Host) (h : nav_inv s) :
    nav_inv (daiju_retry_act e s) := by
  have h1 := request_routing_nav e (emit (cmd_t.daiju_mode 0) s)
    (nav_inv_congr s (emit (cmd_t.daiju_mode 0) s) rfl rfl h)
  unfold nav_inv at *
  unfold daiju_retry_act
  simp only [↓apply_ite Host.id_cnt, ↓apply_ite Host.time_interval,
    (emit_keeps _ _).1, (emit_keeps _ _).2,
    (send_route_end_status_keeps _ _ _).1, (send_route_end_status_keeps _ _ _).2, ite_self]
  exact h1

theorem recovery_step_nav (e : Env) (s : Host) (h : nav_inv s) :
    nav_inv (recovery_step e s) := by
  unfold recovery_step
  repeat' (with_reducible apply pred_ite nav_inv <;> intro _)
  all_goals
    first
    | exact h
    | exact lookaround_probe_nav e s _ _ _ h
    | exact stage6_act_nav e _ (nav_inv_congr s _ rfl rfl h)
    | exact stage7_act_nav e s h
    | exact daiju_retry_act_nav e s h
    | exact nav_inv_congr s _ rfl rfl h
    | exact nav_inv_congr _ _ rfl rfl (request_routing_nav e s h)

theorem start_route_step_nav (s : Host) (h : nav_inv s) : nav_inv (start_route_step s) := by
  have k := start_route_step_keeps s
  refine nav_inv_congr s _ k.2.2.2.2.1 ?_ h
  unfold start_route_step
  simp only [↓apply_ite Host.time_interval, emit, ite_self]

theorem skip_points_nav (e : Env) (s : Host) (h : nav_inv s) : nav_inv (skip_points e s) := by
  rw [skip_points_eq]
  exact nav_inv_congr s _ rfl rfl h

theorem do_live_obstacle_checking_nav (e : Env) (s : Host) (h : nav_inv s) :
    nav_inv (do_live_obstacle_checking e s) := by
  refine nav_inv_congr s _ ?_ ?_ h
  · unfold do_live_obstacle_checking
    simp only [↓apply_ite Host.id_cnt, emit, ite_self]
  · unfold do_live_obstacle_checking
    simp only [↓apply_ite Host.time_interval, emit, ite_self]

theorem live_check_step_nav (e : Env) (s : Host) (h : nav_inv s) :
    nav_inv (live_check_step e s) := by
  unfold live_check_step
  repeat' (with_reducible apply pred_ite nav_inv <;> intro _)
  all_goals
    first
    | exact h
    | exact nav_inv_congr s _ rfl rfl h
    | exact do_live_obstacle_checking_nav e _ (nav_inv_congr s _ rfl rfl h)

theorem skip_points_keeps (e : Env) (s : Host) :
    (skip_points e s).id_cnt = s.id_cnt ∧
    (skip_points e s).time_interval = s.time_interval := by
  rw [skip_points_eq]
  exact ⟨rfl, rfl⟩

theorem follow_route_step_nav (e : Env) (s : Host) (h : nav_inv s) :
    nav_inv (follow_route_step e s) := by
  unfold follow_route_step
  repeat' (with_reducible apply pred_ite nav_inv <;> intro _)
  all_goals
    first
    | exact h
    | exact request_routing_nav e s h
    | (unfold nav_inv at *
       simp only [↓apply_ite Host.id_cnt, ↓apply_ite Host.time_interval, (emit_keeps _ _).1,
         (emit_keeps _ _).2, (skip_points_keeps _ _).1, (skip_points_keeps _ _).2, ite_self]
       first
       | exact h
       | exact ⟨by decide, h.2⟩)
    | (apply send_route_end_status_nav
       unfold nav_inv at *
       simp only [↓apply_ite Host.id_cnt, ↓apply_ite Host.time_interval, (emit_keeps _ _).1,
         (emit_keeps _ _).2, ite_self]
       exact h)
    | (apply live_check_step_nav
       unfold nav_inv at *
       simp only [↓apply_ite Host.id_cnt, ↓apply_ite Host.time_interval, ite_self]
       exact h)

theorem find_charger_procedure_nav (e : Env) (s : Host) (h : nav_inv s) :
    nav_inv (find_charger_procedure e s).1 := by
  have h0 : (1 ≤ s.id_cnt ∧ s.id_cnt ≤ 7) ∧ s.time_interval = 2500000000 := h
  unfold find_charger_procedure
  show nav_inv_res _
  repeat' (with_reducible apply pred_ite2 nav_inv_res <;> intro _)
  all_goals
    show nav_inv _
    first
    | (unfold nav_inv
       simp only [(emit_keeps _ _).1, (emit_keeps _ _).2]
       exact h0)
    | exact nav_inv_congr _ _ rfl rfl (request_routing_nav e _
        (nav_inv_congr s _ rfl rfl h))

theorem charger_step_nav (e : Env) (s : Host) (h : nav_inv s) :
    nav_inv (charger_step e s) := by
  unfold charger_step
  split_ifs
  · exact find_charger_procedure_nav e s h
  · exact h

theorem route_fsm_nav (e : Env) (s : Host) (h : nav_inv s) : nav_inv (route_fsm e s) := by
  unfold route_fsm
  exact charger_step_nav e _ (follow_route_step_nav e _ (start_route_step_nav _
    (recovery_step_nav e _ (los_resume_nav e s h))))

theorem lidar_handling_nav (e : Env) (s : Host) (p_lid : Option lidar_scan_t)
    (h : nav_inv s) : nav_inv (lidar_handling e s p_lid) := by
  cases p_lid with
  | none => exact h
  | some p =>
    refine nav_inv_congr s _ ?_ ?_ h
    · unfold lidar_handling lidar_queue_step lidar_accept lidar_ignore lidar_display
      simp only [↓apply_ite Host.id_cnt, emit, ite_self]
    · unfold lidar_handling lidar_queue_step lidar_accept lidar_ignore lidar_display
      simp only [↓apply_ite Host.time_interval, emit, ite_self]

theorem speed_ramp_1_nav (e : Env) (s : Host) (h : nav_inv s) :
    nav_inv (speed_ramp_1 e s) := by
  refine nav_inv_congr s _ ?_ ?_ h
  · unfold speed_ramp_1
    simp only [↓apply_ite Host.id_cnt, emit, ite_self]
  · unfold speed_ramp_1
    simp only [↓apply_ite Host.time_interval, emit, ite_self]

theorem speed_ramp_2_nav (e : Env) (s : Host) (h : nav_inv s) :
    nav_inv (speed_ramp_2 e s) := by
  refine nav_inv_congr s _ ?_ ?_ h
  · unfold speed_ramp_2
    simp only [↓apply_ite Host.id_cnt, emit, ite_self]
  · unfold speed_ramp_2
    simp only [↓apply_ite Host.time_interval, emit, ite_self]

theorem cmd_mode_nav (e : Env) (s : Host) (mode : Int) (h : nav_inv s) :
    nav_inv (cmd_mode e s mode) := by
  have h0 : (1 ≤ s.id_cnt ∧ s.id_cnt ≤ 7) ∧ s.time_interval = 2500000000 := h
  unfold cmd_mode
  repeat' (with_reducible apply pred_ite nav_inv <;> intro _)
  all_goals
    unfold nav_inv
    try simp only [conf_charger_pos, set_map_loca, emit]
    exact h0

theorem cmd_dest_nav (e : Env) (s : Host) (x y b : Int) (h : nav_inv s) :
    nav_inv (cmd_from_client_to_host e s (client_msg.CR_DEST x y b)) := by
  have h0 : (1 ≤ s.id_cnt ∧ s.id_cnt ≤ 7) ∧ s.time_interval = 2500000000 := h
  unfold nav_inv
  simp only [cmd_from_client_to_host, ↓apply_ite Host.id_cnt, ↓apply_ite Host.time_interval,
    emit, ite_self]
  exact h0

set_option maxHeartbeats 1000000 in
theorem cmd_manu_nav (e : Env) (s : Host) (op : Int) (h : nav_inv s) :
    nav_inv (cmd_from_client_to_host e s (client_msg.CR_MANU op)) := by
  have h0 : (1 ≤ s.id_cnt ∧ s.id_cnt ≤ 7) ∧ s.time_interval = 2500000000 := h
  unfold cmd_from_client_to_host nav_inv
  simp only [↓apply_ite Host.id_cnt, ↓apply_ite Host.time_interval, emit, ite_self]
  exact h0

theorem cmd_speedlim_nav (s : Host) (v : Int) (h : nav_inv s) :
    nav_inv (cmd_speedlim s v) := by
  have h0 : (1 ≤ s.id_cnt ∧ s.id_cnt ≤ 7) ∧ s.time_interval = 2500000000 := h
  unfold nav_inv cmd_speedlim
  simp only [↓apply_ite Host.id_cnt, ↓apply_ite Host.time_interval, emit, ite_self]
  exact h0

theorem cmd_from_client_to_host_nav (e : Env) (s : Host) (msg : client_msg)
    (h : nav_inv s) : nav_inv (cmd_from_client_to_host e s msg) := by
  cases msg with
  | CR_MODE mode => exact cmd_mode_nav e s mode h
  | CR_DEST x y b => exact cmd_dest_nav e s x y b h
  | CR_MANU op => exact cmd_manu_nav e s op h
  | CR_SPEEDLIM v => exact cmd_speedlim_nav s v h
  | CR_ROUTE x y d =>
    have h1 := request_routing_nav e
      ({ s with dest_x := x, dest_y := y, num_reroutes := -1, keep_position := 1,
                out := s.out ++ [cmd_t.daiju_mode 0], find_charger_state := 0 } : Host)
      (nav_inv_congr s _ rfl rfl h)
    have h2 := send_route_end_status_nav e
      (request_routing e
        ({ s with dest_x := x, dest_y := y, num_reroutes := -1, keep_position := 1,
                  out := s.out ++ [cmd_t.daiju_mode 0], find_charger_state := 0 } : Host)
        ).no_route_found _ h1
    show nav_inv (if _ then _ else _)
    split_ifs
    · exact h2
    · exact h1
  | CR_CHARGE =>
    have h0 : (1 ≤ s.id_cnt ∧ s.id_cnt ≤ 7) ∧ s.time_interval = 2500000000 := h
    unfold nav_inv
    simp only [cmd_from_client_to_host, read_charger_pos]
    cases e.charger_file <;> exact h0
  | CR_MAINTENANCE magic retval =>
    show nav_inv (if _ then _ else _)
    split_ifs
    · exact nav_inv_congr s _ rfl rfl h
    · exact h
  | CR_ADDCONSTRAINT x y => exact nav_inv_congr s _ rfl rfl h
  | CR_REMCONSTRAINT x y => exact nav_inv_congr s _ rfl rfl h
  | CR_STATEVECT => exact nav_inv_congr s _ rfl rfl h
  | CR_SETPOS a x y => exact nav_inv_congr s _ rfl rfl h
  | other => exact h

theorem step_nav (s : Host) (st : step_t) (h : nav_inv s) : nav_inv (step s st) := by
  cases st with
  | nav e => exact route_fsm_nav e s h
  | lidar e p_lid => exact lidar_handling_nav e s p_lid h
  | ramp1 e => exact speed_ramp_1_nav e s h
  | ramp2 e => exact speed_ramp_2_nav e s h
  | client e msg =>
    exact cmd_from_client_to_host_nav e _ msg (nav_inv_congr s _ rfl rfl h)
  | uart fb => exact nav_inv_congr s _ rfl rfl h

theorem run_nav (l : List step_t) : nav_inv (run host_init l) := by
  induction l using List.reverseRecOn with
  | nil => exact ⟨by decide, rfl⟩
  | append_singleton l st ih =>
    rw [run_append]
    exact step_nav _ st ih

/-! ## C30: `id_cnt` stays in `[1..7]` -/

/-- C30: `id_cnt` is 1 at program start and lies in `[1..7]` after every sequence of
navigation ticks, lidar handlings, speed ramp blocks, client commands and MCU feedback;
so it is never 0, and the condition `id_cnt == 0` of the steer-maneuver branch of the
follow-route block is false in every reachable state. -/
theorem c30_id_cnt_range (l : List step_t) :
    host_init.id_cnt = 1 ∧
    1 ≤ (run host_init l).id_cnt ∧ (run host_init l).id_cnt ≤ 7 ∧
    (run host_init l).id_cnt ≠ 0 := by
  have h := (run_nav l).1
  exact ⟨rfl, h.1, h.2, by omega⟩

/-! ## C26: a Recovery stage waits for its timer -/

theorem recovery_step_waiting (e : Env) (s : Host) (hti : s.time_interval = 2500000000)
    (hw : stage_waiting e s) :
    (recovery_step e s).out = s.out ∧
    (recovery_step e s).lookaround_creep_reroute = s.lookaround_creep_reroute ∧
    (recovery_step e s).timestamp = s.timestamp ∧
    (recovery_step e s).do_follow_route = s.do_follow_route ∧
    (recovery_step e s).start_route = s.start_route ∧
    (recovery_step e s).find_charger_state = s.find_charger_state := by
  rcases hw with ⟨h2, h6, ht⟩ | ⟨h7, ht⟩ | ⟨h8, h11, ht⟩
  · by_cases c6 : s.lookaround_creep_reroute = 6
    · rw [recovery_step_stage6 e s c6, if_neg (by omega)]
      exact ⟨rfl, rfl, rfl, rfl, rfl, rfl⟩
    · have hs : recovery_step e s = s := by
        unfold recovery_step
        rw [if_neg (by omega)]
        by_cases c2 : s.lookaround_creep_reroute = 2
        · rw [if_pos c2, if_neg (by omega)]
        · rw [if_neg c2]
          by_cases c3 : s.lookaround_creep_reroute = 3
          · rw [if_pos c3, if_neg (by omega)]
          · rw [if_neg c3]
            by_cases c4 : s.lookaround_creep_reroute = 4
            · rw [if_pos c4, if_neg (by omega)]
            · rw [if_neg c4, if_pos (by omega), if_neg (by omega)]
      rw [hs]
      exact ⟨rfl, rfl, rfl, rfl, rfl, rfl⟩
  · rw [recovery_step_stage7 e s h7, if_neg (by rw [hti]; omega)]
    exact ⟨rfl, rfl, rfl, rfl, rfl, rfl⟩
  · have hs : recovery_step e s = s := by
      unfold recovery_step
      iterate 7 rw [if_neg (by omega)]
      rw [if_pos ⟨by omega, by omega⟩, if_neg (by omega)]
    rw [hs]
    exact ⟨rfl, rfl, rfl, rfl, rfl, rfl⟩

/-- C26, evaluation on the blocked robot: stage 6 (timestamp 15.4 s) makes no call at
16.0 s and still waits at exactly 16.4 s, and acts 1 ns later; stage 7 (timestamp
24.3 s) makes no call at 26.8 s; the daiju stage 9 (timestamp 16.5 s) makes no call at
21.5 s. -/
theorem c26_demo :
    (run host_init blocked_to_stage6).lookaround_creep_reroute = 6 ∧
    (run host_init blocked_to_stage6).timestamp = 15400000000 ∧
    (run host_init blocked_to_stage6).out.length = 13 ∧
    (route_fsm (env_blocked 16000000000 0) (run host_init blocked_to_stage6)).out.length
      = 13 ∧
    (route_fsm (env_blocked 16400000000 0)
      (run host_init blocked_to_stage6)).lookaround_creep_reroute = 6 ∧
    (route_fsm (env_blocked 16400000001 0)
      (run host_init blocked_to_stage6)).lookaround_creep_reroute = 9 ∧
    (run host_init blocked_to_stage7).lookaround_creep_reroute = 7 ∧
    (run host_init blocked_to_stage7).timestamp = 24300000000 ∧
    (route_fsm (env_blocked 26800000000 1) (run host_init blocked_to_stage7)).out
      = (run host_init blocked_to_stage7).out ∧
    (run host_init daiju_from_stage6).lookaround_creep_reroute = 9 ∧
    (run host_init daiju_from_stage6).timestamp = 16500000000 ∧
    (route_fsm (env_blocked 21500000000 0) (run host_init daiju_from_stage6)).out
      = (run host_init daiju_from_stage6).out := by
  decide

/-! ## C29: daiju mode at the end of Recovery -/

theorem send_route_end_status_daiju (e : Env) (r : Int) (s : Host) :
    daiju_cmds (send_route_end_status e r s).out = daiju_cmds s.out := by
  unfold send_route_end_status
  simp only [↓apply_ite Host.out, apply_ite daiju_cmds, daiju_cmds_append, daiju_cmds, emit,
    ite_self, List.append_nil]

theorem los_resume_daiju (e : Env) (s : Host) :
    daiju_cmds (los_resume e s).out = daiju_cmds s.out := by
  unfold los_resume
  simp only [↓apply_ite Host.out, apply_ite daiju_cmds, daiju_cmds_append, daiju_cmds, emit,
    ite_self, List.append_nil]

theorem do_live_obstacle_checking_daiju (e : Env) (s : Host) :
    daiju_cmds (do_live_obstacle_checking e s).out = daiju_cmds s.out := by
  unfold do_live_obstacle_checking
  simp only [↓apply_ite Host.out, apply_ite daiju_cmds, daiju_cmds_append, daiju_cmds, emit,
    ite_self, List.append_nil]

theorem live_check_step_daiju (e : Env) (s : Host) :
    daiju_cmds (live_check_step e s).out = daiju_cmds s.out := by
  unfold live_check_step
  simp only [↓apply_ite Host.out, apply_ite daiju_cmds, do_live_obstacle_checking_daiju,
    daiju_cmds_append, daiju_cmds, emit, ite_self, List.append_nil]

theorem follow_route_step_daiju (e : Env) (s : Host) :
    daiju_cmds (follow_route_step e s).out = daiju_cmds s.out := by
  unfold follow_route_step
  show same_daiju s _
  repeat' (with_reducible apply pred_ite (same_daiju s) <;> intro _)
  all_goals
    show daiju_cmds _ = daiju_cmds s.out
    first
    | rfl
    | exact rr_daiju e s
    | (simp only [↓apply_ite Host.out, apply_ite daiju_cmds, emit, skip_points_out,
         send_route_end_status_daiju, live_check_step_daiju, daiju_cmds_append, daiju_cmds,
         ite_self, List.append_nil])

/-- With the charger procedure not running, the `daiju_mode` calls of a tick are those
of its line-of-sight block and its Recovery block. -/
theorem route_fsm_daiju (e : Env) (s : Host) (hc : s.find_charger_state = 0) :
    daiju_cmds (route_fsm e s).out = daiju_cmds (recovery_step e (los_resume e s)).out := by
  have hF := route_fsm_frameF_before_charger e s
  unfold frameF at hF
  simp only [Prod.mk.injEq] at hF
  unfold route_fsm charger_step
  rw [if_neg (by rw [hF.2.1]; simp [hc]), follow_route_step_daiju,
    (start_route_step_keeps _).2.2.2.2.2.2.2.2]

theorem recovery_step_daiju_stage (e : Env) (s : Host)
    (h : 8 ≤ s.lookaround_creep_reroute ∧ s.lookaround_creep_reroute < 12) :
    recovery_step e s
      = if e.t_gate > s.timestamp + 5000000000 then daiju_retry_act e s else s := by
  unfold recovery_step
  iterate 7 rw [if_neg (by omega)]
  rw [if_pos h]

theorem recovery_step_stage12 (e : Env) (s : Host) (h : s.lookaround_creep_reroute = 12) :
    recovery_step e s = { s with lookaround_creep_reroute := 0 } := by
  unfold recovery_step
  iterate 7 rw [if_neg (by omega)]
  rw [if_neg (by omega), if_pos h]

theorem daiju_retry_act_rerouted (e : Env) (s : Host)
    (h : (e.search_route s.cur_ang s.cur_x s.cur_y s.dest_x s.dest_y s.no_tight).1 ≠ 1) :
    (daiju_retry_act e s).lookaround_creep_reroute = 0 ∧
    daiju_cmds (daiju_retry_act e s).out = daiju_cmds s.out ++ [0] := by
  have hn : (request_routing e (emit (cmd_t.daiju_mode 0) s)).no_route_found ≠ 1 := by
    rw [rr_nrf]
    exact h
  unfold daiju_retry_act
  dsimp only
  rw [if_neg hn]
  refine ⟨rfl, ?_⟩
  show daiju_cmds (if e.reret ≠ 0 then
      send_route_end_status e e.reret (request_routing e (emit (cmd_t.daiju_mode 0) s))
    else request_routing e (emit (cmd_t.daiju_mode 0) s)).out = _
  have hd : daiju_cmds (emit (cmd_t.daiju_mode 0) s).out = daiju_cmds s.out ++ [0] := by
    simp only [emit, daiju_cmds_append, daiju_cmds]
  split_ifs
  · rw [send_route_end_status_daiju, rr_daiju, hd]
  · rw [rr_daiju, hd]

theorem los_resume_resumed (e : Env) (s : Host) (hl : s.lookaround_creep_reroute ≠ 0)
    (hlos : e.check_direct_route_non_turning_mm s.cur_x s.cur_y (s.the_route s.route_pos).x
      (s.the_route s.route_pos).y ≠ 0) :
    (los_resume e s).lookaround_creep_reroute = 0 := by
  unfold los_resume
  rw [if_pos hl, if_pos hlos]
  rfl

/-- C29 (amended): in a tick with the charger procedure not running, (1) when a daiju
stage 8..11 with its 5 s timer passed and no line of sight gets a route from its reroute
(return value other than 1), `lookaround_creep_reroute` returns to 0 and exactly one
daiju command is issued, `daiju_mode(0)`; (2) when a direct line of sight has appeared,
`lookaround_creep_reroute` returns to 0 and no daiju command is issued; (3) in stage 12
`lookaround_creep_reroute` returns to 0 and no daiju command is issued.  So after (2)
and (3) the last daiju command is the one issued before the tick. -/
theorem c29_daiju_after_recovery (e : Env) (s : Host) (hc : s.find_charger_state = 0) :
    (8 ≤ s.lookaround_creep_reroute ∧ s.lookaround_creep_reroute < 12 →
      e.t_gate > s.timestamp + 5000000000 →
      e.check_direct_route_non_turning_mm s.cur_x s.cur_y (s.the_route s.route_pos).x
        (s.the_route s.route_pos).y = 0 →
      (e.search_route s.cur_ang s.cur_x s.cur_y s.dest_x s.dest_y s.no_tight).1 ≠ 1 →
      (recovery_step e (los_resume e s)).lookaround_creep_reroute = 0 ∧
      daiju_cmds (route_fsm e s).out = daiju_cmds s.out ++ [0]) ∧
    (s.lookaround_creep_reroute ≠ 0 →
      e.check_direct_route_non_turning_mm s.cur_x s.cur_y (s.the_route s.route_pos).x
        (s.the_route s.route_pos).y ≠ 0 →
      (recovery_step e (los_resume e s)).lookaround_creep_reroute = 0 ∧
      daiju_cmds (route_fsm e s).out = daiju_cmds s.out) ∧
    (s.lookaround_creep_reroute = 12 →
      e.check_direct_route_non_turning_mm s.cur_x s.cur_y (s.the_route s.route_pos).x
        (s.the_route s.route_pos).y = 0 →
      (recovery_step e (los_resume e s)).lookaround_creep_reroute = 0 ∧
      daiju_cmds (route_fsm e s).out = daiju_cmds s.out) := by
  refine ⟨fun h8 hg hlos hok => ?_, fun hl hlos => ?_, fun h12 hlos => ?_⟩
  · rw [route_fsm_daiju e s hc, los_resume_blocked e s hlos, recovery_step_daiju_stage e s h8,
      if_pos hg]
    exact daiju_retry_act_rerouted e s hok
  · have h0 := los_resume_resumed e s hl hlos
    rw [route_fsm_daiju e s hc, recovery_step_idle e _ h0, los_resume_daiju]
    exact ⟨h0, rfl⟩
  · rw [route_fsm_daiju e s hc, los_resume_blocked e s hlos, recovery_step_stage12 e s h12]
    exact ⟨rfl, rfl⟩

/-- C29, instances on the blocked robot in daiju mode (stage 9): a reroute that
succeeds 5.1 s later, and a line of sight that appears. -/
theorem c29_daiju_after_recovery_witness :
    ((recovery_step (env_at 21600000000) (los_resume (env_at 21600000000)
        (run host_init daiju_from_stage6))).lookaround_creep_reroute = 0 ∧
      daiju_cmds (route_fsm (env_at 21600000000) (run host_init daiju_from_stage6)).out
        = daiju_cmds (run host_init daiju_from_stage6).out ++ [0]) ∧
    ((recovery_step env_clear (los_resume env_clear
        (run host_init daiju_from_stage6))).lookaround_creep_reroute = 0 ∧
      daiju_cmds (route_fsm env_clear (run host_init daiju_from_stage6)).out
        = daiju_cmds (run host_init daiju_from_stage6).out) :=
  ⟨(c29_daiju_after_recovery (env_at 21600000000) (run host_init daiju_from_stage6)
      (by decide)).1 (by decide) (by decide) (by decide) (by decide),
   (c29_daiju_after_recovery env_clear (run host_init daiju_from_stage6)
      (by decide)).2.1 (by decide) (by decide)⟩

/-- Counterexample to C29 as stated: the failed reroute of stage 6 switched daiju mode
on (`daiju_mode` calls so far: 0 from the route command, then 1) and left stage 9.  In
the next tick a direct line of sight has appeared: `lookaround_creep_reroute` returns
to 0, the route is followed again with move `0x30`, and the last daiju command issued is
still `daiju_mode(1)`.  Had the reroute of stage 9 succeeded instead, the last one would
be `daiju_mode(0)`. -/
theorem c29_counterexample :
    (run host_init blocked_to_stage6).lookaround_creep_reroute = 6 ∧
    daiju_cmds (run host_init blocked_to_stage6).out = [0] ∧
    (run host_init daiju_from_stage6).lookaround_creep_reroute = 9 ∧
    daiju_cmds (run host_init daiju_from_stage6).out = [0, 1] ∧
    (run host_init los_after_daiju).lookaround_creep_reroute = 0 ∧
    (run host_init los_after_daiju).do_follow_route = 1 ∧
    daiju_cmds (run host_init los_after_daiju).out = [0, 1] ∧
    move_ids ((run host_init los_after_daiju).out.drop
      (run host_init daiju_from_stage6).out.length) = [48] ∧
    (run host_init rerouted_after_daiju).lookaround_creep_reroute = 0 ∧
    daiju_cmds (run host_init rerouted_after_daiju).out = [0, 1, 0] := by
  decide

/-! ## C28: the live obstacle checking switch after the charger procedure -/

/-- Stage 8 of the charger procedure with `charging` or `charged` reported: the call ends
the procedure with return value 2 and leaves the switch at the 0 it stored on entry. -/
theorem find_charger_procedure_charging (e : Env) (s : Host)
    (h8 : s.find_charger_state = 8) (hc : ¬ (s.pwr_charging = 0 ∧ s.pwr_charged = 0)) :
    (find_charger_procedure e s).1.find_charger_state = 0 ∧
    (find_charger_procedure e s).1.live_obstacle_checking_on = 0 ∧
    (find_charger_procedure e s).2 = 2 := by
  unfold find_charger_procedure
  dsimp only
  iterate 7 rw [if_neg (by omega)]
  rw [if_pos h8, if_neg hc]
  refine ⟨rfl, ?_, rfl⟩
  show (if s.find_charger_state < 4 then (1 : Int) else 0) = 0
  rw [if_neg (by omega)]

/-- C28, runs that show the divergence: `live_obstacle_checking_on` is 1 at program
start; the docking run reaches stage 8, the MCU reports `charging`, and the next tick
ends the procedure (`find_charger_state = 0`, CHARGING info) with the switch at 0; a
destination command at stage 8 also leaves `find_charger_state = 0` and the switch at 0.
A route driven after the docking (route followed, no Recovery, move id echoed, fresh
pose, check gate open) gets no call of `do_live_obstacle_checking`, whereas the same
drive before any docking gets one. -/
theorem c28_live_check_after_dock :
    host_init.live_obstacle_checking_on = 1 ∧
    (run host_init dock_to_stage8).find_charger_state = 8 ∧
    (run host_init dock_success).find_charger_state = 0 ∧
    (run host_init dock_success).out.getLast? = some (cmd_t.send_info info_state_t.CHARGING) ∧
    (run host_init dock_success).live_obstacle_checking_on = 0 ∧
    (run host_init dock_aborted).find_charger_state = 0 ∧
    (run host_init dock_aborted).live_obstacle_checking_on = 0 ∧
    (run host_init drive_after_dock).find_charger_state = 0 ∧
    (run host_init drive_after_dock).live_obstacle_checking_on = 0 ∧
    (run host_init drive_after_dock).do_follow_route = 1 ∧
    (run host_init drive_after_dock).lookaround_creep_reroute = 0 ∧
    id_matches (run host_init drive_after_dock) = true ∧
    live_calls (run host_init drive_after_dock).out = [] ∧
    live_calls (run host_init (driving ++ [step_t.nav (env_at 100000000000)])).out
      = [(100000000000, 99900000000)] := by
  decide

end Rn1host
